import Mathlib

/-!
# gpi_cp: buddy checkpointing over GASPI

A shallow embedding of `src/src/gpi_cp.c` (interface `src/include/gpi_cp.h`).

* The GASPI substrate is external.  Every substrate call the library issues is
  recorded in a trace (most recent call first) and answered by an environment
  `Env`; the answer may depend on everything issued before.
* The local queries `gaspi_proc_rank`, `gaspi_proc_num`, `gaspi_group_size`
  and `gaspi_group_ranks` are answered by fixed fields of `Env`: they do not
  change while one library call runs.
* Machine integers are `Nat`; the unsigned subtractions and additions that can
  wrap carry an explicit modulus.  The rank arithmetic of the resolver is done
  in `int` after promotion and cannot wrap.
* A library function that may not return yields a `Result`; the resolver loops
  take a `fuel` that bounds their membership tests.
* `DEBUG_PRINT`, `gaspi_printf`, `printf` and `fprintf` only print and are left
  out.
-/

namespace GpiCp

/-! ## Constants -/

/-- Modelled from the spec: the substrate header GASPI.h is not in the
repository; `GASPI_ERROR` is the generic error code of `gaspi_return_t`. -/
abbrev GASPI_ERROR : Int := -1
/-- Modelled from the spec: the substrate header GASPI.h is not in the
repository; `GASPI_SUCCESS` is the success code of `gaspi_return_t`. -/
abbrev GASPI_SUCCESS : Int := 0
/-- Modelled from the spec: the substrate header GASPI.h is not in the
repository; `GASPI_TIMEOUT` is the timeout code of `gaspi_return_t`. -/
abbrev GASPI_TIMEOUT : Int := 1
/-- Modelled from the spec: the substrate header GASPI.h is not in the
repository; `GASPI_TEST` is the timeout value that means return at once. -/
abbrev GASPI_TEST : Nat := 0

/-- Library code `GPI_CP_SUCCESS` (gpi_cp.h). -/
abbrev GPI_CP_SUCCESS : Int := 19000
/-- Library code `GPI_CP_ERROR_UNEXPECTED_SEGMENT_ID_SOURCE` (gpi_cp.h). -/
abbrev GPI_CP_ERROR_UNEXPECTED_SEGMENT_ID_SOURCE : Int := 19001
/-- Library code `GPI_CP_ERROR_UNEXPECTED_SEGMENT_ID_RECEIVER` (gpi_cp.h). -/
abbrev GPI_CP_ERROR_UNEXPECTED_SEGMENT_ID_RECEIVER : Int := 19002
/-- Library code `GPI_CP_ERROR_UNDEFINED_RANK` (gpi_cp.h). -/
abbrev GPI_CP_ERROR_UNDEFINED_RANK : Int := 19003
/-- Policy `GPI_CP_POLICY_RING` (gpi_cp.h). -/
abbrev GPI_CP_POLICY_RING : Int := 1

/-- Modelled from the spec: the substrate header GASPI.h is not in the
repository; the number of values of `gaspi_offset_t` and `gaspi_size_t`
(unsigned long). -/
abbrev OFFSET_MOD : Nat := 2 ^ 64
/-- Modelled from the spec: the substrate header GASPI.h is not in the
repository; the number of values of `gaspi_number_t` (unsigned int). -/
abbrev NUMBER_MOD : Nat := 2 ^ 32
/-- Modelled from the spec: the substrate header GASPI.h is not in the
repository; the number of values of `gaspi_segment_id_t` (unsigned char). -/
abbrev SEGMENT_ID_MOD : Nat := 2 ^ 8
/-- Modelled from the spec: the substrate header GASPI.h is not in the
repository; the value of `sizeof (gaspi_segment_id_t)`. -/
abbrev SIZEOF_SEGMENT_ID : Nat := 1

/-! ## Substrate calls, environment, descriptor -/

/-- One entry of the trace: a substrate call with its input arguments, a read
of the clock, or an access to segment memory through `gpi_cp_ptr`. -/
inductive Call where
  | gettimeofday
  | segment_num
  | segment_list (num : Nat)
  | segment_max
  | segment_alloc (seg size : Nat)
  | segment_register (seg rank timeout : Nat)
  | segment_delete (seg : Nat)
  | segment_ptr (seg : Nat)
  | store_segment_id (seg off idx val : Nat)
  | load_segment_id (seg off idx : Nat)
  | passive_send (seg off rank size timeout : Nat)
  | passive_receive (seg off size timeout : Nat)
  | write_notify (seg_local off_local rank seg_remote off_remote size
      notification_id notification_value queue timeout : Nat)
  | read (seg_local off_local rank seg_remote off_remote size queue timeout : Nat)
  | notify_waitsome (seg first num timeout : Nat)
  | notify_reset (seg id : Nat)
  | queue_size_max
  | queue_size (queue : Nat)
  | wait (queue timeout : Nat)
  | barrier (group timeout : Nat)
  | allreduce (group timeout : Nat)
  deriving DecidableEq

/-- What the substrate hands back: the return code, the scalar written through
an out-pointer (if the call has one) and the array written through an
out-array (if the call has one). -/
structure Resp where
  ret : Int
  out : Nat
  arr : Nat → Nat

/-- A `struct timeval`. -/
structure Timeval where
  tv_sec : Int
  tv_usec : Int
  deriving DecidableEq

/-- The world around one process. -/
structure Env where
  /-- `gaspi_proc_rank`: return code and rank. -/
  proc_rank : Int × Nat
  /-- `gaspi_proc_num`: return code and number of processes. -/
  proc_num : Int × Nat
  /-- `gaspi_group_size group`: return code and size. -/
  group_size : Nat → Int × Nat
  /-- `gaspi_group_ranks group`: return code and the array it fills. -/
  group_ranks : Nat → Int × (Nat → Nat)
  /-- `gettimeofday`, given the trace so far. -/
  clock : List Call → Timeval
  /-- Answer to a substrate call, given the trace so far. -/
  answer : List Call → Call → Resp

/-- The `struct gpi_cp_description`. -/
structure gpi_cp_description where
  offset : Nat
  size : Nat
  segment_id_local_client_source : Nat
  queue : Nat
  group : Nat
  sender : Nat
  segment_id_local_for_sender : Nat
  receiver : Nat
  segment_id_remote_on_receiver : Nat
  active_snapshot : Nat
  state_in_progress : Bool
  state_initialized : Bool
  in_init : Timeval
  in_start : Timeval
  in_commit : Timeval
  in_restore : Timeval
  deriving DecidableEq

/-- What a library call leaves behind: the code it returns, the descriptor and
the trace. -/
structure Out where
  ret : Int
  d : gpi_cp_description
  trace : List Call
  deriving DecidableEq

/-- How a library function ends: it returns, it writes through a null segment
pointer (or divides by a process count of zero), or its resolver loop is
still running when the fuel is used up. -/
inductive Result (α : Type) where
  | returned (a : α)
  | crashed
  | looping
  deriving DecidableEq

/-- Issue a substrate call: ask the environment, record the call. -/
def gaspi (E : Env) (c : Call) (tr : List Call) : Resp × List Call :=
  (E.answer tr c, c :: tr)

/-- Read the clock. -/
def gettimeofday (E : Env) (tr : List Call) : Timeval × List Call :=
  (E.clock tr, Call.gettimeofday :: tr)

/-- The update `acc.tv_usec += tend.tv_usec - tstart.tv_usec; acc.tv_sec += ...`. -/
def timeval_add (acc tstart tend : Timeval) : Timeval :=
  { tv_sec := acc.tv_sec + (tend.tv_sec - tstart.tv_sec)
    tv_usec := acc.tv_usec + (tend.tv_usec - tstart.tv_usec) }

/-! ## Topology resolver -/

/-- The function `gpi_cp_is_in_group`. -/
def gpi_cp_is_in_group (E : Env) (group rank : Nat) : Bool :=
  if (E.group_size group).1 ≠ GASPI_SUCCESS then false
  else if (E.group_ranks group).1 ≠ GASPI_SUCCESS then false
  else (List.range (E.group_size group).2).any
    (fun i => (E.group_ranks group).2 i == rank)

/-- The `while` loop of `gpi_cp_sender`; `fuel` bounds the number of
membership tests. -/
def gpi_cp_sender_loop (inGroup : Nat → Bool) (nProc : Nat) : Nat → Nat → Result Nat
  | 0, _ => Result.looping
  | fuel + 1, sender =>
    if inGroup sender then Result.returned sender
    else gpi_cp_sender_loop inGroup nProc fuel ((sender + nProc - 1) % nProc)

/-- The function `gpi_cp_sender`: the code returned and the value left in
`*sender`. -/
def gpi_cp_sender (fuel : Nat) (E : Env) (policy : Int) (group rank : Nat) :
    Result (Int × Nat) :=
  if policy = GPI_CP_POLICY_RING then
    if E.proc_num.1 = GASPI_SUCCESS then
      if E.proc_num.2 = 0 then Result.crashed
      else
        match gpi_cp_sender_loop (gpi_cp_is_in_group E group) E.proc_num.2 fuel
            ((rank + E.proc_num.2 - 1) % E.proc_num.2) with
        | Result.returned sender => Result.returned (GPI_CP_SUCCESS, sender)
        | Result.crashed => Result.crashed
        | Result.looping => Result.looping
    else Result.returned (GPI_CP_ERROR_UNDEFINED_RANK, rank)
  else Result.returned (GPI_CP_ERROR_UNDEFINED_RANK, rank)

/-- The `while` loop of `gpi_cp_receiver`; `fuel` bounds the number of
membership tests. -/
def gpi_cp_receiver_loop (inGroup : Nat → Bool) (nProc : Nat) : Nat → Nat → Result Nat
  | 0, _ => Result.looping
  | fuel + 1, receiver =>
    if inGroup receiver then Result.returned receiver
    else gpi_cp_receiver_loop inGroup nProc fuel ((receiver + 1) % nProc)

/-- The function `gpi_cp_receiver`: the code returned and the value left in
`*receiver`. -/
def gpi_cp_receiver (fuel : Nat) (E : Env) (policy : Int) (group rank : Nat) :
    Result (Int × Nat) :=
  if policy = GPI_CP_POLICY_RING then
    if E.proc_num.1 = GASPI_SUCCESS then
      if E.proc_num.2 = 0 then Result.crashed
      else
        match gpi_cp_receiver_loop (gpi_cp_is_in_group E group) E.proc_num.2 fuel
            ((rank + 1) % E.proc_num.2) with
        | Result.returned receiver => Result.returned (GPI_CP_SUCCESS, receiver)
        | Result.crashed => Result.crashed
        | Result.looping => Result.looping
    else Result.returned (GPI_CP_ERROR_UNDEFINED_RANK, rank)
  else Result.returned (GPI_CP_ERROR_UNDEFINED_RANK, rank)

/-! ## Staging segment and buddy channel -/

/-- The function `gpi_cp_get_unused_segment_id`: the code returned and the
value left in `*unused_segment_id`. -/
def gpi_cp_get_unused_segment_id (E : Env) (unused_segment_id : Nat) (tr : List Call) :
    (Int × Nat) × List Call :=
  let n := gaspi E Call.segment_num tr
  if n.1.ret ≠ GASPI_SUCCESS then ((n.1.ret, unused_segment_id), n.2)
  else if n.1.out = 0 then ((GASPI_SUCCESS, 0), n.2)
  else
    let l := gaspi E (Call.segment_list n.1.out) n.2
    if l.1.ret ≠ GASPI_SUCCESS then ((l.1.ret, unused_segment_id), l.2)
    else
      let m := gaspi E Call.segment_max l.2
      if m.1.ret ≠ GASPI_SUCCESS then ((m.1.ret, unused_segment_id), m.2)
      else
        match (List.range (n.1.out - 1)).find?
            (fun i => l.1.arr i + 1 != l.1.arr (i + 1)) with
        | some i => ((GASPI_SUCCESS, (l.1.arr i + 1) % SEGMENT_ID_MOD), m.2)
        | none => ((GASPI_SUCCESS, (l.1.arr (n.1.out - 1) + 1) % SEGMENT_ID_MOD), m.2)

/-- The function `gpi_cp_ptr`: whether the pointer it returns is non-null. -/
def gpi_cp_ptr (E : Env) (segment_id : Nat) (tr : List Call) : Bool × List Call :=
  let p := gaspi E (Call.segment_ptr segment_id) tr
  (decide (p.1.ret = GASPI_SUCCESS), p.2)

/-- The function `gpi_cp_tell_sender_about_the_local_segment_id`. -/
def gpi_cp_tell_sender_about_the_local_segment_id (E : Env)
    (segment_id_local_for_sender offset sender : Nat) (tr : List Call) :
    Result (List Call) :=
  let p := gpi_cp_ptr E segment_id_local_for_sender tr
  if p.1 = false then Result.crashed
  else
    let tr1 := Call.store_segment_id segment_id_local_for_sender offset 0
      segment_id_local_for_sender :: p.2
    Result.returned (gaspi E (Call.passive_send segment_id_local_for_sender offset sender
      SIZEOF_SEGMENT_ID GASPI_TEST) tr1).2

/-- The function `gpi_cp_make_sure_receiver_got_local_segment_id`. -/
def gpi_cp_make_sure_receiver_got_local_segment_id (E : Env)
    (segment_id_local_for_sender offset sender timeout_ms : Nat) (tr : List Call) :
    Result (List Call) :=
  let p := gpi_cp_ptr E segment_id_local_for_sender tr
  if p.1 = false then Result.crashed
  else
    let tr1 := Call.store_segment_id segment_id_local_for_sender offset 0
      segment_id_local_for_sender :: p.2
    let q := gaspi E (Call.segment_ptr segment_id_local_for_sender) tr1
    if q.1.ret ≠ GASPI_SUCCESS then Result.returned q.2
    else Result.returned (gaspi E (Call.passive_send segment_id_local_for_sender offset
      sender SIZEOF_SEGMENT_ID timeout_ms) q.2).2

/-- The function `gpi_cp_receive_segment_id`: the code returned and the value
left in `*segment_id_received`. -/
def gpi_cp_receive_segment_id (E : Env)
    (segment_id_local_for_sender offset expected_notifier timeout_ms : Nat)
    (tr : List Call) : Result ((Int × Nat) × List Call) :=
  let r := gaspi E (Call.passive_receive segment_id_local_for_sender
    ((offset + SIZEOF_SEGMENT_ID) % OFFSET_MOD) SIZEOF_SEGMENT_ID timeout_ms) tr
  if r.1.ret ≠ GASPI_SUCCESS then
    Result.returned ((GPI_CP_ERROR_UNEXPECTED_SEGMENT_ID_SOURCE, 33), r.2)
  else if r.1.out ≠ expected_notifier then
    Result.returned ((GPI_CP_ERROR_UNEXPECTED_SEGMENT_ID_SOURCE, 33), r.2)
  else
    let p := gpi_cp_ptr E segment_id_local_for_sender r.2
    if p.1 = false then Result.crashed
    else
      let v := gaspi E (Call.load_segment_id segment_id_local_for_sender offset 1) p.2
      Result.returned ((GPI_CP_SUCCESS, v.1.out), v.2)

/-- The function `gpi_cp_allocate_and_register_local_segment`: the value left
in `*segment_id_local_for_sender`. -/
def gpi_cp_allocate_and_register_local_segment (E : Env)
    (segment_id_local_for_sender size sender timeout_ms : Nat) (tr : List Call) :
    Nat × List Call :=
  let u := gpi_cp_get_unused_segment_id E segment_id_local_for_sender tr
  if u.1.1 ≠ GASPI_SUCCESS then (u.1.2, u.2)
  else
    let a := gaspi E (Call.segment_alloc u.1.2
      (if (2 * size) % OFFSET_MOD > 2 * (2 * SIZEOF_SEGMENT_ID)
        then (2 * size) % OFFSET_MOD else 2 * (2 * SIZEOF_SEGMENT_ID))) u.2
    if a.1.ret ≠ GASPI_SUCCESS then (u.1.2, a.2)
    else (u.1.2, (gaspi E (Call.segment_register u.1.2 sender timeout_ms) a.2).2)

/-- The function `gpi_cp_wait_for_notification_from`. -/
def gpi_cp_wait_for_notification_from (E : Env)
    (segment_id_local_for_sender sender expected_value timeout_ms : Nat)
    (tr : List Call) : Int × List Call :=
  let w := gaspi E (Call.notify_waitsome segment_id_local_for_sender sender 1 timeout_ms) tr
  if w.1.ret ≠ GASPI_SUCCESS then (w.1.ret, w.2)
  else if w.1.out ≠ sender then (GASPI_ERROR, w.2)
  else
    let v := gaspi E (Call.notify_reset segment_id_local_for_sender w.1.out) w.2
    if v.1.ret ≠ GASPI_SUCCESS then (v.1.ret, v.2)
    else if v.1.out ≠ expected_value then (GASPI_ERROR, v.2)
    else (GASPI_SUCCESS, v.2)

/-! ## The library calls -/

/-- The function `GPI_CP_DESCRIPTION_INITIALIZER`, applied to the block that
`malloc` returned: the two state flags and the four counters are set, the
other fields keep what the block held. -/
def GPI_CP_DESCRIPTION_INITIALIZER (block : gpi_cp_description) : gpi_cp_description :=
  { block with
    state_in_progress := false
    state_initialized := false
    in_init := { tv_sec := 0, tv_usec := 0 }
    in_start := { tv_sec := 0, tv_usec := 0 }
    in_commit := { tv_sec := 0, tv_usec := 0 }
    in_restore := { tv_sec := 0, tv_usec := 0 } }

/-- The function `gpi_cp_finalize`. -/
def gpi_cp_finalize (E : Env) (timeout_ms : Nat) (d : gpi_cp_description)
    (tr : List Call) : Out :=
  if E.proc_rank.1 ≠ GASPI_SUCCESS then { ret := E.proc_rank.1, d := d, trace := tr }
  else if gpi_cp_is_in_group E d.group E.proc_rank.2 then
    let x := gaspi E (Call.segment_delete d.segment_id_local_for_sender) tr
    if x.1.ret ≠ GASPI_SUCCESS then { ret := x.1.ret, d := d, trace := x.2 }
    else
      let a := gaspi E (Call.allreduce d.group timeout_ms) x.2
      if E.proc_rank.1 ≠ GASPI_SUCCESS then { ret := E.proc_rank.1, d := d, trace := a.2 }
      else { ret := GASPI_SUCCESS, d := d, trace := a.2 }
  else { ret := GASPI_SUCCESS, d := d, trace := tr }

/-- The end of `gpi_cp_init`: account the time, return `GASPI_SUCCESS`. -/
def gpi_cp_init_end (E : Env) (tstart : Timeval) (d : gpi_cp_description)
    (tr : List Call) : Out :=
  let tend := gettimeofday E tr
  { ret := GASPI_SUCCESS
    d := { d with in_init := timeval_add d.in_init tstart tend.1 }
    trace := tend.2 }

/-- The function `gpi_cp_init`. -/
def gpi_cp_init (fuel : Nat) (E : Env) (segment_id_checkpoint offset size queue : Nat)
    (policy : Int) (group : Nat) (timeout_ms : Nat) (d0 : gpi_cp_description)
    (tr : List Call) : Result Out :=
  let t := gettimeofday E tr
  let d : gpi_cp_description :=
    { d0 with
      offset := offset
      size := size
      segment_id_local_client_source := segment_id_checkpoint
      queue := queue
      group := group
      active_snapshot := 0 }
  if E.proc_rank.1 ≠ GASPI_SUCCESS then
    Result.returned { ret := E.proc_rank.1, d := d, trace := t.2 }
  else if gpi_cp_is_in_group E d.group E.proc_rank.2 then
    match gpi_cp_sender fuel E policy group E.proc_rank.2 with
    | Result.crashed => Result.crashed
    | Result.looping => Result.looping
    | Result.returned snd =>
      let d1 := { d with sender := snd.2 }
      if snd.1 ≠ GPI_CP_SUCCESS then
        Result.returned { ret := GASPI_ERROR, d := d1, trace := t.2 }
      else
        match gpi_cp_receiver fuel E policy group E.proc_rank.2 with
        | Result.crashed => Result.crashed
        | Result.looping => Result.looping
        | Result.returned rcv =>
          let d2 := { d1 with receiver := rcv.2 }
          if rcv.1 ≠ GPI_CP_SUCCESS then
            Result.returned { ret := GASPI_ERROR, d := d2, trace := t.2 }
          else
            let a := gpi_cp_allocate_and_register_local_segment E
              d2.segment_id_local_for_sender d2.size d2.sender timeout_ms t.2
            let d3 := { d2 with segment_id_local_for_sender := a.1 }
            match gpi_cp_tell_sender_about_the_local_segment_id E
                d3.segment_id_local_for_sender d3.active_snapshot d3.sender a.2 with
            | Result.crashed => Result.crashed
            | Result.looping => Result.looping
            | Result.returned tr1 =>
              match gpi_cp_receive_segment_id E d3.segment_id_local_for_sender
                  d3.active_snapshot d3.receiver timeout_ms tr1 with
              | Result.crashed => Result.crashed
              | Result.looping => Result.looping
              | Result.returned rc =>
                let d4 := { d3 with segment_id_remote_on_receiver := rc.1.2 }
                if rc.1.1 ≠ GPI_CP_SUCCESS then
                  Result.returned { ret := GASPI_ERROR, d := d4, trace := rc.2 }
                else
                  match gpi_cp_make_sure_receiver_got_local_segment_id E
                      d4.segment_id_local_for_sender d4.active_snapshot d4.sender
                      timeout_ms rc.2 with
                  | Result.crashed => Result.crashed
                  | Result.looping => Result.looping
                  | Result.returned tr2 =>
                    Result.returned
                      (gpi_cp_init_end E t.1 { d4 with state_initialized := true } tr2)
  else Result.returned (gpi_cp_init_end E t.1 d t.2)

/-- The end of `gpi_cp_start`: account the time, return `GASPI_SUCCESS`. -/
def gpi_cp_start_end (E : Env) (tstart : Timeval) (d : gpi_cp_description)
    (tr : List Call) : Out :=
  let tend := gettimeofday E tr
  { ret := GASPI_SUCCESS
    d := { d with in_start := timeval_add d.in_start tstart tend.1 }
    trace := tend.2 }

/-- The function `gpi_cp_start`. -/
def gpi_cp_start (E : Env) (timeout_ms : Nat) (d : gpi_cp_description)
    (tr : List Call) : Out :=
  let t := gettimeofday E tr
  if E.proc_rank.1 ≠ GASPI_SUCCESS then { ret := E.proc_rank.1, d := d, trace := t.2 }
  else if gpi_cp_is_in_group E d.group E.proc_rank.2 then
    if d.state_in_progress then { ret := GASPI_ERROR, d := d, trace := t.2 }
    else
      let d1 := { d with state_in_progress := true }
      let qmax := gaspi E Call.queue_size_max t.2
      if qmax.1.ret ≠ GASPI_SUCCESS then { ret := qmax.1.ret, d := d1, trace := qmax.2 }
      else
        let queueSize := gaspi E (Call.queue_size d1.queue) qmax.2
        let w : Int × List Call :=
          if queueSize.1.out > (qmax.1.out + NUMBER_MOD - 24) % NUMBER_MOD then
            let g := gaspi E (Call.wait d1.queue timeout_ms) queueSize.2
            (g.1.ret, g.2)
          else (GASPI_SUCCESS, queueSize.2)
        if w.1 ≠ GASPI_SUCCESS then { ret := w.1, d := d1, trace := w.2 }
        else
          let wn := gaspi E (Call.write_notify d1.segment_id_local_client_source d1.offset
            d1.receiver d1.segment_id_remote_on_receiver d1.active_snapshot d1.size
            E.proc_rank.2 (E.proc_rank.2 + 1) d1.queue timeout_ms) w.2
          if wn.1.ret ≠ GASPI_SUCCESS then { ret := wn.1.ret, d := d1, trace := wn.2 }
          else gpi_cp_start_end E t.1 d1 wn.2
  else gpi_cp_start_end E t.1 d t.2

/-- The end of `gpi_cp_commit`: account the time, return `GASPI_SUCCESS`. -/
def gpi_cp_commit_end (E : Env) (tstart : Timeval) (d : gpi_cp_description)
    (tr : List Call) : Out :=
  let tend := gettimeofday E tr
  { ret := GASPI_SUCCESS
    d := { d with in_commit := timeval_add d.in_commit tstart tend.1 }
    trace := tend.2 }

/-- The function `gpi_cp_commit`. -/
def gpi_cp_commit (E : Env) (timeout_ms : Nat) (d : gpi_cp_description)
    (tr : List Call) : Out :=
  let t := gettimeofday E tr
  if E.proc_rank.1 ≠ GASPI_SUCCESS then { ret := E.proc_rank.1, d := d, trace := t.2 }
  else if gpi_cp_is_in_group E d.group E.proc_rank.2 then
    if d.state_in_progress then
      let w := gaspi E (Call.wait d.queue timeout_ms) t.2
      if w.1.ret ≠ GASPI_SUCCESS then { ret := w.1.ret, d := d, trace := w.2 }
      else
        let n := gpi_cp_wait_for_notification_from E d.segment_id_remote_on_receiver
          d.sender (d.sender + 1) timeout_ms w.2
        if n.1 ≠ GASPI_SUCCESS then { ret := n.1, d := d, trace := n.2 }
        else
          let b := gaspi E (Call.barrier d.group timeout_ms) n.2
          if b.1.ret ≠ GASPI_SUCCESS then { ret := b.1.ret, d := d, trace := b.2 }
          else
            gpi_cp_commit_end E t.1
              { d with
                active_snapshot := (d.size + OFFSET_MOD - d.active_snapshot) % OFFSET_MOD
                state_in_progress := false }
              b.2
    else gpi_cp_commit_end E t.1 d t.2
  else gpi_cp_commit_end E t.1 d t.2

/-- The function `gpi_cp_read_buddy`. -/
def gpi_cp_read_buddy (E : Env) (timeout_ms : Nat) (d : gpi_cp_description)
    (tr : List Call) : Out :=
  let r := gaspi E (Call.read d.segment_id_local_for_sender d.active_snapshot d.receiver
    d.segment_id_remote_on_receiver
    ((d.size + OFFSET_MOD - d.active_snapshot) % OFFSET_MOD) d.size d.queue timeout_ms) tr
  if r.1.ret ≠ GASPI_SUCCESS then { ret := r.1.ret, d := d, trace := r.2 }
  else
    let w := gaspi E (Call.wait d.queue timeout_ms) r.2
    if w.1.ret ≠ GASPI_SUCCESS then { ret := w.1.ret, d := d, trace := w.2 }
    else { ret := GASPI_SUCCESS, d := d, trace := w.2 }

/-- The function `gpi_cp_get_state_in_progress`. -/
def gpi_cp_get_state_in_progress (d : gpi_cp_description) : Bool :=
  d.state_in_progress

/-- The function `gpi_cp_get_active_snapshot`. -/
def gpi_cp_get_active_snapshot (d : gpi_cp_description) : Nat :=
  d.active_snapshot

/-! ## Restore -/

/-- The four branches of the `if`/`else if` ladder of `gpi_cp_restore`, named
by the comments that head them. -/
inductive RestoreCase where
  | joiner
  | affected_missing_sender
  | affected_missing_receiver
  | unaffected
  deriving DecidableEq

/-- The conditions of the ladder of `gpi_cp_restore`, in the order the code
tests them. -/
def gpi_cp_restore_case (E : Env) (new_group : Nat) (d : gpi_cp_description) :
    RestoreCase :=
  if !d.state_initialized then RestoreCase.joiner
  else if !gpi_cp_is_in_group E new_group d.sender then RestoreCase.affected_missing_sender
  else if !gpi_cp_is_in_group E new_group d.receiver then
    RestoreCase.affected_missing_receiver
  else RestoreCase.unaffected

/-- The end of `gpi_cp_restore`, common to the four branches: clear
`state_in_progress`, barrier, account the time. -/
def gpi_cp_restore_end (E : Env) (timeout_ms : Nat) (tstart : Timeval)
    (d : gpi_cp_description) (tr : List Call) : Out :=
  let d1 := { d with state_in_progress := false }
  let b := gaspi E (Call.barrier d1.group timeout_ms) tr
  if b.1.ret ≠ GASPI_SUCCESS then { ret := b.1.ret, d := d1, trace := b.2 }
  else
    let tend := gettimeofday E b.2
    { ret := GASPI_SUCCESS
      d := { d1 with in_restore := timeval_add d1.in_restore tstart tend.1 }
      trace := tend.2 }

/-- Branch `case joiner` of `gpi_cp_restore`, from the barrier after the tag
has been received. -/
def gpi_cp_restore_joiner_pull (E : Env) (timeout_ms : Nat) (tstart : Timeval)
    (d : gpi_cp_description) (tr : List Call) : Result Out :=
  let b := gaspi E (Call.barrier d.group timeout_ms) tr
  let a := gpi_cp_allocate_and_register_local_segment E d.segment_id_local_for_sender
    d.size d.sender timeout_ms b.2
  let d1 := { d with segment_id_local_for_sender := a.1 }
  match gpi_cp_tell_sender_about_the_local_segment_id E d1.segment_id_local_for_sender
      d1.active_snapshot d1.sender a.2 with
  | Result.crashed => Result.crashed
  | Result.looping => Result.looping
  | Result.returned tr1 =>
    match gpi_cp_receive_segment_id E d1.segment_id_local_for_sender d1.active_snapshot
        d1.receiver timeout_ms tr1 with
    | Result.crashed => Result.crashed
    | Result.looping => Result.looping
    | Result.returned rc =>
      let d2 := { d1 with segment_id_remote_on_receiver := rc.1.2 }
      if rc.1.1 ≠ GPI_CP_SUCCESS then
        Result.returned { ret := GASPI_ERROR, d := d2, trace := rc.2 }
      else
        match gpi_cp_make_sure_receiver_got_local_segment_id E
            d2.segment_id_local_for_sender d2.active_snapshot d2.sender timeout_ms
            rc.2 with
        | Result.crashed => Result.crashed
        | Result.looping => Result.looping
        | Result.returned tr2 =>
          let r := gaspi E (Call.read d2.segment_id_local_client_source d2.offset
            d2.receiver d2.segment_id_remote_on_receiver
            ((d2.size + OFFSET_MOD - d2.active_snapshot) % OFFSET_MOD) d2.size d2.queue
            timeout_ms) tr2
          if r.1.ret ≠ GASPI_SUCCESS then
            Result.returned { ret := r.1.ret, d := d2, trace := r.2 }
          else
            let n := gpi_cp_wait_for_notification_from E d2.segment_id_local_for_sender
              d2.sender (d2.sender + 1) timeout_ms r.2
            let w := gaspi E (Call.wait d2.queue timeout_ms) n.2
            if w.1.ret ≠ GASPI_SUCCESS then
              Result.returned { ret := w.1.ret, d := d2, trace := w.2 }
            else Result.returned (gpi_cp_restore_end E timeout_ms tstart d2 w.2)

/-- Branch `case joiner` of `gpi_cp_restore`. -/
def gpi_cp_restore_joiner (fuel : Nat) (E : Env) (segment_id_checkpoint offset size : Nat)
    (policy : Int) (new_group timeout_ms : Nat) (tstart : Timeval)
    (d : gpi_cp_description) (tr : List Call) : Result Out :=
  match gpi_cp_sender fuel E policy new_group E.proc_rank.2 with
  | Result.crashed => Result.crashed
  | Result.looping => Result.looping
  | Result.returned snd =>
    let d1 := { d with sender := snd.2 }
    if snd.1 ≠ GPI_CP_SUCCESS then
      Result.returned { ret := GASPI_ERROR, d := d1, trace := tr }
    else
      match gpi_cp_receiver fuel E policy new_group E.proc_rank.2 with
      | Result.crashed => Result.crashed
      | Result.looping => Result.looping
      | Result.returned rcv =>
        let d2 := { d1 with receiver := rcv.2 }
        if rcv.1 ≠ GPI_CP_SUCCESS then
          Result.returned { ret := GASPI_ERROR, d := d2, trace := tr }
        else
          let d3 := { d2 with state_initialized := true }
          let pr := gaspi E (Call.passive_receive segment_id_checkpoint offset 1
            timeout_ms) tr
          if pr.1.ret ≠ GASPI_SUCCESS then
            Result.returned { ret := pr.1.ret, d := d3, trace := pr.2 }
          else if pr.1.out = d3.sender then
            gpi_cp_restore_joiner_pull E timeout_ms tstart
              { d3 with active_snapshot := 0 } pr.2
          else if pr.1.out = d3.receiver then
            gpi_cp_restore_joiner_pull E timeout_ms tstart
              { d3 with active_snapshot := size } pr.2
          else Result.returned { ret := GASPI_ERROR, d := d3, trace := pr.2 }

/-- Branch `case affected_missing_sender` of `gpi_cp_restore`. -/
def gpi_cp_restore_missing_sender (fuel : Nat) (E : Env) (policy : Int)
    (new_group timeout_ms : Nat) (tstart : Timeval) (d : gpi_cp_description)
    (tr : List Call) : Result Out :=
  match gpi_cp_sender fuel E policy new_group E.proc_rank.2 with
  | Result.crashed => Result.crashed
  | Result.looping => Result.looping
  | Result.returned snd =>
    let d1 := { d with sender := snd.2 }
    if snd.1 ≠ GPI_CP_SUCCESS then
      Result.returned { ret := GASPI_ERROR, d := d1, trace := tr }
    else
      let ps : Int × List Call :=
        if d1.active_snapshot = d1.size then
          let g := gaspi E (Call.passive_send d1.segment_id_local_for_sender
            d1.active_snapshot d1.sender 1 timeout_ms) tr
          (g.1.ret, g.2)
        else (GASPI_SUCCESS, tr)
      if ps.1 ≠ GASPI_SUCCESS then Result.returned { ret := ps.1, d := d1, trace := ps.2 }
      else
        let b := gaspi E (Call.barrier d1.group timeout_ms) ps.2
        let rg := gaspi E (Call.segment_register d1.segment_id_local_for_sender d1.sender
          timeout_ms) b.2
        if rg.1.ret ≠ GASPI_SUCCESS then
          Result.returned { ret := rg.1.ret, d := d1, trace := rg.2 }
        else
          match gpi_cp_tell_sender_about_the_local_segment_id E
              d1.segment_id_local_for_sender d1.active_snapshot d1.sender rg.2 with
          | Result.crashed => Result.crashed
          | Result.looping => Result.looping
          | Result.returned tr1 =>
            Result.returned (gpi_cp_restore_end E timeout_ms tstart d1 tr1)

/-- Branch `case affected_missing_receiver` of `gpi_cp_restore`. -/
def gpi_cp_restore_missing_receiver (fuel : Nat) (E : Env) (policy : Int)
    (new_group timeout_ms : Nat) (tstart : Timeval) (d : gpi_cp_description)
    (tr : List Call) : Result Out :=
  match gpi_cp_receiver fuel E policy new_group E.proc_rank.2 with
  | Result.crashed => Result.crashed
  | Result.looping => Result.looping
  | Result.returned rcv =>
    let d1 := { d with receiver := rcv.2 }
    if rcv.1 ≠ GPI_CP_SUCCESS then
      Result.returned { ret := GASPI_ERROR, d := d1, trace := tr }
    else
      let ps : Int × List Call :=
        if d1.active_snapshot = 0 then
          let g := gaspi E (Call.passive_send d1.segment_id_local_for_sender
            d1.active_snapshot d1.receiver 1 timeout_ms) tr
          (g.1.ret, g.2)
        else (GASPI_SUCCESS, tr)
      if ps.1 ≠ GASPI_SUCCESS then Result.returned { ret := ps.1, d := d1, trace := ps.2 }
      else
        let b := gaspi E (Call.barrier d1.group timeout_ms) ps.2
        match gpi_cp_receive_segment_id E d1.segment_id_local_for_sender
            d1.active_snapshot d1.receiver timeout_ms b.2 with
        | Result.crashed => Result.crashed
        | Result.looping => Result.looping
        | Result.returned rc =>
          let d2 := { d1 with segment_id_remote_on_receiver := rc.1.2 }
          if rc.1.1 ≠ GPI_CP_SUCCESS then
            Result.returned { ret := GASPI_ERROR, d := d2, trace := rc.2 }
          else
            let w : Int × List Call :=
              if d2.state_in_progress then
                let g := gaspi E (Call.wait d2.queue timeout_ms) rc.2
                (g.1.ret, g.2)
              else (GASPI_SUCCESS, rc.2)
            if w.1 ≠ GASPI_SUCCESS then
              Result.returned { ret := w.1, d := d2, trace := w.2 }
            else
              let d3 :=
                if d2.state_in_progress then { d2 with state_in_progress := false }
                else d2
              let st := gpi_cp_start E timeout_ms d3 w.2
              let w2 := gaspi E (Call.wait st.d.queue timeout_ms) st.trace
              if w2.1.ret ≠ GASPI_SUCCESS then
                Result.returned { ret := w2.1.ret, d := st.d, trace := w2.2 }
              else Result.returned (gpi_cp_restore_end E timeout_ms tstart st.d w2.2)

/-- Branch `case unaffected` of `gpi_cp_restore`; a failed `assert` aborts. -/
def gpi_cp_restore_unaffected (E : Env) (new_group timeout_ms : Nat) (tstart : Timeval)
    (d : gpi_cp_description) (tr : List Call) : Result Out :=
  if !gpi_cp_is_in_group E new_group d.receiver then Result.crashed
  else if !gpi_cp_is_in_group E new_group d.sender then Result.crashed
  else
    let b := gaspi E (Call.barrier d.group timeout_ms) tr
    Result.returned (gpi_cp_restore_end E timeout_ms tstart d b.2)

/-- The function `gpi_cp_restore`. -/
def gpi_cp_restore (fuel : Nat) (E : Env) (segment_id_checkpoint offset size queue : Nat)
    (policy : Int) (new_group : Nat) (timeout_ms : Nat) (d0 : gpi_cp_description)
    (tr : List Call) : Result Out :=
  let t := gettimeofday E tr
  let d : gpi_cp_description :=
    { d0 with
      offset := offset
      size := size
      segment_id_local_client_source := segment_id_checkpoint
      queue := queue
      group := new_group }
  if E.proc_rank.1 ≠ GASPI_SUCCESS then
    Result.returned { ret := E.proc_rank.1, d := d, trace := t.2 }
  else
    match gpi_cp_restore_case E new_group d with
    | RestoreCase.joiner =>
      gpi_cp_restore_joiner fuel E segment_id_checkpoint offset size policy new_group
        timeout_ms t.1 d t.2
    | RestoreCase.affected_missing_sender =>
      gpi_cp_restore_missing_sender fuel E policy new_group timeout_ms t.1 d t.2
    | RestoreCase.affected_missing_receiver =>
      gpi_cp_restore_missing_receiver fuel E policy new_group timeout_ms t.1 d t.2
    | RestoreCase.unaffected =>
      gpi_cp_restore_unaffected E new_group timeout_ms t.1 d t.2

/-- Whether a trace entry is a `gaspi_write_notify`. -/
def Call.is_write_notify : Call → Bool
  | Call.write_notify _ _ _ _ _ _ _ _ _ _ => true
  | _ => false

/-! ## Example environments -/

/-- An environment for examples: the calling process has rank `rank` among
`nProc` processes, every group id denotes the ranks `members`, every substrate
call succeeds, `gaspi_notify_waitsome` reports the first id it was asked for,
`gaspi_notify_reset` reports that id plus one, and a passive receive names
`src` as the source. -/
def exampleEnv (rank nProc : Nat) (members : List Nat) (src : Nat) : Env :=
  { proc_rank := (GASPI_SUCCESS, rank)
    proc_num := (GASPI_SUCCESS, nProc)
    group_size := fun _ => (GASPI_SUCCESS, members.length)
    group_ranks := fun _ => (GASPI_SUCCESS, fun i => members.getD i 0)
    clock := fun tr => { tv_sec := (tr.length : Int), tv_usec := 0 }
    answer := fun _ c =>
      match c with
      | Call.notify_waitsome _ first _ _ =>
        { ret := GASPI_SUCCESS, out := first, arr := fun _ => 0 }
      | Call.notify_reset _ id => { ret := GASPI_SUCCESS, out := id + 1, arr := fun _ => 0 }
      | Call.passive_receive _ _ _ _ =>
        { ret := GASPI_SUCCESS, out := src, arr := fun _ => 0 }
      | _ => { ret := GASPI_SUCCESS, out := 0, arr := fun _ => 0 } }

/-- A descriptor for examples: every field zero, both flags false. -/
def exampleDescription : gpi_cp_description :=
  { offset := 0, size := 0, segment_id_local_client_source := 0, queue := 0, group := 0
    sender := 0, segment_id_local_for_sender := 0, receiver := 0
    segment_id_remote_on_receiver := 0, active_snapshot := 0
    state_in_progress := false, state_initialized := false
    in_init := { tv_sec := 0, tv_usec := 0 }, in_start := { tv_sec := 0, tv_usec := 0 }
    in_commit := { tv_sec := 0, tv_usec := 0 }, in_restore := { tv_sec := 0, tv_usec := 0 } }

/-- A descriptor for examples, as rank 1 of the ring 0, 1, 2 holds it between
`gpi_cp_start` and `gpi_cp_commit`: snapshots of 8 bytes, sender 0, receiver 2. -/
def exampleInFlight : gpi_cp_description :=
  { exampleDescription with
    size := 8, sender := 0, receiver := 2, segment_id_local_for_sender := 1
    segment_id_remote_on_receiver := 1, state_in_progress := true
    state_initialized := true }

/-- The descriptor `exampleInFlight` with no snapshot in flight. -/
def exampleIdle : gpi_cp_description :=
  { exampleInFlight with state_in_progress := false }

/-- An environment like `base`, except that every call selected by `fails`
returns the code `code`. -/
def failingEnv (base : Env) (fails : Call → Bool) (code : Int) : Env :=
  { base with
    answer := fun t c =>
      if fails c then
        { ret := code, out := (base.answer t c).out, arr := (base.answer t c).arr }
      else base.answer t c }

/-- Whether a trace entry is a `gaspi_barrier`. -/
def Call.is_barrier : Call → Bool
  | Call.barrier _ _ => true
  | _ => false

/-- Whether a trace entry is a `gaspi_passive_receive`. -/
def Call.is_passive_receive : Call → Bool
  | Call.passive_receive _ _ _ _ => true
  | _ => false

/-- Whether a trace entry is a `gaspi_segment_alloc`. -/
def Call.is_segment_alloc : Call → Bool
  | Call.segment_alloc _ _ => true
  | _ => false

/-- Whether a trace entry is a `gaspi_write_notify` or a `gaspi_wait`. -/
def Call.is_write_or_wait : Call → Bool
  | Call.write_notify _ _ _ _ _ _ _ _ _ _ => true
  | Call.wait _ _ => true
  | _ => false

/-- Whether a trace entry is a `gaspi_segment_register`. -/
def Call.is_segment_register : Call → Bool
  | Call.segment_register _ _ _ => true
  | _ => false

/-- Whether a trace entry is a `gaspi_passive_send`. -/
def Call.is_passive_send : Call → Bool
  | Call.passive_send _ _ _ _ _ => true
  | _ => false

/-- An environment for examples where the substrate reports the allocated
segment ids `ids`: `gaspi_segment_num` gives their number and
`gaspi_segment_list` fills the array with them; every call succeeds. -/
def segmentsEnv (ids : List Nat) : Env :=
  { exampleEnv 0 1 [0] 0 with
    answer := fun _ c =>
      match c with
      | Call.segment_num => { ret := GASPI_SUCCESS, out := ids.length, arr := fun _ => 0 }
      | Call.segment_list _ =>
        { ret := GASPI_SUCCESS, out := 0, arr := fun i => ids.getD i 0 }
      | _ => { ret := GASPI_SUCCESS, out := 0, arr := fun _ => 0 } }

/-! ## Tags between survivors and joiner -/

/-- The calls of a trace (most recent first) that were issued before its first
`gaspi_barrier`, oldest first. -/
def calls_before_barrier (issued : List Call) : List Call :=
  issued.reverse.takeWhile (fun c => !c.is_barrier)

/-- Whether a trace entry is a passive send of one byte to rank `j`. -/
def Call.is_tag_to (j : Nat) : Call → Bool
  | Call.passive_send _ _ rank size _ => rank == j && size == 1
  | _ => false

/-- Whether the calls `issued` by one `gpi_cp_restore` (most recent first)
contain the tag for rank `j`: a passive send of one byte to `j` issued before
the first barrier of that restore. -/
def sends_tag (issued : List Call) (j : Nat) : Bool :=
  (calls_before_barrier issued).any (Call.is_tag_to j)

/-- A descriptor for examples, as a member of a ring holds it between rounds:
snapshots of 8 bytes, staging segment 1 on both sides, the given sender,
receiver and `active_snapshot`. -/
def exampleSurvivor (sender receiver active_snapshot : Nat) : gpi_cp_description :=
  { exampleIdle with
    sender := sender, receiver := receiver, active_snapshot := active_snapshot }

/-- Environments for an example of recovery among 5 processes: the ring 0, 1,
2, 3 has lost rank 3 and gained rank 4; rank `r` sees the new group 0, 1, 2, 4,
and its passive receives name as source the rank it expects (rank 4 for rank
2, rank 0 otherwise). -/
def exampleRingEnv (r : Nat) : Env :=
  exampleEnv r 5 [0, 1, 2, 4] (if r = 2 then 4 else 0)

/-- The descriptors of the example of recovery before restore: ranks 0, 1, 2
as the ring 0, 1, 2, 3 left them after one round (`active_snapshot = 8`), the
other ranks uninitialised. -/
def exampleRingDescription (r : Nat) : gpi_cp_description :=
  match r with
  | 0 => exampleSurvivor 3 1 8
  | 1 => exampleSurvivor 0 2 8
  | 2 => exampleSurvivor 1 3 8
  | _ => exampleDescription

/-- What `gpi_cp_restore` returns at rank `r` in the example of recovery. -/
def exampleRingOut (r : Nat) : Out :=
  match gpi_cp_restore 5 (exampleRingEnv r) 0 0 8 0 GPI_CP_POLICY_RING 0 0
      (exampleRingDescription r) [] with
  | Result.returned o => o
  | _ => { ret := GASPI_ERROR, d := exampleDescription, trace := [] }

/-! ## Memory of the processes and global rounds -/

/-- Modelled from the spec: the bytes held by the segments of all processes,
by rank, segment id and offset (section 3, client segment and staging
segment). -/
abbrev Memory := Nat → Nat → Nat → Nat

/-- Modelled from the spec: what a one-sided call issued by rank `self` does to
the memory (section 6.1, one-sided data movement). `write_notify` copies `size`
bytes from the local segment at the local offset to the segment of the remote
rank at the remote offset; `read` copies `size` bytes the other way; no other
call moves data between processes. -/
def data_movement (self : Nat) (c : Call) (m : Memory) : Memory :=
  match c with
  | Call.write_notify seg_local off_local rank seg_remote off_remote size _ _ _ _ =>
    fun r s o =>
      if r = rank ∧ s = seg_remote ∧ off_remote ≤ o ∧ o < off_remote + size then
        m self seg_local (off_local + (o - off_remote))
      else m r s o
  | Call.read seg_local off_local rank seg_remote off_remote size _ _ =>
    fun r s o =>
      if r = self ∧ s = seg_local ∧ off_local ≤ o ∧ o < off_local + size then
        m rank seg_remote (off_remote + (o - off_local))
      else m r s o
  | _ => m

/-- The effect on the memory of the calls of a trace (most recent first) issued
by rank `self`, the oldest call taking effect first. -/
def data_movements (self : Nat) (issued : List Call) (m : Memory) : Memory :=
  issued.foldr (data_movement self) m

/-- The processes between two library calls: the descriptor of every rank and
the memory. -/
structure World where
  desc : Nat → gpi_cp_description
  mem : Memory

/-- The ranks of the list call `gpi_cp_start`, each in its own environment; the
one-sided calls of each take effect on the memory. The result is `none` when a
call does not return `GASPI_SUCCESS`. -/
def global_start (E : Nat → Env) (timeout_ms : Nat) : List Nat → World → Option World
  | [], w => some w
  | r :: rest, w =>
    if (gpi_cp_start (E r) timeout_ms (w.desc r) []).ret = GASPI_SUCCESS then
      global_start E timeout_ms rest
        { desc := Function.update w.desc r (gpi_cp_start (E r) timeout_ms (w.desc r) []).d
          mem := data_movements r (gpi_cp_start (E r) timeout_ms (w.desc r) []).trace
            w.mem }
    else none

/-- The ranks of the list call `gpi_cp_commit`, as in `global_start`. -/
def global_commit (E : Nat → Env) (timeout_ms : Nat) : List Nat → World → Option World
  | [], w => some w
  | r :: rest, w =>
    if (gpi_cp_commit (E r) timeout_ms (w.desc r) []).ret = GASPI_SUCCESS then
      global_commit E timeout_ms rest
        { desc := Function.update w.desc r (gpi_cp_commit (E r) timeout_ms (w.desc r) []).d
          mem := data_movements r (gpi_cp_commit (E r) timeout_ms (w.desc r) []).trace
            w.mem }
    else none

/-- One global round: every rank of the list calls `gpi_cp_start`, then every
rank calls `gpi_cp_commit`. -/
def global_round (E : Nat → Env) (timeout_ms : Nat) (ranks : List Nat) (w : World) :
    Option World :=
  (global_start E timeout_ms ranks w).bind (global_commit E timeout_ms ranks)

/-- The descriptors of the ranks `ranks` describe a ring that is linked up:
every rank is idle and a member of its group, all agree on `size` and on the
`active_snapshot` value `a`, senders and receivers are ranks of the list and
inverse to each other, every rank knows the staging segment of its receiver,
and no staging segment is a client segment of the same rank. -/
def ring_linked (E : Nat → Env) (ranks : List Nat) (size a : Nat)
    (desc : Nat → gpi_cp_description) : Prop :=
  ∀ r ∈ ranks,
    (E r).proc_rank = (GASPI_SUCCESS, r)
    ∧ gpi_cp_is_in_group (E r) (desc r).group r = true
    ∧ (desc r).state_in_progress = false
    ∧ (desc r).size = size ∧ (desc r).active_snapshot = a
    ∧ (desc r).sender ∈ ranks ∧ (desc r).receiver ∈ ranks
    ∧ (desc (desc r).sender).receiver = r ∧ (desc (desc r).receiver).sender = r
    ∧ (desc r).segment_id_remote_on_receiver
      = (desc (desc r).receiver).segment_id_local_for_sender
    ∧ (desc r).segment_id_local_client_source ≠ (desc r).segment_id_local_for_sender

instance (E : Nat → Env) (ranks : List Nat) (size a : Nat)
    (desc : Nat → gpi_cp_description) : Decidable (ring_linked E ranks size a desc) := by
  unfold ring_linked
  infer_instance

/-- The world of an example: ranks 0, 1, 2 form a ring, each with the
descriptor `exampleSurvivor` (client segment 0, staging segment 1, snapshots
of 8 bytes, `active_snapshot = 0`); every byte of the client segment of rank
`r` is `r + 1` and every other byte is 0. -/
def exampleWorld : World :=
  { desc := fun r => exampleSurvivor ((r + 2) % 3) ((r + 1) % 3) 0
    mem := fun r s _ => if s = 0 then r + 1 else 0 }

/-! ## Memory during recovery -/

/-- Modelled from the spec: whether the call `c`, issued by rank `self`, may
change the byte at offset `o` of segment `s` of rank `r` (sections 4.3 and
6.1): the remote range of a one-sided write, the local range of a one-sided
read and of a passive receive, and the slot where a segment id is stored. -/
def Call.writes (self : Nat) (c : Call) (r s o : Nat) : Bool :=
  match c with
  | Call.write_notify _ _ rank seg_remote off_remote size _ _ _ _ =>
    decide (r = rank ∧ s = seg_remote ∧ off_remote ≤ o ∧ o < off_remote + size)
  | Call.read seg_local off_local _ _ _ size _ _ =>
    decide (r = self ∧ s = seg_local ∧ off_local ≤ o ∧ o < off_local + size)
  | Call.passive_receive seg off size _ =>
    decide (r = self ∧ s = seg ∧ off ≤ o ∧ o < off + size)
  | Call.store_segment_id seg off idx _ =>
    decide (r = self ∧ s = seg ∧ o = off + idx * SIZEOF_SEGMENT_ID)
  | _ => false

/-- Modelled from the spec: what a call of rank `self` does to the memory,
given the substrate's response (sections 4.3 and 6.1). A passive receive
deposits the bytes of the message, which the response carries in `arr`, in the
local segment; storing a segment id changes its slot; every other call acts as
`data_movement` says. -/
def call_effect (self : Nat) (c : Call) (a : Resp) (m : Memory) : Memory :=
  match c with
  | Call.passive_receive seg off size _ =>
    fun r s o =>
      if r = self ∧ s = seg ∧ off ≤ o ∧ o < off + size then a.arr (o - off) else m r s o
  | Call.store_segment_id seg off idx val =>
    fun r s o =>
      if r = self ∧ s = seg ∧ o = off + idx * SIZEOF_SEGMENT_ID then val % SEGMENT_ID_MOD
      else m r s o
  | _ => data_movement self c m

/-- The effect on the memory of the calls of a trace (most recent first) that
rank `self` issued in the environment `E`, the oldest call taking effect
first. -/
def trace_effect (E : Env) (self : Nat) : List Call → Memory → Memory
  | [], m => m
  | c :: rest, m => call_effect self c (E.answer rest c) (trace_effect E self rest m)

/-- The calls that turned the trace `tr` into `tr1` leave the byte at offset
`o` of segment `s` of rank `r` alone. -/
def quiet (self r s o : Nat) (tr tr1 : List Call) : Prop :=
  ∃ Y, tr1 = Y ++ tr ∧ ∀ c ∈ Y, Call.writes self c r s o = false

/-- The ranks of the list call `gpi_cp_restore` on `new_group`, each in its own
environment with its own client segment, offset and queue; the calls of each
take effect on the memory. The result is `none` when a call does not return
`GASPI_SUCCESS`. -/
def global_restore (fuel : Nat) (E : Nat → Env) (seg off : Nat → Nat) (size : Nat)
    (queue : Nat → Nat) (policy : Int) (new_group timeout_ms : Nat) :
    List Nat → World → Option World
  | [], w => some w
  | r :: rest, w =>
    match gpi_cp_restore fuel (E r) (seg r) (off r) size (queue r) policy new_group
        timeout_ms (w.desc r) [] with
    | Result.returned o =>
      if o.ret = GASPI_SUCCESS then
        global_restore fuel E seg off size queue policy new_group timeout_ms rest
          { desc := Function.update w.desc r o.d
            mem := trace_effect (E r) r o.trace w.mem }
      else none
    | _ => none

/-- The effect on the memory of the `gpi_cp_restore` of rank `r`, called on
the descriptor `desc r`. -/
def restore_effect (fuel : Nat) (E : Nat → Env) (seg off : Nat → Nat) (size : Nat)
    (queue : Nat → Nat) (policy : Int) (new_group timeout_ms : Nat)
    (desc : Nat → gpi_cp_description) (r : Nat) (m : Memory) : Memory :=
  match gpi_cp_restore fuel (E r) (seg r) (off r) size (queue r) policy new_group
      timeout_ms (desc r) [] with
  | Result.returned o => trace_effect (E r) r o.trace m
  | _ => m

/-! ## The single-checkpoint example -/

/-- Environments of the single-checkpoint example among 4 processes, before
the failure: every rank sees the working group 0, 1, 2, and a passive receive
of rank `r` names the receiver of `r` in that ring as source. -/
def exampleOldEnv (r : Nat) : Env :=
  exampleEnv r 4 [0, 1, 2] ((r + 1) % 3)

/-- Environments of the single-checkpoint example after the failure of rank 2:
every rank sees the group 0, 1, 3, and its passive receives name as source the
rank it expects (rank 3 for rank 1, rank 0 otherwise). -/
def exampleNewEnv (r : Nat) : Env :=
  exampleEnv r 4 [0, 1, 3] (if r = 1 then 3 else 0)

/-- What `gpi_cp_init` returns at rank `r` in the single-checkpoint example:
client segment 1, offset 0, snapshots of 8 bytes, queue 4. -/
def exampleInitOut (r : Nat) : Out :=
  match gpi_cp_init 4 (exampleOldEnv r) 1 0 8 4 GPI_CP_POLICY_RING 0 0
      (GPI_CP_DESCRIPTION_INITIALIZER exampleDescription) [] with
  | Result.returned o => o
  | _ => { ret := GASPI_ERROR, d := exampleDescription, trace := [] }

/-- The memory of the single-checkpoint example before the round: every byte
of segment 1 of rank `r` is `r + 1`, every other byte is 0. -/
def exampleRegions : Memory :=
  fun r s _ => if s = 1 then r + 1 else 0

/-- The change every rank makes to its client region in the single-checkpoint
example: `nProc` is added to the first byte of segment 1. -/
def exampleMutate (nProc : Nat) (m : Memory) : Memory :=
  fun r s y => if s = 1 ∧ 0 ≤ y ∧ y < 0 + 1 then m r s y + nProc else m r s y

/-! ## Trace entries by kind, and the bytes they address -/

/-- Whether a trace entry is a `gaspi_segment_delete`. -/
def Call.is_segment_delete : Call → Bool
  | Call.segment_delete _ => true
  | _ => false

/-- Whether a trace entry is a `gaspi_read`. -/
def Call.is_read : Call → Bool
  | Call.read _ _ _ _ _ _ _ _ => true
  | _ => false

/-- Modelled from the spec: the bytes of a local segment that a call names
(sections 4.3 and 6.1), as segment id, first offset and length: the slot that
`gpi_cp_ptr` indexes, the buffer of a passive send or receive, the local side
of a one-sided write or read. Other calls name no bytes. -/
def Call.local_range : Call → Option (Nat × Nat × Nat)
  | Call.store_segment_id seg off idx _ =>
    some (seg, off + idx * SIZEOF_SEGMENT_ID, SIZEOF_SEGMENT_ID)
  | Call.load_segment_id seg off idx =>
    some (seg, off + idx * SIZEOF_SEGMENT_ID, SIZEOF_SEGMENT_ID)
  | Call.passive_send seg off _ size _ => some (seg, off, size)
  | Call.passive_receive seg off size _ => some (seg, off, size)
  | Call.write_notify seg_local off_local _ _ _ size _ _ _ _ =>
    some (seg_local, off_local, size)
  | Call.read seg_local off_local _ _ _ size _ _ => some (seg_local, off_local, size)
  | _ => none

/-- A descriptor for examples: `exampleInFlight` at a rank whose receiver
allocated the staging segment 2, while the rank's own staging segment is 1. -/
def exampleTwoIds : gpi_cp_description :=
  { exampleInFlight with segment_id_remote_on_receiver := 2 }

/-- The receiver walk finds the candidate number `k` when the candidates before
it are not in the group. -/
theorem receiver_loop_finds (P : Nat → Bool) (n : Nat) :
    ∀ (k fuel cur : Nat), cur < n → k < fuel →
      (∀ i, i < k → P ((cur + i) % n) = false) → P ((cur + k) % n) = true →
      gpi_cp_receiver_loop P n fuel cur = Result.returned ((cur + k) % n) := by
  intro k
  induction k with
  | zero =>
    intro fuel cur hcur hfuel _ hk
    obtain ⟨f, rfl⟩ : ∃ f, fuel = f + 1 := ⟨fuel - 1, by omega⟩
    have hc : (cur + 0) % n = cur := by simpa using Nat.mod_eq_of_lt hcur
    rw [hc] at hk ⊢
    simp [gpi_cp_receiver_loop, hk]
  | succ k ih =>
    intro fuel cur hcur hfuel hbefore hk
    obtain ⟨f, rfl⟩ : ∃ f, fuel = f + 1 := ⟨fuel - 1, by omega⟩
    have h0 : P cur = false := by
      have := hbefore 0 (by omega)
      simpa [Nat.mod_eq_of_lt hcur] using this
    have hn : 0 < n := by omega
    have hstep : ∀ i, ((cur + 1) % n + i) % n = (cur + (i + 1)) % n := by
      intro i
      rw [Nat.add_mod ((cur + 1) % n) i n, Nat.mod_mod, ← Nat.add_mod]
      congr 1
      omega
    have := ih f ((cur + 1) % n) (Nat.mod_lt _ hn) (by omega)
      (fun i hi => by rw [hstep]; exact hbefore (i + 1) (by omega))
      (by rw [hstep]; exact hk)
    rw [hstep] at this
    simp [gpi_cp_receiver_loop, h0, this]

/-- The sender walk finds the candidate number `k` when the candidates before
it are not in the group. -/
theorem sender_loop_finds (P : Nat → Bool) (n : Nat) :
    ∀ (k fuel cur : Nat), cur < n → k < fuel →
      (∀ i, i < k → P ((cur + i * (n - 1)) % n) = false) →
      P ((cur + k * (n - 1)) % n) = true →
      gpi_cp_sender_loop P n fuel cur = Result.returned ((cur + k * (n - 1)) % n) := by
  intro k
  induction k with
  | zero =>
    intro fuel cur hcur hfuel _ hk
    obtain ⟨f, rfl⟩ : ∃ f, fuel = f + 1 := ⟨fuel - 1, by omega⟩
    have hc : (cur + 0 * (n - 1)) % n = cur := by simpa using Nat.mod_eq_of_lt hcur
    rw [hc] at hk ⊢
    simp [gpi_cp_sender_loop, hk]
  | succ k ih =>
    intro fuel cur hcur hfuel hbefore hk
    obtain ⟨f, rfl⟩ : ∃ f, fuel = f + 1 := ⟨fuel - 1, by omega⟩
    have h0 : P cur = false := by
      have := hbefore 0 (by omega)
      simpa [Nat.mod_eq_of_lt hcur] using this
    have hn : 0 < n := by omega
    have hstep : ∀ i, ((cur + n - 1) % n + i * (n - 1)) % n
        = (cur + (i + 1) * (n - 1)) % n := by
      intro i
      rw [Nat.add_mod ((cur + n - 1) % n) (i * (n - 1)) n, Nat.mod_mod, ← Nat.add_mod]
      congr 1
      rw [Nat.succ_mul]
      omega
    have := ih f ((cur + n - 1) % n) (Nat.mod_lt _ hn) (by omega)
      (fun i hi => by rw [hstep]; exact hbefore (i + 1) (by omega))
      (by rw [hstep]; exact hk)
    rw [hstep] at this
    simp [gpi_cp_sender_loop, h0, this]

theorem mod_shift_up (r k j n : Nat) (hj : j ≤ k) (hn : 0 < n) :
    (r + k * (n - 1) + j) % n = (r + (k - j) * (n - 1)) % n := by
  obtain ⟨m, rfl⟩ : ∃ m, n = m + 1 := ⟨n - 1, by omega⟩
  obtain ⟨t, rfl⟩ : ∃ t, k = j + t := ⟨k - j, by omega⟩
  have e : r + (j + t) * (m + 1 - 1) + j = (r + t * m) + j * (m + 1) := by
    simp only [Nat.add_sub_cancel]
    ring
  rw [e, Nat.add_mul_mod_self_right]
  simp

theorem mod_shift_down (r k j n : Nat) (hj : j ≤ k) (hn : 0 < n) :
    (r + k + j * (n - 1)) % n = (r + (k - j)) % n := by
  obtain ⟨m, rfl⟩ : ∃ m, n = m + 1 := ⟨n - 1, by omega⟩
  obtain ⟨t, rfl⟩ : ∃ t, k = j + t := ⟨k - j, by omega⟩
  have e : r + (j + t) + j * (m + 1 - 1) = (r + t) + j * (m + 1) := by
    simp only [Nat.add_sub_cancel]
    ring
  rw [e, Nat.add_mul_mod_self_right]
  simp

/-- Walking down `k` steps, `1 ≤ k ≤ n`, from `r` ends at `(r + n - k) % n`. -/
theorem mod_down_form (r k n : Nat) (hk1 : 1 ≤ k) (hkn : k ≤ n) :
    (r + k * (n - 1)) % n = (r + n - k) % n := by
  obtain ⟨m, rfl⟩ : ∃ m, n = m + 1 := ⟨n - 1, by omega⟩
  obtain ⟨j, rfl⟩ : ∃ j, k = j + 1 := ⟨k - 1, by omega⟩
  obtain ⟨t, rfl⟩ : ∃ t, m = j + t := ⟨m - j, by omega⟩
  have e : r + (j + 1) * (j + t + 1 - 1) = (r + t) + j * (j + t + 1) := by
    simp only [Nat.add_sub_cancel]
    ring
  have e2 : r + (j + t + 1) - (j + 1) = r + t := by omega
  rw [e, Nat.add_mul_mod_self_right, e2]

/-- Walking up from `cur` reaches every rank below `n` within `n` steps. -/
theorem up_reaches (n cur m : Nat) (hcur : cur < n) (hm : m < n) :
    ∃ i, i < n ∧ (cur + i) % n = m := by
  by_cases h : cur ≤ m
  · exact ⟨m - cur, by omega, by
      have : cur + (m - cur) = m := by omega
      rw [this, Nat.mod_eq_of_lt hm]⟩
  · refine ⟨m + n - cur, by omega, ?_⟩
    have : cur + (m + n - cur) = m + n := by omega
    rw [this, Nat.add_mod_right, Nat.mod_eq_of_lt hm]

/-- Walking down from `cur` reaches every rank below `n` within `n` steps. -/
theorem down_reaches (n cur m : Nat) (hcur : cur < n) (hm : m < n) :
    ∃ i, i < n ∧ (cur + i * (n - 1)) % n = m := by
  by_cases h : m ≤ cur
  · refine ⟨cur - m, by omega, ?_⟩
    have := mod_shift_down m (cur - m) (cur - m) n (le_refl _) (by omega)
    have e : m + (cur - m) = cur := by omega
    rw [e] at this
    rw [this]
    simpa using Nat.mod_eq_of_lt hm
  · refine ⟨cur + n - m, by omega, ?_⟩
    obtain ⟨t, rfl⟩ : ∃ t, m = cur + 1 + t := ⟨m - cur - 1, by omega⟩
    obtain ⟨u, rfl⟩ : ∃ u, n = cur + 1 + t + 1 + u := ⟨n - (cur + 1 + t) - 1, by omega⟩
    have e1 : cur + (cur + 1 + t + 1 + u) - (cur + 1 + t) = cur + 1 + u := by omega
    have e2 : cur + 1 + t + 1 + u - 1 = cur + 1 + t + u := by omega
    have e : cur + (cur + 1 + u) * (cur + 1 + t + u)
        = (cur + 1 + t) + (cur + u) * (cur + 1 + t + 1 + u) := by ring
    rw [e1, e2, e, Nat.add_mul_mod_self_right]
    exact Nat.mod_eq_of_lt (by omega)

/-- When the group has a member below `n`, the walk up from `cur` meets a
first member within `n` steps. -/
theorem up_first_member (P : Nat → Bool) (n cur : Nat) (hcur : cur < n)
    (hP : ∃ m, m < n ∧ P m = true) :
    ∃ k, k < n ∧ (∀ i, i < k → P ((cur + i) % n) = false) ∧ P ((cur + k) % n) = true := by
  obtain ⟨m, hm, hPm⟩ := hP
  obtain ⟨i0, hi0, hi0m⟩ := up_reaches n cur m hcur hm
  have hex : ∃ k, P ((cur + k) % n) = true := ⟨i0, by rw [hi0m]; exact hPm⟩
  refine ⟨Nat.find hex, ?_, ?_, Nat.find_spec hex⟩
  · exact lt_of_le_of_lt (Nat.find_min' hex (by rw [hi0m]; exact hPm)) hi0
  · intro i hi
    have := Nat.find_min hex hi
    simpa using this

/-- When the group has a member below `n`, the walk down from `cur` meets a
first member within `n` steps. -/
theorem down_first_member (P : Nat → Bool) (n cur : Nat) (hcur : cur < n)
    (hP : ∃ m, m < n ∧ P m = true) :
    ∃ k, k < n ∧ (∀ i, i < k → P ((cur + i * (n - 1)) % n) = false)
      ∧ P ((cur + k * (n - 1)) % n) = true := by
  obtain ⟨m, hm, hPm⟩ := hP
  obtain ⟨i0, hi0, hi0m⟩ := down_reaches n cur m hcur hm
  have hex : ∃ k, P ((cur + k * (n - 1)) % n) = true := ⟨i0, by rw [hi0m]; exact hPm⟩
  refine ⟨Nat.find hex, ?_, ?_, Nat.find_spec hex⟩
  · exact lt_of_le_of_lt (Nat.find_min' hex (by rw [hi0m]; exact hPm)) hi0
  · intro i hi
    have := Nat.find_min hex hi
    simpa using this

theorem receiver_of_pattern (E : Env) (group rank fuel k nProc : Nat)
    (hnum : E.proc_num = (GASPI_SUCCESS, nProc)) (hn : 0 < nProc)
    (hk1 : 1 ≤ k) (hkf : k ≤ fuel)
    (hbefore : ∀ i, 1 ≤ i → i < k → gpi_cp_is_in_group E group ((rank + i) % nProc) = false)
    (hk : gpi_cp_is_in_group E group ((rank + k) % nProc) = true) :
    gpi_cp_receiver fuel E GPI_CP_POLICY_RING group rank
      = Result.returned (GPI_CP_SUCCESS, (rank + k) % nProc) := by
  obtain ⟨j, rfl⟩ : ∃ j, k = j + 1 := ⟨k - 1, by omega⟩
  have hstep : ∀ i, ((rank + 1) % nProc + i) % nProc = (rank + (i + 1)) % nProc := by
    intro i
    rw [Nat.add_mod ((rank + 1) % nProc) i nProc, Nat.mod_mod, ← Nat.add_mod]
    congr 1
    omega
  have := receiver_loop_finds (gpi_cp_is_in_group E group) nProc j fuel
    ((rank + 1) % nProc) (Nat.mod_lt _ hn) (by omega)
    (fun i hi => by rw [hstep]; exact hbefore (i + 1) (by omega) (by omega))
    (by rw [hstep]; exact hk)
  rw [hstep] at this
  have hn0 : nProc ≠ 0 := by omega
  simp [gpi_cp_receiver, hnum, hn0, this]

theorem sender_of_pattern (E : Env) (group rank fuel k nProc : Nat)
    (hnum : E.proc_num = (GASPI_SUCCESS, nProc)) (hn : 0 < nProc)
    (hk1 : 1 ≤ k) (hkf : k ≤ fuel)
    (hbefore : ∀ i, 1 ≤ i → i < k →
      gpi_cp_is_in_group E group ((rank + i * (nProc - 1)) % nProc) = false)
    (hk : gpi_cp_is_in_group E group ((rank + k * (nProc - 1)) % nProc) = true) :
    gpi_cp_sender fuel E GPI_CP_POLICY_RING group rank
      = Result.returned (GPI_CP_SUCCESS, (rank + k * (nProc - 1)) % nProc) := by
  obtain ⟨j, rfl⟩ : ∃ j, k = j + 1 := ⟨k - 1, by omega⟩
  have hstep : ∀ i, ((rank + nProc - 1) % nProc + i * (nProc - 1)) % nProc
      = (rank + (i + 1) * (nProc - 1)) % nProc := by
    intro i
    rw [Nat.add_mod ((rank + nProc - 1) % nProc) (i * (nProc - 1)) nProc, Nat.mod_mod,
      ← Nat.add_mod]
    congr 1
    rw [Nat.succ_mul]
    omega
  have := sender_loop_finds (gpi_cp_is_in_group E group) nProc j fuel
    ((rank + nProc - 1) % nProc) (Nat.mod_lt _ hn) (by omega)
    (fun i hi => by rw [hstep]; exact hbefore (i + 1) (by omega) (by omega))
    (by rw [hstep]; exact hk)
  rw [hstep] at this
  have hn0 : nProc ≠ 0 := by omega
  simp [gpi_cp_sender, hnum, hn0, this]

/-- With a member below `nProc` in the group, the receiver walk ends at its
first member. -/
theorem receiver_first (E : Env) (group rank fuel nProc : Nat)
    (hnum : E.proc_num = (GASPI_SUCCESS, nProc)) (hn : 0 < nProc)
    (hmem : ∃ m, m < nProc ∧ gpi_cp_is_in_group E group m = true) (hfuel : nProc ≤ fuel) :
    ∃ k, 1 ≤ k ∧ k ≤ nProc
      ∧ gpi_cp_receiver fuel E GPI_CP_POLICY_RING group rank
          = Result.returned (GPI_CP_SUCCESS, (rank + k) % nProc)
      ∧ gpi_cp_is_in_group E group ((rank + k) % nProc) = true
      ∧ ∀ i, 1 ≤ i → i < k → gpi_cp_is_in_group E group ((rank + i) % nProc) = false := by
  obtain ⟨j, hj, hb, hk⟩ := up_first_member (gpi_cp_is_in_group E group) nProc
    ((rank + 1) % nProc) (Nat.mod_lt _ hn) hmem
  have hstep : ∀ i, ((rank + 1) % nProc + i) % nProc = (rank + (i + 1)) % nProc := by
    intro i
    rw [Nat.add_mod ((rank + 1) % nProc) i nProc, Nat.mod_mod, ← Nat.add_mod]
    congr 1
    omega
  rw [hstep] at hk
  have hb2 : ∀ i, 1 ≤ i → i < j + 1 →
      gpi_cp_is_in_group E group ((rank + i) % nProc) = false := by
    intro i hi1 hi2
    have := hb (i - 1) (by omega)
    rw [hstep] at this
    have e : i - 1 + 1 = i := by omega
    rwa [e] at this
  exact ⟨j + 1, by omega, by omega,
    receiver_of_pattern E group rank fuel (j + 1) nProc hnum hn (by omega) (by omega) hb2 hk,
    hk, hb2⟩

/-- With a member below `nProc` in the group, the sender walk ends at its
first member. -/
theorem sender_first (E : Env) (group rank fuel nProc : Nat)
    (hnum : E.proc_num = (GASPI_SUCCESS, nProc)) (hn : 0 < nProc)
    (hmem : ∃ m, m < nProc ∧ gpi_cp_is_in_group E group m = true) (hfuel : nProc ≤ fuel) :
    ∃ k, 1 ≤ k ∧ k ≤ nProc
      ∧ gpi_cp_sender fuel E GPI_CP_POLICY_RING group rank
          = Result.returned (GPI_CP_SUCCESS, (rank + k * (nProc - 1)) % nProc)
      ∧ gpi_cp_is_in_group E group ((rank + k * (nProc - 1)) % nProc) = true
      ∧ ∀ i, 1 ≤ i → i < k →
          gpi_cp_is_in_group E group ((rank + i * (nProc - 1)) % nProc) = false := by
  obtain ⟨j, hj, hb, hk⟩ := down_first_member (gpi_cp_is_in_group E group) nProc
    ((rank + nProc - 1) % nProc) (Nat.mod_lt _ hn) hmem
  have hstep : ∀ i, ((rank + nProc - 1) % nProc + i * (nProc - 1)) % nProc
      = (rank + (i + 1) * (nProc - 1)) % nProc := by
    intro i
    rw [Nat.add_mod ((rank + nProc - 1) % nProc) (i * (nProc - 1)) nProc, Nat.mod_mod,
      ← Nat.add_mod]
    congr 1
    rw [Nat.succ_mul]
    omega
  rw [hstep] at hk
  have hb2 : ∀ i, 1 ≤ i → i < j + 1 →
      gpi_cp_is_in_group E group ((rank + i * (nProc - 1)) % nProc) = false := by
    intro i hi1 hi2
    have := hb (i - 1) (by omega)
    rw [hstep] at this
    have e : i - 1 + 1 = i := by omega
    rwa [e] at this
  exact ⟨j + 1, by omega, by omega,
    sender_of_pattern E group rank fuel (j + 1) nProc hnum hn (by omega) (by omega) hb2 hk,
    hk, hb2⟩

/-! ## Claims about the topology resolver -/

/-- C7: for `nProc > 0`, a group whose members all lie below `nProc` and a rank
`r` in the group, with fuel for `nProc` membership tests both resolver calls
return `GPI_CP_SUCCESS`, and the receiver of the sender of `r` is `r`, and the
sender of the receiver of `r` is `r`. -/
theorem C7_ring_consistent (E : Env) (group r fuel nProc : Nat)
    (hnum : E.proc_num = (GASPI_SUCCESS, nProc)) (hn : 0 < nProc)
    (hsub : ∀ x, gpi_cp_is_in_group E group x = true → x < nProc)
    (hr : gpi_cp_is_in_group E group r = true) (hfuel : nProc ≤ fuel) :
    ∃ s c,
      gpi_cp_sender fuel E GPI_CP_POLICY_RING group r = Result.returned (GPI_CP_SUCCESS, s)
      ∧ gpi_cp_receiver fuel E GPI_CP_POLICY_RING group r
          = Result.returned (GPI_CP_SUCCESS, c)
      ∧ gpi_cp_receiver fuel E GPI_CP_POLICY_RING group s
          = Result.returned (GPI_CP_SUCCESS, r)
      ∧ gpi_cp_sender fuel E GPI_CP_POLICY_RING group c
          = Result.returned (GPI_CP_SUCCESS, r) := by
  have hrn : r < nProc := hsub r hr
  have hmem : ∃ m, m < nProc ∧ gpi_cp_is_in_group E group m = true := ⟨r, hrn, hr⟩
  obtain ⟨k, hk1, hkn, hs, _, hsb⟩ := sender_first E group r fuel nProc hnum hn hmem hfuel
  obtain ⟨l, hl1, hln, hc, _, hcb⟩ := receiver_first E group r fuel nProc hnum hn hmem hfuel
  refine ⟨_, _, hs, hc, ?_, ?_⟩
  · have hup : ∀ i, i ≤ k → ((r + k * (nProc - 1)) % nProc + i) % nProc
        = (r + (k - i) * (nProc - 1)) % nProc := by
      intro i hi
      rw [Nat.add_mod ((r + k * (nProc - 1)) % nProc) i nProc, Nat.mod_mod, ← Nat.add_mod]
      exact mod_shift_up r k i nProc hi hn
    have hend : ((r + k * (nProc - 1)) % nProc + k) % nProc = r := by
      rw [hup k (le_refl _)]
      simpa using Nat.mod_eq_of_lt hrn
    have := receiver_of_pattern E group ((r + k * (nProc - 1)) % nProc) fuel k nProc hnum hn
      hk1 (by omega)
      (fun i hi1 hi2 => by rw [hup i (by omega)]; exact hsb (k - i) (by omega) (by omega))
      (by rw [hend]; exact hr)
    rw [hend] at this
    exact this
  · have hdown : ∀ i, i ≤ l → ((r + l) % nProc + i * (nProc - 1)) % nProc
        = (r + (l - i)) % nProc := by
      intro i hi
      rw [Nat.add_mod ((r + l) % nProc) (i * (nProc - 1)) nProc, Nat.mod_mod, ← Nat.add_mod]
      exact mod_shift_down r l i nProc hi hn
    have hend : ((r + l) % nProc + l * (nProc - 1)) % nProc = r := by
      rw [hdown l (le_refl _)]
      simpa using Nat.mod_eq_of_lt hrn
    have := sender_of_pattern E group ((r + l) % nProc) fuel l nProc hnum hn
      hl1 (by omega)
      (fun i hi1 hi2 => by rw [hdown i (by omega)]; exact hcb (l - i) (by omega) (by omega))
      (by rw [hend]; exact hr)
    rw [hend] at this
    exact this

/-- C7, at rank 2 of the group {0, 2, 3} among 5 processes: the sender is 0,
the receiver is 3. -/
theorem C7_ring_consistent_witness :
    ∃ s c,
      gpi_cp_sender 5 (exampleEnv 2 5 [0, 2, 3] 0) GPI_CP_POLICY_RING 0 2
        = Result.returned (GPI_CP_SUCCESS, s)
      ∧ gpi_cp_receiver 5 (exampleEnv 2 5 [0, 2, 3] 0) GPI_CP_POLICY_RING 0 2
          = Result.returned (GPI_CP_SUCCESS, c)
      ∧ gpi_cp_receiver 5 (exampleEnv 2 5 [0, 2, 3] 0) GPI_CP_POLICY_RING 0 s
          = Result.returned (GPI_CP_SUCCESS, 2)
      ∧ gpi_cp_sender 5 (exampleEnv 2 5 [0, 2, 3] 0) GPI_CP_POLICY_RING 0 c
          = Result.returned (GPI_CP_SUCCESS, 2) :=
  C7_ring_consistent (exampleEnv 2 5 [0, 2, 3] 0) 0 2 5 5 rfl (by decide)
    (by
      intro x hx
      simp [gpi_cp_is_in_group, exampleEnv] at hx
      obtain ⟨i, hi, hx⟩ := hx
      interval_cases i <;> simp at hx <;> omega)
    (by decide) (le_refl _)

/-- C8: for `nProc > 0`, a group with a member below `nProc` and every rank
(below `nProc` or not), `gpi_cp_receiver` under the RING policy returns within `nProc`
membership tests the first member met on the walk `(rank+1) mod nProc`,
`(rank+2) mod nProc`, ...: it is `k` steps up for some `1 ≤ k ≤ nProc`, it is in
the group and no rank fewer steps up is; `gpi_cp_sender` is the mirror image
walking down.  When every rank below `nProc` is in the group the receiver is
`(rank+1) mod nProc` and the sender `(rank-1) mod nProc`. -/
theorem C8_ring_walk (E : Env) (group rank fuel nProc : Nat)
    (hnum : E.proc_num = (GASPI_SUCCESS, nProc)) (hn : 0 < nProc)
    (hmem : ∃ m, m < nProc ∧ gpi_cp_is_in_group E group m = true)
    (hfuel : nProc ≤ fuel) :
    (∃ k, 1 ≤ k ∧ k ≤ nProc
      ∧ gpi_cp_receiver fuel E GPI_CP_POLICY_RING group rank
          = Result.returned (GPI_CP_SUCCESS, (rank + k) % nProc)
      ∧ gpi_cp_is_in_group E group ((rank + k) % nProc) = true
      ∧ ∀ i, 1 ≤ i → i < k → gpi_cp_is_in_group E group ((rank + i) % nProc) = false)
    ∧ (∃ k, 1 ≤ k ∧ k ≤ nProc
      ∧ gpi_cp_sender fuel E GPI_CP_POLICY_RING group rank
          = Result.returned (GPI_CP_SUCCESS, (rank + nProc - k) % nProc)
      ∧ gpi_cp_is_in_group E group ((rank + nProc - k) % nProc) = true
      ∧ ∀ i, 1 ≤ i → i < k →
          gpi_cp_is_in_group E group ((rank + nProc - i) % nProc) = false)
    ∧ ((∀ x, x < nProc → gpi_cp_is_in_group E group x = true) →
      gpi_cp_receiver fuel E GPI_CP_POLICY_RING group rank
          = Result.returned (GPI_CP_SUCCESS, (rank + 1) % nProc)
      ∧ gpi_cp_sender fuel E GPI_CP_POLICY_RING group rank
          = Result.returned (GPI_CP_SUCCESS, (rank + nProc - 1) % nProc)) := by
  obtain ⟨k, hk1, hkn, hc, hcin, hcb⟩ :=
    receiver_first E group rank fuel nProc hnum hn hmem hfuel
  obtain ⟨l, hl1, hln, hs, hsin, hsb⟩ :=
    sender_first E group rank fuel nProc hnum hn hmem hfuel
  refine ⟨⟨k, hk1, hkn, hc, hcin, hcb⟩, ⟨l, hl1, hln, ?_, ?_, ?_⟩, ?_⟩
  · rw [← mod_down_form rank l nProc hl1 hln]
    exact hs
  · rw [← mod_down_form rank l nProc hl1 hln]
    exact hsin
  · intro i hi1 hi2
    rw [← mod_down_form rank i nProc hi1 (by omega)]
    exact hsb i hi1 hi2
  · intro hall
    constructor
    · have := receiver_of_pattern E group rank fuel 1 nProc hnum hn (le_refl _) (by omega)
        (fun i hi1 hi2 => by omega) (hall _ (Nat.mod_lt _ hn))
      exact this
    · have := sender_of_pattern E group rank fuel 1 nProc hnum hn (le_refl _) (by omega)
        (fun i hi1 hi2 => by omega) (hall _ (Nat.mod_lt _ hn))
      rw [mod_down_form rank 1 nProc (le_refl _) (by omega)] at this
      exact this

/-- C8, at rank 3 of 5 processes with the group {0, 3}. -/
theorem C8_ring_walk_witness :
    (∃ k, 1 ≤ k ∧ k ≤ 5
      ∧ gpi_cp_receiver 5 (exampleEnv 3 5 [0, 3] 0) GPI_CP_POLICY_RING 0 3
          = Result.returned (GPI_CP_SUCCESS, (3 + k) % 5)
      ∧ gpi_cp_is_in_group (exampleEnv 3 5 [0, 3] 0) 0 ((3 + k) % 5) = true
      ∧ ∀ i, 1 ≤ i → i < k →
          gpi_cp_is_in_group (exampleEnv 3 5 [0, 3] 0) 0 ((3 + i) % 5) = false)
    ∧ (∃ k, 1 ≤ k ∧ k ≤ 5
      ∧ gpi_cp_sender 5 (exampleEnv 3 5 [0, 3] 0) GPI_CP_POLICY_RING 0 3
          = Result.returned (GPI_CP_SUCCESS, (3 + 5 - k) % 5)
      ∧ gpi_cp_is_in_group (exampleEnv 3 5 [0, 3] 0) 0 ((3 + 5 - k) % 5) = true
      ∧ ∀ i, 1 ≤ i → i < k →
          gpi_cp_is_in_group (exampleEnv 3 5 [0, 3] 0) 0 ((3 + 5 - i) % 5) = false)
    ∧ ((∀ x, x < 5 → gpi_cp_is_in_group (exampleEnv 3 5 [0, 3] 0) 0 x = true) →
      gpi_cp_receiver 5 (exampleEnv 3 5 [0, 3] 0) GPI_CP_POLICY_RING 0 3
          = Result.returned (GPI_CP_SUCCESS, (3 + 1) % 5)
      ∧ gpi_cp_sender 5 (exampleEnv 3 5 [0, 3] 0) GPI_CP_POLICY_RING 0 3
          = Result.returned (GPI_CP_SUCCESS, (3 + 5 - 1) % 5)) :=
  C8_ring_walk (exampleEnv 3 5 [0, 3] 0) 0 3 5 5 rfl (by decide)
    ⟨0, by decide, by decide⟩ (le_refl _)

/-- C9 fails on the code: among 3 processes with the group {0, 2}, rank 1 is
not a member, yet both resolver calls return `GPI_CP_SUCCESS` (19000, not
`GPI_CP_ERROR_UNDEFINED_RANK` = 19003) with the neighbouring members 2 and 0. -/
theorem C9_counterexample :
    gpi_cp_is_in_group (exampleEnv 1 3 [0, 2] 0) 0 1 = false
    ∧ gpi_cp_receiver 3 (exampleEnv 1 3 [0, 2] 0) GPI_CP_POLICY_RING 0 1
        = Result.returned (19000, 2)
    ∧ gpi_cp_sender 3 (exampleEnv 1 3 [0, 2] 0) GPI_CP_POLICY_RING 0 1
        = Result.returned (19000, 0)
    ∧ GPI_CP_ERROR_UNDEFINED_RANK = 19003 := by
  decide

/-- C9 as amended: the resolver returns `GPI_CP_ERROR_UNDEFINED_RANK`, with the
rank itself in the out-parameter and without entering the walk, when the policy
is not RING or the process count is unavailable, and only then; it makes no
membership test on `rank`: under RING with `nProc > 0` and a group that has a
member below `nProc` it returns `GPI_CP_SUCCESS` with a member of the group
within `nProc` membership tests, whether or not `rank` is a member. -/
theorem C9_resolver_undefined_rank (E : Env) (policy : Int) (group rank fuel : Nat) :
    ((policy ≠ GPI_CP_POLICY_RING ∨ E.proc_num.1 ≠ GASPI_SUCCESS) →
      gpi_cp_sender fuel E policy group rank
          = Result.returned (GPI_CP_ERROR_UNDEFINED_RANK, rank)
      ∧ gpi_cp_receiver fuel E policy group rank
          = Result.returned (GPI_CP_ERROR_UNDEFINED_RANK, rank))
    ∧ (∀ v, gpi_cp_sender fuel E policy group rank
          = Result.returned (GPI_CP_ERROR_UNDEFINED_RANK, v) →
        policy ≠ GPI_CP_POLICY_RING ∨ E.proc_num.1 ≠ GASPI_SUCCESS)
    ∧ (∀ v, gpi_cp_receiver fuel E policy group rank
          = Result.returned (GPI_CP_ERROR_UNDEFINED_RANK, v) →
        policy ≠ GPI_CP_POLICY_RING ∨ E.proc_num.1 ≠ GASPI_SUCCESS)
    ∧ (policy = GPI_CP_POLICY_RING → E.proc_num.1 = GASPI_SUCCESS → 0 < E.proc_num.2 →
        (∃ m, m < E.proc_num.2 ∧ gpi_cp_is_in_group E group m = true) →
        E.proc_num.2 ≤ fuel →
        ∃ s c,
          gpi_cp_sender fuel E policy group rank = Result.returned (GPI_CP_SUCCESS, s)
          ∧ gpi_cp_is_in_group E group s = true
          ∧ gpi_cp_receiver fuel E policy group rank = Result.returned (GPI_CP_SUCCESS, c)
          ∧ gpi_cp_is_in_group E group c = true) := by
  refine ⟨?_, ?_, ?_, ?_⟩
  · rintro (h | h)
    · simp [gpi_cp_sender, gpi_cp_receiver, h]
    · have h' : ¬ E.proc_num.1 = 0 := h
      simp [gpi_cp_sender, gpi_cp_receiver, h']
  · intro v hv
    by_contra hcon
    have h1 : policy = 1 := by
      by_contra h; exact hcon (Or.inl h)
    have h2 : E.proc_num.1 = 0 := by
      by_contra h; exact hcon (Or.inr h)
    rw [gpi_cp_sender, if_pos h1, if_pos h2] at hv
    split at hv
    · cases hv
    · split at hv <;> simp at hv
  · intro v hv
    by_contra hcon
    have h1 : policy = 1 := by
      by_contra h; exact hcon (Or.inl h)
    have h2 : E.proc_num.1 = 0 := by
      by_contra h; exact hcon (Or.inr h)
    rw [gpi_cp_receiver, if_pos h1, if_pos h2] at hv
    split at hv
    · cases hv
    · split at hv <;> simp at hv
  · intro hp hnum hn hmem hfuel
    subst hp
    have hnum' : E.proc_num = (GASPI_SUCCESS, E.proc_num.2) := by
      rw [← hnum]
    obtain ⟨k, _, _, hs, hsin, _⟩ :=
      sender_first E group rank fuel E.proc_num.2 hnum' hn hmem hfuel
    obtain ⟨l, _, _, hc, hcin, _⟩ :=
      receiver_first E group rank fuel E.proc_num.2 hnum' hn hmem hfuel
    exact ⟨_, _, hs, hsin, hc, hcin⟩

/-- C9 as amended, at rank 1 outside the group {0, 2} among 3 processes, once
under an unknown policy 7 and once under RING. -/
theorem C9_resolver_undefined_rank_witness :
    (gpi_cp_sender 3 (exampleEnv 1 3 [0, 2] 0) 7 0 1
        = Result.returned (GPI_CP_ERROR_UNDEFINED_RANK, 1)
      ∧ gpi_cp_receiver 3 (exampleEnv 1 3 [0, 2] 0) 7 0 1
        = Result.returned (GPI_CP_ERROR_UNDEFINED_RANK, 1))
    ∧ ∃ s c,
        gpi_cp_sender 3 (exampleEnv 1 3 [0, 2] 0) GPI_CP_POLICY_RING 0 1
          = Result.returned (GPI_CP_SUCCESS, s)
        ∧ gpi_cp_is_in_group (exampleEnv 1 3 [0, 2] 0) 0 s = true
        ∧ gpi_cp_receiver 3 (exampleEnv 1 3 [0, 2] 0) GPI_CP_POLICY_RING 0 1
          = Result.returned (GPI_CP_SUCCESS, c)
        ∧ gpi_cp_is_in_group (exampleEnv 1 3 [0, 2] 0) 0 c = true :=
  ⟨(C9_resolver_undefined_rank (exampleEnv 1 3 [0, 2] 0) 7 0 1 3).1 (Or.inl (by decide)),
    (C9_resolver_undefined_rank (exampleEnv 1 3 [0, 2] 0) GPI_CP_POLICY_RING 0 1 3).2.2.2
      rfl rfl (by decide) ⟨0, by decide, by decide⟩ (le_refl _)⟩

/-- A walk over a group without a member below `nProc` never ends: whatever
the fuel, the receiver loop is still running. -/
theorem receiver_loop_without_member (P : Nat → Bool) (n : Nat)
    (hP : ∀ x, x < n → P x = false) :
    ∀ (fuel cur : Nat), cur < n → gpi_cp_receiver_loop P n fuel cur = Result.looping := by
  intro fuel
  induction fuel with
  | zero => intro cur _; rfl
  | succ f ih =>
    intro cur hcur
    simp [gpi_cp_receiver_loop, hP cur hcur, ih _ (Nat.mod_lt _ (by omega : 0 < n))]

/-- A walk over a group without a member below `nProc` never ends: whatever
the fuel, the sender loop is still running. -/
theorem sender_loop_without_member (P : Nat → Bool) (n : Nat)
    (hP : ∀ x, x < n → P x = false) :
    ∀ (fuel cur : Nat), cur < n → gpi_cp_sender_loop P n fuel cur = Result.looping := by
  intro fuel
  induction fuel with
  | zero => intro cur _; rfl
  | succ f ih =>
    intro cur hcur
    simp [gpi_cp_sender_loop, hP cur hcur, ih _ (Nat.mod_lt _ (by omega : 0 < n))]

/-! ## Claims about start and commit -/

/-- C1: for a descriptor with `state_in_progress` set, held by a rank that is a
member of its group, whose `size` is a value of `gaspi_size_t`: when the queue wait, the notification wait (reporting the one
id it was asked for, `sender`), the notification reset (reporting
`sender + 1`) and the barrier all succeed, `gpi_cp_commit` returns
`GASPI_SUCCESS`, sets `active_snapshot` to `size - active_snapshot`, clears
`state_in_progress` and changes no other field but the counter `in_commit`;
with `size > 0` and the old `active_snapshot` equal to 0 or `size`, the new
value differs from the old one and is again 0 or `size`. -/
theorem C1_commit_toggles (E : Env) (timeout_ms : Nat) (d : gpi_cp_description)
    (tr : List Call)
    (hprog : d.state_in_progress = true)
    (hrank : E.proc_rank.1 = GASPI_SUCCESS)
    (hmem : gpi_cp_is_in_group E d.group E.proc_rank.2 = true)
    (hsize : d.size < OFFSET_MOD)
    (hwait : ∀ t, (E.answer t (Call.wait d.queue timeout_ms)).ret = GASPI_SUCCESS)
    (hnotify : ∀ t, (E.answer t (Call.notify_waitsome d.segment_id_remote_on_receiver
        d.sender 1 timeout_ms)).ret = GASPI_SUCCESS
      ∧ (E.answer t (Call.notify_waitsome d.segment_id_remote_on_receiver
        d.sender 1 timeout_ms)).out = d.sender)
    (hreset : ∀ t, (E.answer t (Call.notify_reset d.segment_id_remote_on_receiver
        d.sender)).ret = GASPI_SUCCESS
      ∧ (E.answer t (Call.notify_reset d.segment_id_remote_on_receiver
        d.sender)).out = d.sender + 1)
    (hbarrier : ∀ t, (E.answer t (Call.barrier d.group timeout_ms)).ret = GASPI_SUCCESS) :
    (gpi_cp_commit E timeout_ms d tr).ret = GASPI_SUCCESS
    ∧ (gpi_cp_commit E timeout_ms d tr).d =
        { d with
          active_snapshot := (d.size + OFFSET_MOD - d.active_snapshot) % OFFSET_MOD
          state_in_progress := false
          in_commit := (gpi_cp_commit E timeout_ms d tr).d.in_commit }
    ∧ (d.active_snapshot ≤ d.size →
        (gpi_cp_commit E timeout_ms d tr).d.active_snapshot = d.size - d.active_snapshot)
    ∧ (0 < d.size → (d.active_snapshot = 0 ∨ d.active_snapshot = d.size) →
        (gpi_cp_commit E timeout_ms d tr).d.active_snapshot ≠ d.active_snapshot
        ∧ ((gpi_cp_commit E timeout_ms d tr).d.active_snapshot = 0
          ∨ (gpi_cp_commit E timeout_ms d tr).d.active_snapshot = d.size)) := by
  have hrun : gpi_cp_commit E timeout_ms d tr
      = gpi_cp_commit_end E (gettimeofday E tr).1
          { d with
            active_snapshot := (d.size + OFFSET_MOD - d.active_snapshot) % OFFSET_MOD
            state_in_progress := false }
          (Call.barrier d.group timeout_ms
            :: Call.notify_reset d.segment_id_remote_on_receiver d.sender
            :: Call.notify_waitsome d.segment_id_remote_on_receiver d.sender 1 timeout_ms
            :: Call.wait d.queue timeout_ms :: Call.gettimeofday :: tr) := by
    simp [gpi_cp_commit, gpi_cp_wait_for_notification_from, gaspi, gettimeofday, hprog,
      hrank, hmem, hwait, hnotify, hreset, hbarrier]
  rw [hrun]
  simp only [gpi_cp_commit_end, OFFSET_MOD] at hsize ⊢
  refine ⟨trivial, trivial, ?_, ?_⟩
  · intro hle
    show (d.size + 2 ^ 64 - d.active_snapshot) % 2 ^ 64 = d.size - d.active_snapshot
    omega
  · intro hpos hor
    show (d.size + 2 ^ 64 - d.active_snapshot) % 2 ^ 64 ≠ d.active_snapshot
      ∧ ((d.size + 2 ^ 64 - d.active_snapshot) % 2 ^ 64 = 0
        ∨ (d.size + 2 ^ 64 - d.active_snapshot) % 2 ^ 64 = d.size)
    omega

/-- C1, at rank 1 of the ring 0, 1, 2 with a snapshot of 8 bytes in flight and
`active_snapshot = 0`: commit succeeds and moves `active_snapshot` to 8. -/
theorem C1_commit_toggles_witness :
    (gpi_cp_commit (exampleEnv 1 3 [0, 1, 2] 0) 0 exampleInFlight []).ret = GASPI_SUCCESS
    ∧ (gpi_cp_commit (exampleEnv 1 3 [0, 1, 2] 0) 0 exampleInFlight []).d.active_snapshot
        = 8 - 0
    ∧ (gpi_cp_commit (exampleEnv 1 3 [0, 1, 2] 0) 0 exampleInFlight []).d.active_snapshot
        ≠ 0 :=
  have h := C1_commit_toggles (exampleEnv 1 3 [0, 1, 2] 0) 0 exampleInFlight [] rfl rfl
    (by decide) (by decide) (fun _ => rfl) (fun _ => ⟨rfl, rfl⟩)
    (fun _ => ⟨rfl, rfl⟩) (fun _ => rfl)
  ⟨h.1, h.2.2.1 (by decide), (h.2.2.2 (by decide) (Or.inl rfl)).1⟩

/-- C2: for a descriptor with `state_in_progress` set, held by a rank that is a
member of its group, `gpi_cp_start` returns `GASPI_ERROR`, leaves every field
of the descriptor (the counters included) as it was, and issues nothing: the
trace grows by the one clock read at entry, so there is no `write_notify` and
no queue wait. -/
theorem C2_start_in_progress_fails (E : Env) (timeout_ms : Nat) (d : gpi_cp_description)
    (tr : List Call)
    (hprog : d.state_in_progress = true)
    (hrank : E.proc_rank.1 = GASPI_SUCCESS)
    (hmem : gpi_cp_is_in_group E d.group E.proc_rank.2 = true) :
    gpi_cp_start E timeout_ms d tr
      = { ret := GASPI_ERROR, d := d, trace := Call.gettimeofday :: tr } := by
  simp [gpi_cp_start, gettimeofday, hprog, hrank, hmem]

/-- C2, at rank 1 of the ring 0, 1, 2 with a snapshot in flight. -/
theorem C2_start_in_progress_fails_witness :
    gpi_cp_start (exampleEnv 1 3 [0, 1, 2] 0) 0 exampleInFlight []
      = { ret := GASPI_ERROR, d := exampleInFlight, trace := [Call.gettimeofday] } :=
  C2_start_in_progress_fails (exampleEnv 1 3 [0, 1, 2] 0) 0 exampleInFlight [] rfl rfl
    (by decide)

/-- C3: for a descriptor with `state_in_progress` clear, held by a rank that is
a member of its group: when `gaspi_queue_size_max`, the queue wait (if one is
made) and the `write_notify` succeed, `gpi_cp_start` returns `GASPI_SUCCESS`,
sets `state_in_progress`, changes no other field but the counter `in_start`
(so `active_snapshot` stays), and issues exactly one `write_notify`, with local
segment `segment_id_local_client_source`, local offset `offset`, target rank
`receiver`, remote segment `segment_id_remote_on_receiver`, remote offset
`active_snapshot`, length `size`, notification id the own rank, notification
value the own rank plus one, and queue `queue`. -/
theorem C3_start_writes (E : Env) (timeout_ms : Nat) (d : gpi_cp_description)
    (tr : List Call)
    (hprog : d.state_in_progress = false)
    (hrank : E.proc_rank.1 = GASPI_SUCCESS)
    (hmem : gpi_cp_is_in_group E d.group E.proc_rank.2 = true)
    (hqmax : ∀ t, (E.answer t Call.queue_size_max).ret = GASPI_SUCCESS)
    (hwait : ∀ t, (E.answer t (Call.wait d.queue timeout_ms)).ret = GASPI_SUCCESS)
    (hwrite : ∀ t, (E.answer t (Call.write_notify d.segment_id_local_client_source
        d.offset d.receiver d.segment_id_remote_on_receiver d.active_snapshot d.size
        E.proc_rank.2 (E.proc_rank.2 + 1) d.queue timeout_ms)).ret = GASPI_SUCCESS) :
    (gpi_cp_start E timeout_ms d tr).ret = GASPI_SUCCESS
    ∧ (gpi_cp_start E timeout_ms d tr).d =
        { d with
          state_in_progress := true
          in_start := (gpi_cp_start E timeout_ms d tr).d.in_start }
    ∧ ∃ issued, (gpi_cp_start E timeout_ms d tr).trace = issued ++ tr
        ∧ issued.filter Call.is_write_notify =
          [Call.write_notify d.segment_id_local_client_source d.offset d.receiver
            d.segment_id_remote_on_receiver d.active_snapshot d.size E.proc_rank.2
            (E.proc_rank.2 + 1) d.queue timeout_ms] := by
  by_cases hq : (E.answer (Call.queue_size_max :: Call.gettimeofday :: tr)
      (Call.queue_size d.queue)).out
      > ((E.answer (Call.gettimeofday :: tr) Call.queue_size_max).out + NUMBER_MOD - 24)
        % NUMBER_MOD
  · have hrun : gpi_cp_start E timeout_ms d tr
        = gpi_cp_start_end E (gettimeofday E tr).1 { d with state_in_progress := true }
            (Call.write_notify d.segment_id_local_client_source d.offset d.receiver
                d.segment_id_remote_on_receiver d.active_snapshot d.size E.proc_rank.2
                (E.proc_rank.2 + 1) d.queue timeout_ms
              :: Call.wait d.queue timeout_ms :: Call.queue_size d.queue
              :: Call.queue_size_max :: Call.gettimeofday :: tr) := by
      simp [gpi_cp_start, gaspi, gettimeofday, hprog, hrank, hmem, hqmax, hwait, hwrite,
        hq]
    rw [hrun]
    refine ⟨rfl, rfl, [_, _, _, _, _, _], rfl, ?_⟩
    simp [gettimeofday, Call.is_write_notify]
  · have hrun : gpi_cp_start E timeout_ms d tr
        = gpi_cp_start_end E (gettimeofday E tr).1 { d with state_in_progress := true }
            (Call.write_notify d.segment_id_local_client_source d.offset d.receiver
                d.segment_id_remote_on_receiver d.active_snapshot d.size E.proc_rank.2
                (E.proc_rank.2 + 1) d.queue timeout_ms
              :: Call.queue_size d.queue
              :: Call.queue_size_max :: Call.gettimeofday :: tr) := by
      simp [gpi_cp_start, gaspi, gettimeofday, hprog, hrank, hmem, hqmax, hwrite, hq]
    rw [hrun]
    refine ⟨rfl, rfl, [_, _, _, _, _], rfl, ?_⟩
    simp [gettimeofday, Call.is_write_notify]

/-- C3, at rank 1 of the ring 0, 1, 2 with no snapshot in flight. -/
theorem C3_start_writes_witness :
    (gpi_cp_start (exampleEnv 1 3 [0, 1, 2] 0) 0 exampleIdle []).ret = GASPI_SUCCESS
    ∧ (gpi_cp_start (exampleEnv 1 3 [0, 1, 2] 0) 0 exampleIdle []).d.state_in_progress
        = true :=
  have h := C3_start_writes (exampleEnv 1 3 [0, 1, 2] 0) 0 exampleIdle [] rfl rfl
    (by decide) (fun _ => rfl) (fun _ => rfl) (fun _ => rfl)
  ⟨h.1, by rw [h.2.1]⟩

/-- Whatever `gpi_cp_start` returns on an idle descriptor of a group member, it
has set `state_in_progress` and nothing else but `in_start`. -/
theorem start_idle_effect (E : Env) (timeout_ms : Nat) (d : gpi_cp_description)
    (tr : List Call)
    (hprog : d.state_in_progress = false)
    (hrank : E.proc_rank.1 = GASPI_SUCCESS)
    (hmem : gpi_cp_is_in_group E d.group E.proc_rank.2 = true) :
    (gpi_cp_start E timeout_ms d tr).d =
      { d with
        state_in_progress := true
        in_start := (gpi_cp_start E timeout_ms d tr).d.in_start } := by
  simp only [gpi_cp_start, hprog, hrank, hmem]
  simp only [ne_eq, not_true_eq_false, if_false, if_true, Bool.false_eq_true]
  split_ifs <;> rfl

/-- A `gpi_cp_commit` that returns `GASPI_SUCCESS` on an in-flight descriptor
of a group member has toggled `active_snapshot` and cleared
`state_in_progress`. -/
theorem commit_success_effect (E : Env) (timeout_ms : Nat) (d : gpi_cp_description)
    (tr : List Call)
    (hprog : d.state_in_progress = true)
    (hrank : E.proc_rank.1 = GASPI_SUCCESS)
    (hmem : gpi_cp_is_in_group E d.group E.proc_rank.2 = true)
    (hret : (gpi_cp_commit E timeout_ms d tr).ret = GASPI_SUCCESS) :
    (gpi_cp_commit E timeout_ms d tr).d =
      { d with
        active_snapshot := (d.size + OFFSET_MOD - d.active_snapshot) % OFFSET_MOD
        state_in_progress := false
        in_commit := (gpi_cp_commit E timeout_ms d tr).d.in_commit } := by
  simp only [gpi_cp_commit, hprog, hrank, hmem] at hret ⊢
  simp only [ne_eq, not_true_eq_false, if_false, if_true] at hret ⊢
  split_ifs at hret ⊢ <;> first | rfl | (exfalso; simp_all)

/-- C4: for a descriptor with `state_in_progress` clear (the rank of the caller
being known), `gpi_cp_commit` returns `GASPI_SUCCESS`, issues no queue wait, no
notification wait and no barrier (the trace grows by the two clock reads
only), and changes no field but the counter `in_commit`.  Hence, for a member
of the group, after one `gpi_cp_start` a first `gpi_cp_commit` that succeeds
toggles `active_snapshot` and a second one succeeds and leaves it there. -/
theorem C4_commit_idle (E : Env) (timeout_ms : Nat) (d : gpi_cp_description)
    (tr : List Call)
    (hprog : d.state_in_progress = false)
    (hrank : E.proc_rank.1 = GASPI_SUCCESS) :
    gpi_cp_commit E timeout_ms d tr =
        { ret := GASPI_SUCCESS
          d := { d with
            in_commit :=
              timeval_add d.in_commit (E.clock tr) (E.clock (Call.gettimeofday :: tr)) }
          trace := Call.gettimeofday :: Call.gettimeofday :: tr }
    ∧ (gpi_cp_is_in_group E d.group E.proc_rank.2 = true →
        (gpi_cp_commit E timeout_ms (gpi_cp_start E timeout_ms d tr).d
          (gpi_cp_start E timeout_ms d tr).trace).ret = GASPI_SUCCESS →
        (gpi_cp_commit E timeout_ms (gpi_cp_start E timeout_ms d tr).d
            (gpi_cp_start E timeout_ms d tr).trace).d.active_snapshot
          = (d.size + OFFSET_MOD - d.active_snapshot) % OFFSET_MOD
        ∧ (gpi_cp_commit E timeout_ms
            (gpi_cp_commit E timeout_ms (gpi_cp_start E timeout_ms d tr).d
              (gpi_cp_start E timeout_ms d tr).trace).d
            (gpi_cp_commit E timeout_ms (gpi_cp_start E timeout_ms d tr).d
              (gpi_cp_start E timeout_ms d tr).trace).trace).ret = GASPI_SUCCESS
        ∧ (gpi_cp_commit E timeout_ms
            (gpi_cp_commit E timeout_ms (gpi_cp_start E timeout_ms d tr).d
              (gpi_cp_start E timeout_ms d tr).trace).d
            (gpi_cp_commit E timeout_ms (gpi_cp_start E timeout_ms d tr).d
              (gpi_cp_start E timeout_ms d tr).trace).trace).d.active_snapshot
          = (d.size + OFFSET_MOD - d.active_snapshot) % OFFSET_MOD) := by
  have idle : ∀ (d1 : gpi_cp_description) (t1 : List Call),
      d1.state_in_progress = false →
      gpi_cp_commit E timeout_ms d1 t1 =
        { ret := GASPI_SUCCESS
          d := { d1 with
            in_commit :=
              timeval_add d1.in_commit (E.clock t1) (E.clock (Call.gettimeofday :: t1)) }
          trace := Call.gettimeofday :: Call.gettimeofday :: t1 } := by
    intro d1 t1 h1
    by_cases hm : gpi_cp_is_in_group E d1.group E.proc_rank.2 = true
    · simp [gpi_cp_commit, gpi_cp_commit_end, gettimeofday, h1, hrank, hm]
    · simp [gpi_cp_commit, gpi_cp_commit_end, gettimeofday, hrank, hm]
  refine ⟨idle d tr hprog, ?_⟩
  intro hmem hret
  have hs := start_idle_effect E timeout_ms d tr hprog hrank hmem
  have hc := commit_success_effect E timeout_ms (gpi_cp_start E timeout_ms d tr).d
    (gpi_cp_start E timeout_ms d tr).trace (by rw [hs]) hrank (by rw [hs]; exact hmem) hret
  have hact : (gpi_cp_commit E timeout_ms (gpi_cp_start E timeout_ms d tr).d
      (gpi_cp_start E timeout_ms d tr).trace).d.active_snapshot
      = (d.size + OFFSET_MOD - d.active_snapshot) % OFFSET_MOD := by
    rw [hc, hs]
  have hidle2 : (gpi_cp_commit E timeout_ms (gpi_cp_start E timeout_ms d tr).d
      (gpi_cp_start E timeout_ms d tr).trace).d.state_in_progress = false := by
    rw [hc]
  refine ⟨hact, ?_, ?_⟩
  · rw [idle _ _ hidle2]
  · rw [idle _ _ hidle2]
    exact hact

/-- C4, at rank 1 of the ring 0, 1, 2 with no snapshot in flight: commit alone
returns success and keeps `active_snapshot = 0`. -/
theorem C4_commit_idle_witness :
    (gpi_cp_commit (exampleEnv 1 3 [0, 1, 2] 0) 0 exampleIdle []).ret = GASPI_SUCCESS
    ∧ (gpi_cp_commit (exampleEnv 1 3 [0, 1, 2] 0) 0 exampleIdle []).d.active_snapshot = 0
    ∧ (gpi_cp_commit (exampleEnv 1 3 [0, 1, 2] 0) 0 exampleIdle []).trace
        = [Call.gettimeofday, Call.gettimeofday] :=
  have h := (C4_commit_idle (exampleEnv 1 3 [0, 1, 2] 0) 0 exampleIdle [] rfl rfl).1
  ⟨by rw [h], by rw [h]; rfl, by rw [h]⟩

/-! ## Claims about init -/

/-- C5 as amended: after a `gpi_cp_init` that returns `GASPI_SUCCESS`, whatever
the descriptor held before, `offset`, `size`, the client segment, `queue` and
`group` equal the arguments and `active_snapshot = 0`; `state_in_progress` is
not written by init and keeps its value, which is `false` for a descriptor made
by `GPI_CP_DESCRIPTION_INITIALIZER`; when the calling rank is a member of
`group`, `state_initialized = true` and `sender` and `receiver` are the
resolver's results for the calling rank in `group`; when it is not, init
leaves `state_initialized`, `sender` and `receiver` as they were. -/
theorem C5_init_postcondition (fuel : Nat) (E : Env)
    (segment_id_checkpoint offset size queue : Nat) (policy : Int)
    (group timeout_ms : Nat) (d0 : gpi_cp_description) (tr : List Call) (o : Out)
    (hret : gpi_cp_init fuel E segment_id_checkpoint offset size queue policy group
      timeout_ms d0 tr = Result.returned o)
    (hok : o.ret = GASPI_SUCCESS) :
    o.d.offset = offset ∧ o.d.size = size
    ∧ o.d.segment_id_local_client_source = segment_id_checkpoint
    ∧ o.d.queue = queue ∧ o.d.group = group ∧ o.d.active_snapshot = 0
    ∧ o.d.state_in_progress = d0.state_in_progress
    ∧ (gpi_cp_is_in_group E group E.proc_rank.2 = true →
        o.d.state_initialized = true
        ∧ gpi_cp_sender fuel E policy group E.proc_rank.2
            = Result.returned (GPI_CP_SUCCESS, o.d.sender)
        ∧ gpi_cp_receiver fuel E policy group E.proc_rank.2
            = Result.returned (GPI_CP_SUCCESS, o.d.receiver))
    ∧ (gpi_cp_is_in_group E group E.proc_rank.2 = false →
        o.d.state_initialized = d0.state_initialized
        ∧ o.d.sender = d0.sender ∧ o.d.receiver = d0.receiver)
    ∧ (∀ block, d0 = GPI_CP_DESCRIPTION_INITIALIZER block →
        o.d.state_in_progress = false) := by
  unfold gpi_cp_init at hret
  simp only [gpi_cp_init_end, gettimeofday] at hret
  repeat' split at hret
  all_goals cases hret
  all_goals simp_all
  · refine ⟨⟨?_, ?_⟩, fun block _ => rfl⟩
    · apply Prod.ext
      · assumption
      · rfl
    · apply Prod.ext
      · assumption
      · rfl
  · intro block _
    rfl

/-- C5 fails on the code in two ways.  At rank 1 of the ring 0, 1, 2 a
descriptor that enters with `state_in_progress = true` leaves a successful
`gpi_cp_init` with the flag still `true`; at rank 3, outside the group
{0, 1, 2}, `gpi_cp_init` returns `GASPI_SUCCESS` and `state_initialized` is
still `false`. -/
theorem C5_counterexample :
    (∃ o, gpi_cp_init 3 (exampleEnv 1 3 [0, 1, 2] 2) 0 0 8 0 GPI_CP_POLICY_RING 0 0
        exampleInFlight [] = Result.returned o
      ∧ o.ret = GASPI_SUCCESS ∧ o.d.state_in_progress = true)
    ∧ (∃ o, gpi_cp_init 4 (exampleEnv 3 4 [0, 1, 2] 2) 0 0 8 0 GPI_CP_POLICY_RING 0 0
        exampleDescription [] = Result.returned o
      ∧ o.ret = GASPI_SUCCESS ∧ o.d.state_initialized = false) := by
  refine ⟨⟨_, rfl, rfl, rfl⟩, ⟨_, rfl, rfl, rfl⟩⟩

/-- C5 as amended, at rank 1 of the ring 0, 1, 2 with a fresh descriptor. -/
theorem C5_init_postcondition_witness :
    ∃ o, gpi_cp_init 3 (exampleEnv 1 3 [0, 1, 2] 2) 0 0 8 0 GPI_CP_POLICY_RING 0 0
        (GPI_CP_DESCRIPTION_INITIALIZER exampleDescription) [] = Result.returned o
      ∧ o.d.size = 8 ∧ o.d.active_snapshot = 0 ∧ o.d.state_in_progress = false
      ∧ o.d.state_initialized = true ∧ o.d.sender = 0 ∧ o.d.receiver = 2 := by
  obtain ⟨o, ho, hok⟩ : ∃ o, gpi_cp_init 3 (exampleEnv 1 3 [0, 1, 2] 2) 0 0 8 0
      GPI_CP_POLICY_RING 0 0 (GPI_CP_DESCRIPTION_INITIALIZER exampleDescription) []
        = Result.returned o ∧ o.ret = GASPI_SUCCESS := ⟨_, rfl, rfl⟩
  have h := C5_init_postcondition 3 (exampleEnv 1 3 [0, 1, 2] 2) 0 0 8 0
    GPI_CP_POLICY_RING 0 0 (GPI_CP_DESCRIPTION_INITIALIZER exampleDescription) [] o ho hok
  obtain ⟨_, h2, _, _, _, h6, _, h8, _, h10⟩ := h
  obtain ⟨hi, hs, hr⟩ := h8 (by decide)
  refine ⟨o, ho, h2, h6, h10 _ rfl, hi, ?_, ?_⟩
  · have e : gpi_cp_sender 3 (exampleEnv 1 3 [0, 1, 2] 2) GPI_CP_POLICY_RING 0
        (exampleEnv 1 3 [0, 1, 2] 2).proc_rank.2 = Result.returned (GPI_CP_SUCCESS, 0) := by
      decide
    rw [e] at hs
    injection hs with hs
    injection hs with _ hs
    exact hs.symm
  · have e : gpi_cp_receiver 3 (exampleEnv 1 3 [0, 1, 2] 2) GPI_CP_POLICY_RING 0
        (exampleEnv 1 3 [0, 1, 2] 2).proc_rank.2 = Result.returned (GPI_CP_SUCCESS, 2) := by
      decide
    rw [e] at hr
    injection hr with hr
    injection hr with _ hr
    exact hr.symm

/-! ## What the calls leave in `active_snapshot` and `size` -/

theorem init_clears_snapshot (fuel : Nat) (E : Env)
    (segment_id_checkpoint offset size queue : Nat) (policy : Int)
    (group timeout_ms : Nat) (d0 : gpi_cp_description) (tr : List Call) (o : Out)
    (hret : gpi_cp_init fuel E segment_id_checkpoint offset size queue policy group
      timeout_ms d0 tr = Result.returned o) :
    o.d.active_snapshot = 0 ∧ o.d.size = size := by
  unfold gpi_cp_init at hret
  simp only [gpi_cp_init_end, gettimeofday] at hret
  repeat' split at hret
  all_goals cases hret
  all_goals exact ⟨rfl, rfl⟩

theorem start_keeps_snapshot (E : Env) (timeout_ms : Nat) (d : gpi_cp_description)
    (tr : List Call) :
    (gpi_cp_start E timeout_ms d tr).d.active_snapshot = d.active_snapshot
    ∧ (gpi_cp_start E timeout_ms d tr).d.size = d.size := by
  simp only [gpi_cp_start, gpi_cp_start_end]
  split_ifs <;> exact ⟨rfl, rfl⟩

theorem read_buddy_keeps_description (E : Env) (timeout_ms : Nat) (d : gpi_cp_description)
    (tr : List Call) : (gpi_cp_read_buddy E timeout_ms d tr).d = d := by
  simp only [gpi_cp_read_buddy]
  split_ifs <;> rfl

theorem commit_snapshot_cases (E : Env) (timeout_ms : Nat) (d : gpi_cp_description)
    (tr : List Call) :
    (gpi_cp_commit E timeout_ms d tr).d.size = d.size
    ∧ ((gpi_cp_commit E timeout_ms d tr).d.active_snapshot = d.active_snapshot
      ∨ (gpi_cp_commit E timeout_ms d tr).d.active_snapshot
          = (d.size + OFFSET_MOD - d.active_snapshot) % OFFSET_MOD) := by
  simp only [gpi_cp_commit, gpi_cp_commit_end]
  split_ifs <;> first | exact ⟨rfl, Or.inl rfl⟩ | exact ⟨rfl, Or.inr rfl⟩

theorem restore_end_keeps_snapshot (E : Env) (timeout_ms : Nat) (tstart : Timeval)
    (d : gpi_cp_description) (tr : List Call) :
    (gpi_cp_restore_end E timeout_ms tstart d tr).d.active_snapshot = d.active_snapshot
    ∧ (gpi_cp_restore_end E timeout_ms tstart d tr).d.size = d.size := by
  simp only [gpi_cp_restore_end]
  split_ifs <;> exact ⟨rfl, rfl⟩

theorem restore_joiner_pull_keeps_snapshot (E : Env) (timeout_ms : Nat) (tstart : Timeval)
    (d : gpi_cp_description) (tr : List Call) (o : Out)
    (hret : gpi_cp_restore_joiner_pull E timeout_ms tstart d tr = Result.returned o) :
    o.d.active_snapshot = d.active_snapshot ∧ o.d.size = d.size := by
  unfold gpi_cp_restore_joiner_pull at hret
  simp only [] at hret
  repeat' split at hret
  all_goals cases hret
  all_goals first
    | exact ⟨rfl, rfl⟩
    | exact restore_end_keeps_snapshot _ _ _ _ _

theorem restore_joiner_snapshot (fuel : Nat) (E : Env)
    (segment_id_checkpoint offset size : Nat) (policy : Int) (new_group timeout_ms : Nat)
    (tstart : Timeval) (d : gpi_cp_description) (tr : List Call) (o : Out)
    (hret : gpi_cp_restore_joiner fuel E segment_id_checkpoint offset size policy new_group
      timeout_ms tstart d tr = Result.returned o) :
    o.d.size = d.size
    ∧ (o.d.active_snapshot = d.active_snapshot ∨ o.d.active_snapshot = 0
      ∨ o.d.active_snapshot = size)
    ∧ (o.ret = GASPI_SUCCESS → o.d.active_snapshot = 0 ∨ o.d.active_snapshot = size) := by
  unfold gpi_cp_restore_joiner at hret
  simp only [] at hret
  repeat' split at hret
  all_goals first
    | (cases hret; done)
    | (cases hret; exact ⟨rfl, Or.inl rfl, fun h => by simp_all⟩)
    | (have h := restore_joiner_pull_keeps_snapshot _ _ _ _ _ _ hret
       exact ⟨h.2, by simp [h.1], fun _ => by simp [h.1]⟩)

theorem restore_missing_sender_keeps_snapshot (fuel : Nat) (E : Env) (policy : Int)
    (new_group timeout_ms : Nat) (tstart : Timeval) (d : gpi_cp_description)
    (tr : List Call) (o : Out)
    (hret : gpi_cp_restore_missing_sender fuel E policy new_group timeout_ms tstart d tr
      = Result.returned o) :
    o.d.active_snapshot = d.active_snapshot ∧ o.d.size = d.size := by
  unfold gpi_cp_restore_missing_sender at hret
  simp only [] at hret
  repeat' split at hret
  all_goals cases hret
  all_goals first
    | exact ⟨rfl, rfl⟩
    | exact restore_end_keeps_snapshot _ _ _ _ _

theorem restore_missing_receiver_keeps_snapshot (fuel : Nat) (E : Env) (policy : Int)
    (new_group timeout_ms : Nat) (tstart : Timeval) (d : gpi_cp_description)
    (tr : List Call) (o : Out)
    (hret : gpi_cp_restore_missing_receiver fuel E policy new_group timeout_ms tstart d tr
      = Result.returned o) :
    o.d.active_snapshot = d.active_snapshot ∧ o.d.size = d.size := by
  unfold gpi_cp_restore_missing_receiver at hret
  simp only [] at hret
  repeat' split at hret
  all_goals cases hret
  all_goals first
    | exact ⟨rfl, rfl⟩
    | (refine ⟨?_, ?_⟩
       · first
         | exact (start_keeps_snapshot _ _ _ _).1
         | exact ((restore_end_keeps_snapshot _ _ _ _ _).1.trans
             (start_keeps_snapshot _ _ _ _).1)
       · first
         | exact (start_keeps_snapshot _ _ _ _).2
         | exact ((restore_end_keeps_snapshot _ _ _ _ _).2.trans
             (start_keeps_snapshot _ _ _ _).2))

theorem restore_unaffected_keeps_snapshot (E : Env) (new_group timeout_ms : Nat)
    (tstart : Timeval) (d : gpi_cp_description) (tr : List Call) (o : Out)
    (hret : gpi_cp_restore_unaffected E new_group timeout_ms tstart d tr
      = Result.returned o) :
    o.d.active_snapshot = d.active_snapshot ∧ o.d.size = d.size := by
  unfold gpi_cp_restore_unaffected at hret
  simp only [] at hret
  repeat' split at hret
  all_goals cases hret
  all_goals exact restore_end_keeps_snapshot _ _ _ _ _

theorem restore_case_joiner_iff (E : Env) (new_group : Nat) (d : gpi_cp_description) :
    gpi_cp_restore_case E new_group d = RestoreCase.joiner ↔ d.state_initialized = false := by
  unfold gpi_cp_restore_case
  cases d.state_initialized <;> simp
  split_ifs <;> simp

theorem restore_snapshot (fuel : Nat) (E : Env)
    (segment_id_checkpoint offset size queue : Nat) (policy : Int)
    (new_group timeout_ms : Nat) (d : gpi_cp_description) (tr : List Call) (o : Out)
    (hret : gpi_cp_restore fuel E segment_id_checkpoint offset size queue policy new_group
      timeout_ms d tr = Result.returned o) :
    o.d.size = size
    ∧ (o.d.active_snapshot = d.active_snapshot
      ∨ (d.state_initialized = false
        ∧ (o.d.active_snapshot = 0 ∨ o.d.active_snapshot = size)))
    ∧ (d.state_initialized = false → o.ret = GASPI_SUCCESS →
        o.d.active_snapshot = 0 ∨ o.d.active_snapshot = size) := by
  unfold gpi_cp_restore at hret
  simp only [] at hret
  split at hret
  · rename_i hr
    cases hret
    exact ⟨rfl, Or.inl rfl, fun _ h => absurd h hr⟩
  · split at hret
    · rename_i hcase
      have hinit := (restore_case_joiner_iff _ _ _).1 hcase
      simp only [] at hinit
      obtain ⟨h1, h2, h3⟩ := restore_joiner_snapshot _ _ _ _ _ _ _ _ _ _ _ _ hret
      refine ⟨h1, ?_, fun _ hok => h3 hok⟩
      rcases h2 with h | h | h
      · exact Or.inl h
      · exact Or.inr ⟨hinit, Or.inl h⟩
      · exact Or.inr ⟨hinit, Or.inr h⟩
    · rename_i hcase
      have hne : ¬ d.state_initialized = false := by
        intro h
        have := (restore_case_joiner_iff E new_group
          { d with offset := offset, size := size
                   segment_id_local_client_source := segment_id_checkpoint
                   queue := queue, group := new_group }).2 h
        rw [this] at hcase
        cases hcase
      obtain ⟨h1, h2⟩ := restore_missing_sender_keeps_snapshot _ _ _ _ _ _ _ _ _ hret
      exact ⟨h2, Or.inl h1, fun h => absurd h hne⟩
    · rename_i hcase
      have hne : ¬ d.state_initialized = false := by
        intro h
        have := (restore_case_joiner_iff E new_group
          { d with offset := offset, size := size
                   segment_id_local_client_source := segment_id_checkpoint
                   queue := queue, group := new_group }).2 h
        rw [this] at hcase
        cases hcase
      obtain ⟨h1, h2⟩ := restore_missing_receiver_keeps_snapshot _ _ _ _ _ _ _ _ _ hret
      exact ⟨h2, Or.inl h1, fun h => absurd h hne⟩
    · rename_i hcase
      have hne : ¬ d.state_initialized = false := by
        intro h
        have := (restore_case_joiner_iff E new_group
          { d with offset := offset, size := size
                   segment_id_local_client_source := segment_id_checkpoint
                   queue := queue, group := new_group }).2 h
        rw [this] at hcase
        cases hcase
      obtain ⟨h1, h2⟩ := restore_unaffected_keeps_snapshot _ _ _ _ _ _ _ hret
      exact ⟨h2, Or.inl h1, fun h => absurd h hne⟩

/-! ## Claim about the two halves -/

/-- C6: the predicate `active_snapshot = 0 ∨ active_snapshot = size` holds after
every `gpi_cp_init` that returns success and after every `gpi_cp_restore` of an
uninitialised descriptor (a joiner) that returns success, whatever the
descriptor `d0` held before; and on a descriptor `d` where it holds (with
`size` a value of `gaspi_size_t`) it still holds after `gpi_cp_start`,
`gpi_cp_commit` and `gpi_cp_read_buddy`, and after a `gpi_cp_restore` called
with the size the descriptor has, whatever code these calls return. -/
theorem C6_active_snapshot_halves (fuel : Nat) (E : Env)
    (segment_id_checkpoint offset size queue : Nat) (policy : Int)
    (group timeout_ms : Nat) (d0 d : gpi_cp_description) (tr : List Call)
    (hinv : d.active_snapshot = 0 ∨ d.active_snapshot = d.size)
    (hsize : d.size < OFFSET_MOD) :
    (∀ o, gpi_cp_init fuel E segment_id_checkpoint offset size queue policy group
        timeout_ms d0 tr = Result.returned o → o.ret = GASPI_SUCCESS →
        o.d.active_snapshot = 0 ∨ o.d.active_snapshot = o.d.size)
    ∧ (∀ o, d0.state_initialized = false →
        gpi_cp_restore fuel E segment_id_checkpoint offset size queue policy group
          timeout_ms d0 tr = Result.returned o → o.ret = GASPI_SUCCESS →
        o.d.active_snapshot = 0 ∨ o.d.active_snapshot = o.d.size)
    ∧ ((gpi_cp_start E timeout_ms d tr).d.active_snapshot = 0
      ∨ (gpi_cp_start E timeout_ms d tr).d.active_snapshot
          = (gpi_cp_start E timeout_ms d tr).d.size)
    ∧ ((gpi_cp_commit E timeout_ms d tr).d.active_snapshot = 0
      ∨ (gpi_cp_commit E timeout_ms d tr).d.active_snapshot
          = (gpi_cp_commit E timeout_ms d tr).d.size)
    ∧ ((gpi_cp_read_buddy E timeout_ms d tr).d.active_snapshot = 0
      ∨ (gpi_cp_read_buddy E timeout_ms d tr).d.active_snapshot
          = (gpi_cp_read_buddy E timeout_ms d tr).d.size)
    ∧ (∀ o, gpi_cp_restore fuel E segment_id_checkpoint offset d.size queue policy group
        timeout_ms d tr = Result.returned o →
        o.d.active_snapshot = 0 ∨ o.d.active_snapshot = o.d.size) := by
  refine ⟨?_, ?_, ?_, ?_, ?_, ?_⟩
  · intro o hret _
    exact Or.inl (init_clears_snapshot _ _ _ _ _ _ _ _ _ _ _ _ hret).1
  · intro o hinit hret hok
    obtain ⟨h1, _, h3⟩ := restore_snapshot _ _ _ _ _ _ _ _ _ _ _ _ hret
    rw [h1]
    exact h3 hinit hok
  · obtain ⟨h1, h2⟩ := start_keeps_snapshot E timeout_ms d tr
    rw [h1, h2]
    exact hinv
  · obtain ⟨h1, h2⟩ := commit_snapshot_cases E timeout_ms d tr
    rw [h1]
    rcases h2 with h | h
    · rw [h]; exact hinv
    · rw [h]
      simp only [OFFSET_MOD] at hsize ⊢
      omega
  · rw [read_buddy_keeps_description]
    exact hinv
  · intro o hret
    obtain ⟨h1, h2, _⟩ := restore_snapshot _ _ _ _ _ _ _ _ _ _ _ _ hret
    rw [h1]
    rcases h2 with h | ⟨_, h⟩
    · rw [h]; exact hinv
    · exact h

/-- C6, at rank 1 of the ring 0, 1, 2: with `active_snapshot = 0` and a
snapshot of 8 bytes in flight, commit leaves `active_snapshot` at 0 or 8. -/
theorem C6_active_snapshot_halves_witness :
    (gpi_cp_commit (exampleEnv 1 3 [0, 1, 2] 2) 0 exampleInFlight []).d.active_snapshot = 0
    ∨ (gpi_cp_commit (exampleEnv 1 3 [0, 1, 2] 2) 0 exampleInFlight []).d.active_snapshot
        = (gpi_cp_commit (exampleEnv 1 3 [0, 1, 2] 2) 0 exampleInFlight []).d.size :=
  (C6_active_snapshot_halves 3 (exampleEnv 1 3 [0, 1, 2] 2) 0 0 8 0 GPI_CP_POLICY_RING 0 0
    exampleDescription exampleInFlight [] (Or.inl rfl) (by decide)).2.2.2.1

/-! ## What the calls leave in `sender` and `receiver` -/

theorem start_frame (E : Env) (timeout_ms : Nat) (d : gpi_cp_description)
    (tr : List Call) :
    (gpi_cp_start E timeout_ms d tr).d =
      { d with
        state_in_progress := (gpi_cp_start E timeout_ms d tr).d.state_in_progress
        in_start := (gpi_cp_start E timeout_ms d tr).d.in_start } := by
  simp only [gpi_cp_start, gpi_cp_start_end]
  split_ifs <;> rfl

theorem restore_end_frame (E : Env) (timeout_ms : Nat) (tstart : Timeval)
    (d : gpi_cp_description) (tr : List Call) :
    (gpi_cp_restore_end E timeout_ms tstart d tr).d =
      { d with
        state_in_progress := false
        in_restore := (gpi_cp_restore_end E timeout_ms tstart d tr).d.in_restore } := by
  simp only [gpi_cp_restore_end]
  split_ifs <;> rfl

theorem restore_missing_sender_peers (fuel : Nat) (E : Env) (policy : Int)
    (new_group timeout_ms : Nat) (tstart : Timeval) (d : gpi_cp_description)
    (tr : List Call) (o : Out)
    (hret : gpi_cp_restore_missing_sender fuel E policy new_group timeout_ms tstart d tr
      = Result.returned o) :
    o.d.receiver = d.receiver
    ∧ ∃ c, gpi_cp_sender fuel E policy new_group E.proc_rank.2
        = Result.returned (c, o.d.sender) := by
  unfold gpi_cp_restore_missing_sender at hret
  simp only [] at hret
  split at hret
  · cases hret
  · cases hret
  · rename_i snd hsnd
    have hs : ∃ c, gpi_cp_sender fuel E policy new_group E.proc_rank.2
        = Result.returned (c, snd.2) := ⟨snd.1, hsnd⟩
    repeat' split at hret
    all_goals cases hret
    all_goals first
      | exact ⟨rfl, hs⟩
      | (rw [restore_end_frame]; exact ⟨rfl, hs⟩)

theorem restore_missing_receiver_peers (fuel : Nat) (E : Env) (policy : Int)
    (new_group timeout_ms : Nat) (tstart : Timeval) (d : gpi_cp_description)
    (tr : List Call) (o : Out)
    (hret : gpi_cp_restore_missing_receiver fuel E policy new_group timeout_ms tstart d tr
      = Result.returned o) :
    o.d.sender = d.sender
    ∧ ∃ c, gpi_cp_receiver fuel E policy new_group E.proc_rank.2
        = Result.returned (c, o.d.receiver) := by
  unfold gpi_cp_restore_missing_receiver at hret
  simp only [] at hret
  split at hret
  · cases hret
  · cases hret
  · rename_i rcv hrcv
    have hs : ∃ c, gpi_cp_receiver fuel E policy new_group E.proc_rank.2
        = Result.returned (c, rcv.2) := ⟨rcv.1, hrcv⟩
    repeat' split at hret
    all_goals cases hret
    all_goals first
      | exact ⟨rfl, hs⟩
      | (rw [start_frame]; exact ⟨rfl, hs⟩)
      | (rw [restore_end_frame, start_frame]; exact ⟨rfl, hs⟩)

theorem restore_unaffected_effect (E : Env) (new_group timeout_ms : Nat)
    (tstart : Timeval) (d : gpi_cp_description) (tr : List Call) (o : Out)
    (hret : gpi_cp_restore_unaffected E new_group timeout_ms tstart d tr
      = Result.returned o) :
    o.d.sender = d.sender ∧ o.d.receiver = d.receiver
    ∧ (o.trace = Call.barrier d.group timeout_ms :: Call.barrier d.group timeout_ms :: tr
      ∨ o.trace = Call.gettimeofday :: Call.barrier d.group timeout_ms
          :: Call.barrier d.group timeout_ms :: tr) := by
  unfold gpi_cp_restore_unaffected at hret
  simp only [] at hret
  repeat' split at hret
  all_goals cases hret
  simp only [gpi_cp_restore_end, gaspi, gettimeofday]
  split_ifs
  · exact ⟨rfl, rfl, Or.inl rfl⟩
  · exact ⟨rfl, rfl, Or.inr rfl⟩

theorem restore_joiner_pull_peers (E : Env) (timeout_ms : Nat) (tstart : Timeval)
    (d : gpi_cp_description) (tr : List Call) (o : Out)
    (hret : gpi_cp_restore_joiner_pull E timeout_ms tstart d tr = Result.returned o) :
    o.d.sender = d.sender ∧ o.d.receiver = d.receiver := by
  unfold gpi_cp_restore_joiner_pull at hret
  simp only [] at hret
  repeat' split at hret
  all_goals cases hret
  all_goals first
    | exact ⟨rfl, rfl⟩
    | (rw [restore_end_frame]; exact ⟨rfl, rfl⟩)

theorem restore_joiner_sender (fuel : Nat) (E : Env)
    (segment_id_checkpoint offset size : Nat) (policy : Int) (new_group timeout_ms : Nat)
    (tstart : Timeval) (d : gpi_cp_description) (tr : List Call) (o : Out)
    (hret : gpi_cp_restore_joiner fuel E segment_id_checkpoint offset size policy new_group
      timeout_ms tstart d tr = Result.returned o) :
    ∃ c, gpi_cp_sender fuel E policy new_group E.proc_rank.2
      = Result.returned (c, o.d.sender) := by
  unfold gpi_cp_restore_joiner at hret
  simp only [] at hret
  split at hret
  · cases hret
  · cases hret
  · rename_i snd hsnd
    have hs : ∃ c, gpi_cp_sender fuel E policy new_group E.proc_rank.2
        = Result.returned (c, snd.2) := ⟨snd.1, hsnd⟩
    repeat' split at hret
    all_goals first
      | (cases hret; done)
      | (cases hret; exact hs)
      | (rw [(restore_joiner_pull_peers _ _ _ _ _ _ hret).1]; exact hs)

/-- Once the rank of the caller is known, `gpi_cp_restore` runs the branch that
`gpi_cp_restore_case` names, on the descriptor with the five arguments stored
and after the clock read at entry. -/
theorem restore_dispatch (fuel : Nat) (E : Env)
    (segment_id_checkpoint offset size queue : Nat) (policy : Int)
    (new_group timeout_ms : Nat) (d : gpi_cp_description) (tr : List Call)
    (hrank : E.proc_rank.1 = GASPI_SUCCESS) :
    gpi_cp_restore fuel E segment_id_checkpoint offset size queue policy new_group
        timeout_ms d tr
      = match gpi_cp_restore_case E new_group d with
        | RestoreCase.joiner =>
          gpi_cp_restore_joiner fuel E segment_id_checkpoint offset size policy new_group
            timeout_ms (E.clock tr)
            { d with offset := offset, size := size
                     segment_id_local_client_source := segment_id_checkpoint
                     queue := queue, group := new_group } (Call.gettimeofday :: tr)
        | RestoreCase.affected_missing_sender =>
          gpi_cp_restore_missing_sender fuel E policy new_group timeout_ms (E.clock tr)
            { d with offset := offset, size := size
                     segment_id_local_client_source := segment_id_checkpoint
                     queue := queue, group := new_group } (Call.gettimeofday :: tr)
        | RestoreCase.affected_missing_receiver =>
          gpi_cp_restore_missing_receiver fuel E policy new_group timeout_ms (E.clock tr)
            { d with offset := offset, size := size
                     segment_id_local_client_source := segment_id_checkpoint
                     queue := queue, group := new_group } (Call.gettimeofday :: tr)
        | RestoreCase.unaffected =>
          gpi_cp_restore_unaffected E new_group timeout_ms (E.clock tr)
            { d with offset := offset, size := size
                     segment_id_local_client_source := segment_id_checkpoint
                     queue := queue, group := new_group } (Call.gettimeofday :: tr) := by
  simp only [gpi_cp_restore, gettimeofday, hrank, ne_eq, not_true_eq_false, if_false]
  rfl

/-! ## Claim about the roles of restore -/

/-- C10 fails on the code: at rank 1 among 5 processes, a descriptor of the old
ring 0, 1, 2 (sender 0, receiver 2) restored on the new group {1, 3, 4} has
neither its old sender nor its old receiver in the new group, and the code
takes the sender-missing branch: the sender is recomputed to 4 and the
receiver 2, no member of the new group, is kept. -/
theorem C10_counterexample :
    gpi_cp_is_in_group (exampleEnv 1 5 [1, 3, 4] 0) 0 exampleIdle.sender = false
    ∧ gpi_cp_is_in_group (exampleEnv 1 5 [1, 3, 4] 0) 0 exampleIdle.receiver = false
    ∧ gpi_cp_restore_case (exampleEnv 1 5 [1, 3, 4] 0) 0 exampleIdle
        = RestoreCase.affected_missing_sender
    ∧ ∃ o, gpi_cp_restore 5 (exampleEnv 1 5 [1, 3, 4] 0) 0 0 8 0 GPI_CP_POLICY_RING 0 0
        exampleIdle [] = Result.returned o
      ∧ o.ret = GASPI_SUCCESS ∧ o.d.sender = 4 ∧ o.d.receiver = 2 := by
  refine ⟨by decide, by decide, by decide, _, rfl, rfl, rfl, rfl⟩

/-- C10 as amended: once the rank of the caller is known, `gpi_cp_restore`
selects its repair by the ladder of the code: the joiner branch iff
`state_initialized` is false; otherwise the sender-missing branch (sender
recomputed on `new_group`, receiver kept) iff the old sender is not in
`new_group`, whether or not the old receiver is; the receiver-missing branch
(receiver recomputed on `new_group`, sender kept) iff the old sender is in
`new_group` and the old receiver is not; and the unaffected branch (sender and
receiver kept, only barriers issued) iff both are in `new_group`. -/
theorem C10_restore_ladder (fuel : Nat) (E : Env)
    (segment_id_checkpoint offset size queue : Nat) (policy : Int)
    (new_group timeout_ms : Nat) (d : gpi_cp_description) (tr : List Call)
    (hrank : E.proc_rank.1 = GASPI_SUCCESS) :
    (gpi_cp_restore_case E new_group d = RestoreCase.joiner
      ↔ d.state_initialized = false)
    ∧ (gpi_cp_restore_case E new_group d = RestoreCase.affected_missing_sender
      ↔ d.state_initialized = true ∧ gpi_cp_is_in_group E new_group d.sender = false)
    ∧ (gpi_cp_restore_case E new_group d = RestoreCase.affected_missing_receiver
      ↔ d.state_initialized = true ∧ gpi_cp_is_in_group E new_group d.sender = true
        ∧ gpi_cp_is_in_group E new_group d.receiver = false)
    ∧ (gpi_cp_restore_case E new_group d = RestoreCase.unaffected
      ↔ d.state_initialized = true ∧ gpi_cp_is_in_group E new_group d.sender = true
        ∧ gpi_cp_is_in_group E new_group d.receiver = true)
    ∧ ∀ o, gpi_cp_restore fuel E segment_id_checkpoint offset size queue policy new_group
        timeout_ms d tr = Result.returned o →
      (gpi_cp_restore_case E new_group d = RestoreCase.joiner →
        ∃ c, gpi_cp_sender fuel E policy new_group E.proc_rank.2
          = Result.returned (c, o.d.sender))
      ∧ (gpi_cp_restore_case E new_group d = RestoreCase.affected_missing_sender →
        o.d.receiver = d.receiver
        ∧ ∃ c, gpi_cp_sender fuel E policy new_group E.proc_rank.2
          = Result.returned (c, o.d.sender))
      ∧ (gpi_cp_restore_case E new_group d = RestoreCase.affected_missing_receiver →
        o.d.sender = d.sender
        ∧ ∃ c, gpi_cp_receiver fuel E policy new_group E.proc_rank.2
          = Result.returned (c, o.d.receiver))
      ∧ (gpi_cp_restore_case E new_group d = RestoreCase.unaffected →
        o.d.sender = d.sender ∧ o.d.receiver = d.receiver
        ∧ (o.trace = Call.barrier new_group timeout_ms :: Call.barrier new_group timeout_ms
              :: Call.gettimeofday :: tr
          ∨ o.trace = Call.gettimeofday :: Call.barrier new_group timeout_ms
              :: Call.barrier new_group timeout_ms :: Call.gettimeofday :: tr)) := by
  refine ⟨restore_case_joiner_iff E new_group d, ?_, ?_, ?_, ?_⟩
  · unfold gpi_cp_restore_case
    cases d.state_initialized <;> cases gpi_cp_is_in_group E new_group d.sender <;>
      cases gpi_cp_is_in_group E new_group d.receiver <;> simp
  · unfold gpi_cp_restore_case
    cases d.state_initialized <;> cases gpi_cp_is_in_group E new_group d.sender <;>
      cases gpi_cp_is_in_group E new_group d.receiver <;> simp
  · unfold gpi_cp_restore_case
    cases d.state_initialized <;> cases gpi_cp_is_in_group E new_group d.sender <;>
      cases gpi_cp_is_in_group E new_group d.receiver <;> simp
  · intro o hret
    rw [restore_dispatch _ _ _ _ _ _ _ _ _ _ _ hrank] at hret
    refine ⟨?_, ?_, ?_, ?_⟩
    · intro hc
      rw [hc] at hret
      have h := restore_joiner_sender _ _ _ _ _ _ _ _ _ _ _ _ hret
      exact h
    · intro hc
      rw [hc] at hret
      have h := restore_missing_sender_peers _ _ _ _ _ _ _ _ _ hret
      exact h
    · intro hc
      rw [hc] at hret
      have h := restore_missing_receiver_peers _ _ _ _ _ _ _ _ _ hret
      exact h
    · intro hc
      rw [hc] at hret
      have h := restore_unaffected_effect _ _ _ _ _ _ _ hret
      exact h

/-- C10 as amended, at rank 1 among 5 processes: a descriptor of the old ring
0, 1, 2 restored on the new group {1, 2, 4} has lost its sender 0 only; the
receiver 2 is kept and the sender is what the resolver gives on the new
group. -/
theorem C10_restore_ladder_witness :
    gpi_cp_restore_case (exampleEnv 1 5 [1, 2, 4] 0) 0 exampleIdle
        = RestoreCase.affected_missing_sender
    ∧ (∃ o, gpi_cp_restore 5 (exampleEnv 1 5 [1, 2, 4] 0) 0 0 8 0 GPI_CP_POLICY_RING 0 0
        exampleIdle [] = Result.returned o ∧ o.ret = GASPI_SUCCESS)
    ∧ ∀ o, gpi_cp_restore 5 (exampleEnv 1 5 [1, 2, 4] 0) 0 0 8 0 GPI_CP_POLICY_RING 0 0
        exampleIdle [] = Result.returned o →
      o.d.receiver = 2
      ∧ ∃ c, gpi_cp_sender 5 (exampleEnv 1 5 [1, 2, 4] 0) GPI_CP_POLICY_RING 0 1
          = Result.returned (c, o.d.sender) :=
  have h := C10_restore_ladder 5 (exampleEnv 1 5 [1, 2, 4] 0) 0 0 8 0 GPI_CP_POLICY_RING 0 0
    exampleIdle [] rfl
  ⟨h.2.1.2 ⟨rfl, by decide⟩, ⟨_, rfl, rfl⟩,
    fun o ho => (h.2.2.2.2 o ho).2.1 (h.2.1.2 ⟨rfl, by decide⟩)⟩

/-! ## Claims about errors of commit, start, init and restore -/

/-- C18: for a descriptor with `state_in_progress` set, held by a member of its
group: when the queue wait, or after it the notification wait, or after these
the notification reset, or after these the barrier returns a code other than
`GASPI_SUCCESS`, `gpi_cp_commit` returns that same code and leaves the
descriptor as it was, so `state_in_progress` is still true and
`active_snapshot` is unchanged. -/
theorem C18_commit_error_keeps_in_flight (E : Env) (timeout_ms : Nat)
    (d : gpi_cp_description) (tr : List Call)
    (hprog : d.state_in_progress = true)
    (hrank : E.proc_rank.1 = GASPI_SUCCESS)
    (hmem : gpi_cp_is_in_group E d.group E.proc_rank.2 = true) :
    ((E.answer (Call.gettimeofday :: tr) (Call.wait d.queue timeout_ms)).ret
        ≠ GASPI_SUCCESS →
      gpi_cp_commit E timeout_ms d tr =
        { ret := (E.answer (Call.gettimeofday :: tr) (Call.wait d.queue timeout_ms)).ret
          d := d
          trace := Call.wait d.queue timeout_ms :: Call.gettimeofday :: tr })
    ∧ ((E.answer (Call.gettimeofday :: tr) (Call.wait d.queue timeout_ms)).ret
        = GASPI_SUCCESS →
      (E.answer (Call.wait d.queue timeout_ms :: Call.gettimeofday :: tr)
        (Call.notify_waitsome d.segment_id_remote_on_receiver d.sender 1 timeout_ms)).ret
        ≠ GASPI_SUCCESS →
      gpi_cp_commit E timeout_ms d tr =
        { ret := (E.answer (Call.wait d.queue timeout_ms :: Call.gettimeofday :: tr)
            (Call.notify_waitsome d.segment_id_remote_on_receiver d.sender 1
              timeout_ms)).ret
          d := d
          trace := Call.notify_waitsome d.segment_id_remote_on_receiver d.sender 1 timeout_ms
            :: Call.wait d.queue timeout_ms :: Call.gettimeofday :: tr })
    ∧ ((E.answer (Call.gettimeofday :: tr) (Call.wait d.queue timeout_ms)).ret
        = GASPI_SUCCESS →
      (E.answer (Call.wait d.queue timeout_ms :: Call.gettimeofday :: tr)
        (Call.notify_waitsome d.segment_id_remote_on_receiver d.sender 1 timeout_ms)).ret
        = GASPI_SUCCESS →
      (E.answer (Call.wait d.queue timeout_ms :: Call.gettimeofday :: tr)
        (Call.notify_waitsome d.segment_id_remote_on_receiver d.sender 1 timeout_ms)).out
        = d.sender →
      (E.answer (Call.notify_waitsome d.segment_id_remote_on_receiver d.sender 1 timeout_ms
          :: Call.wait d.queue timeout_ms :: Call.gettimeofday :: tr)
        (Call.notify_reset d.segment_id_remote_on_receiver d.sender)).ret
        ≠ GASPI_SUCCESS →
      gpi_cp_commit E timeout_ms d tr =
        { ret := (E.answer
            (Call.notify_waitsome d.segment_id_remote_on_receiver d.sender 1 timeout_ms
              :: Call.wait d.queue timeout_ms :: Call.gettimeofday :: tr)
            (Call.notify_reset d.segment_id_remote_on_receiver d.sender)).ret
          d := d
          trace := Call.notify_reset d.segment_id_remote_on_receiver d.sender
            :: Call.notify_waitsome d.segment_id_remote_on_receiver d.sender 1 timeout_ms
            :: Call.wait d.queue timeout_ms :: Call.gettimeofday :: tr })
    ∧ ((E.answer (Call.gettimeofday :: tr) (Call.wait d.queue timeout_ms)).ret
        = GASPI_SUCCESS →
      (E.answer (Call.wait d.queue timeout_ms :: Call.gettimeofday :: tr)
        (Call.notify_waitsome d.segment_id_remote_on_receiver d.sender 1 timeout_ms)).ret
        = GASPI_SUCCESS →
      (E.answer (Call.wait d.queue timeout_ms :: Call.gettimeofday :: tr)
        (Call.notify_waitsome d.segment_id_remote_on_receiver d.sender 1 timeout_ms)).out
        = d.sender →
      (E.answer (Call.notify_waitsome d.segment_id_remote_on_receiver d.sender 1 timeout_ms
          :: Call.wait d.queue timeout_ms :: Call.gettimeofday :: tr)
        (Call.notify_reset d.segment_id_remote_on_receiver d.sender)).ret
        = GASPI_SUCCESS →
      (E.answer (Call.notify_waitsome d.segment_id_remote_on_receiver d.sender 1 timeout_ms
          :: Call.wait d.queue timeout_ms :: Call.gettimeofday :: tr)
        (Call.notify_reset d.segment_id_remote_on_receiver d.sender)).out
        = d.sender + 1 →
      (E.answer (Call.notify_reset d.segment_id_remote_on_receiver d.sender
          :: Call.notify_waitsome d.segment_id_remote_on_receiver d.sender 1 timeout_ms
          :: Call.wait d.queue timeout_ms :: Call.gettimeofday :: tr)
        (Call.barrier d.group timeout_ms)).ret ≠ GASPI_SUCCESS →
      gpi_cp_commit E timeout_ms d tr =
        { ret := (E.answer (Call.notify_reset d.segment_id_remote_on_receiver d.sender
            :: Call.notify_waitsome d.segment_id_remote_on_receiver d.sender 1 timeout_ms
            :: Call.wait d.queue timeout_ms :: Call.gettimeofday :: tr)
            (Call.barrier d.group timeout_ms)).ret
          d := d
          trace := Call.barrier d.group timeout_ms
            :: Call.notify_reset d.segment_id_remote_on_receiver d.sender
            :: Call.notify_waitsome d.segment_id_remote_on_receiver d.sender 1 timeout_ms
            :: Call.wait d.queue timeout_ms :: Call.gettimeofday :: tr }) := by
  refine ⟨?_, ?_, ?_, ?_⟩
  · intro h1
    simp [gpi_cp_commit, gaspi, gettimeofday, hprog, hrank, hmem, h1]
  · intro h1 h2
    simp [gpi_cp_commit, gpi_cp_wait_for_notification_from, gaspi, gettimeofday, hprog,
      hrank, hmem, h1, h2]
  · intro h1 h2 h3 h4
    simp [gpi_cp_commit, gpi_cp_wait_for_notification_from, gaspi, gettimeofday, hprog,
      hrank, hmem, h1, h2, h3, h4]
  · intro h1 h2 h3 h4 h5 h6
    simp [gpi_cp_commit, gpi_cp_wait_for_notification_from, gaspi, gettimeofday, hprog,
      hrank, hmem, h1, h2, h3, h4, h5, h6]

/-- C18, at rank 1 of the ring 0, 1, 2 with a snapshot in flight and a barrier
that times out: commit returns `GASPI_TIMEOUT` and the descriptor is as
before. -/
theorem C18_commit_error_keeps_in_flight_witness :
    (gpi_cp_commit (failingEnv (exampleEnv 1 3 [0, 1, 2] 0) Call.is_barrier GASPI_TIMEOUT)
        0 exampleInFlight []).ret = GASPI_TIMEOUT
    ∧ (gpi_cp_commit (failingEnv (exampleEnv 1 3 [0, 1, 2] 0) Call.is_barrier GASPI_TIMEOUT)
        0 exampleInFlight []).d = exampleInFlight := by
  have h := (C18_commit_error_keeps_in_flight
    (failingEnv (exampleEnv 1 3 [0, 1, 2] 0) Call.is_barrier GASPI_TIMEOUT) 0
    exampleInFlight [] rfl rfl (by decide)).2.2.2 rfl rfl rfl rfl rfl (by decide)
  rw [h]
  exact ⟨rfl, rfl⟩

/-- C16 fails on the code: at rank 1 of the ring 0, 1, 2, a descriptor with a
snapshot in flight, restored on its own group with its own client segment,
offset, size and queue, comes back from a successful `gpi_cp_restore` with
`state_in_progress` changed from `true` to `false`; and an initialized descriptor
whose sender 0 is not a member of its group {1, 2, 4} comes back with the
sender changed to 4. -/
theorem C16_counterexample :
    exampleInFlight.state_in_progress = true
    ∧ (∃ o, gpi_cp_restore 3 (exampleEnv 1 3 [0, 1, 2] 0) 0 0 8 0 GPI_CP_POLICY_RING 0 0
        exampleInFlight [] = Result.returned o
      ∧ o.ret = GASPI_SUCCESS ∧ o.d.state_in_progress = false)
    ∧ exampleIdle.sender = 0
    ∧ ∃ o, gpi_cp_restore 5 (exampleEnv 1 5 [1, 2, 4] 0) 0 0 8 0 GPI_CP_POLICY_RING 0 0
        exampleIdle [] = Result.returned o
      ∧ o.ret = GASPI_SUCCESS ∧ o.d.sender = 4 :=
  ⟨rfl, ⟨_, rfl, rfl, rfl⟩, rfl, _, rfl, rfl, rfl⟩

/-- C16 as amended: for an initialized descriptor whose sender and receiver are
members of its group (as init leaves them), a successful `gpi_cp_restore`
called with the descriptor's own group, client segment, offset, size and queue
clears `state_in_progress` and changes no other field but the counter
`in_restore`. -/
theorem C16_restore_same_group (fuel : Nat) (E : Env) (policy : Int) (timeout_ms : Nat)
    (d : gpi_cp_description) (tr : List Call) (o : Out)
    (hinit : d.state_initialized = true)
    (hs : gpi_cp_is_in_group E d.group d.sender = true)
    (hr : gpi_cp_is_in_group E d.group d.receiver = true)
    (hret : gpi_cp_restore fuel E d.segment_id_local_client_source d.offset d.size d.queue
      policy d.group timeout_ms d tr = Result.returned o)
    (hok : o.ret = GASPI_SUCCESS) :
    o.d = { d with state_in_progress := false, in_restore := o.d.in_restore } := by
  have hrank : E.proc_rank.1 = GASPI_SUCCESS := by
    by_contra h
    simp only [gpi_cp_restore, gettimeofday] at hret
    rw [if_pos h] at hret
    cases hret
    exact h hok
  rw [restore_dispatch _ _ _ _ _ _ _ _ _ _ _ hrank] at hret
  have hcase : gpi_cp_restore_case E d.group d = RestoreCase.unaffected := by
    simp [gpi_cp_restore_case, hinit, hs, hr]
  rw [hcase] at hret
  simp only [gpi_cp_restore_unaffected, hs, hr, Bool.not_true, Bool.false_eq_true,
    if_false] at hret
  cases hret
  rw [restore_end_frame]

/-- C16 as amended, at rank 1 of the ring 0, 1, 2 with a snapshot in flight. -/
theorem C16_restore_same_group_witness :
    ∃ o, gpi_cp_restore 3 (exampleEnv 1 3 [0, 1, 2] 0) 0 0 8 0 GPI_CP_POLICY_RING 0 0
        exampleInFlight [] = Result.returned o
      ∧ o.d = { exampleInFlight with state_in_progress := false, in_restore := o.d.in_restore } :=
  ⟨_, rfl, C16_restore_same_group 3 (exampleEnv 1 3 [0, 1, 2] 0) GPI_CP_POLICY_RING 0
    exampleInFlight [] _ rfl (by decide) (by decide) rfl rfl⟩

theorem restore_joiner_pull_args (E : Env) (timeout_ms : Nat) (tstart : Timeval)
    (d : gpi_cp_description) (tr : List Call) (o : Out)
    (hret : gpi_cp_restore_joiner_pull E timeout_ms tstart d tr = Result.returned o) :
    o.d.offset = d.offset ∧ o.d.size = d.size
    ∧ o.d.segment_id_local_client_source = d.segment_id_local_client_source
    ∧ o.d.queue = d.queue ∧ o.d.group = d.group
    ∧ o.d.state_initialized = d.state_initialized := by
  unfold gpi_cp_restore_joiner_pull at hret
  simp only [] at hret
  repeat' split at hret
  all_goals cases hret
  all_goals first
    | exact ⟨rfl, rfl, rfl, rfl, rfl, rfl⟩
    | (rw [restore_end_frame]; exact ⟨rfl, rfl, rfl, rfl, rfl, rfl⟩)

theorem restore_joiner_args (fuel : Nat) (E : Env)
    (segment_id_checkpoint offset size : Nat) (policy : Int) (new_group timeout_ms : Nat)
    (tstart : Timeval) (d : gpi_cp_description) (tr : List Call) (o : Out)
    (hret : gpi_cp_restore_joiner fuel E segment_id_checkpoint offset size policy new_group
      timeout_ms tstart d tr = Result.returned o) :
    o.d.offset = d.offset ∧ o.d.size = d.size
    ∧ o.d.segment_id_local_client_source = d.segment_id_local_client_source
    ∧ o.d.queue = d.queue ∧ o.d.group = d.group
    ∧ (o.ret = GASPI_TIMEOUT → o.d.state_initialized = true) := by
  unfold gpi_cp_restore_joiner at hret
  simp only [] at hret
  repeat' split at hret
  all_goals first
    | (cases hret; done)
    | (cases hret
       refine ⟨rfl, rfl, rfl, rfl, rfl, ?_⟩
       intro h
       first
         | rfl
         | (exfalso; simp [GASPI_ERROR, GASPI_TIMEOUT] at h))
    | (obtain ⟨h1, h2, h3, h4, h5, h6⟩ := restore_joiner_pull_args _ _ _ _ _ _ hret
       exact ⟨h1, h2, h3, h4, h5, fun _ => h6⟩)

theorem restore_missing_sender_args (fuel : Nat) (E : Env) (policy : Int)
    (new_group timeout_ms : Nat) (tstart : Timeval) (d : gpi_cp_description)
    (tr : List Call) (o : Out)
    (hret : gpi_cp_restore_missing_sender fuel E policy new_group timeout_ms tstart d tr
      = Result.returned o) :
    o.d.offset = d.offset ∧ o.d.size = d.size
    ∧ o.d.segment_id_local_client_source = d.segment_id_local_client_source
    ∧ o.d.queue = d.queue ∧ o.d.group = d.group := by
  unfold gpi_cp_restore_missing_sender at hret
  simp only [] at hret
  repeat' split at hret
  all_goals cases hret
  all_goals first
    | exact ⟨rfl, rfl, rfl, rfl, rfl⟩
    | (rw [restore_end_frame]; exact ⟨rfl, rfl, rfl, rfl, rfl⟩)

theorem restore_missing_receiver_args (fuel : Nat) (E : Env) (policy : Int)
    (new_group timeout_ms : Nat) (tstart : Timeval) (d : gpi_cp_description)
    (tr : List Call) (o : Out)
    (hret : gpi_cp_restore_missing_receiver fuel E policy new_group timeout_ms tstart d tr
      = Result.returned o) :
    o.d.offset = d.offset ∧ o.d.size = d.size
    ∧ o.d.segment_id_local_client_source = d.segment_id_local_client_source
    ∧ o.d.queue = d.queue ∧ o.d.group = d.group := by
  unfold gpi_cp_restore_missing_receiver at hret
  simp only [] at hret
  repeat' split at hret
  all_goals cases hret
  all_goals first
    | exact ⟨rfl, rfl, rfl, rfl, rfl⟩
    | (rw [start_frame]; exact ⟨rfl, rfl, rfl, rfl, rfl⟩)
    | (rw [restore_end_frame, start_frame]; exact ⟨rfl, rfl, rfl, rfl, rfl⟩)

theorem restore_unaffected_args (E : Env) (new_group timeout_ms : Nat)
    (tstart : Timeval) (d : gpi_cp_description) (tr : List Call) (o : Out)
    (hret : gpi_cp_restore_unaffected E new_group timeout_ms tstart d tr
      = Result.returned o) :
    o.d.offset = d.offset ∧ o.d.size = d.size
    ∧ o.d.segment_id_local_client_source = d.segment_id_local_client_source
    ∧ o.d.queue = d.queue ∧ o.d.group = d.group := by
  unfold gpi_cp_restore_unaffected at hret
  simp only [] at hret
  repeat' split at hret
  all_goals cases hret
  rw [restore_end_frame]
  exact ⟨rfl, rfl, rfl, rfl, rfl⟩

/-- Whatever `gpi_cp_restore` returns, it has stored its five arguments. -/
theorem restore_stores_args (fuel : Nat) (E : Env)
    (segment_id_checkpoint offset size queue : Nat) (policy : Int)
    (new_group timeout_ms : Nat) (d : gpi_cp_description) (tr : List Call) (o : Out)
    (hret : gpi_cp_restore fuel E segment_id_checkpoint offset size queue policy new_group
      timeout_ms d tr = Result.returned o) :
    o.d.offset = offset ∧ o.d.size = size
    ∧ o.d.segment_id_local_client_source = segment_id_checkpoint
    ∧ o.d.queue = queue ∧ o.d.group = new_group := by
  unfold gpi_cp_restore at hret
  simp only [] at hret
  split at hret
  · cases hret
    exact ⟨rfl, rfl, rfl, rfl, rfl⟩
  · split at hret
    · obtain ⟨h1, h2, h3, h4, h5, _⟩ := restore_joiner_args _ _ _ _ _ _ _ _ _ _ _ _ hret
      exact ⟨h1, h2, h3, h4, h5⟩
    · exact restore_missing_sender_args _ _ _ _ _ _ _ _ _ hret
    · exact restore_missing_receiver_args _ _ _ _ _ _ _ _ _ hret
    · exact restore_unaffected_args _ _ _ _ _ _ _ hret

/-- C17 fails on the code.  At rank 1 of the ring 0, 1, 2 a `gpi_cp_start` whose
`write_notify` times out returns `GASPI_TIMEOUT` with `state_in_progress`
changed from `false` to `true`, and the repeated start returns `GASPI_ERROR`.
A `gpi_cp_commit` whose barrier times out returns `GASPI_TIMEOUT` after it has
reset the notification of the sender, and the repeated commit waits for that
notification again. At the joiner 3 of the new group {0, 1, 3} a
`gpi_cp_restore` whose tag receive times out returns `GASPI_TIMEOUT` with
`state_initialized` changed from `false` to `true`. -/
theorem C17_counterexample :
    exampleIdle.state_in_progress = false
    ∧ (gpi_cp_start (failingEnv (exampleEnv 1 3 [0, 1, 2] 0) Call.is_write_notify
        GASPI_TIMEOUT) 0 exampleIdle []).ret = 1
    ∧ (gpi_cp_start (failingEnv (exampleEnv 1 3 [0, 1, 2] 0) Call.is_write_notify
        GASPI_TIMEOUT) 0 exampleIdle []).d.state_in_progress = true
    ∧ (gpi_cp_start (failingEnv (exampleEnv 1 3 [0, 1, 2] 0) Call.is_write_notify
          GASPI_TIMEOUT) 0
        (gpi_cp_start (failingEnv (exampleEnv 1 3 [0, 1, 2] 0) Call.is_write_notify
          GASPI_TIMEOUT) 0 exampleIdle []).d
        (gpi_cp_start (failingEnv (exampleEnv 1 3 [0, 1, 2] 0) Call.is_write_notify
          GASPI_TIMEOUT) 0 exampleIdle []).trace).ret = -1
    ∧ (gpi_cp_commit (failingEnv (exampleEnv 1 3 [0, 1, 2] 0) Call.is_barrier
        GASPI_TIMEOUT) 0 exampleInFlight []).ret = 1
    ∧ (gpi_cp_commit (failingEnv (exampleEnv 1 3 [0, 1, 2] 0) Call.is_barrier
        GASPI_TIMEOUT) 0 exampleInFlight []).trace
      = [Call.barrier 0 0, Call.notify_reset 1 0, Call.notify_waitsome 1 0 1 0,
          Call.wait 0 0, Call.gettimeofday]
    ∧ (gpi_cp_commit (failingEnv (exampleEnv 1 3 [0, 1, 2] 0) Call.is_barrier
          GASPI_TIMEOUT) 0
        (gpi_cp_commit (failingEnv (exampleEnv 1 3 [0, 1, 2] 0) Call.is_barrier
          GASPI_TIMEOUT) 0 exampleInFlight []).d
        (gpi_cp_commit (failingEnv (exampleEnv 1 3 [0, 1, 2] 0) Call.is_barrier
          GASPI_TIMEOUT) 0 exampleInFlight []).trace).trace
      = [Call.barrier 0 0, Call.notify_reset 1 0, Call.notify_waitsome 1 0 1 0,
          Call.wait 0 0, Call.gettimeofday,
          Call.barrier 0 0, Call.notify_reset 1 0, Call.notify_waitsome 1 0 1 0,
          Call.wait 0 0, Call.gettimeofday]
    ∧ exampleDescription.state_initialized = false
    ∧ ∃ o, gpi_cp_restore 4 (failingEnv (exampleEnv 3 4 [0, 1, 3] 0)
          Call.is_passive_receive GASPI_TIMEOUT) 0 0 8 0 GPI_CP_POLICY_RING 0 0
          exampleDescription [] = Result.returned o
      ∧ o.ret = 1 ∧ o.d.state_initialized = true :=
  ⟨rfl, rfl, rfl, rfl, rfl, rfl, rfl, rfl, _, rfl, rfl, rfl⟩

theorem commit_failure_keeps_description (E : Env) (timeout_ms : Nat)
    (d : gpi_cp_description) (tr : List Call)
    (h : (gpi_cp_commit E timeout_ms d tr).ret ≠ GASPI_SUCCESS) :
    (gpi_cp_commit E timeout_ms d tr).d = d := by
  simp only [gpi_cp_commit, gpi_cp_commit_end] at h ⊢
  split_ifs at h ⊢ <;> first | rfl | (exfalso; exact h rfl)

theorem start_failure_effect (E : Env) (timeout_ms : Nat)
    (d : gpi_cp_description) (tr : List Call)
    (h : (gpi_cp_start E timeout_ms d tr).ret = GASPI_TIMEOUT) :
    (gpi_cp_start E timeout_ms d tr).d =
        { d with state_in_progress := (gpi_cp_start E timeout_ms d tr).d.state_in_progress }
    ∧ (E.proc_rank.1 = GASPI_SUCCESS →
      d.state_in_progress = false
      ∧ (gpi_cp_start E timeout_ms d tr).d.state_in_progress = true) := by
  simp only [gpi_cp_start, gpi_cp_start_end] at h ⊢
  split_ifs at h ⊢
  all_goals first
    | (exfalso; simp [GASPI_TIMEOUT, GASPI_ERROR] at h; done)
    | (refine ⟨rfl, fun hr => ?_⟩
       first
         | exact absurd hr (by assumption)
         | exact ⟨(Bool.not_eq_true _).mp ‹¬d.state_in_progress = true›, rfl⟩)

theorem init_timeout_effect (fuel : Nat) (E : Env)
    (segment_id_checkpoint offset size queue : Nat) (policy : Int)
    (group timeout_ms : Nat) (d : gpi_cp_description) (tr : List Call) (o : Out)
    (hret : gpi_cp_init fuel E segment_id_checkpoint offset size queue policy group
        timeout_ms d tr = Result.returned o)
    (hto : o.ret = GASPI_TIMEOUT) :
    E.proc_rank.1 = GASPI_TIMEOUT
    ∧ o.d = { d with
        offset := offset
        size := size
        segment_id_local_client_source := segment_id_checkpoint
        queue := queue
        group := group
        active_snapshot := 0 } := by
  unfold gpi_cp_init at hret
  simp only [gpi_cp_init_end, gettimeofday] at hret
  repeat' split at hret
  all_goals cases hret
  all_goals first
    | (exfalso; simp [GASPI_TIMEOUT, GASPI_ERROR] at hto; done)
    | exact ⟨hto, rfl⟩

/-- The three ways `gpi_cp_wait_for_notification_from` ends: after the wait
alone with a code other than `GASPI_SUCCESS`, or after wait and reset of the
notification `sender`, with or without success. -/
theorem wait_for_notification_cases (E : Env) (seg sender value timeout_ms : Nat)
    (tr : List Call) :
    ((gpi_cp_wait_for_notification_from E seg sender value timeout_ms tr).2
        = Call.notify_waitsome seg sender 1 timeout_ms :: tr
      ∧ (gpi_cp_wait_for_notification_from E seg sender value timeout_ms tr).1
        ≠ GASPI_SUCCESS)
    ∨ ((gpi_cp_wait_for_notification_from E seg sender value timeout_ms tr).2
        = Call.notify_reset seg sender :: Call.notify_waitsome seg sender 1 timeout_ms :: tr
      ∧ (gpi_cp_wait_for_notification_from E seg sender value timeout_ms tr).1
        ≠ GASPI_SUCCESS)
    ∨ ((gpi_cp_wait_for_notification_from E seg sender value timeout_ms tr).2
        = Call.notify_reset seg sender :: Call.notify_waitsome seg sender 1 timeout_ms :: tr
      ∧ (gpi_cp_wait_for_notification_from E seg sender value timeout_ms tr).1
        = GASPI_SUCCESS) := by
  simp only [gpi_cp_wait_for_notification_from, gaspi]
  by_cases h1 : (E.answer tr (Call.notify_waitsome seg sender 1 timeout_ms)).ret
      ≠ GASPI_SUCCESS
  · rw [if_pos h1]
    exact Or.inl ⟨rfl, h1⟩
  · rw [if_neg h1]
    by_cases h2 : (E.answer tr (Call.notify_waitsome seg sender 1 timeout_ms)).out ≠ sender
    · rw [if_pos h2]
      exact Or.inl ⟨rfl, (by decide : GASPI_ERROR ≠ GASPI_SUCCESS)⟩
    · rw [if_neg h2]
      have e : (E.answer tr (Call.notify_waitsome seg sender 1 timeout_ms)).out = sender :=
        not_not.1 h2
      rw [e]
      by_cases h3 : (E.answer (Call.notify_waitsome seg sender 1 timeout_ms :: tr)
          (Call.notify_reset seg sender)).ret ≠ GASPI_SUCCESS
      · rw [if_pos h3]
        exact Or.inr (Or.inl ⟨rfl, h3⟩)
      · rw [if_neg h3]
        by_cases h4 : (E.answer (Call.notify_waitsome seg sender 1 timeout_ms :: tr)
            (Call.notify_reset seg sender)).out ≠ value
        · rw [if_pos h4]
          exact Or.inr (Or.inl ⟨rfl, (by decide : GASPI_ERROR ≠ GASPI_SUCCESS)⟩)
        · rw [if_neg h4]
          exact Or.inr (Or.inr ⟨rfl, rfl⟩)

/-- Where a `gpi_cp_commit` that returns `GASPI_TIMEOUT` stopped: at the rank
lookup, the queue wait, the notification wait, the reset or the barrier. -/
theorem commit_timeout_trace (E : Env) (timeout_ms : Nat) (d : gpi_cp_description)
    (tr : List Call) (h : (gpi_cp_commit E timeout_ms d tr).ret = GASPI_TIMEOUT) :
    (gpi_cp_commit E timeout_ms d tr).trace = Call.gettimeofday :: tr
    ∨ (gpi_cp_commit E timeout_ms d tr).trace
      = Call.wait d.queue timeout_ms :: Call.gettimeofday :: tr
    ∨ (gpi_cp_commit E timeout_ms d tr).trace
      = Call.notify_waitsome d.segment_id_remote_on_receiver d.sender 1 timeout_ms
        :: Call.wait d.queue timeout_ms :: Call.gettimeofday :: tr
    ∨ (gpi_cp_commit E timeout_ms d tr).trace
      = Call.notify_reset d.segment_id_remote_on_receiver d.sender
        :: Call.notify_waitsome d.segment_id_remote_on_receiver d.sender 1 timeout_ms
        :: Call.wait d.queue timeout_ms :: Call.gettimeofday :: tr
    ∨ (gpi_cp_commit E timeout_ms d tr).trace
      = Call.barrier d.group timeout_ms
        :: Call.notify_reset d.segment_id_remote_on_receiver d.sender
        :: Call.notify_waitsome d.segment_id_remote_on_receiver d.sender 1 timeout_ms
        :: Call.wait d.queue timeout_ms :: Call.gettimeofday :: tr := by
  have hend : ∀ t d1 tr1, (gpi_cp_commit_end E t d1 tr1).ret ≠ GASPI_TIMEOUT := by
    intro t d1 tr1
    show GASPI_SUCCESS ≠ GASPI_TIMEOUT
    decide
  unfold gpi_cp_commit at h ⊢
  simp only [gettimeofday, gaspi] at h ⊢
  by_cases hr : E.proc_rank.1 ≠ GASPI_SUCCESS
  · rw [if_pos hr]
    exact Or.inl rfl
  rw [if_neg hr] at h ⊢
  by_cases hm : gpi_cp_is_in_group E d.group E.proc_rank.2 = true
  swap
  · rw [if_neg hm] at h
    exact absurd h (hend _ _ _)
  rw [if_pos hm] at h ⊢
  by_cases hp : d.state_in_progress = true
  swap
  · rw [if_neg hp] at h
    exact absurd h (hend _ _ _)
  rw [if_pos hp] at h ⊢
  by_cases hw : (E.answer (Call.gettimeofday :: tr) (Call.wait d.queue timeout_ms)).ret
      ≠ GASPI_SUCCESS
  · rw [if_pos hw]
    exact Or.inr (Or.inl rfl)
  rw [if_neg hw] at h ⊢
  have hc := wait_for_notification_cases E d.segment_id_remote_on_receiver d.sender
    (d.sender + 1) timeout_ms (Call.wait d.queue timeout_ms :: Call.gettimeofday :: tr)
  generalize gpi_cp_wait_for_notification_from E d.segment_id_remote_on_receiver d.sender
    (d.sender + 1) timeout_ms (Call.wait d.queue timeout_ms :: Call.gettimeofday :: tr)
    = n at h hc ⊢
  obtain ⟨n1, n2⟩ := n
  simp only at h hc ⊢
  by_cases hn : n1 ≠ GASPI_SUCCESS
  · rw [if_pos hn]
    rcases hc with ⟨e, _⟩ | ⟨e, _⟩ | ⟨_, e1⟩
    · exact Or.inr (Or.inr (Or.inl e))
    · exact Or.inr (Or.inr (Or.inr (Or.inl e)))
    · exact absurd e1 hn
  rw [if_neg hn] at h ⊢
  rcases hc with ⟨_, e1⟩ | ⟨_, e1⟩ | ⟨e, _⟩
  · exact absurd e1 hn
  · exact absurd e1 hn
  subst e
  by_cases hb : (E.answer
      (Call.notify_reset d.segment_id_remote_on_receiver d.sender
        :: Call.notify_waitsome d.segment_id_remote_on_receiver d.sender 1 timeout_ms
        :: Call.wait d.queue timeout_ms :: Call.gettimeofday :: tr)
      (Call.barrier d.group timeout_ms)).ret ≠ GASPI_SUCCESS
  · rw [if_pos hb]
    exact Or.inr (Or.inr (Or.inr (Or.inr rfl)))
  · rw [if_neg hb] at h
    exact absurd h (hend _ _ _)

/-- A `gpi_cp_commit` of a member with a snapshot in flight whose queue wait
succeeds issues the wait for the notification of the sender. -/
theorem commit_waits_for_notification (E : Env) (timeout_ms : Nat)
    (d : gpi_cp_description) (tr : List Call)
    (hr : E.proc_rank.1 = GASPI_SUCCESS)
    (hm : gpi_cp_is_in_group E d.group E.proc_rank.2 = true)
    (hp : d.state_in_progress = true)
    (hw : (E.answer (Call.gettimeofday :: tr) (Call.wait d.queue timeout_ms)).ret
      = GASPI_SUCCESS) :
    Call.notify_waitsome d.segment_id_remote_on_receiver d.sender 1 timeout_ms
      ∈ (gpi_cp_commit E timeout_ms d tr).trace := by
  unfold gpi_cp_commit
  simp only [gettimeofday, gaspi]
  rw [if_neg (not_not.2 hr), if_pos hm, if_pos hp, if_neg (not_not.2 hw)]
  have hc := wait_for_notification_cases E d.segment_id_remote_on_receiver d.sender
    (d.sender + 1) timeout_ms (Call.wait d.queue timeout_ms :: Call.gettimeofday :: tr)
  generalize gpi_cp_wait_for_notification_from E d.segment_id_remote_on_receiver d.sender
    (d.sender + 1) timeout_ms (Call.wait d.queue timeout_ms :: Call.gettimeofday :: tr)
    = n at hc ⊢
  obtain ⟨n1, n2⟩ := n
  simp only at hc ⊢
  have hin : Call.notify_waitsome d.segment_id_remote_on_receiver d.sender 1 timeout_ms
      ∈ n2 := by
    rcases hc with ⟨e, _⟩ | ⟨e, _⟩ | ⟨e, _⟩
    · rw [e]
      exact List.mem_cons_self _ _
    · rw [e]
      exact List.mem_cons_of_mem _ (List.mem_cons_self _ _)
    · rw [e]
      exact List.mem_cons_of_mem _ (List.mem_cons_self _ _)
  simp only [gpi_cp_commit_end, gettimeofday]
  split_ifs
  · exact hin
  · exact List.mem_cons_of_mem _ hin
  · exact List.mem_cons_of_mem _ (List.mem_cons_of_mem _ hin)

/-- C17 as amended: when `gpi_cp_commit` returns `GASPI_TIMEOUT` every field of
the descriptor has the value it had before the call; the call stopped at the
rank lookup, the queue wait, the notification wait, the reset or the barrier,
in the last case after it had reset the notification of the sender, and a
repeated commit (of a member with the snapshot in flight, once its queue wait
succeeds) waits for that notification again.  `gpi_cp_start` sets
`state_in_progress` before its substrate calls: when it returns
`GASPI_TIMEOUT` every other field is as before, and with the rank of the caller
known the flag has gone from `false` to `true`, so the descriptor is in flight.
`gpi_cp_init` and `gpi_cp_restore` store their arguments (init also
`active_snapshot = 0`) before any call that can time out: `gpi_cp_init`
returns `GASPI_TIMEOUT` only when the rank lookup does and has then stored its
arguments and nothing else, and after a `gpi_cp_restore` that returns
`GASPI_TIMEOUT` the descriptor holds the five arguments. -/
theorem C17_timeout_effects (fuel : Nat) (E : Env)
    (segment_id_checkpoint offset size queue : Nat) (policy : Int)
    (group timeout_ms : Nat) (d : gpi_cp_description) (tr : List Call) :
    ((gpi_cp_commit E timeout_ms d tr).ret = GASPI_TIMEOUT →
      (gpi_cp_commit E timeout_ms d tr).d = d)
    ∧ ((gpi_cp_start E timeout_ms d tr).ret = GASPI_TIMEOUT →
      (gpi_cp_start E timeout_ms d tr).d =
        { d with state_in_progress := (gpi_cp_start E timeout_ms d tr).d.state_in_progress }
      ∧ (E.proc_rank.1 = GASPI_SUCCESS →
        d.state_in_progress = false
        ∧ (gpi_cp_start E timeout_ms d tr).d.state_in_progress = true))
    ∧ (∀ o, gpi_cp_init fuel E segment_id_checkpoint offset size queue policy group
        timeout_ms d tr = Result.returned o → o.ret = GASPI_TIMEOUT →
      E.proc_rank.1 = GASPI_TIMEOUT
      ∧ o.d = { d with
          offset := offset
          size := size
          segment_id_local_client_source := segment_id_checkpoint
          queue := queue
          group := group
          active_snapshot := 0 })
    ∧ (∀ o, gpi_cp_restore fuel E segment_id_checkpoint offset size queue policy group
        timeout_ms d tr = Result.returned o → o.ret = GASPI_TIMEOUT →
      o.d.offset = offset ∧ o.d.size = size
      ∧ o.d.segment_id_local_client_source = segment_id_checkpoint
      ∧ o.d.queue = queue ∧ o.d.group = group)
    ∧ ((gpi_cp_commit E timeout_ms d tr).ret = GASPI_TIMEOUT →
      (gpi_cp_commit E timeout_ms d tr).trace = Call.gettimeofday :: tr
      ∨ (gpi_cp_commit E timeout_ms d tr).trace
        = Call.wait d.queue timeout_ms :: Call.gettimeofday :: tr
      ∨ (gpi_cp_commit E timeout_ms d tr).trace
        = Call.notify_waitsome d.segment_id_remote_on_receiver d.sender 1 timeout_ms
          :: Call.wait d.queue timeout_ms :: Call.gettimeofday :: tr
      ∨ (gpi_cp_commit E timeout_ms d tr).trace
        = Call.notify_reset d.segment_id_remote_on_receiver d.sender
          :: Call.notify_waitsome d.segment_id_remote_on_receiver d.sender 1 timeout_ms
          :: Call.wait d.queue timeout_ms :: Call.gettimeofday :: tr
      ∨ (gpi_cp_commit E timeout_ms d tr).trace
        = Call.barrier d.group timeout_ms
          :: Call.notify_reset d.segment_id_remote_on_receiver d.sender
          :: Call.notify_waitsome d.segment_id_remote_on_receiver d.sender 1 timeout_ms
          :: Call.wait d.queue timeout_ms :: Call.gettimeofday :: tr)
    ∧ ((gpi_cp_commit E timeout_ms d tr).ret = GASPI_TIMEOUT →
      ∀ tr1, E.proc_rank.1 = GASPI_SUCCESS →
        gpi_cp_is_in_group E d.group E.proc_rank.2 = true →
        d.state_in_progress = true →
        (E.answer (Call.gettimeofday :: tr1) (Call.wait d.queue timeout_ms)).ret
          = GASPI_SUCCESS →
        Call.notify_waitsome d.segment_id_remote_on_receiver d.sender 1 timeout_ms
          ∈ (gpi_cp_commit E timeout_ms (gpi_cp_commit E timeout_ms d tr).d tr1).trace)
    := by
  refine ⟨?_, ?_, ?_, ?_, ?_, ?_⟩
  · intro h
    exact commit_failure_keeps_description E timeout_ms d tr (by rw [h]; decide)
  · intro h
    exact start_failure_effect E timeout_ms d tr h
  · intro o hret hto
    exact init_timeout_effect _ _ _ _ _ _ _ _ _ _ _ _ hret hto
  · intro o hret _
    exact restore_stores_args _ _ _ _ _ _ _ _ _ _ _ _ hret
  · intro h
    exact commit_timeout_trace E timeout_ms d tr h
  · intro h tr1 hr hm hp hw
    rw [commit_failure_keeps_description E timeout_ms d tr (by rw [h]; decide)]
    exact commit_waits_for_notification E timeout_ms d tr1 hr hm hp hw

/-- C17 as amended, at rank 1 of the ring 0, 1, 2 with a snapshot in flight and
a barrier that times out: commit returns `GASPI_TIMEOUT` and the descriptor is
as before. -/
theorem C17_timeout_effects_witness :
    (gpi_cp_commit (failingEnv (exampleEnv 1 3 [0, 1, 2] 0) Call.is_barrier GASPI_TIMEOUT)
        0 exampleInFlight []).ret = GASPI_TIMEOUT
    ∧ (gpi_cp_commit (failingEnv (exampleEnv 1 3 [0, 1, 2] 0) Call.is_barrier GASPI_TIMEOUT)
        0 exampleInFlight []).d = exampleInFlight
    ∧ (gpi_cp_start (failingEnv (exampleEnv 1 3 [0, 1, 2] 0) Call.is_write_notify
        GASPI_TIMEOUT) 0 exampleIdle []).d.state_in_progress = true := by
  have hc := (C17_timeout_effects 3
    (failingEnv (exampleEnv 1 3 [0, 1, 2] 0) Call.is_barrier GASPI_TIMEOUT) 0 0 8 0
    GPI_CP_POLICY_RING 0 0 exampleInFlight []).1
  have hs := (C17_timeout_effects 3
    (failingEnv (exampleEnv 1 3 [0, 1, 2] 0) Call.is_write_notify GASPI_TIMEOUT) 0 0 8 0
    GPI_CP_POLICY_RING 0 0 exampleIdle []).2.1
  have e1 : (gpi_cp_commit (failingEnv (exampleEnv 1 3 [0, 1, 2] 0) Call.is_barrier
      GASPI_TIMEOUT) 0 exampleInFlight []).ret = GASPI_TIMEOUT := by decide
  have e2 : (gpi_cp_start (failingEnv (exampleEnv 1 3 [0, 1, 2] 0) Call.is_write_notify
      GASPI_TIMEOUT) 0 exampleIdle []).ret = GASPI_TIMEOUT := by decide
  exact ⟨e1, hc e1, ((hs e2).2 (by decide)).2⟩

theorem tell_sender_returns (E : Env) (seg offset sender : Nat) (tr : List Call)
    (hptr : ∀ t s, (E.answer t (Call.segment_ptr s)).ret = GASPI_SUCCESS) :
    ∃ tr1, gpi_cp_tell_sender_about_the_local_segment_id E seg offset sender tr
      = Result.returned tr1 := by
  simp [gpi_cp_tell_sender_about_the_local_segment_id, gpi_cp_ptr, gaspi, hptr]

theorem make_sure_returns (E : Env) (seg offset sender timeout_ms : Nat) (tr : List Call)
    (hptr : ∀ t s, (E.answer t (Call.segment_ptr s)).ret = GASPI_SUCCESS) :
    ∃ tr1, gpi_cp_make_sure_receiver_got_local_segment_id E seg offset sender timeout_ms tr
      = Result.returned tr1 := by
  simp [gpi_cp_make_sure_receiver_got_local_segment_id, gpi_cp_ptr, gaspi, hptr]

theorem receive_segment_id_returns (E : Env) (seg offset expected timeout_ms : Nat)
    (tr : List Call)
    (hptr : ∀ t s, (E.answer t (Call.segment_ptr s)).ret = GASPI_SUCCESS)
    (hrecv : ∀ t c, Call.is_passive_receive c = true →
      (E.answer t c).ret = GASPI_SUCCESS ∧ (E.answer t c).out = expected) :
    ∃ v tr1, gpi_cp_receive_segment_id E seg offset expected timeout_ms tr
      = Result.returned ((GPI_CP_SUCCESS, v), tr1) := by
  have h := hrecv tr (Call.passive_receive seg ((offset + SIZEOF_SEGMENT_ID) % OFFSET_MOD)
    SIZEOF_SEGMENT_ID timeout_ms) rfl
  simp [gpi_cp_receive_segment_id, gpi_cp_ptr, gaspi, hptr, h.1, h.2]

theorem receive_segment_id_fails (E : Env) (seg offset expected timeout_ms : Nat)
    (tr : List Call) (r : (Int × Nat) × List Call)
    (hrecv : ∀ t c, Call.is_passive_receive c = true → (E.answer t c).ret ≠ GASPI_SUCCESS)
    (hret : gpi_cp_receive_segment_id E seg offset expected timeout_ms tr
      = Result.returned r) :
    r.1.1 = GPI_CP_ERROR_UNEXPECTED_SEGMENT_ID_SOURCE := by
  have h := hrecv tr (Call.passive_receive seg ((offset + SIZEOF_SEGMENT_ID) % OFFSET_MOD)
    SIZEOF_SEGMENT_ID timeout_ms) rfl
  simp only [gpi_cp_receive_segment_id, gaspi] at hret
  rw [if_pos h] at hret
  cases hret
  rfl

/-- Whatever `gpi_cp_init` returns to a member of the group whose rank is
known, the code is `GASPI_SUCCESS` or `GASPI_ERROR`, and it is `GASPI_ERROR`
when the passive receive does not succeed. -/
theorem init_member_codes (fuel : Nat) (E : Env)
    (segment_id_checkpoint offset size queue : Nat) (policy : Int)
    (group timeout_ms : Nat) (d : gpi_cp_description) (tr : List Call) (o : Out)
    (hrank : E.proc_rank.1 = GASPI_SUCCESS)
    (hret : gpi_cp_init fuel E segment_id_checkpoint offset size queue policy group
        timeout_ms d tr = Result.returned o) :
    (o.ret = GASPI_SUCCESS ∨ o.ret = GASPI_ERROR)
    ∧ (gpi_cp_is_in_group E group E.proc_rank.2 = true →
      (∀ t c, Call.is_passive_receive c = true → (E.answer t c).ret ≠ GASPI_SUCCESS) →
      o.ret = GASPI_ERROR) := by
  unfold gpi_cp_init at hret
  simp only [gpi_cp_init_end, gettimeofday] at hret
  split at hret
  · rename_i h
    exact absurd hrank h
  · split at hret
    · rename_i hm
      split at hret
      · cases hret
      · cases hret
      · split at hret
        · cases hret
          exact ⟨Or.inr rfl, fun _ _ => rfl⟩
        · split at hret
          · cases hret
          · cases hret
          · split at hret
            · cases hret
              exact ⟨Or.inr rfl, fun _ _ => rfl⟩
            · split at hret
              · cases hret
              · cases hret
              · split at hret
                · cases hret
                · cases hret
                · rename_i rc hrc
                  split at hret
                  · cases hret
                    exact ⟨Or.inr rfl, fun _ _ => rfl⟩
                  · rename_i hok
                    refine ⟨?_, fun _ hfail => ?_⟩
                    · repeat' split at hret
                      all_goals cases hret
                      exact Or.inl rfl
                    · exfalso
                      have := receive_segment_id_fails _ _ _ _ _ _ _ hfail hrc
                      rw [this] at hok
                      exact hok (by decide)
    · rename_i hm
      cases hret
      exact ⟨Or.inl rfl, fun h => absurd h hm⟩

/-- For a member of the group, `gpi_cp_init` returns `GASPI_SUCCESS` as soon as
the resolver, the segment pointer lookups and the passive receive (naming the
receiver) succeed, whatever the other substrate calls return. -/
theorem init_member_succeeds (fuel : Nat) (E : Env)
    (segment_id_checkpoint offset size queue : Nat) (policy : Int)
    (group timeout_ms : Nat) (d : gpi_cp_description) (tr : List Call) (s r : Nat)
    (hrank : E.proc_rank.1 = GASPI_SUCCESS)
    (hmem : gpi_cp_is_in_group E group E.proc_rank.2 = true)
    (hs : gpi_cp_sender fuel E policy group E.proc_rank.2
      = Result.returned (GPI_CP_SUCCESS, s))
    (hr : gpi_cp_receiver fuel E policy group E.proc_rank.2
      = Result.returned (GPI_CP_SUCCESS, r))
    (hptr : ∀ t x, (E.answer t (Call.segment_ptr x)).ret = GASPI_SUCCESS)
    (hrecv : ∀ t c, Call.is_passive_receive c = true →
      (E.answer t c).ret = GASPI_SUCCESS ∧ (E.answer t c).out = r) :
    ∃ o, gpi_cp_init fuel E segment_id_checkpoint offset size queue policy group
        timeout_ms d tr = Result.returned o ∧ o.ret = GASPI_SUCCESS := by
  unfold gpi_cp_init
  simp only [hrank, hmem, hs, hr, ne_eq, not_true_eq_false, if_false, if_true]
  obtain ⟨tr1, h1⟩ := tell_sender_returns E
    (gpi_cp_allocate_and_register_local_segment E d.segment_id_local_for_sender size s
      timeout_ms (gettimeofday E tr).2).1 0 s
    (gpi_cp_allocate_and_register_local_segment E d.segment_id_local_for_sender size s
      timeout_ms (gettimeofday E tr).2).2 hptr
  simp only [h1]
  obtain ⟨v, tr2, h2⟩ := receive_segment_id_returns E
    (gpi_cp_allocate_and_register_local_segment E d.segment_id_local_for_sender size s
      timeout_ms (gettimeofday E tr).2).1 0 r timeout_ms tr1 hptr hrecv
  simp only [h2, ne_eq, not_true_eq_false, if_false]
  obtain ⟨tr3, h3⟩ := make_sure_returns E
    (gpi_cp_allocate_and_register_local_segment E d.segment_id_local_for_sender size s
      timeout_ms (gettimeofday E tr).2).1 0 s timeout_ms tr2 hptr
  simp only [h3]
  exact ⟨_, rfl, rfl⟩

/-! ## Claim about substrate errors during init -/

/-- C19 fails on the code: at rank 1 of the ring 0, 1, 2, when the segment
registration returns `GASPI_TIMEOUT` (1) `gpi_cp_init` returns `GASPI_SUCCESS`
(0), when every passive send returns `GASPI_TIMEOUT` it returns
`GASPI_SUCCESS` as well, and when the passive receive returns
`GASPI_TIMEOUT` it returns `GASPI_ERROR` (-1). -/
theorem C19_counterexample :
    (∃ o, gpi_cp_init 3 (failingEnv (exampleEnv 1 3 [0, 1, 2] 2) Call.is_segment_register
          GASPI_TIMEOUT) 0 0 8 0 GPI_CP_POLICY_RING 0 0
          (GPI_CP_DESCRIPTION_INITIALIZER exampleDescription) [] = Result.returned o
      ∧ Call.segment_register 0 0 0 ∈ o.trace ∧ o.ret = 0)
    ∧ (∃ o, gpi_cp_init 3 (failingEnv (exampleEnv 1 3 [0, 1, 2] 2) Call.is_passive_send
          GASPI_TIMEOUT) 0 0 8 0 GPI_CP_POLICY_RING 0 0
          (GPI_CP_DESCRIPTION_INITIALIZER exampleDescription) [] = Result.returned o
      ∧ Call.passive_send 0 0 0 1 0 ∈ o.trace ∧ o.ret = 0)
    ∧ ∃ o, gpi_cp_init 3 (failingEnv (exampleEnv 1 3 [0, 1, 2] 2) Call.is_passive_receive
          GASPI_TIMEOUT) 0 0 8 0 GPI_CP_POLICY_RING 0 0
          (GPI_CP_DESCRIPTION_INITIALIZER exampleDescription) [] = Result.returned o
      ∧ Call.passive_receive 0 1 1 0 ∈ o.trace ∧ o.ret = -1 := by
  refine ⟨⟨_, rfl, by decide, rfl⟩, ⟨_, rfl, by decide, rfl⟩, ⟨_, rfl, by decide, rfl⟩⟩

/-- C19 as amended: during `gpi_cp_init` by a group member whose rank is known
no substrate code is returned unchanged: init returns `GASPI_SUCCESS` or
`GASPI_ERROR`.  A passive receive that does not succeed makes init return
`GASPI_ERROR`.  The codes of segment allocation, segment registration and the
passive sends are not looked at: init returns `GASPI_SUCCESS` as soon as the
resolver, the segment pointer lookups and the passive receive (naming the
receiver) succeed. -/
theorem C19_init_error_codes (fuel : Nat) (E : Env)
    (segment_id_checkpoint offset size queue : Nat) (policy : Int)
    (group timeout_ms : Nat) (d : gpi_cp_description) (tr : List Call)
    (hrank : E.proc_rank.1 = GASPI_SUCCESS)
    (hmem : gpi_cp_is_in_group E group E.proc_rank.2 = true) :
    (∀ o, gpi_cp_init fuel E segment_id_checkpoint offset size queue policy group
        timeout_ms d tr = Result.returned o →
      (o.ret = GASPI_SUCCESS ∨ o.ret = GASPI_ERROR)
      ∧ ((∀ t c, Call.is_passive_receive c = true → (E.answer t c).ret ≠ GASPI_SUCCESS) →
        o.ret = GASPI_ERROR))
    ∧ (∀ s r,
      gpi_cp_sender fuel E policy group E.proc_rank.2 = Result.returned (GPI_CP_SUCCESS, s) →
      gpi_cp_receiver fuel E policy group E.proc_rank.2
        = Result.returned (GPI_CP_SUCCESS, r) →
      (∀ t x, (E.answer t (Call.segment_ptr x)).ret = GASPI_SUCCESS) →
      (∀ t c, Call.is_passive_receive c = true →
        (E.answer t c).ret = GASPI_SUCCESS ∧ (E.answer t c).out = r) →
      ∃ o, gpi_cp_init fuel E segment_id_checkpoint offset size queue policy group
        timeout_ms d tr = Result.returned o ∧ o.ret = GASPI_SUCCESS) := by
  refine ⟨fun o hret => ?_, fun s r hs hr hptr hrecv => ?_⟩
  · obtain ⟨h1, h2⟩ := init_member_codes _ _ _ _ _ _ _ _ _ _ _ _ hrank hret
    exact ⟨h1, h2 hmem⟩
  · exact init_member_succeeds _ _ _ _ _ _ _ _ _ _ _ s r hrank hmem hs hr hptr hrecv

/-- C19 as amended, at rank 1 of the ring 0, 1, 2 with a segment allocation
that returns `GASPI_ERROR`: init returns `GASPI_SUCCESS`. -/
theorem C19_init_error_codes_witness :
    ∃ o, gpi_cp_init 3 (failingEnv (exampleEnv 1 3 [0, 1, 2] 2) Call.is_segment_alloc
          GASPI_ERROR) 0 0 8 0 GPI_CP_POLICY_RING 0 0
          (GPI_CP_DESCRIPTION_INITIALIZER exampleDescription) [] = Result.returned o
      ∧ o.ret = GASPI_SUCCESS :=
  (C19_init_error_codes 3 (failingEnv (exampleEnv 1 3 [0, 1, 2] 2) Call.is_segment_alloc
      GASPI_ERROR) 0 0 8 0 GPI_CP_POLICY_RING 0 0
      (GPI_CP_DESCRIPTION_INITIALIZER exampleDescription) [] rfl (by decide)).2 0 2
    (by decide) (by decide)
    (fun t x => rfl)
    (fun t c hc => by
      cases c <;> simp [Call.is_passive_receive] at hc
      exact ⟨rfl, rfl⟩)

/-! ## The scan for an unused segment id -/

theorem ascending_of_step (arr : Nat → Nat) (n : Nat)
    (hasc : ∀ i, i + 1 < n → arr i < arr (i + 1)) :
    ∀ j i, i < j → j < n → arr i < arr j := by
  intro j
  induction j with
  | zero => intro i hi; omega
  | succ j ih =>
    intro i hi hj
    by_cases h : i = j
    · subst h; exact hasc i hj
    · exact lt_trans (ih i (by omega) (by omega)) (hasc j hj)

/-- The scan of `gpi_cp_get_unused_segment_id` over a strictly ascending array
of `n > 0` ids stops after an initial run of consecutive ids `arr 0`,
`arr 0 + 1`, ..., `arr k` and gives `arr k + 1`. -/
theorem unused_scan_spec (arr : Nat → Nat) (n : Nat) (hn : 0 < n)
    (hasc : ∀ i, i + 1 < n → arr i < arr (i + 1)) :
    ∃ k, k < n ∧ (∀ j, j ≤ k → arr j = arr 0 + j)
      ∧ (k + 1 < n → arr k + 1 < arr (k + 1))
      ∧ (match (List.range (n - 1)).find? (fun i => arr i + 1 != arr (i + 1)) with
          | some i => arr i + 1
          | none => arr (n - 1) + 1) = arr k + 1 := by
  have run : ∀ k, (∀ j, j < k → arr j + 1 = arr (j + 1)) → ∀ j, j ≤ k → arr j = arr 0 + j := by
    intro k hk j
    induction j with
    | zero => intro _; rfl
    | succ j ih =>
      intro hj
      rw [← hk j (by omega), ih (by omega)]
      omega
  cases hfind : (List.range (n - 1)).find? (fun i => arr i + 1 != arr (i + 1)) with
  | none =>
    rw [List.find?_range_eq_none] at hfind
    refine ⟨n - 1, by omega, run (n - 1) (fun j hj => ?_), fun h => by omega, rfl⟩
    have := hfind j hj
    simpa using this
  | some i =>
    rw [List.find?_range_eq_some] at hfind
    obtain ⟨hp, hi, hbefore⟩ := hfind
    have hi' : i < n - 1 := by simpa using hi
    refine ⟨i, by omega, run i (fun j hj => ?_), fun h => ?_, rfl⟩
    · have := hbefore j hj
      simpa using this
    · have h1 : arr i + 1 ≠ arr (i + 1) := by simpa using hp
      have h2 := hasc i h
      omega

/-- What `gpi_cp_get_unused_segment_id` returns when its three substrate calls
succeed and report `n > 0` strictly ascending ids whose largest is below 255:
`GASPI_SUCCESS` and an id `x` above the first id, not in the list, with every
id from the first one up to `x` in the list. -/
theorem get_unused_segment_id_spec (E : Env) (cur : Nat) (tr : List Call) (n : Nat)
    (arr : Nat → Nat)
    (hnum : (E.answer tr Call.segment_num).ret = GASPI_SUCCESS
      ∧ (E.answer tr Call.segment_num).out = n)
    (hlist : (E.answer (Call.segment_num :: tr) (Call.segment_list n)).ret = GASPI_SUCCESS
      ∧ (E.answer (Call.segment_num :: tr) (Call.segment_list n)).arr = arr)
    (hmax : (E.answer (Call.segment_list n :: Call.segment_num :: tr) Call.segment_max).ret
      = GASPI_SUCCESS)
    (hn : 0 < n)
    (hasc : ∀ i, i + 1 < n → arr i < arr (i + 1))
    (hlast : arr (n - 1) < SEGMENT_ID_MOD - 1) :
    (gpi_cp_get_unused_segment_id E cur tr).1.1 = GASPI_SUCCESS
    ∧ arr 0 < (gpi_cp_get_unused_segment_id E cur tr).1.2
    ∧ (gpi_cp_get_unused_segment_id E cur tr).1.2 ≤ arr (n - 1) + 1
    ∧ (∀ i, i < n → arr i ≠ (gpi_cp_get_unused_segment_id E cur tr).1.2)
    ∧ (∀ y, arr 0 ≤ y → y < (gpi_cp_get_unused_segment_id E cur tr).1.2 →
        ∃ i, i < n ∧ arr i = y) := by
  have hnum' := hnum
  obtain ⟨k, hk, hrun, hgap, hval⟩ := unused_scan_spec arr n hn hasc
  have hmono := ascending_of_step arr n hasc
  have hkle : arr k ≤ arr (n - 1) := by
    by_cases h : k = n - 1
    · rw [h]
    · exact le_of_lt (hmono (n - 1) k (by omega) (by omega))
  have hsmall : (arr k + 1) % SEGMENT_ID_MOD = arr k + 1 := by
    apply Nat.mod_eq_of_lt
    simp only [SEGMENT_ID_MOD] at hlast ⊢
    omega
  have hres : gpi_cp_get_unused_segment_id E cur tr
      = ((GASPI_SUCCESS, arr k + 1), Call.segment_max :: Call.segment_list n
          :: Call.segment_num :: tr) := by
    have hn0 : n ≠ 0 := by omega
    simp only [gpi_cp_get_unused_segment_id, gaspi, hnum'.1, hnum'.2, hlist.1, hlist.2, hmax,
      ne_eq, not_true_eq_false, if_false, hn0]
    split
    · rename_i i hi
      rw [hi] at hval
      simp only at hval
      rw [hval, hsmall]
    · rename_i hi
      rw [hi] at hval
      simp only at hval
      rw [hval, hsmall]
  rw [hres]
  refine ⟨rfl, ?_, ?_, ?_, ?_⟩
  · show arr 0 < arr k + 1
    have := hrun k (le_refl _)
    omega
  · show arr k + 1 ≤ arr (n - 1) + 1
    omega
  · intro i hi
    show arr i ≠ arr k + 1
    by_cases h : i ≤ k
    · have h1 := hrun i h
      have h2 := hrun k (le_refl _)
      omega
    · have h1 : k + 1 < n := by omega
      have h2 := hgap h1
      by_cases h3 : i = k + 1
      · rw [h3]; omega
      · have := hmono i (k + 1) (by omega) hi
        omega
  · intro y hy hyx
    have hyx' : y < arr k + 1 := hyx
    have h2 := hrun k (le_refl _)
    refine ⟨y - arr 0, by omega, ?_⟩
    rw [hrun (y - arr 0) (by omega)]
    omega

/-! ## Claim about the unused segment id -/

/-- C20 fails on the code: when the only allocated segment id is 1,
`gpi_cp_get_unused_segment_id` returns success with the id 2, although 0 is
not allocated. -/
theorem C20_counterexample :
    (gpi_cp_get_unused_segment_id (segmentsEnv [1]) 0 []).1 = (GASPI_SUCCESS, 2)
    ∧ [1].contains 0 = false := by
  decide

/-- C20 as amended: when its substrate calls succeed and report the allocated
ids as a strictly ascending list (the largest below 255),
`gpi_cp_get_unused_segment_id` returns success with 0 for the empty list, and
otherwise with the lowest id above the first allocated one that is not
allocated: it is above the first id, it is not in the list, and every id from
the first one up to it is in the list.  It is the minimum non-negative integer
not in the allocated set when the list is empty or starts at 0. -/
theorem C20_unused_segment_id (E : Env) (cur : Nat) (tr : List Call) (n : Nat)
    (arr : Nat → Nat)
    (hnum : (E.answer tr Call.segment_num).ret = GASPI_SUCCESS
      ∧ (E.answer tr Call.segment_num).out = n)
    (hlist : 0 < n →
      (E.answer (Call.segment_num :: tr) (Call.segment_list n)).ret = GASPI_SUCCESS
      ∧ (E.answer (Call.segment_num :: tr) (Call.segment_list n)).arr = arr)
    (hmax : 0 < n →
      (E.answer (Call.segment_list n :: Call.segment_num :: tr) Call.segment_max).ret
        = GASPI_SUCCESS)
    (hasc : ∀ i, i + 1 < n → arr i < arr (i + 1))
    (hlast : 0 < n → arr (n - 1) < SEGMENT_ID_MOD - 1) :
    (gpi_cp_get_unused_segment_id E cur tr).1.1 = GASPI_SUCCESS
    ∧ (n = 0 → (gpi_cp_get_unused_segment_id E cur tr).1.2 = 0)
    ∧ (0 < n →
        arr 0 < (gpi_cp_get_unused_segment_id E cur tr).1.2
        ∧ (∀ i, i < n → arr i ≠ (gpi_cp_get_unused_segment_id E cur tr).1.2)
        ∧ (∀ y, arr 0 ≤ y → y < (gpi_cp_get_unused_segment_id E cur tr).1.2 →
            ∃ i, i < n ∧ arr i = y))
    ∧ ((n = 0 ∨ arr 0 = 0) →
        (∀ i, i < n → arr i ≠ (gpi_cp_get_unused_segment_id E cur tr).1.2)
        ∧ (∀ y, y < (gpi_cp_get_unused_segment_id E cur tr).1.2 →
            ∃ i, i < n ∧ arr i = y)) := by
  by_cases hn : n = 0
  · have hres : gpi_cp_get_unused_segment_id E cur tr
        = ((GASPI_SUCCESS, 0), Call.segment_num :: tr) := by
      simp [gpi_cp_get_unused_segment_id, gaspi, hnum.1, hnum.2, hn]
    rw [hres]
    refine ⟨rfl, fun _ => rfl, fun h => by omega, fun _ => ⟨fun i hi => by omega, ?_⟩⟩
    intro y hy
    exact absurd hy (Nat.not_lt_zero y)
  · have hpos : 0 < n := by omega
    obtain ⟨h1, h2, _, h4, h5⟩ := get_unused_segment_id_spec E cur tr n arr hnum
      (hlist hpos) (hmax hpos) hpos hasc (hlast hpos)
    refine ⟨h1, fun h => absurd h hn, fun _ => ⟨h2, h4, h5⟩, fun h0 => ⟨h4, ?_⟩⟩
    rcases h0 with h0 | h0
    · exact absurd h0 hn
    · intro y hy
      exact h5 y (by omega) hy

/-- C20 as amended, for the allocated ids 0, 1 and 3: the id returned is 2. -/
theorem C20_unused_segment_id_witness :
    (gpi_cp_get_unused_segment_id (segmentsEnv [0, 1, 3]) 0 []).1.1 = GASPI_SUCCESS
    ∧ (∀ i, i < 3 → [0, 1, 3].getD i 0
        ≠ (gpi_cp_get_unused_segment_id (segmentsEnv [0, 1, 3]) 0 []).1.2)
    ∧ (∀ y, y < (gpi_cp_get_unused_segment_id (segmentsEnv [0, 1, 3]) 0 []).1.2 →
        ∃ i, i < 3 ∧ [0, 1, 3].getD i 0 = y) := by
  have h := C20_unused_segment_id (segmentsEnv [0, 1, 3]) 0 [] 3
    (fun i => [0, 1, 3].getD i 0) ⟨rfl, rfl⟩ (fun _ => ⟨rfl, rfl⟩) (fun _ => rfl)
    (by
      intro i hi
      have hi2 : i < 2 := by omega
      interval_cases i <;> decide)
    (fun _ => by decide)
  exact ⟨h.1, (h.2.2.2 (Or.inr rfl)).1, (h.2.2.2 (Or.inr rfl)).2⟩

/-! ## How the traces grow -/

theorem tell_sender_trace (E : Env) (seg offset sender : Nat) (tr tr1 : List Call)
    (h : gpi_cp_tell_sender_about_the_local_segment_id E seg offset sender tr
      = Result.returned tr1) :
    ∃ Y, tr1 = Y ++ tr := by
  simp only [gpi_cp_tell_sender_about_the_local_segment_id, gpi_cp_ptr, gaspi] at h
  split at h
  · cases h
  · cases h
    exact ⟨[_, _, _], rfl⟩

theorem receive_segment_id_trace (E : Env) (seg offset expected timeout_ms : Nat)
    (tr : List Call) (r : (Int × Nat) × List Call)
    (h : gpi_cp_receive_segment_id E seg offset expected timeout_ms tr = Result.returned r) :
    ∃ Y, r.2 = Y ++ tr := by
  simp only [gpi_cp_receive_segment_id, gpi_cp_ptr, gaspi] at h
  repeat' split at h
  all_goals cases h
  · exact ⟨[_], rfl⟩
  · exact ⟨[_], rfl⟩
  · exact ⟨[_, _, _], rfl⟩

theorem restore_end_trace (E : Env) (timeout_ms : Nat) (tstart : Timeval)
    (d : gpi_cp_description) (tr : List Call) :
    ∃ Y, (gpi_cp_restore_end E timeout_ms tstart d tr).trace = Y ++ tr := by
  simp only [gpi_cp_restore_end, gaspi, gettimeofday]
  split_ifs
  · exact ⟨[_], rfl⟩
  · exact ⟨[_, _], rfl⟩

theorem start_trace (E : Env) (timeout_ms : Nat) (d : gpi_cp_description)
    (tr : List Call) :
    ∃ Y, (gpi_cp_start E timeout_ms d tr).trace = Y ++ tr := by
  simp only [gpi_cp_start, gpi_cp_start_end, gaspi, gettimeofday]
  split_ifs
  all_goals first
    | exact ⟨[_], rfl⟩
    | exact ⟨[_, _], rfl⟩
    | exact ⟨[_, _, _], rfl⟩
    | exact ⟨[_, _, _, _], rfl⟩
    | exact ⟨[_, _, _, _, _], rfl⟩
    | exact ⟨[_, _, _, _, _, _], rfl⟩


theorem calls_before_barrier_shape (X pre : List Call)
    (hpre : ∀ c ∈ pre, c.is_barrier = false)
    (hX : X = [] ∨ ∃ X' g t, X = X' ++ [Call.barrier g t]) :
    calls_before_barrier (X ++ pre) = pre.reverse := by
  have hall : ∀ c ∈ pre.reverse, (fun c : Call => !c.is_barrier) c = true := by
    intro c hc
    simp [hpre c (List.mem_reverse.1 hc)]
  rcases hX with rfl | ⟨X', g, t, rfl⟩
  · simp only [calls_before_barrier, List.nil_append]
    exact List.takeWhile_eq_self_iff.2 hall
  · simp only [calls_before_barrier, List.reverse_append, List.reverse_cons,
      List.reverse_nil, List.nil_append, List.singleton_append]
    rw [List.takeWhile_append_of_pos hall]
    simp [Call.is_barrier]

theorem missing_sender_trace (fuel : Nat) (E : Env) (policy : Int)
    (new_group timeout_ms : Nat) (tstart : Timeval) (d : gpi_cp_description)
    (tr : List Call) (o : Out) (j : Nat)
    (hs : gpi_cp_sender fuel E policy new_group E.proc_rank.2
      = Result.returned (GPI_CP_SUCCESS, j))
    (hret : gpi_cp_restore_missing_sender fuel E policy new_group timeout_ms tstart d tr
      = Result.returned o) :
    ∃ X, o.trace = X ++ ((if d.active_snapshot = d.size then
          [Call.passive_send d.segment_id_local_for_sender d.active_snapshot j 1
            timeout_ms] else []) ++ tr)
      ∧ (X = [] ∨ ∃ X' g t, X = X' ++ [Call.barrier g t]) := by
  unfold gpi_cp_restore_missing_sender at hret
  rw [hs] at hret
  simp only [gaspi, ne_eq, not_true_eq_false, if_false] at hret
  by_cases ha : d.active_snapshot = d.size
  · rw [if_pos ha] at hret ⊢
    simp only [] at hret
    split at hret
    · cases hret
      exact ⟨[], rfl, Or.inl rfl⟩
    · split at hret
      · cases hret
        exact ⟨[_, Call.barrier d.group timeout_ms], rfl, Or.inr ⟨[_], _, _, rfl⟩⟩
      · split at hret
        · cases hret
        · cases hret
        · rename_i tr1 htell
          cases hret
          obtain ⟨Y, hY⟩ := tell_sender_trace _ _ _ _ _ _ htell
          obtain ⟨Z, hZ⟩ := restore_end_trace E timeout_ms tstart
            { d with sender := j } tr1
          refine ⟨Z ++ Y ++ [Call.segment_register d.segment_id_local_for_sender j
            timeout_ms] ++ [Call.barrier d.group timeout_ms], ?_,
            Or.inr ⟨Z ++ Y ++ [Call.segment_register d.segment_id_local_for_sender j
              timeout_ms], _, _, rfl⟩⟩
          rw [hZ, hY]
          simp
  · rw [if_neg ha] at hret ⊢
    simp only [not_true_eq_false, if_false] at hret
    split at hret
    · cases hret
      exact ⟨[_, Call.barrier d.group timeout_ms], rfl, Or.inr ⟨[_], _, _, rfl⟩⟩
    · split at hret
      · cases hret
      · cases hret
      · rename_i tr1 htell
        cases hret
        obtain ⟨Y, hY⟩ := tell_sender_trace _ _ _ _ _ _ htell
        obtain ⟨Z, hZ⟩ := restore_end_trace E timeout_ms tstart
          { d with sender := j } tr1
        refine ⟨Z ++ Y ++ [Call.segment_register d.segment_id_local_for_sender j
          timeout_ms] ++ [Call.barrier d.group timeout_ms], ?_,
          Or.inr ⟨Z ++ Y ++ [Call.segment_register d.segment_id_local_for_sender j
            timeout_ms], _, _, rfl⟩⟩
        rw [hZ, hY]
        simp


theorem receive_segment_id_suffix (E : Env) (seg offset expected timeout_ms : Nat)
    (tr : List Call) (r : (Int × Nat) × List Call)
    (h : gpi_cp_receive_segment_id E seg offset expected timeout_ms tr = Result.returned r) :
    tr <:+ r.2 := by
  obtain ⟨Y, hY⟩ := receive_segment_id_trace _ _ _ _ _ _ _ h
  exact ⟨Y, hY.symm⟩

theorem restore_end_suffix (E : Env) (timeout_ms : Nat) (tstart : Timeval)
    (d : gpi_cp_description) (tr : List Call) :
    tr <:+ (gpi_cp_restore_end E timeout_ms tstart d tr).trace := by
  obtain ⟨Y, hY⟩ := restore_end_trace E timeout_ms tstart d tr
  exact ⟨Y, hY.symm⟩

theorem start_suffix (E : Env) (timeout_ms : Nat) (d : gpi_cp_description)
    (tr : List Call) :
    tr <:+ (gpi_cp_start E timeout_ms d tr).trace := by
  obtain ⟨Y, hY⟩ := start_trace E timeout_ms d tr
  exact ⟨Y, hY.symm⟩

theorem missing_receiver_after_barrier (E : Env) (timeout_ms : Nat) (tstart : Timeval)
    (d1 : gpi_cp_description) (pre : List Call) (o : Out)
    (hret : (match gpi_cp_receive_segment_id E d1.segment_id_local_for_sender
            d1.active_snapshot d1.receiver timeout_ms
            (Call.barrier d1.group timeout_ms :: pre) with
        | Result.crashed => Result.crashed
        | Result.looping => Result.looping
        | Result.returned rc =>
          let d2 := { d1 with segment_id_remote_on_receiver := rc.1.2 }
          if rc.1.1 ≠ GPI_CP_SUCCESS then
            Result.returned { ret := GASPI_ERROR, d := d2, trace := rc.2 }
          else
            let w : Int × List Call :=
              if d2.state_in_progress then
                let g := gaspi E (Call.wait d2.queue timeout_ms) rc.2
                (g.1.ret, g.2)
              else (GASPI_SUCCESS, rc.2)
            if w.1 ≠ GASPI_SUCCESS then
              Result.returned { ret := w.1, d := d2, trace := w.2 }
            else
              let d3 :=
                if d2.state_in_progress then { d2 with state_in_progress := false }
                else d2
              let st := gpi_cp_start E timeout_ms d3 w.2
              let w2 := gaspi E (Call.wait st.d.queue timeout_ms) st.trace
              if w2.1.ret ≠ GASPI_SUCCESS then
                Result.returned { ret := w2.1.ret, d := st.d, trace := w2.2 }
              else Result.returned (gpi_cp_restore_end E timeout_ms tstart st.d w2.2))
      = Result.returned o) :
    Call.barrier d1.group timeout_ms :: pre <:+ o.trace := by
  split at hret
  · cases hret
  · cases hret
  · rename_i rc hrc
    have h1 := receive_segment_id_suffix _ _ _ _ _ _ _ hrc
    simp only [gaspi] at hret
    repeat' split at hret
    all_goals cases hret
    all_goals first
      | exact h1
      | exact h1.trans (List.suffix_cons _ _)
      | exact (h1.trans (start_suffix _ _ _ _)).trans (List.suffix_cons _ _)
      | exact ((h1.trans (start_suffix _ _ _ _)).trans
          (List.suffix_cons _ _)).trans (restore_end_suffix _ _ _ _ _)
      | exact ((h1.trans (List.suffix_cons _ _)).trans (start_suffix _ _ _ _)).trans
          (List.suffix_cons _ _)
      | exact (((h1.trans (List.suffix_cons _ _)).trans (start_suffix _ _ _ _)).trans
          (List.suffix_cons _ _)).trans (restore_end_suffix _ _ _ _ _)


theorem missing_receiver_trace (fuel : Nat) (E : Env) (policy : Int)
    (new_group timeout_ms : Nat) (tstart : Timeval) (d : gpi_cp_description)
    (tr : List Call) (o : Out) (j : Nat)
    (hr : gpi_cp_receiver fuel E policy new_group E.proc_rank.2
      = Result.returned (GPI_CP_SUCCESS, j))
    (hret : gpi_cp_restore_missing_receiver fuel E policy new_group timeout_ms tstart d tr
      = Result.returned o) :
    ∃ X, o.trace = X ++ ((if d.active_snapshot = 0 then
          [Call.passive_send d.segment_id_local_for_sender d.active_snapshot j 1
            timeout_ms] else []) ++ tr)
      ∧ (X = [] ∨ ∃ X' g t, X = X' ++ [Call.barrier g t]) := by
  unfold gpi_cp_restore_missing_receiver at hret
  rw [hr] at hret
  simp only [ne_eq, not_true_eq_false, if_false] at hret
  by_cases ha : d.active_snapshot = 0
  · rw [if_pos ha] at hret ⊢
    simp only [gaspi] at hret
    split at hret
    · cases hret
      exact ⟨[], rfl, Or.inl rfl⟩
    · obtain ⟨X', hX'⟩ := missing_receiver_after_barrier E timeout_ms tstart
        { d with receiver := j } _ o hret
      refine ⟨X' ++ [Call.barrier d.group timeout_ms], ?_, Or.inr ⟨X', _, _, rfl⟩⟩
      rw [← hX']
      simp
  · rw [if_neg ha] at hret ⊢
    simp only [gaspi, not_true_eq_false, if_false] at hret
    obtain ⟨X', hX'⟩ := missing_receiver_after_barrier E timeout_ms tstart
      { d with receiver := j } _ o hret
    refine ⟨X' ++ [Call.barrier d.group timeout_ms], ?_, Or.inr ⟨X', _, _, rfl⟩⟩
    rw [← hX']
    simp

theorem sends_tag_shape (X T : List Call) (j : Nat)
    (hT : ∀ c ∈ T, c.is_barrier = false)
    (hX : X = [] ∨ ∃ X' g t, X = X' ++ [Call.barrier g t]) :
    sends_tag (X ++ (T ++ [Call.gettimeofday])) j = T.any (Call.is_tag_to j) := by
  unfold sends_tag
  rw [calls_before_barrier_shape X (T ++ [Call.gettimeofday]) _ hX]
  · simp [List.any_append, Call.is_tag_to]
  · intro c hc
    rcases List.mem_append.1 hc with h | h
    · exact hT c h
    · rw [List.mem_singleton.1 h]
      rfl

/-- A survivor whose old sender is missing issues the tag to its new sender `j`
exactly when its `active_snapshot` equals the `size` passed to restore. -/
theorem restore_missing_sender_tag (fuel : Nat) (E : Env)
    (segment_id_checkpoint offset size queue : Nat) (policy : Int)
    (new_group timeout_ms : Nat) (d : gpi_cp_description) (tr : List Call) (o : Out)
    (j : Nat)
    (hrank : E.proc_rank.1 = GASPI_SUCCESS)
    (hcase : gpi_cp_restore_case E new_group d = RestoreCase.affected_missing_sender)
    (hs : gpi_cp_sender fuel E policy new_group E.proc_rank.2
      = Result.returned (GPI_CP_SUCCESS, j))
    (hret : gpi_cp_restore fuel E segment_id_checkpoint offset size queue policy new_group
      timeout_ms d tr = Result.returned o) :
    ∃ issued, o.trace = issued ++ tr
      ∧ (sends_tag issued j = true ↔ d.active_snapshot = size) := by
  rw [restore_dispatch fuel E segment_id_checkpoint offset size queue policy new_group
    timeout_ms d tr hrank, hcase] at hret
  obtain ⟨X, hX, hshape⟩ := missing_sender_trace _ _ _ _ _ _ _ _ _ j hs hret
  simp only [] at hX
  by_cases ha : d.active_snapshot = size
  · rw [if_pos ha] at hX
    refine ⟨X ++ ([Call.passive_send d.segment_id_local_for_sender d.active_snapshot j 1
      timeout_ms] ++ [Call.gettimeofday]), by rw [hX]; simp, ?_⟩
    rw [sends_tag_shape X _ j (by simp [Call.is_barrier]) hshape]
    simp [Call.is_tag_to, ha]
  · rw [if_neg ha] at hX
    refine ⟨X ++ ([] ++ [Call.gettimeofday]), by rw [hX]; simp, ?_⟩
    rw [sends_tag_shape X _ j (by simp) hshape]
    simp [ha]

/-- A survivor whose old receiver is missing (and whose old sender is not)
issues the tag to its new receiver `j` exactly when its `active_snapshot` is 0. -/
theorem restore_missing_receiver_tag (fuel : Nat) (E : Env)
    (segment_id_checkpoint offset size queue : Nat) (policy : Int)
    (new_group timeout_ms : Nat) (d : gpi_cp_description) (tr : List Call) (o : Out)
    (j : Nat)
    (hrank : E.proc_rank.1 = GASPI_SUCCESS)
    (hcase : gpi_cp_restore_case E new_group d = RestoreCase.affected_missing_receiver)
    (hr : gpi_cp_receiver fuel E policy new_group E.proc_rank.2
      = Result.returned (GPI_CP_SUCCESS, j))
    (hret : gpi_cp_restore fuel E segment_id_checkpoint offset size queue policy new_group
      timeout_ms d tr = Result.returned o) :
    ∃ issued, o.trace = issued ++ tr
      ∧ (sends_tag issued j = true ↔ d.active_snapshot = 0) := by
  rw [restore_dispatch fuel E segment_id_checkpoint offset size queue policy new_group
    timeout_ms d tr hrank, hcase] at hret
  obtain ⟨X, hX, hshape⟩ := missing_receiver_trace _ _ _ _ _ _ _ _ _ j hr hret
  simp only [] at hX
  by_cases ha : d.active_snapshot = 0
  · rw [if_pos ha] at hX
    refine ⟨X ++ ([Call.passive_send d.segment_id_local_for_sender d.active_snapshot j 1
      timeout_ms] ++ [Call.gettimeofday]), by rw [hX]; simp, ?_⟩
    rw [sends_tag_shape X _ j (by simp [Call.is_barrier]) hshape]
    simp [Call.is_tag_to, ha]
  · rw [if_neg ha] at hX
    refine ⟨X ++ ([] ++ [Call.gettimeofday]), by rw [hX]; simp, ?_⟩
    rw [sends_tag_shape X _ j (by simp) hshape]
    simp [ha]


/-! ## Claim about the tag that the survivors send -/

/-- C12: in a restore with `size > 0`, let `j` be the joiner, let the survivor
run in `Ep` be the one whose receiver is missing and whose new receiver is `j`
(the joiner's new sender), and let the survivor run in `Eq` be the one whose
sender is missing and whose new sender is `j` (the joiner's new receiver). If
both hold the same `active_snapshot` value `a`, which is 0 or `size`, then
exactly one of the two issues the one-byte passive send to `j` before its
first barrier: the sender-missing one iff `a = size`, the receiver-missing one
iff `a = 0`. -/
theorem C12_one_survivor_sends_tag (fuel : Nat) (Ep Eq : Env)
    (segp offp queuep segq offq queueq size : Nat) (policy : Int)
    (new_group timeout_ms : Nat) (dp dq : gpi_cp_description) (trp trq : List Call)
    (op oq : Out) (j a : Nat)
    (hsize : 0 < size) (ha : a = 0 ∨ a = size)
    (hrankp : Ep.proc_rank.1 = GASPI_SUCCESS) (hrankq : Eq.proc_rank.1 = GASPI_SUCCESS)
    (hcasep : gpi_cp_restore_case Ep new_group dp = RestoreCase.affected_missing_receiver)
    (hcaseq : gpi_cp_restore_case Eq new_group dq = RestoreCase.affected_missing_sender)
    (hnextp : gpi_cp_receiver fuel Ep policy new_group Ep.proc_rank.2
      = Result.returned (GPI_CP_SUCCESS, j))
    (hprevq : gpi_cp_sender fuel Eq policy new_group Eq.proc_rank.2
      = Result.returned (GPI_CP_SUCCESS, j))
    (hap : dp.active_snapshot = a) (haq : dq.active_snapshot = a)
    (hretp : gpi_cp_restore fuel Ep segp offp size queuep policy new_group timeout_ms
      dp trp = Result.returned op)
    (hretq : gpi_cp_restore fuel Eq segq offq size queueq policy new_group timeout_ms
      dq trq = Result.returned oq) :
    ∃ ip iq, op.trace = ip ++ trp ∧ oq.trace = iq ++ trq
      ∧ (sends_tag iq j = true ↔ a = size)
      ∧ (sends_tag ip j = true ↔ a = 0)
      ∧ ((sends_tag iq j = true ∧ sends_tag ip j = false)
        ∨ (sends_tag iq j = false ∧ sends_tag ip j = true)) := by
  obtain ⟨ip, hip, htp⟩ := restore_missing_receiver_tag fuel Ep segp offp size queuep
    policy new_group timeout_ms dp trp op j hrankp hcasep hnextp hretp
  obtain ⟨iq, hiq, htq⟩ := restore_missing_sender_tag fuel Eq segq offq size queueq
    policy new_group timeout_ms dq trq oq j hrankq hcaseq hprevq hretq
  rw [hap] at htp
  rw [haq] at htq
  refine ⟨ip, iq, hip, hiq, htq, htp, ?_⟩
  rcases ha with h0 | hs
  · right
    have hq : ¬ sends_tag iq j = true := fun h => by
      have := htq.1 h
      omega
    exact ⟨by simpa using hq, htp.2 h0⟩
  · left
    have hp : ¬ sends_tag ip j = true := fun h => by
      have := htp.1 h
      omega
    exact ⟨htq.2 hs, by simpa using hp⟩

/-- C12 among 5 processes: the old ring 0, 1, 2, 3 lost rank 3 and gained rank
4; rank 2 (receiver missing) and rank 0 (sender missing) both hold
`active_snapshot = 8 = size`, and of the two only rank 0 sends the tag to 4. -/
theorem C12_one_survivor_sends_tag_witness :
    ∃ op oq,
      gpi_cp_restore 5 (exampleEnv 2 5 [0, 1, 2, 4] 4) 0 0 8 0 GPI_CP_POLICY_RING 0 0
        (exampleSurvivor 1 3 8) [] = Result.returned op
      ∧ gpi_cp_restore 5 (exampleEnv 0 5 [0, 1, 2, 4] 4) 0 0 8 0 GPI_CP_POLICY_RING 0 0
        (exampleSurvivor 3 1 8) [] = Result.returned oq
      ∧ ∃ ip iq, op.trace = ip ++ [] ∧ oq.trace = iq ++ []
        ∧ (sends_tag iq 4 = true ↔ 8 = 8)
        ∧ (sends_tag ip 4 = true ↔ 8 = 0)
        ∧ ((sends_tag iq 4 = true ∧ sends_tag ip 4 = false)
          ∨ (sends_tag iq 4 = false ∧ sends_tag ip 4 = true)) :=
  ⟨_, _, rfl, rfl, C12_one_survivor_sends_tag 5 (exampleEnv 2 5 [0, 1, 2, 4] 4)
    (exampleEnv 0 5 [0, 1, 2, 4] 4) 0 0 0 0 0 0 8 GPI_CP_POLICY_RING 0 0
    (exampleSurvivor 1 3 8) (exampleSurvivor 3 1 8) [] [] _ _ 4 8 (by decide)
    (Or.inr rfl) rfl rfl (by decide) (by decide) (by decide) (by decide) rfl rfl rfl rfl⟩


/-! ## The joiner and its tag -/

theorem restore_joiner_unfold (fuel : Nat) (E : Env)
    (segment_id_checkpoint offset size queue : Nat) (policy : Int)
    (new_group timeout_ms : Nat) (d : gpi_cp_description) (tr : List Call) (S R : Nat)
    (hrank : E.proc_rank.1 = GASPI_SUCCESS) (hjoin : d.state_initialized = false)
    (hS : gpi_cp_sender fuel E policy new_group E.proc_rank.2
      = Result.returned (GPI_CP_SUCCESS, S))
    (hR : gpi_cp_receiver fuel E policy new_group E.proc_rank.2
      = Result.returned (GPI_CP_SUCCESS, R)) :
    gpi_cp_restore fuel E segment_id_checkpoint offset size queue policy new_group
        timeout_ms d tr
      = if (E.answer (Call.gettimeofday :: tr)
            (Call.passive_receive segment_id_checkpoint offset 1 timeout_ms)).ret
            ≠ GASPI_SUCCESS then
          Result.returned
            { ret := (E.answer (Call.gettimeofday :: tr)
                (Call.passive_receive segment_id_checkpoint offset 1 timeout_ms)).ret
              d := { d with offset := offset, size := size
                            segment_id_local_client_source := segment_id_checkpoint
                            queue := queue, group := new_group, sender := S
                            receiver := R, state_initialized := true }
              trace := Call.passive_receive segment_id_checkpoint offset 1 timeout_ms
                :: Call.gettimeofday :: tr }
        else if (E.answer (Call.gettimeofday :: tr)
            (Call.passive_receive segment_id_checkpoint offset 1 timeout_ms)).out = S then
          gpi_cp_restore_joiner_pull E timeout_ms (E.clock tr)
            { d with offset := offset, size := size
                     segment_id_local_client_source := segment_id_checkpoint
                     queue := queue, group := new_group, sender := S
                     receiver := R, state_initialized := true, active_snapshot := 0 }
            (Call.passive_receive segment_id_checkpoint offset 1 timeout_ms
              :: Call.gettimeofday :: tr)
        else if (E.answer (Call.gettimeofday :: tr)
            (Call.passive_receive segment_id_checkpoint offset 1 timeout_ms)).out = R then
          gpi_cp_restore_joiner_pull E timeout_ms (E.clock tr)
            { d with offset := offset, size := size
                     segment_id_local_client_source := segment_id_checkpoint
                     queue := queue, group := new_group, sender := S
                     receiver := R, state_initialized := true, active_snapshot := size }
            (Call.passive_receive segment_id_checkpoint offset 1 timeout_ms
              :: Call.gettimeofday :: tr)
        else
          Result.returned
            { ret := GASPI_ERROR
              d := { d with offset := offset, size := size
                            segment_id_local_client_source := segment_id_checkpoint
                            queue := queue, group := new_group, sender := S
                            receiver := R, state_initialized := true }
              trace := Call.passive_receive segment_id_checkpoint offset 1 timeout_ms
                :: Call.gettimeofday :: tr } := by
  rw [restore_dispatch fuel E segment_id_checkpoint offset size queue policy new_group
    timeout_ms d tr hrank, (restore_case_joiner_iff E new_group d).2 hjoin]
  simp only [gpi_cp_restore_joiner, hS, hR, gaspi, ne_eq, not_true_eq_false, if_false]

/-- The resolver looks at the environment only through the number of processes
and the membership of the group. -/
theorem sender_congr (fuel : Nat) (E1 E2 : Env) (policy : Int) (g1 g2 rank : Nat)
    (hnum : E1.proc_num = E2.proc_num)
    (hmem : ∀ x, gpi_cp_is_in_group E1 g1 x = gpi_cp_is_in_group E2 g2 x) :
    gpi_cp_sender fuel E1 policy g1 rank = gpi_cp_sender fuel E2 policy g2 rank := by
  have e : gpi_cp_is_in_group E1 g1 = gpi_cp_is_in_group E2 g2 := funext hmem
  unfold gpi_cp_sender
  rw [hnum, e]

theorem receiver_congr (fuel : Nat) (E1 E2 : Env) (policy : Int) (g1 g2 rank : Nat)
    (hnum : E1.proc_num = E2.proc_num)
    (hmem : ∀ x, gpi_cp_is_in_group E1 g1 x = gpi_cp_is_in_group E2 g2 x) :
    gpi_cp_receiver fuel E1 policy g1 rank = gpi_cp_receiver fuel E2 policy g2 rank := by
  have e : gpi_cp_is_in_group E1 g1 = gpi_cp_is_in_group E2 g2 := funext hmem
  unfold gpi_cp_receiver
  rw [hnum, e]

/-- For a member `r` of a group below `nProc`, the resolver returns members,
and they are inverse to each other at `r`. -/
theorem resolver_inverse (E : Env) (group r fuel nProc : Nat)
    (hnum : E.proc_num = (GASPI_SUCCESS, nProc)) (hn : 0 < nProc)
    (hsub : ∀ x, gpi_cp_is_in_group E group x = true → x < nProc)
    (hr : gpi_cp_is_in_group E group r = true) (hfuel : nProc ≤ fuel) :
    ∃ s c,
      gpi_cp_sender fuel E GPI_CP_POLICY_RING group r = Result.returned (GPI_CP_SUCCESS, s)
      ∧ gpi_cp_receiver fuel E GPI_CP_POLICY_RING group r
          = Result.returned (GPI_CP_SUCCESS, c)
      ∧ gpi_cp_is_in_group E group s = true ∧ gpi_cp_is_in_group E group c = true
      ∧ gpi_cp_receiver fuel E GPI_CP_POLICY_RING group s
          = Result.returned (GPI_CP_SUCCESS, r)
      ∧ gpi_cp_sender fuel E GPI_CP_POLICY_RING group c
          = Result.returned (GPI_CP_SUCCESS, r) := by
  have hrn : r < nProc := hsub r hr
  have hmem : ∃ m, m < nProc ∧ gpi_cp_is_in_group E group m = true := ⟨r, hrn, hr⟩
  obtain ⟨k, hk1, hkn, hs, hsm, hsb⟩ :=
    sender_first E group r fuel nProc hnum hn hmem hfuel
  obtain ⟨l, hl1, hln, hc, hcm, hcb⟩ :=
    receiver_first E group r fuel nProc hnum hn hmem hfuel
  refine ⟨_, _, hs, hc, hsm, hcm, ?_, ?_⟩
  · have hup : ∀ i, i ≤ k → ((r + k * (nProc - 1)) % nProc + i) % nProc
        = (r + (k - i) * (nProc - 1)) % nProc := by
      intro i hi
      rw [Nat.mod_add_mod]
      exact mod_shift_up r k i nProc hi hn
    have hend : ((r + k * (nProc - 1)) % nProc + k) % nProc = r := by
      rw [hup k (le_refl _)]
      simpa using Nat.mod_eq_of_lt hrn
    have := receiver_of_pattern E group ((r + k * (nProc - 1)) % nProc) fuel k nProc hnum hn
      hk1 (by omega)
      (fun i hi1 hi2 => by rw [hup i (by omega)]; exact hsb (k - i) (by omega) (by omega))
      (by rw [hend]; exact hr)
    rw [hend] at this
    exact this
  · have hdown : ∀ i, i ≤ l → ((r + l) % nProc + i * (nProc - 1)) % nProc
        = (r + (l - i)) % nProc := by
      intro i hi
      rw [Nat.mod_add_mod]
      exact mod_shift_down r l i nProc hi hn
    have hend : ((r + l) % nProc + l * (nProc - 1)) % nProc = r := by
      rw [hdown l (le_refl _)]
      simpa using Nat.mod_eq_of_lt hrn
    have := sender_of_pattern E group ((r + l) % nProc) fuel l nProc hnum hn
      hl1 (by omega)
      (fun i hi1 hi2 => by rw [hdown i (by omega)]; exact hcb (l - i) (by omega) (by omega))
      (by rw [hend]; exact hr)
    rw [hend] at this
    exact this

/-- Two walks down in a row: when the first member below `q` is `kc` steps away
and the first member below that one is `kp` further steps away, no step below
`kc + kp` other than `kc` is at a member. -/
theorem down_two_steps (P : Nat → Bool) (n q kc kp : Nat)
    (hc : ∀ i, 1 ≤ i → i < kc → P ((q + i * (n - 1)) % n) = false)
    (hp : ∀ i, 1 ≤ i → i < kp →
      P (((q + kc * (n - 1)) % n + i * (n - 1)) % n) = false) :
    ∀ m, 1 ≤ m → m < kc + kp → m ≠ kc → P ((q + m * (n - 1)) % n) = false := by
  intro m hm1 hm2 hm3
  by_cases h : m < kc
  · exact hc m hm1 h
  · obtain ⟨t, rfl⟩ : ∃ t, m = kc + t := ⟨m - kc, by omega⟩
    have := hp t (by omega) (by omega)
    rw [Nat.mod_add_mod] at this
    have e : q + kc * (n - 1) + t * (n - 1) = q + (kc + t) * (n - 1) := by ring
    rwa [e] at this

/-- Two walks up in a row, as `down_two_steps`. -/
theorem up_two_steps (P : Nat → Bool) (n p kc kq : Nat)
    (hc : ∀ i, 1 ≤ i → i < kc → P ((p + i) % n) = false)
    (hq : ∀ i, 1 ≤ i → i < kq → P (((p + kc) % n + i) % n) = false) :
    ∀ m, 1 ≤ m → m < kc + kq → m ≠ kc → P ((p + m) % n) = false := by
  intro m hm1 hm2 hm3
  by_cases h : m < kc
  · exact hc m hm1 h
  · obtain ⟨t, rfl⟩ : ∃ t, m = kc + t := ⟨m - kc, by omega⟩
    have := hq t (by omega) (by omega)
    rw [Nat.mod_add_mod] at this
    have e : p + kc + t = p + (kc + t) := by ring
    rwa [e] at this


/-- In the group `g` made from `g0` by taking `c` out and putting `s` in, the
sender of the rank `q` whose old sender was `c` is either `s` or the old sender
`p` of `c`. -/
theorem new_sender_cases (E0 E : Env) (g0 g fuel nProc c s p q : Nat)
    (hnum0 : E0.proc_num = (GASPI_SUCCESS, nProc))
    (hnum : E.proc_num = (GASPI_SUCCESS, nProc))
    (hn : 0 < nProc) (hfuel : nProc ≤ fuel)
    (hsub : ∀ x, gpi_cp_is_in_group E0 g0 x = true → x < nProc)
    (hN : ∀ x, gpi_cp_is_in_group E g x
      = ((gpi_cp_is_in_group E0 g0 x && x != c) || x == s))
    (hc : gpi_cp_is_in_group E0 g0 c = true)
    (hpm : gpi_cp_is_in_group E0 g0 p = true) (hpc : p ≠ c)
    (hsq : gpi_cp_sender fuel E0 GPI_CP_POLICY_RING g0 q
      = Result.returned (GPI_CP_SUCCESS, c))
    (hsc : gpi_cp_sender fuel E0 GPI_CP_POLICY_RING g0 c
      = Result.returned (GPI_CP_SUCCESS, p)) :
    gpi_cp_sender fuel E GPI_CP_POLICY_RING g q = Result.returned (GPI_CP_SUCCESS, s)
    ∨ gpi_cp_sender fuel E GPI_CP_POLICY_RING g q
      = Result.returned (GPI_CP_SUCCESS, p) := by
  have hmemG : ∃ m, m < nProc ∧ gpi_cp_is_in_group E0 g0 m = true := ⟨c, hsub c hc, hc⟩
  obtain ⟨kc, hkc1, _, hkc, _, hkcb⟩ :=
    sender_first E0 g0 q fuel nProc hnum0 hn hmemG hfuel
  rw [hsq] at hkc
  have ec : c = (q + kc * (nProc - 1)) % nProc := by
    injection hkc with h
    injection h
  obtain ⟨kp, hkp1, _, hkp, _, hkpb⟩ :=
    sender_first E0 g0 c fuel nProc hnum0 hn hmemG hfuel
  rw [hsc] at hkp
  have ep : p = (c + kp * (nProc - 1)) % nProc := by
    injection hkp with h
    injection h
  have ep2 : p = (q + (kc + kp) * (nProc - 1)) % nProc := by
    rw [ep, ec, Nat.mod_add_mod]
    congr 1
    ring
  have hpN : gpi_cp_is_in_group E g p = true := by
    rw [hN]
    simp [hpm, hpc]
  have hmemN : ∃ m, m < nProc ∧ gpi_cp_is_in_group E g m = true := ⟨p, hsub p hpm, hpN⟩
  obtain ⟨ki, hki1, _, hki, hkim, hkib⟩ :=
    sender_first E g q fuel nProc hnum hn hmemN hfuel
  rw [hN] at hkim
  simp only [Bool.or_eq_true, Bool.and_eq_true, bne_iff_ne, ne_eq, beq_iff_eq] at hkim
  rcases hkim with ⟨hvG, hvc⟩ | hvs
  · right
    have two := down_two_steps (gpi_cp_is_in_group E0 g0) nProc q kc kp hkcb
      (fun i h1 h2 => by rw [← ec]; exact hkpb i h1 h2)
    have h1 : ¬ ki < kc + kp := by
      intro hlt
      have hne : ki ≠ kc := by
        intro h
        rw [h, ← ec] at hvc
        exact hvc rfl
      rw [two ki hki1 hlt hne] at hvG
      cases hvG
    have h2 : ¬ kc + kp < ki := by
      intro hlt
      have := hkib (kc + kp) (by omega) hlt
      rw [← ep2, hpN] at this
      cases this
    have e : ki = kc + kp := by omega
    rw [hki, e, ← ep2]
  · left
    rw [hki, hvs]

/-- In the group `g` made from `g0` by taking `c` out and putting `s` in, the
receiver of the rank `p` whose old receiver was `c` is either `s` or the old
receiver `q` of `c`. -/
theorem new_receiver_cases (E0 E : Env) (g0 g fuel nProc c s p q : Nat)
    (hnum0 : E0.proc_num = (GASPI_SUCCESS, nProc))
    (hnum : E.proc_num = (GASPI_SUCCESS, nProc))
    (hn : 0 < nProc) (hfuel : nProc ≤ fuel)
    (hsub : ∀ x, gpi_cp_is_in_group E0 g0 x = true → x < nProc)
    (hN : ∀ x, gpi_cp_is_in_group E g x
      = ((gpi_cp_is_in_group E0 g0 x && x != c) || x == s))
    (hc : gpi_cp_is_in_group E0 g0 c = true)
    (hqm : gpi_cp_is_in_group E0 g0 q = true) (hqc : q ≠ c)
    (hrp : gpi_cp_receiver fuel E0 GPI_CP_POLICY_RING g0 p
      = Result.returned (GPI_CP_SUCCESS, c))
    (hrc : gpi_cp_receiver fuel E0 GPI_CP_POLICY_RING g0 c
      = Result.returned (GPI_CP_SUCCESS, q)) :
    gpi_cp_receiver fuel E GPI_CP_POLICY_RING g p = Result.returned (GPI_CP_SUCCESS, s)
    ∨ gpi_cp_receiver fuel E GPI_CP_POLICY_RING g p
      = Result.returned (GPI_CP_SUCCESS, q) := by
  have hmemG : ∃ m, m < nProc ∧ gpi_cp_is_in_group E0 g0 m = true := ⟨c, hsub c hc, hc⟩
  obtain ⟨kc, hkc1, _, hkc, _, hkcb⟩ :=
    receiver_first E0 g0 p fuel nProc hnum0 hn hmemG hfuel
  rw [hrp] at hkc
  have ec : c = (p + kc) % nProc := by
    injection hkc with h
    injection h
  obtain ⟨kq, hkq1, _, hkq, _, hkqb⟩ :=
    receiver_first E0 g0 c fuel nProc hnum0 hn hmemG hfuel
  rw [hrc] at hkq
  have eq1 : q = (c + kq) % nProc := by
    injection hkq with h
    injection h
  have eq2 : q = (p + (kc + kq)) % nProc := by
    rw [eq1, ec, Nat.mod_add_mod]
    congr 1
    ring
  have hqN : gpi_cp_is_in_group E g q = true := by
    rw [hN]
    simp [hqm, hqc]
  have hmemN : ∃ m, m < nProc ∧ gpi_cp_is_in_group E g m = true := ⟨q, hsub q hqm, hqN⟩
  obtain ⟨ki, hki1, _, hki, hkim, hkib⟩ :=
    receiver_first E g p fuel nProc hnum hn hmemN hfuel
  rw [hN] at hkim
  simp only [Bool.or_eq_true, Bool.and_eq_true, bne_iff_ne, ne_eq, beq_iff_eq] at hkim
  rcases hkim with ⟨hvG, hvc⟩ | hvs
  · right
    have two := up_two_steps (gpi_cp_is_in_group E0 g0) nProc p kc kq hkcb
      (fun i h1 h2 => by rw [← ec]; exact hkqb i h1 h2)
    have h1 : ¬ ki < kc + kq := by
      intro hlt
      have hne : ki ≠ kc := by
        intro h
        rw [h, ← ec] at hvc
        exact hvc rfl
      rw [two ki hki1 hlt hne] at hvG
      cases hvG
    have h2 : ¬ kc + kq < ki := by
      intro hlt
      have := hkib (kc + kq) (by omega) hlt
      rw [← eq2, hqN] at this
      cases this
    have e : ki = kc + kq := by omega
    rw [hki, e, ← eq2]
  · left
    rw [hki, hvs]


/-- A ring where the receiver of `r` is `x` and the receiver of `x` is `r` has
no member besides `r` and `x`. -/
theorem two_cycle_members (E : Env) (group fuel nProc r x : Nat)
    (hnum : E.proc_num = (GASPI_SUCCESS, nProc)) (hn : 0 < nProc)
    (hsub : ∀ y, gpi_cp_is_in_group E group y = true → y < nProc)
    (hfuel : nProc ≤ fuel)
    (hr : gpi_cp_is_in_group E group r = true)
    (hrx : gpi_cp_receiver fuel E GPI_CP_POLICY_RING group r
      = Result.returned (GPI_CP_SUCCESS, x))
    (hxr : gpi_cp_receiver fuel E GPI_CP_POLICY_RING group x
      = Result.returned (GPI_CP_SUCCESS, r)) :
    ∀ y, gpi_cp_is_in_group E group y = true → y = r ∨ y = x := by
  have hrn : r < nProc := hsub r hr
  have hmem : ∃ m, m < nProc ∧ gpi_cp_is_in_group E group m = true := ⟨r, hrn, hr⟩
  obtain ⟨k, hk1, _, hk, _, hkb⟩ := receiver_first E group r fuel nProc hnum hn hmem hfuel
  rw [hrx] at hk
  have ex : x = (r + k) % nProc := by
    injection hk with h
    injection h
  obtain ⟨l, hl1, _, hl, _, hlb⟩ := receiver_first E group x fuel nProc hnum hn hmem hfuel
  rw [hxr] at hl
  have er : r = (x + l) % nProc := by
    injection hl with h
    injection h
  have hcycle : (r + (k + l)) % nProc = r := by
    have : (x + l) % nProc = (r + (k + l)) % nProc := by
      rw [ex, Nat.mod_add_mod]
      congr 1
      ring
    rw [← this, ← er]
  have hdvd : nProc ∣ k + l := by
    have h1 : r + (k + l) ≡ r + 0 [MOD nProc] := by
      unfold Nat.ModEq
      rw [hcycle, Nat.add_zero, Nat.mod_eq_of_lt hrn]
    exact (Nat.modEq_zero_iff_dvd).1 (Nat.ModEq.add_left_cancel' r h1)
  have hle : nProc ≤ k + l := Nat.le_of_dvd (by omega) hdvd
  intro y hy
  obtain ⟨t, ht, hty⟩ := up_reaches nProc r y hrn (hsub y hy)
  by_cases h0 : t = 0
  · left
    rw [← hty, h0, Nat.add_zero, Nat.mod_eq_of_lt hrn]
  by_cases h1 : t < k
  · have := hkb t (by omega) h1
    rw [hty, hy] at this
    cases this
  by_cases h2 : t = k
  · right
    rw [← hty, h2, ex]
  · exfalso
    have h3 : t - k < l := by omega
    have := hlb (t - k) (by omega) h3
    have e : (x + (t - k)) % nProc = y := by
      rw [ex, Nat.mod_add_mod, ← hty]
      congr 1
      omega
    rw [e, hy] at this
    cases this

/-- In a group with three distinct members below `nProc`, the sender and the
receiver of a member differ from each other and from the member. -/
theorem sender_ne_receiver (E : Env) (group fuel nProc r s c : Nat)
    (hnum : E.proc_num = (GASPI_SUCCESS, nProc)) (hn : 0 < nProc)
    (hsub : ∀ y, gpi_cp_is_in_group E group y = true → y < nProc)
    (hfuel : nProc ≤ fuel)
    (hthree : ∃ x y z, gpi_cp_is_in_group E group x = true
      ∧ gpi_cp_is_in_group E group y = true ∧ gpi_cp_is_in_group E group z = true
      ∧ x ≠ y ∧ y ≠ z ∧ x ≠ z)
    (hr : gpi_cp_is_in_group E group r = true)
    (hs : gpi_cp_sender fuel E GPI_CP_POLICY_RING group r
      = Result.returned (GPI_CP_SUCCESS, s))
    (hc : gpi_cp_receiver fuel E GPI_CP_POLICY_RING group r
      = Result.returned (GPI_CP_SUCCESS, c)) :
    s ≠ c ∧ s ≠ r ∧ c ≠ r := by
  obtain ⟨s1, c1, hs1, hc1, hsm, hcm, hrs, hsc⟩ :=
    resolver_inverse E group r fuel nProc hnum hn hsub hr hfuel
  rw [hs] at hs1
  rw [hc] at hc1
  have es : s1 = s := by
    injection hs1 with h
    injection h with _ h
    exact h.symm
  have ecc : c1 = c := by
    injection hc1 with h
    injection h with _ h
    exact h.symm
  subst es
  subst ecc
  obtain ⟨x, y, z, hx, hy, hz, hxy, hyz, hxz⟩ := hthree
  have key : ∀ a, gpi_cp_receiver fuel E GPI_CP_POLICY_RING group r
        = Result.returned (GPI_CP_SUCCESS, a) →
      gpi_cp_receiver fuel E GPI_CP_POLICY_RING group a
        = Result.returned (GPI_CP_SUCCESS, r) → False := by
    intro a h1 h2
    have all := two_cycle_members E group fuel nProc r a hnum hn hsub hfuel hr h1 h2
    rcases all x hx with h | h <;> rcases all y hy with h' | h' <;>
      rcases all z hz with h'' | h'' <;> omega
  refine ⟨?_, ?_, ?_⟩
  · intro h
    rw [← h] at hc
    exact key s1 hc hrs
  · intro h
    rw [h] at hrs
    exact key r hrs hrs
  · intro h
    rw [h] at hc
    exact key r hc hc


/-- Replacing `c` by `s` in a ring: when the neighbours `p` and `q` of `c` take
`s` between them, `s` takes `p` and `q`, and every other member keeps its old
neighbours, the new ring is whole. -/
theorem ring_surgery (inOld : Nat → Bool) (c s p q : Nat) (sO rO S R : Nat → Nat)
    (hinv : ∀ r, inOld r = true →
      inOld (sO r) = true ∧ inOld (rO r) = true ∧ rO (sO r) = r ∧ sO (rO r) = r)
    (hc : inOld c = true) (hs : inOld s = false)
    (hp : sO c = p) (hq : rO c = q) (hpq : p ≠ q)
    (hSs : S s = p) (hRs : R s = q) (hSq : S q = s) (hRq : R q = rO q)
    (hSp : S p = sO p) (hRp : R p = s)
    (hother : ∀ r, inOld r = true → r ≠ c → r ≠ p → r ≠ q → S r = sO r ∧ R r = rO r) :
    ∀ r, (inOld r = true ∧ r ≠ c) ∨ r = s →
      ((inOld (S r) = true ∧ S r ≠ c) ∨ S r = s)
      ∧ ((inOld (R r) = true ∧ R r ≠ c) ∨ R r = s)
      ∧ R (S r) = r ∧ S (R r) = r := by
  obtain ⟨hpG, hqG, hrp, hsq⟩ := hinv c hc
  rw [hp] at hpG hrp
  rw [hq] at hqG hsq
  have hpc : p ≠ c := by
    intro h
    rw [h] at hrp
    rw [hrp] at hq
    exact hpq (h.trans hq)
  have hqc : q ≠ c := by
    intro h
    rw [h] at hsq
    rw [hsq] at hp
    exact hpq (hp.symm.trans h.symm)
  have hps : p ≠ s := fun h => by rw [h, hs] at hpG; cases hpG
  have hqs : q ≠ s := fun h => by rw [h, hs] at hqG; cases hqG
  have hSgen : ∀ b, inOld b = true → b ≠ c → b ≠ q → S b = sO b := by
    intro b hb hbc hbq
    by_cases h : b = p
    · rw [h]; exact hSp
    · exact (hother b hb hbc h hbq).1
  have hRgen : ∀ a, inOld a = true → a ≠ c → a ≠ p → R a = rO a := by
    intro a ha hac hap
    by_cases h : a = q
    · rw [h]; exact hRq
    · exact (hother a ha hac hap h).2
  intro r hr
  rcases hr with ⟨hrG, hrc⟩ | rfl
  · obtain ⟨hsG, hrG2, hrs, hsr⟩ := hinv r hrG
    have hS_r : r ≠ q → S r = sO r := hSgen r hrG hrc
    have hR_r : r ≠ p → R r = rO r := hRgen r hrG hrc
    have hsOc : sO r = c → r = q := by
      intro h
      rw [h, hq] at hrs
      exact hrs.symm
    have hrOc : rO r = c → r = p := by
      intro h
      rw [h, hp] at hsr
      exact hsr.symm
    have hsOp : sO r = p → r = c := by
      intro h
      rw [h, hrp] at hrs
      exact hrs.symm
    have hrOq : rO r = q → r = c := by
      intro h
      rw [h, hsq] at hsr
      exact hsr.symm
    refine ⟨?_, ?_, ?_, ?_⟩
    · by_cases h : r = q
      · right; rw [h]; exact hSq
      · left
        rw [hS_r h]
        exact ⟨hsG, fun h' => h (hsOc h')⟩
    · by_cases h : r = p
      · right; rw [h]; exact hRp
      · left
        rw [hR_r h]
        exact ⟨hrG2, fun h' => h (hrOc h')⟩
    · by_cases h : r = q
      · rw [h, hSq, hRs]
      · rw [hS_r h, hRgen (sO r) hsG (fun h' => h (hsOc h')) (fun h' => hrc (hsOp h')), hrs]
    · by_cases h : r = p
      · rw [h, hRp, hSs]
      · rw [hR_r h, hSgen (rO r) hrG2 (fun h' => h (hrOc h')) (fun h' => hrc (hrOq h')), hsr]
  · refine ⟨?_, ?_, ?_, ?_⟩
    · left; rw [hSs]; exact ⟨hpG, hpc⟩
    · left; rw [hRs]; exact ⟨hqG, hqc⟩
    · rw [hSs, hRp]
    · rw [hRs, hSq]


/-! ## What one restore stores and sends, by branch -/

theorem restore_joiner_stored (fuel : Nat) (E : Env)
    (segment_id_checkpoint offset size queue : Nat) (policy : Int)
    (new_group timeout_ms : Nat) (d : gpi_cp_description) (tr : List Call) (S R : Nat)
    (o : Out)
    (hrank : E.proc_rank.1 = GASPI_SUCCESS) (hjoin : d.state_initialized = false)
    (hS : gpi_cp_sender fuel E policy new_group E.proc_rank.2
      = Result.returned (GPI_CP_SUCCESS, S))
    (hR : gpi_cp_receiver fuel E policy new_group E.proc_rank.2
      = Result.returned (GPI_CP_SUCCESS, R))
    (hret : gpi_cp_restore fuel E segment_id_checkpoint offset size queue policy new_group
      timeout_ms d tr = Result.returned o) :
    o.d.sender = S ∧ o.d.receiver = R := by
  rw [restore_joiner_unfold fuel E segment_id_checkpoint offset size queue policy
    new_group timeout_ms d tr S R hrank hjoin hS hR] at hret
  split_ifs at hret
  · cases hret; exact ⟨rfl, rfl⟩
  · exact restore_joiner_pull_peers _ _ _ _ _ _ hret
  · exact restore_joiner_pull_peers _ _ _ _ _ _ hret
  · cases hret; exact ⟨rfl, rfl⟩

theorem restore_missing_sender_stored (fuel : Nat) (E : Env)
    (segment_id_checkpoint offset size queue : Nat) (policy : Int)
    (new_group timeout_ms : Nat) (d : gpi_cp_description) (tr : List Call) (v : Nat)
    (o : Out)
    (hrank : E.proc_rank.1 = GASPI_SUCCESS)
    (hcase : gpi_cp_restore_case E new_group d = RestoreCase.affected_missing_sender)
    (hs : gpi_cp_sender fuel E policy new_group E.proc_rank.2
      = Result.returned (GPI_CP_SUCCESS, v))
    (hret : gpi_cp_restore fuel E segment_id_checkpoint offset size queue policy new_group
      timeout_ms d tr = Result.returned o) :
    o.d.sender = v ∧ o.d.receiver = d.receiver := by
  rw [restore_dispatch fuel E segment_id_checkpoint offset size queue policy new_group
    timeout_ms d tr hrank, hcase] at hret
  obtain ⟨h1, c, h2⟩ := restore_missing_sender_peers _ _ _ _ _ _ _ _ _ hret
  rw [hs] at h2
  injection h2 with h2
  injection h2 with _ h2
  exact ⟨h2.symm, h1⟩

theorem restore_missing_receiver_stored (fuel : Nat) (E : Env)
    (segment_id_checkpoint offset size queue : Nat) (policy : Int)
    (new_group timeout_ms : Nat) (d : gpi_cp_description) (tr : List Call) (w : Nat)
    (o : Out)
    (hrank : E.proc_rank.1 = GASPI_SUCCESS)
    (hcase : gpi_cp_restore_case E new_group d = RestoreCase.affected_missing_receiver)
    (hr : gpi_cp_receiver fuel E policy new_group E.proc_rank.2
      = Result.returned (GPI_CP_SUCCESS, w))
    (hret : gpi_cp_restore fuel E segment_id_checkpoint offset size queue policy new_group
      timeout_ms d tr = Result.returned o) :
    o.d.sender = d.sender ∧ o.d.receiver = w := by
  rw [restore_dispatch fuel E segment_id_checkpoint offset size queue policy new_group
    timeout_ms d tr hrank, hcase] at hret
  obtain ⟨h1, c, h2⟩ := restore_missing_receiver_peers _ _ _ _ _ _ _ _ _ hret
  rw [hr] at h2
  injection h2 with h2
  injection h2 with _ h2
  exact ⟨h1, h2.symm⟩

theorem restore_unaffected_stored (fuel : Nat) (E : Env)
    (segment_id_checkpoint offset size queue : Nat) (policy : Int)
    (new_group timeout_ms : Nat) (d : gpi_cp_description) (tr : List Call) (o : Out)
    (hrank : E.proc_rank.1 = GASPI_SUCCESS)
    (hcase : gpi_cp_restore_case E new_group d = RestoreCase.unaffected)
    (hret : gpi_cp_restore fuel E segment_id_checkpoint offset size queue policy new_group
      timeout_ms d tr = Result.returned o) :
    o.d.sender = d.sender ∧ o.d.receiver = d.receiver
    ∧ ∀ issued j, o.trace = issued ++ tr → sends_tag issued j = false := by
  rw [restore_dispatch fuel E segment_id_checkpoint offset size queue policy new_group
    timeout_ms d tr hrank, hcase] at hret
  obtain ⟨h1, h2, h3⟩ := restore_unaffected_effect _ _ _ _ _ _ _ hret
  refine ⟨h1, h2, ?_⟩
  intro issued j hi
  rcases h3 with h3 | h3
  · rw [h3] at hi
    have e : issued = [Call.barrier new_group timeout_ms, Call.barrier new_group timeout_ms,
        Call.gettimeofday] :=
      (List.append_cancel_right
        (show [Call.barrier new_group timeout_ms, Call.barrier new_group timeout_ms,
          Call.gettimeofday] ++ tr = issued ++ tr from hi)).symm
    rw [e]
    simp [sends_tag, calls_before_barrier, List.takeWhile, Call.is_barrier, Call.is_tag_to]
  · rw [h3] at hi
    have e : issued = [Call.gettimeofday, Call.barrier new_group timeout_ms,
        Call.barrier new_group timeout_ms, Call.gettimeofday] :=
      (List.append_cancel_right
        (show [Call.gettimeofday, Call.barrier new_group timeout_ms,
          Call.barrier new_group timeout_ms, Call.gettimeofday] ++ tr = issued ++ tr
          from hi)).symm
    rw [e]
    simp [sends_tag, calls_before_barrier, List.takeWhile, Call.is_barrier, Call.is_tag_to]


theorem restore_missing_sender_tag_to (fuel : Nat) (E : Env)
    (segment_id_checkpoint offset size queue : Nat) (policy : Int)
    (new_group timeout_ms : Nat) (d : gpi_cp_description) (tr issued : List Call)
    (o : Out) (v j : Nat)
    (hrank : E.proc_rank.1 = GASPI_SUCCESS)
    (hcase : gpi_cp_restore_case E new_group d = RestoreCase.affected_missing_sender)
    (hs : gpi_cp_sender fuel E policy new_group E.proc_rank.2
      = Result.returned (GPI_CP_SUCCESS, v))
    (hret : gpi_cp_restore fuel E segment_id_checkpoint offset size queue policy new_group
      timeout_ms d tr = Result.returned o)
    (hissued : o.trace = issued ++ tr) (hsent : sends_tag issued j = true) :
    v = j := by
  rw [restore_dispatch fuel E segment_id_checkpoint offset size queue policy new_group
    timeout_ms d tr hrank, hcase] at hret
  obtain ⟨X, hX, hshape⟩ := missing_sender_trace _ _ _ _ _ _ _ _ _ v hs hret
  simp only [] at hX
  by_cases ha : d.active_snapshot = size
  · rw [if_pos ha] at hX
    have e : issued = X ++ ([Call.passive_send d.segment_id_local_for_sender
        d.active_snapshot v 1 timeout_ms] ++ [Call.gettimeofday]) :=
      List.append_cancel_right (by rw [← hissued, hX]; simp)
    rw [e, sends_tag_shape X _ j (by simp [Call.is_barrier]) hshape] at hsent
    simpa [Call.is_tag_to] using hsent
  · rw [if_neg ha] at hX
    have e : issued = X ++ ([] ++ [Call.gettimeofday]) :=
      List.append_cancel_right (by rw [← hissued, hX]; simp)
    rw [e, sends_tag_shape X _ j (by simp) hshape] at hsent
    simp at hsent

theorem restore_missing_receiver_tag_to (fuel : Nat) (E : Env)
    (segment_id_checkpoint offset size queue : Nat) (policy : Int)
    (new_group timeout_ms : Nat) (d : gpi_cp_description) (tr issued : List Call)
    (o : Out) (w j : Nat)
    (hrank : E.proc_rank.1 = GASPI_SUCCESS)
    (hcase : gpi_cp_restore_case E new_group d = RestoreCase.affected_missing_receiver)
    (hr : gpi_cp_receiver fuel E policy new_group E.proc_rank.2
      = Result.returned (GPI_CP_SUCCESS, w))
    (hret : gpi_cp_restore fuel E segment_id_checkpoint offset size queue policy new_group
      timeout_ms d tr = Result.returned o)
    (hissued : o.trace = issued ++ tr) (hsent : sends_tag issued j = true) :
    w = j := by
  rw [restore_dispatch fuel E segment_id_checkpoint offset size queue policy new_group
    timeout_ms d tr hrank, hcase] at hret
  obtain ⟨X, hX, hshape⟩ := missing_receiver_trace _ _ _ _ _ _ _ _ _ w hr hret
  simp only [] at hX
  by_cases ha : d.active_snapshot = 0
  · rw [if_pos ha] at hX
    have e : issued = X ++ ([Call.passive_send d.segment_id_local_for_sender
        d.active_snapshot w 1 timeout_ms] ++ [Call.gettimeofday]) :=
      List.append_cancel_right (by rw [← hissued, hX]; simp)
    rw [e, sends_tag_shape X _ j (by simp [Call.is_barrier]) hshape] at hsent
    simpa [Call.is_tag_to] using hsent
  · rw [if_neg ha] at hX
    have e : issued = X ++ ([] ++ [Call.gettimeofday]) :=
      List.append_cancel_right (by rw [← hissued, hX]; simp)
    rw [e, sends_tag_shape X _ j (by simp) hshape] at hsent
    simp at hsent

/-- An initialised survivor that sent the tag to `j` took one of the two
affected branches, and `j` is the peer it recomputed there. -/
theorem tag_sender_cases (fuel : Nat) (E : Env)
    (segment_id_checkpoint offset size queue : Nat) (policy : Int)
    (new_group timeout_ms : Nat) (d : gpi_cp_description) (tr issued : List Call)
    (o : Out) (v w j : Nat)
    (hrank : E.proc_rank.1 = GASPI_SUCCESS) (hinit : d.state_initialized = true)
    (hs : gpi_cp_sender fuel E policy new_group E.proc_rank.2
      = Result.returned (GPI_CP_SUCCESS, v))
    (hr : gpi_cp_receiver fuel E policy new_group E.proc_rank.2
      = Result.returned (GPI_CP_SUCCESS, w))
    (hret : gpi_cp_restore fuel E segment_id_checkpoint offset size queue policy new_group
      timeout_ms d tr = Result.returned o)
    (hissued : o.trace = issued ++ tr) (hsent : sends_tag issued j = true) :
    (gpi_cp_restore_case E new_group d = RestoreCase.affected_missing_sender ∧ v = j)
    ∨ (gpi_cp_restore_case E new_group d = RestoreCase.affected_missing_receiver
      ∧ w = j) := by
  cases hcase : gpi_cp_restore_case E new_group d
  · rw [(restore_case_joiner_iff E new_group d).1 hcase] at hinit
    cases hinit
  · exact Or.inl ⟨rfl, restore_missing_sender_tag_to fuel E segment_id_checkpoint offset
      size queue policy new_group timeout_ms d tr issued o v j hrank hcase hs hret hissued
      hsent⟩
  · exact Or.inr ⟨rfl, restore_missing_receiver_tag_to fuel E segment_id_checkpoint
      offset size queue policy new_group timeout_ms d tr issued o w j hrank hcase hr hret
      hissued hsent⟩
  · have := (restore_unaffected_stored fuel E segment_id_checkpoint offset size queue
      policy new_group timeout_ms d tr o hrank hcase hret).2.2 issued j hissued
    rw [this] at hsent
    cases hsent


theorem restore_case_initialized (E : Env) (new_group : Nat) (d : gpi_cp_description)
    (hinit : d.state_initialized = true) :
    gpi_cp_restore_case E new_group d
      = if gpi_cp_is_in_group E new_group d.sender = false then
          RestoreCase.affected_missing_sender
        else if gpi_cp_is_in_group E new_group d.receiver = false then
          RestoreCase.affected_missing_receiver
        else RestoreCase.unaffected := by
  unfold gpi_cp_restore_case
  simp [hinit]

/-- Where the tag went decides the new neighbours: in the group made from the
old one by taking `c` out and putting `s` in, if the old receiver `q` of `c`
now has sender `s`, or the old sender `p` of `c` now has receiver `s`, then
both hold, and `s` has sender `p` and receiver `q`. -/
theorem spare_takes_place (E0 E : Env) (g0 g fuel nProc c s p q : Nat)
    (hnum0 : E0.proc_num = (GASPI_SUCCESS, nProc))
    (hnum : E.proc_num = (GASPI_SUCCESS, nProc))
    (hn : 0 < nProc) (hfuel : nProc ≤ fuel)
    (hsub : ∀ x, gpi_cp_is_in_group E0 g0 x = true → x < nProc)
    (hN : ∀ x, gpi_cp_is_in_group E g x
      = ((gpi_cp_is_in_group E0 g0 x && x != c) || x == s))
    (hc : gpi_cp_is_in_group E0 g0 c = true)
    (hs : gpi_cp_is_in_group E0 g0 s = false) (hsn : s < nProc)
    (hpm : gpi_cp_is_in_group E0 g0 p = true) (hpc : p ≠ c)
    (hqm : gpi_cp_is_in_group E0 g0 q = true) (hqc : q ≠ c)
    (hsq : gpi_cp_sender fuel E0 GPI_CP_POLICY_RING g0 q
      = Result.returned (GPI_CP_SUCCESS, c))
    (hsc : gpi_cp_sender fuel E0 GPI_CP_POLICY_RING g0 c
      = Result.returned (GPI_CP_SUCCESS, p))
    (hrp : gpi_cp_receiver fuel E0 GPI_CP_POLICY_RING g0 p
      = Result.returned (GPI_CP_SUCCESS, c))
    (hrc : gpi_cp_receiver fuel E0 GPI_CP_POLICY_RING g0 c
      = Result.returned (GPI_CP_SUCCESS, q))
    (htag : gpi_cp_sender fuel E GPI_CP_POLICY_RING g q
        = Result.returned (GPI_CP_SUCCESS, s)
      ∨ gpi_cp_receiver fuel E GPI_CP_POLICY_RING g p
        = Result.returned (GPI_CP_SUCCESS, s)) :
    gpi_cp_sender fuel E GPI_CP_POLICY_RING g q = Result.returned (GPI_CP_SUCCESS, s)
    ∧ gpi_cp_receiver fuel E GPI_CP_POLICY_RING g p = Result.returned (GPI_CP_SUCCESS, s)
    ∧ gpi_cp_sender fuel E GPI_CP_POLICY_RING g s = Result.returned (GPI_CP_SUCCESS, p)
    ∧ gpi_cp_receiver fuel E GPI_CP_POLICY_RING g s
      = Result.returned (GPI_CP_SUCCESS, q) := by
  have hsubN : ∀ x, gpi_cp_is_in_group E g x = true → x < nProc := by
    intro x hx
    rw [hN] at hx
    simp only [Bool.or_eq_true, Bool.and_eq_true, beq_iff_eq] at hx
    rcases hx with ⟨hx, _⟩ | hx
    · exact hsub x hx
    · rw [hx]; exact hsn
  have hpN : gpi_cp_is_in_group E g p = true := by rw [hN]; simp [hpm, hpc]
  have hqN : gpi_cp_is_in_group E g q = true := by rw [hN]; simp [hqm, hqc]
  have hps : p ≠ s := fun h => by rw [h, hs] at hpm; cases hpm
  have hqs : q ≠ s := fun h => by rw [h, hs] at hqm; cases hqm
  obtain ⟨sp, cp, hsp, hcp, _, _, _, hcp2⟩ :=
    resolver_inverse E g p fuel nProc hnum hn hsubN hpN hfuel
  obtain ⟨sq1, cq, hsq1, hcq, _, _, hsq2, _⟩ :=
    resolver_inverse E g q fuel nProc hnum hn hsubN hqN hfuel
  have hD := new_sender_cases E0 E g0 g fuel nProc c s p q hnum0 hnum hn hfuel hsub hN hc
    hpm hpc hsq hsc
  have hU := new_receiver_cases E0 E g0 g fuel nProc c s p q hnum0 hnum hn hfuel hsub hN hc
    hqm hqc hrp hrc
  have hboth : gpi_cp_sender fuel E GPI_CP_POLICY_RING g q
        = Result.returned (GPI_CP_SUCCESS, s)
      ∧ gpi_cp_receiver fuel E GPI_CP_POLICY_RING g p
        = Result.returned (GPI_CP_SUCCESS, s) := by
    rcases htag with h | h
    · refine ⟨h, ?_⟩
      rcases hU with hU | hU
      · exact hU
      · exfalso
        rw [hU] at hcp
        have e : cp = q := by
          injection hcp with h1
          injection h1 with _ h1
          exact h1.symm
        rw [e, h] at hcp2
        injection hcp2 with h1
        injection h1 with _ h1
        exact hps h1.symm
    · refine ⟨?_, h⟩
      rcases hD with hD | hD
      · exact hD
      · exfalso
        rw [hD] at hsq1
        have e : sq1 = p := by
          injection hsq1 with h1
          injection h1 with _ h1
          exact h1.symm
        rw [e, h] at hsq2
        injection hsq2 with h1
        injection h1 with _ h1
        exact hqs h1.symm
  refine ⟨hboth.1, hboth.2, ?_, ?_⟩
  · rw [hboth.2] at hcp
    have e : cp = s := by
      injection hcp with h1
      injection h1 with _ h1
      exact h1.symm
    rw [e] at hcp2
    exact hcp2
  · rw [hboth.1] at hsq1
    have e : sq1 = s := by
      injection hsq1 with h1
      injection h1 with _ h1
      exact h1.symm
    rw [e] at hsq2
    exact hsq2


/-! ## Claim about the ring after a replacement -/

/-- C11: among `nProc` processes, take an old group of at least three ranks
below `nProc` (membership `inOld`), a culprit in it and a spare outside it, and
let the new group be the old one with the culprit replaced by the spare. Every
survivor holds an initialised descriptor with the resolver's sender and
receiver for the old group, the spare an uninitialised one. When every member
of the new group has run `gpi_cp_restore` on the new group and it returned
`GASPI_SUCCESS`, the tag the spare waited for having been sent by a survivor
in its own restore, then the stored sender and receiver of every member are
members of the new group, and the stored receiver of the stored sender of `r`
is `r`, and the stored sender of the stored receiver of `r` is `r`. -/
theorem C11_ring_whole (fuel nProc : Nat) (Eold E : Nat → Env)
    (old_group new_group : Nat) (inOld : Nat → Bool) (culprit spare : Nat)
    (seg off queue : Nat → Nat) (size timeout_ms : Nat)
    (d : Nat → gpi_cp_description) (tr : Nat → List Call) (o : Nat → Out)
    (hn : 0 < nProc) (hfuel : nProc ≤ fuel)
    (hnumold : ∀ r, (Eold r).proc_num = (GASPI_SUCCESS, nProc))
    (henv : ∀ r, (E r).proc_rank = (GASPI_SUCCESS, r)
      ∧ (E r).proc_num = (GASPI_SUCCESS, nProc))
    (hold : ∀ r x, gpi_cp_is_in_group (Eold r) old_group x = inOld x)
    (hnew : ∀ r x, gpi_cp_is_in_group (E r) new_group x
      = ((inOld x && x != culprit) || x == spare))
    (hsub : ∀ x, inOld x = true → x < nProc)
    (hthree : ∃ x y z, inOld x = true ∧ inOld y = true ∧ inOld z = true
      ∧ x ≠ y ∧ y ≠ z ∧ x ≠ z)
    (hculprit : inOld culprit = true) (hspare : inOld spare = false)
    (hsparen : spare < nProc)
    (hdesc : ∀ r, inOld r = true → r ≠ culprit →
      (d r).state_initialized = true
      ∧ gpi_cp_sender fuel (Eold r) GPI_CP_POLICY_RING old_group r
        = Result.returned (GPI_CP_SUCCESS, (d r).sender)
      ∧ gpi_cp_receiver fuel (Eold r) GPI_CP_POLICY_RING old_group r
        = Result.returned (GPI_CP_SUCCESS, (d r).receiver))
    (hjoin : (d spare).state_initialized = false)
    (hrun : ∀ r, (inOld r = true ∧ r ≠ culprit) ∨ r = spare →
      gpi_cp_restore fuel (E r) (seg r) (off r) size (queue r) GPI_CP_POLICY_RING
          new_group timeout_ms (d r) (tr r) = Result.returned (o r)
      ∧ (o r).ret = GASPI_SUCCESS)
    (hdeliv : ∃ x issued, inOld x = true ∧ x ≠ culprit
      ∧ (o x).trace = issued ++ tr x ∧ sends_tag issued spare = true) :
    ∀ r, (inOld r = true ∧ r ≠ culprit) ∨ r = spare →
      ((inOld (o r).d.sender = true ∧ (o r).d.sender ≠ culprit)
        ∨ (o r).d.sender = spare)
      ∧ ((inOld (o r).d.receiver = true ∧ (o r).d.receiver ≠ culprit)
        ∨ (o r).d.receiver = spare)
      ∧ (o ((o r).d.sender)).d.receiver = r
      ∧ (o ((o r).d.receiver)).d.sender = r := by
  have hsub0 : ∀ x, gpi_cp_is_in_group (Eold culprit) old_group x = true → x < nProc := by
    intro x hx
    rw [hold] at hx
    exact hsub x hx
  have hN : ∀ x, gpi_cp_is_in_group (E spare) new_group x
      = ((gpi_cp_is_in_group (Eold culprit) old_group x && x != culprit)
        || x == spare) := by
    intro x
    rw [hnew, hold]
  have hc0 : gpi_cp_is_in_group (Eold culprit) old_group culprit = true := by
    rw [hold]; exact hculprit
  have hs0 : gpi_cp_is_in_group (Eold culprit) old_group spare = false := by
    rw [hold]; exact hspare
  have hthree0 : ∃ x y z, gpi_cp_is_in_group (Eold culprit) old_group x = true
      ∧ gpi_cp_is_in_group (Eold culprit) old_group y = true
      ∧ gpi_cp_is_in_group (Eold culprit) old_group z = true
      ∧ x ≠ y ∧ y ≠ z ∧ x ≠ z := by
    obtain ⟨x, y, z, hx, hy, hz, h⟩ := hthree
    exact ⟨x, y, z, by rw [hold]; exact hx, by rw [hold]; exact hy,
      by rw [hold]; exact hz, h⟩
  have hcs : culprit ≠ spare := fun h => by rw [h, hspare] at hculprit; cases hculprit
  -- the resolver agrees across the environments of the ranks
  have holds : ∀ r x, gpi_cp_sender fuel (Eold r) GPI_CP_POLICY_RING old_group x
      = gpi_cp_sender fuel (Eold culprit) GPI_CP_POLICY_RING old_group x := fun r x =>
    sender_congr fuel _ _ _ _ _ x (by rw [hnumold, hnumold])
      (fun y => by rw [hold, hold])
  have holdr : ∀ r x, gpi_cp_receiver fuel (Eold r) GPI_CP_POLICY_RING old_group x
      = gpi_cp_receiver fuel (Eold culprit) GPI_CP_POLICY_RING old_group x := fun r x =>
    receiver_congr fuel _ _ _ _ _ x (by rw [hnumold, hnumold])
      (fun y => by rw [hold, hold])
  have hnews : ∀ r x, gpi_cp_sender fuel (E r) GPI_CP_POLICY_RING new_group x
      = gpi_cp_sender fuel (E spare) GPI_CP_POLICY_RING new_group x := fun r x =>
    sender_congr fuel _ _ _ _ _ x (by rw [(henv r).2, (henv spare).2])
      (fun y => by rw [hnew, hnew])
  have hnewr : ∀ r x, gpi_cp_receiver fuel (E r) GPI_CP_POLICY_RING new_group x
      = gpi_cp_receiver fuel (E spare) GPI_CP_POLICY_RING new_group x := fun r x =>
    receiver_congr fuel _ _ _ _ _ x (by rw [(henv r).2, (henv spare).2])
      (fun y => by rw [hnew, hnew])
  -- the neighbours of the culprit in the old ring
  obtain ⟨p, q, hsc, hrc, hpm, hqm, hrp, hsq⟩ := resolver_inverse (Eold culprit) old_group
    culprit fuel nProc (hnumold _) hn hsub0 hc0 hfuel
  obtain ⟨hpq, hpc, hqc⟩ := sender_ne_receiver (Eold culprit) old_group fuel nProc culprit
    p q (hnumold _) hn hsub0 hfuel hthree0 hc0 hsc hrc
  have hpG : inOld p = true := by rw [← hold culprit]; exact hpm
  have hqG : inOld q = true := by rw [← hold culprit]; exact hqm
  -- the old ring as two functions
  have hvs : ∀ r, inOld r = true →
      gpi_cp_sender fuel (Eold culprit) GPI_CP_POLICY_RING old_group r
        = Result.returned (GPI_CP_SUCCESS, if r = culprit then p else (d r).sender) := by
    intro r hr
    by_cases h : r = culprit
    · rw [if_pos h, h]; exact hsc
    · rw [if_neg h, ← holds r]; exact (hdesc r hr h).2.1
  have hvr : ∀ r, inOld r = true →
      gpi_cp_receiver fuel (Eold culprit) GPI_CP_POLICY_RING old_group r
        = Result.returned (GPI_CP_SUCCESS, if r = culprit then q else (d r).receiver) := by
    intro r hr
    by_cases h : r = culprit
    · rw [if_pos h, h]; exact hrc
    · rw [if_neg h, ← holdr r]; exact (hdesc r hr h).2.2
  have hval : ∀ (a b : Nat) (x : Result (Int × Nat)),
      x = Result.returned (GPI_CP_SUCCESS, a) → x = Result.returned (GPI_CP_SUCCESS, b) →
      a = b := by
    intro a b x h1 h2
    rw [h1] at h2
    injection h2 with h2
    injection h2
  have hinv : ∀ r, inOld r = true →
      inOld ((fun r => if r = culprit then p else (d r).sender) r) = true
      ∧ inOld ((fun r => if r = culprit then q else (d r).receiver) r) = true
      ∧ (fun r => if r = culprit then q else (d r).receiver)
          ((fun r => if r = culprit then p else (d r).sender) r) = r
      ∧ (fun r => if r = culprit then p else (d r).sender)
          ((fun r => if r = culprit then q else (d r).receiver) r) = r := by
    intro r hr
    obtain ⟨s1, c1, h1, h2, h3, h4, h5, h6⟩ := resolver_inverse (Eold culprit) old_group
      r fuel nProc (hnumold _) hn hsub0 (by rw [hold]; exact hr) hfuel
    have e1 := hval _ _ _ h1 (hvs r hr)
    have e2 := hval _ _ _ h2 (hvr r hr)
    rw [hold] at h3 h4
    simp only []
    rw [← e1, ← e2]
    exact ⟨h3, h4, (hval _ _ _ h5 (hvr s1 h3)).symm, (hval _ _ _ h6 (hvs c1 h4)).symm⟩
  -- who sent the tag
  obtain ⟨x, issued, hxG, hxc, hxi, hxs⟩ := hdeliv
  have hsubN : ∀ y, gpi_cp_is_in_group (E spare) new_group y = true → y < nProc := by
    intro y hy
    rw [hnew] at hy
    simp only [Bool.or_eq_true, Bool.and_eq_true, beq_iff_eq] at hy
    rcases hy with ⟨hy, _⟩ | hy
    · exact hsub y hy
    · rw [hy]; exact hsparen
  have hmemN : ∀ y, inOld y = true → y ≠ culprit →
      gpi_cp_is_in_group (E spare) new_group y = true := by
    intro y hy hyc
    rw [hnew]
    simp [hy, hyc]
  have hnotN : ∀ r, gpi_cp_is_in_group (E r) new_group culprit = false := by
    intro r
    rw [hnew]
    simp [hcs]
  obtain ⟨v, w, hv, hw, _, _, _, _⟩ := resolver_inverse (E spare) new_group x fuel nProc
    (henv spare).2 hn hsubN (hmemN x hxG hxc) hfuel
  have hrankx : (E x).proc_rank.2 = x := by rw [(henv x).1]
  have hcases := tag_sender_cases fuel (E x) (seg x) (off x) size (queue x)
    GPI_CP_POLICY_RING new_group timeout_ms (d x) (tr x) issued (o x) v w spare
    (by rw [(henv x).1]) (hdesc x hxG hxc).1
    (by rw [hrankx, hnews]; exact hv) (by rw [hrankx, hnewr]; exact hw)
    (hrun x (Or.inl ⟨hxG, hxc⟩)).1 hxi hxs
  have hinN : ∀ r y, inOld y = true →
      gpi_cp_is_in_group (E r) new_group y = false → y = culprit := by
    intro r y hy h
    rw [hnew] at h
    by_contra hne
    simp [hy, hne] at h
  have htag : gpi_cp_sender fuel (E spare) GPI_CP_POLICY_RING new_group q
        = Result.returned (GPI_CP_SUCCESS, spare)
      ∨ gpi_cp_receiver fuel (E spare) GPI_CP_POLICY_RING new_group p
        = Result.returned (GPI_CP_SUCCESS, spare) := by
    have hix := hinv x hxG
    simp only [if_neg hxc] at hix
    rw [restore_case_initialized _ _ _ (hdesc x hxG hxc).1] at hcases
    rcases hcases with ⟨hcase, hvj⟩ | ⟨hcase, hwj⟩
    · left
      have hsend : gpi_cp_is_in_group (E x) new_group (d x).sender = false := by
        by_contra h
        rw [if_neg h] at hcase
        split_ifs at hcase
      have e := hinN x _ hix.1 hsend
      have hxq : x = q := by
        have := hix.2.2.1
        rw [e, if_pos rfl] at this
        exact this.symm
      rw [hxq, hvj] at hv
      exact hv
    · right
      have hsend : ¬ gpi_cp_is_in_group (E x) new_group (d x).sender = false := by
        intro h
        rw [if_pos h] at hcase
        cases hcase
      rw [if_neg hsend] at hcase
      have hrecv : gpi_cp_is_in_group (E x) new_group (d x).receiver = false := by
        by_contra h
        rw [if_neg h] at hcase
        cases hcase
      have e := hinN x _ hix.2.1 hrecv
      have hxp : x = p := by
        have := hix.2.2.2
        rw [e, if_pos rfl] at this
        exact this.symm
      rw [hxp, hwj] at hw
      exact hw
  obtain ⟨hsNq, hrNp, hsNs, hrNs⟩ := spare_takes_place (Eold culprit) (E spare) old_group
    new_group fuel nProc culprit spare p q (hnumold _) (henv spare).2 hn hfuel hsub0 hN
    hc0 hs0 hsparen hpm hpc hqm hqc hsq hsc hrp hrc htag
  -- what each member stores
  have hrank : ∀ r, (E r).proc_rank.1 = GASPI_SUCCESS ∧ (E r).proc_rank.2 = r := by
    intro r
    rw [(henv r).1]
    exact ⟨rfl, rfl⟩
  have hsOq : (d q).sender = culprit := by
    have := hval _ _ _ (hvs q hqG) hsq
    rwa [if_neg hqc] at this
  have hrOp : (d p).receiver = culprit := by
    have := hval _ _ _ (hvr p hpG) hrp
    rwa [if_neg hpc] at this
  have hjoiner := restore_joiner_stored fuel (E spare) (seg spare) (off spare) size
    (queue spare) GPI_CP_POLICY_RING new_group timeout_ms (d spare) (tr spare) p q
    (o spare) (hrank spare).1 hjoin (by rw [(hrank spare).2]; exact hsNs)
    (by rw [(hrank spare).2]; exact hrNs) (hrun spare (Or.inr rfl)).1
  have hqcase : gpi_cp_restore_case (E q) new_group (d q)
      = RestoreCase.affected_missing_sender := by
    rw [restore_case_initialized _ _ _ (hdesc q hqG hqc).1, hsOq, hnotN q, if_pos rfl]
  have hqst := restore_missing_sender_stored fuel (E q) (seg q) (off q) size (queue q)
    GPI_CP_POLICY_RING new_group timeout_ms (d q) (tr q) spare (o q) (hrank q).1 hqcase
    (by rw [(hrank q).2, hnews]; exact hsNq) (hrun q (Or.inl ⟨hqG, hqc⟩)).1
  have hpinv := hinv p hpG
  simp only [if_neg hpc] at hpinv
  have hpsend : gpi_cp_is_in_group (E p) new_group (d p).sender = true := by
    rw [hnew]
    have hne : (d p).sender ≠ culprit := by
      intro h
      have := hpinv.2.2.1
      rw [h, if_pos rfl] at this
      exact hpq this.symm
    simp [hpinv.1, hne]
  have hpcase : gpi_cp_restore_case (E p) new_group (d p)
      = RestoreCase.affected_missing_receiver := by
    rw [restore_case_initialized _ _ _ (hdesc p hpG hpc).1, hpsend, hrOp, hnotN p]
    simp
  have hpst := restore_missing_receiver_stored fuel (E p) (seg p) (off p) size (queue p)
    GPI_CP_POLICY_RING new_group timeout_ms (d p) (tr p) spare (o p) (hrank p).1 hpcase
    (by rw [(hrank p).2, hnewr]; exact hrNp) (hrun p (Or.inl ⟨hpG, hpc⟩)).1
  have hother : ∀ r, inOld r = true → r ≠ culprit → r ≠ p → r ≠ q →
      (o r).d.sender = (if r = culprit then p else (d r).sender)
      ∧ (o r).d.receiver = (if r = culprit then q else (d r).receiver) := by
    intro r hr hrc1 hrp1 hrq1
    have hri := hinv r hr
    simp only [if_neg hrc1] at hri
    have hs1 : gpi_cp_is_in_group (E r) new_group (d r).sender = true := by
      rw [hnew]
      have hne : (d r).sender ≠ culprit := by
        intro h
        have := hri.2.2.1
        rw [h, if_pos rfl] at this
        exact hrq1 this.symm
      simp [hri.1, hne]
    have hr1 : gpi_cp_is_in_group (E r) new_group (d r).receiver = true := by
      rw [hnew]
      have hne : (d r).receiver ≠ culprit := by
        intro h
        have := hri.2.2.2
        rw [h, if_pos rfl] at this
        exact hrp1 this.symm
      simp [hri.2.1, hne]
    have hcase : gpi_cp_restore_case (E r) new_group (d r) = RestoreCase.unaffected := by
      rw [restore_case_initialized _ _ _ (hdesc r hr hrc1).1, hs1, hr1]
      simp
    have := restore_unaffected_stored fuel (E r) (seg r) (off r) size (queue r)
      GPI_CP_POLICY_RING new_group timeout_ms (d r) (tr r) (o r) (hrank r).1 hcase
      (hrun r (Or.inl ⟨hr, hrc1⟩)).1
    rw [if_neg hrc1, if_neg hrc1]
    exact ⟨this.1, this.2.1⟩
  exact ring_surgery inOld culprit spare p q
    (fun r => if r = culprit then p else (d r).sender)
    (fun r => if r = culprit then q else (d r).receiver)
    (fun r => (o r).d.sender) (fun r => (o r).d.receiver)
    hinv hculprit hspare (if_pos rfl) (if_pos rfl) hpq hjoiner.1 hjoiner.2 hqst.1
    (by simp only [if_neg hqc]; exact hqst.2)
    (by simp only [if_neg hpc]; exact hpst.1) hpst.2 hother


theorem example_old_members (r s g x : Nat) :
    gpi_cp_is_in_group (exampleEnv r 5 [0, 1, 2, 3] s) g x = decide (x < 4) := by
  match x with
  | 0 | 1 | 2 | 3 => rfl
  | x + 4 =>
    simp [gpi_cp_is_in_group, exampleEnv, List.range_succ]

theorem example_new_members (r s g x : Nat) :
    gpi_cp_is_in_group (exampleEnv r 5 [0, 1, 2, 4] s) g x
      = ((decide (x < 4) && x != 3) || x == 4) := by
  match x with
  | 0 | 1 | 2 | 3 | 4 => rfl
  | x + 5 =>
    simp [gpi_cp_is_in_group, exampleEnv, List.range_succ]

/-- C11 among 5 processes: the ring 0, 1, 2, 3 loses rank 3 and gains rank 4;
rank 0 sent the tag; after restore the spare 4 has sender 2 and receiver 0,
rank 2 has receiver 4 and rank 0 has sender 4. -/
theorem C11_ring_whole_witness :
    ((decide ((exampleRingOut 4).d.sender < 4) = true ∧ (exampleRingOut 4).d.sender ≠ 3)
        ∨ (exampleRingOut 4).d.sender = 4)
      ∧ ((decide ((exampleRingOut 4).d.receiver < 4) = true
          ∧ (exampleRingOut 4).d.receiver ≠ 3)
        ∨ (exampleRingOut 4).d.receiver = 4)
      ∧ (exampleRingOut ((exampleRingOut 4).d.sender)).d.receiver = 4
      ∧ (exampleRingOut ((exampleRingOut 4).d.receiver)).d.sender = 4 :=
  C11_ring_whole 5 5 (fun r => exampleEnv r 5 [0, 1, 2, 3] 0) exampleRingEnv 0 0
    (fun x => decide (x < 4)) 3 4 (fun _ => 0) (fun _ => 0) (fun _ => 0) 8 0
    exampleRingDescription (fun _ => []) exampleRingOut (by decide) (le_refl _)
    (fun _ => rfl) (fun _ => ⟨rfl, rfl⟩)
    (fun r x => example_old_members r 0 0 x)
    (fun r x => example_new_members r _ 0 x)
    (fun x hx => by
      have := of_decide_eq_true hx
      omega)
    ⟨0, 1, 2, by decide⟩ (by decide) (by decide) (by decide)
    (fun r hr hrc => by
      have hr4 := of_decide_eq_true hr
      have hr3 : r < 3 := by omega
      interval_cases r
      · exact ⟨rfl, rfl, rfl⟩
      · exact ⟨rfl, rfl, rfl⟩
      · exact ⟨rfl, rfl, rfl⟩)
    rfl
    (fun r hr => by
      have hcases : r = 0 ∨ r = 1 ∨ r = 2 ∨ r = 4 := by
        rcases hr with ⟨h1, h2⟩ | h
        · have := of_decide_eq_true h1
          omega
        · exact Or.inr (Or.inr (Or.inr h))
      rcases hcases with rfl | rfl | rfl | rfl
      · exact ⟨rfl, rfl⟩
      · exact ⟨rfl, rfl⟩
      · exact ⟨rfl, rfl⟩
      · exact ⟨rfl, rfl⟩)
    ⟨0, (exampleRingOut 0).trace, by decide, by decide, (List.append_nil _).symm,
      by decide⟩
    4 (Or.inr rfl)


/-! ## One global round and the memory -/

theorem start_moves (E : Env) (self timeout_ms : Nat) (d : gpi_cp_description)
    (m : Memory)
    (hprog : d.state_in_progress = false)
    (hrank : E.proc_rank.1 = GASPI_SUCCESS)
    (hmem : gpi_cp_is_in_group E d.group E.proc_rank.2 = true)
    (hret : (gpi_cp_start E timeout_ms d []).ret = GASPI_SUCCESS) :
    data_movements self (gpi_cp_start E timeout_ms d []).trace m
      = data_movement self (Call.write_notify d.segment_id_local_client_source d.offset
          d.receiver d.segment_id_remote_on_receiver d.active_snapshot d.size
          E.proc_rank.2 (E.proc_rank.2 + 1) d.queue timeout_ms) m := by
  simp only [gpi_cp_start, gpi_cp_start_end, gaspi, gettimeofday, hprog, hrank, hmem]
    at hret ⊢
  simp only [ne_eq, not_true_eq_false, if_false, if_true, Bool.false_eq_true] at hret ⊢
  split_ifs at hret ⊢
  all_goals first
    | rfl
    | (exfalso; exact ‹¬_› hret)

theorem wait_for_notification_moves (E : Env) (self seg sender value timeout_ms : Nat)
    (tr : List Call) (m : Memory) :
    data_movements self (gpi_cp_wait_for_notification_from E seg sender value timeout_ms
      tr).2 m = data_movements self tr m := by
  unfold gpi_cp_wait_for_notification_from
  simp only []
  split_ifs <;> rfl

theorem commit_moves (E : Env) (self timeout_ms : Nat) (d : gpi_cp_description)
    (m : Memory) :
    data_movements self (gpi_cp_commit E timeout_ms d []).trace m = m := by
  have hcons : ∀ (c : Call) (tr : List Call),
      data_movements self (c :: tr) m = data_movement self c (data_movements self tr m) :=
    fun _ _ => rfl
  simp only [gpi_cp_commit, gpi_cp_commit_end, gaspi, gettimeofday]
  split_ifs
  all_goals simp only [hcons, wait_for_notification_moves, data_movement]
  all_goals rfl


theorem foldl_congr_mem {α β : Type} (f g : α → β → α) :
    ∀ (l : List β) (a : α), (∀ x ∈ l, ∀ a, f a x = g a x) → l.foldl f a = l.foldl g a := by
  intro l
  induction l with
  | nil => intro a _; rfl
  | cons x rest ih =>
    intro a h
    simp only [List.foldl_cons]
    rw [h x (List.mem_cons_self _ _) a]
    exact ih _ (fun y hy => h y (List.mem_cons_of_mem _ hy))

/-- What a successful `global_start` leaves: the descriptors of the ranks are
in flight, and the memory has taken the write of every rank in turn. -/
theorem global_start_spec (E : Nat → Env) (timeout_ms : Nat) :
    ∀ (ranks : List Nat) (w w1 : World), ranks.Nodup →
      (∀ r ∈ ranks, (E r).proc_rank = (GASPI_SUCCESS, r)
        ∧ gpi_cp_is_in_group (E r) (w.desc r).group r = true
        ∧ (w.desc r).state_in_progress = false) →
      global_start E timeout_ms ranks w = some w1 →
      (∀ r, r ∉ ranks → w1.desc r = w.desc r)
      ∧ (∀ r ∈ ranks, w1.desc r
          = { w.desc r with state_in_progress := true, in_start := (w1.desc r).in_start })
      ∧ w1.mem = ranks.foldl (fun m r => data_movement r
          (Call.write_notify (w.desc r).segment_id_local_client_source (w.desc r).offset
            (w.desc r).receiver (w.desc r).segment_id_remote_on_receiver
            (w.desc r).active_snapshot (w.desc r).size r (r + 1) (w.desc r).queue
            timeout_ms) m) w.mem := by
  intro ranks
  induction ranks with
  | nil =>
    intro w w1 _ _ h
    simp only [global_start, Option.some.injEq] at h
    subst h
    exact ⟨fun _ _ => rfl, fun r hr => absurd hr (List.not_mem_nil r), rfl⟩
  | cons r rest ih =>
    intro w w1 hnd hpre h
    obtain ⟨hrk, hmem, hidle⟩ := hpre r (List.mem_cons_self _ _)
    have hr1 : (E r).proc_rank.1 = GASPI_SUCCESS := by rw [hrk]
    have hr2 : (E r).proc_rank.2 = r := by rw [hrk]
    have hmem2 : gpi_cp_is_in_group (E r) (w.desc r).group (E r).proc_rank.2 = true := by
      rw [hr2]; exact hmem
    have hnr : r ∉ rest := (List.nodup_cons.1 hnd).1
    have hndr : rest.Nodup := (List.nodup_cons.1 hnd).2
    unfold global_start at h
    by_cases hret : (gpi_cp_start (E r) timeout_ms (w.desc r) []).ret = GASPI_SUCCESS
    · rw [if_pos hret] at h
      have hne : ∀ x ∈ rest, x ≠ r := fun x hx hxr => hnr (hxr ▸ hx)
      obtain ⟨h1, h2, h3⟩ := ih _ w1 hndr
        (fun x hx => by
          simp only [Function.update_noteq (hne x hx)]
          exact hpre x (List.mem_cons_of_mem _ hx)) h
      simp only [] at h1 h2 h3
      have hdr : w1.desc r = (gpi_cp_start (E r) timeout_ms (w.desc r) []).d := by
        rw [h1 r hnr, Function.update_same]
      refine ⟨?_, ?_, ?_⟩
      · intro x hx
        have hxr : x ≠ r := fun e => hx (e ▸ List.mem_cons_self _ _)
        have hxrest : x ∉ rest := fun e => hx (List.mem_cons_of_mem _ e)
        rw [h1 x hxrest, Function.update_noteq hxr]
      · intro x hx
        rcases List.mem_cons.1 hx with rfl | hx
        · rw [hdr]
          exact start_idle_effect (E x) timeout_ms (w.desc x) [] hidle hr1 hmem2
        · have := h2 x hx
          rw [Function.update_noteq (hne x hx)] at this
          exact this
      · rw [h3, List.foldl_cons, start_moves (E r) r timeout_ms (w.desc r) w.mem hidle hr1
          hmem2 hret, hr2]
        apply foldl_congr_mem
        intro x hx a
        rw [Function.update_noteq (hne x hx)]
    · rw [if_neg hret] at h
      cases h

/-- What a successful `global_commit` leaves: the descriptors of the ranks are
idle again with `active_snapshot` toggled, and the memory is as before. -/
theorem global_commit_spec (E : Nat → Env) (timeout_ms : Nat) :
    ∀ (ranks : List Nat) (w w1 : World), ranks.Nodup →
      (∀ r ∈ ranks, (E r).proc_rank = (GASPI_SUCCESS, r)
        ∧ gpi_cp_is_in_group (E r) (w.desc r).group r = true
        ∧ (w.desc r).state_in_progress = true) →
      global_commit E timeout_ms ranks w = some w1 →
      (∀ r, r ∉ ranks → w1.desc r = w.desc r)
      ∧ (∀ r ∈ ranks, w1.desc r
          = { w.desc r with
              active_snapshot :=
                ((w.desc r).size + OFFSET_MOD - (w.desc r).active_snapshot) % OFFSET_MOD
              state_in_progress := false
              in_commit := (w1.desc r).in_commit })
      ∧ w1.mem = w.mem := by
  intro ranks
  induction ranks with
  | nil =>
    intro w w1 _ _ h
    simp only [global_commit, Option.some.injEq] at h
    subst h
    exact ⟨fun _ _ => rfl, fun r hr => absurd hr (List.not_mem_nil r), rfl⟩
  | cons r rest ih =>
    intro w w1 hnd hpre h
    obtain ⟨hrk, hmem, hprog⟩ := hpre r (List.mem_cons_self _ _)
    have hr1 : (E r).proc_rank.1 = GASPI_SUCCESS := by rw [hrk]
    have hr2 : (E r).proc_rank.2 = r := by rw [hrk]
    have hmem2 : gpi_cp_is_in_group (E r) (w.desc r).group (E r).proc_rank.2 = true := by
      rw [hr2]; exact hmem
    have hnr : r ∉ rest := (List.nodup_cons.1 hnd).1
    have hndr : rest.Nodup := (List.nodup_cons.1 hnd).2
    unfold global_commit at h
    by_cases hret : (gpi_cp_commit (E r) timeout_ms (w.desc r) []).ret = GASPI_SUCCESS
    · rw [if_pos hret] at h
      have hne : ∀ x ∈ rest, x ≠ r := fun x hx hxr => hnr (hxr ▸ hx)
      obtain ⟨h1, h2, h3⟩ := ih _ w1 hndr
        (fun x hx => by
          simp only [Function.update_noteq (hne x hx)]
          exact hpre x (List.mem_cons_of_mem _ hx)) h
      simp only [] at h1 h2 h3
      have hdr : w1.desc r = (gpi_cp_commit (E r) timeout_ms (w.desc r) []).d := by
        rw [h1 r hnr, Function.update_same]
      refine ⟨?_, ?_, ?_⟩
      · intro x hx
        have hxr : x ≠ r := fun e => hx (e ▸ List.mem_cons_self _ _)
        have hxrest : x ∉ rest := fun e => hx (List.mem_cons_of_mem _ e)
        rw [h1 x hxrest, Function.update_noteq hxr]
      · intro x hx
        rcases List.mem_cons.1 hx with rfl | hx
        · rw [hdr]
          exact commit_success_effect (E x) timeout_ms (w.desc x) [] hprog hr1 hmem2 hret
        · have := h2 x hx
          rw [Function.update_noteq (hne x hx)] at this
          exact this
      · rw [h3, commit_moves]
    · rw [if_neg hret] at h
      cases h


theorem write_hit (self seg_local off_local rank seg_remote off_remote size id value queue
    timeout_ms : Nat) (m : Memory) (i : Nat) (hi : i < size) :
    data_movement self (Call.write_notify seg_local off_local rank seg_remote off_remote
      size id value queue timeout_ms) m rank seg_remote (off_remote + i)
      = m self seg_local (off_local + i) := by
  show (if rank = rank ∧ seg_remote = seg_remote ∧ off_remote ≤ off_remote + i
        ∧ off_remote + i < off_remote + size then
      m self seg_local (off_local + (off_remote + i - off_remote))
    else m rank seg_remote (off_remote + i)) = _
  rw [if_pos ⟨rfl, rfl, Nat.le_add_right _ _, by omega⟩, Nat.add_sub_cancel_left]

theorem write_miss (self seg_local off_local rank seg_remote off_remote size id value queue
    timeout_ms : Nat) (m : Memory) (r s o : Nat) (h : ¬ (rank = r ∧ seg_remote = s)) :
    data_movement self (Call.write_notify seg_local off_local rank seg_remote off_remote
      size id value queue timeout_ms) m r s o = m r s o := by
  show (if r = rank ∧ s = seg_remote ∧ off_remote ≤ o ∧ o < off_remote + size then
      m self seg_local (off_local + (o - off_remote))
    else m r s o) = _
  rw [if_neg]
  intro h1
  exact h ⟨h1.1.symm, h1.2.1.symm⟩

/-- The memory after the writes of a list of ranks, when no two of them write
to the same segment and none writes to a client segment of the list: every
write has arrived, and the segments nobody wrote to are as before. -/
theorem writes_fold_spec (desc : Nat → gpi_cp_description) (timeout_ms : Nat) :
    ∀ (ranks : List Nat) (m : Memory), ranks.Nodup →
      (∀ x ∈ ranks, ∀ y ∈ ranks, x ≠ y →
        ¬ ((desc x).receiver = (desc y).receiver
          ∧ (desc x).segment_id_remote_on_receiver
            = (desc y).segment_id_remote_on_receiver)) →
      (∀ x ∈ ranks, ∀ y ∈ ranks,
        ¬ ((desc y).receiver = x
          ∧ (desc y).segment_id_remote_on_receiver
            = (desc x).segment_id_local_client_source)) →
      (∀ x ∈ ranks, ∀ i, i < (desc x).size →
        (ranks.foldl (fun m r => data_movement r
          (Call.write_notify (desc r).segment_id_local_client_source (desc r).offset
            (desc r).receiver (desc r).segment_id_remote_on_receiver
            (desc r).active_snapshot (desc r).size r (r + 1) (desc r).queue
            timeout_ms) m) m)
          (desc x).receiver (desc x).segment_id_remote_on_receiver
          ((desc x).active_snapshot + i)
        = m x (desc x).segment_id_local_client_source ((desc x).offset + i))
      ∧ (∀ r s o, (∀ x ∈ ranks,
          ¬ ((desc x).receiver = r ∧ (desc x).segment_id_remote_on_receiver = s)) →
        (ranks.foldl (fun m r => data_movement r
          (Call.write_notify (desc r).segment_id_local_client_source (desc r).offset
            (desc r).receiver (desc r).segment_id_remote_on_receiver
            (desc r).active_snapshot (desc r).size r (r + 1) (desc r).queue
            timeout_ms) m) m) r s o
        = m r s o) := by
  intro ranks
  induction ranks with
  | nil =>
    intro m _ _ _
    exact ⟨fun x hx => absurd hx (List.not_mem_nil x), fun _ _ _ _ => rfl⟩
  | cons y rest ih =>
    intro m hnd hdis hal
    have hny : y ∉ rest := (List.nodup_cons.1 hnd).1
    obtain ⟨ihB, ihA⟩ := ih
      (data_movement y
        (Call.write_notify (desc y).segment_id_local_client_source (desc y).offset
          (desc y).receiver (desc y).segment_id_remote_on_receiver
          (desc y).active_snapshot (desc y).size y (y + 1) (desc y).queue timeout_ms) m)
      (List.nodup_cons.1 hnd).2
      (fun a ha b hb => hdis a (List.mem_cons_of_mem _ ha) b (List.mem_cons_of_mem _ hb))
      (fun a ha b hb => hal a (List.mem_cons_of_mem _ ha) b (List.mem_cons_of_mem _ hb))
    simp only [List.foldl_cons]
    constructor
    · intro x hx i hi
      rcases List.mem_cons.1 hx with rfl | hx
      · rw [ihA _ _ _ (fun z hz => by
          have hzx : z ≠ x := fun e => hny (e ▸ hz)
          exact hdis z (List.mem_cons_of_mem _ hz) x (List.mem_cons_self _ _) hzx)]
        exact write_hit _ _ _ _ _ _ _ _ _ _ _ _ i hi
      · rw [ihB x hx i hi]
        exact write_miss _ _ _ _ _ _ _ _ _ _ _ _ _ _ _
          (hal x (List.mem_cons_of_mem _ hx) y (List.mem_cons_self _ _))
    · intro r s o hno
      rw [ihA r s o (fun x hx => hno x (List.mem_cons_of_mem _ hx))]
      exact write_miss _ _ _ _ _ _ _ _ _ _ _ _ _ _ _ (hno y (List.mem_cons_self _ _))


/-- The descriptors after one successful global round, field by field. -/
theorem global_round_desc (E : Nat → Env) (timeout_ms : Nat) (ranks : List Nat)
    (size a : Nat) (w w1 : World)
    (hnodup : ranks.Nodup)
    (hlinked : ring_linked E ranks size a w.desc)
    (hround : global_round E timeout_ms ranks w = some w1) :
    (∀ r ∈ ranks, w1.desc r
        = { w.desc r with
            active_snapshot := (size + OFFSET_MOD - a) % OFFSET_MOD
            state_in_progress := false
            in_start := (w1.desc r).in_start
            in_commit := (w1.desc r).in_commit })
    ∧ w1.mem = ranks.foldl (fun m r => data_movement r
          (Call.write_notify (w.desc r).segment_id_local_client_source (w.desc r).offset
            (w.desc r).receiver (w.desc r).segment_id_remote_on_receiver
            (w.desc r).active_snapshot (w.desc r).size r (r + 1) (w.desc r).queue
            timeout_ms) m) w.mem := by
  unfold global_round at hround
  cases hs : global_start E timeout_ms ranks w with
  | none => rw [hs] at hround; cases hround
  | some w0 =>
    rw [hs] at hround
    simp only [Option.bind] at hround
    obtain ⟨_, s2, s3⟩ := global_start_spec E timeout_ms ranks w w0 hnodup
      (fun r hr => ⟨(hlinked r hr).1, (hlinked r hr).2.1, (hlinked r hr).2.2.1⟩) hs
    obtain ⟨_, c2, c3⟩ := global_commit_spec E timeout_ms ranks w0 w1 hnodup
      (fun r hr => by
        refine ⟨(hlinked r hr).1, ?_, ?_⟩
        · rw [s2 r hr]; exact (hlinked r hr).2.1
        · rw [s2 r hr]) hround
    refine ⟨?_, by rw [c3, s3]⟩
    intro r hr
    have hc := c2 r hr
    have hsz : (w0.desc r).size = size := by rw [s2 r hr]; exact (hlinked r hr).2.2.2.1
    have hac : (w0.desc r).active_snapshot = a := by
      rw [s2 r hr]; exact (hlinked r hr).2.2.2.2.1
    rw [hsz, hac] at hc
    have e0 := s2 r hr
    generalize w1.desc r = d1 at hc ⊢
    generalize w0.desc r = d0 at hc e0
    generalize w.desc r = dw at e0 ⊢
    cases d1
    cases d0
    cases dw
    simp only [gpi_cp_description.mk.injEq] at hc e0 ⊢
    obtain ⟨h1, h2, h3, h4, h5, h6, h7, h8, h9, h10, h11, h12, h13, h14, h15, h16⟩ := hc
    obtain ⟨g1, g2, g3, g4, g5, g6, g7, g8, g9, g10, g11, g12, g13, g14, g15, g16⟩ := e0
    exact ⟨h1.trans g1, h2.trans g2, h3.trans g3, h4.trans g4, h5.trans g5, h6.trans g6,
      h7.trans g7, h8.trans g8, h9.trans g9, h10, h11, h12.trans g12, h13.trans g13,
      trivial, trivial, h16.trans g16⟩

/-- C15 as amended: take ranks whose descriptors describe a linked-up ring
with snapshots of `size` bytes and the common `active_snapshot` value `a`, 0
or `size` (as `gpi_cp_init` leaves them with `a = 0`, and as every successful
global round leaves them). After one more successful global round the
descriptors again describe a linked-up ring, now with `active_snapshot =
size - a`, and for every rank `r` the `size` bytes of its staging segment that
start at offset `size - active_snapshot(r)` are the client region that
`sender(r)` had when the round started. -/
theorem C15_committed_snapshot (E : Nat → Env) (timeout_ms : Nat) (ranks : List Nat)
    (size a : Nat) (w w1 : World)
    (hnodup : ranks.Nodup) (hsize : size < OFFSET_MOD) (ha : a = 0 ∨ a = size)
    (hlinked : ring_linked E ranks size a w.desc)
    (hround : global_round E timeout_ms ranks w = some w1) :
    ring_linked E ranks size (size - a) w1.desc
    ∧ ∀ r ∈ ranks,
        (w1.desc r).active_snapshot = size - a
        ∧ (w1.desc r).sender = (w.desc r).sender
        ∧ (w1.desc r).segment_id_local_for_sender
          = (w.desc r).segment_id_local_for_sender
        ∧ ∀ i, i < size →
          w1.mem r (w1.desc r).segment_id_local_for_sender
              (size - (w1.desc r).active_snapshot + i)
            = w.mem (w.desc r).sender
                (w.desc (w.desc r).sender).segment_id_local_client_source
                ((w.desc (w.desc r).sender).offset + i) := by
  obtain ⟨hd, hm⟩ := global_round_desc E timeout_ms ranks size a w w1 hnodup hlinked hround
  have htoggle : (size + OFFSET_MOD - a) % OFFSET_MOD = size - a := by
    have hle : a ≤ size := by rcases ha with h | h <;> omega
    have e : size + OFFSET_MOD - a = (size - a) + OFFSET_MOD := by omega
    rw [e, Nat.add_mod_right, Nat.mod_eq_of_lt (by omega)]
  rw [htoggle] at hd
  have hback : size - (size - a) = a := by rcases ha with h | h <;> omega
  constructor
  · intro r hr
    obtain ⟨l1, l2, _, l4, _, l6, l7, l8, l9, l10, l11⟩ := hlinked r hr
    have hs := hd _ l6
    have hc := hd _ l7
    rw [hd r hr]
    refine ⟨l1, l2, rfl, l4, rfl, l6, l7, ?_, ?_, ?_, l11⟩
    · rw [hs]; exact l8
    · rw [hc]; exact l9
    · rw [hc]; exact l10
  · intro r hr
    obtain ⟨_, _, _, _, _, l6, _, l8, _, _, _⟩ := hlinked r hr
    have hdr := hd r hr
    refine ⟨by rw [hdr], by rw [hdr], by rw [hdr], ?_⟩
    intro i hi
    have hact : (w1.desc r).active_snapshot = size - a := by rw [hdr]
    have hseg : (w1.desc r).segment_id_local_for_sender
        = (w.desc r).segment_id_local_for_sender := by rw [hdr]
    rw [hact, hseg, hback, hm]
    obtain ⟨_, _, _, u4, u5, _, _, _, u9, u10, _⟩ := hlinked _ l6
    have hB := (writes_fold_spec w.desc timeout_ms ranks w.mem hnodup
      (fun x hx y hy hxy h => by
        have ex := (hlinked x hx).2.2.2.2.2.2.2.2.1
        have ey := (hlinked y hy).2.2.2.2.2.2.2.2.1
        rw [h.1, ey] at ex
        exact hxy ex.symm)
      (fun x hx y hy h => by
        have e1 := (hlinked y hy).2.2.2.2.2.2.2.2.2.1
        rw [h.1] at e1
        exact (hlinked x hx).2.2.2.2.2.2.2.2.2.2 (h.2.symm.trans e1))).1
      _ l6 i (by rw [u4]; exact hi)
    rw [l8, u5, u10, l8] at hB
    exact hB


theorem example_world_linked :
    ring_linked (fun r => exampleEnv r 3 [0, 1, 2] 0) [0, 1, 2] 8 0 exampleWorld.desc := by
  intro r hr
  simp only [List.mem_cons, List.mem_singleton, List.not_mem_nil, or_false] at hr
  rcases hr with rfl | rfl | rfl
  · exact ⟨rfl, rfl, rfl, rfl, rfl, by decide, by decide, rfl, rfl, rfl, by decide⟩
  · exact ⟨rfl, rfl, rfl, rfl, rfl, by decide, by decide, rfl, rfl, rfl, by decide⟩
  · exact ⟨rfl, rfl, rfl, rfl, rfl, by decide, by decide, rfl, rfl, rfl, by decide⟩

/-! ## Claim about the snapshot that the staging segment holds -/

set_option maxHeartbeats 4000000 in
/-- C15 fails on the code: ranks 0, 1, 2 form a linked-up ring with snapshots
of 8 bytes and `active_snapshot = 0`; the client bytes of rank 0 are 1 and the
staging segments hold 0. After one successful global round rank 1, whose
sender is rank 0, has `active_snapshot = 8`; its staging segment holds 0 at
offset `active_snapshot`, and the byte 1 of rank 0 lies at offset
`size - active_snapshot = 0`. -/
theorem C15_counterexample :
    ring_linked (fun r => exampleEnv r 3 [0, 1, 2] 0) [0, 1, 2] 8 0 exampleWorld.desc
    ∧ ∃ w, global_round (fun r => exampleEnv r 3 [0, 1, 2] 0) 0 [0, 1, 2] exampleWorld
        = some w
      ∧ (w.desc 1).sender = 0
      ∧ (w.desc 1).active_snapshot = 8
      ∧ exampleWorld.mem 0 (exampleWorld.desc 0).segment_id_local_client_source
          (exampleWorld.desc 0).offset = 1
      ∧ w.mem 1 (w.desc 1).segment_id_local_for_sender (w.desc 1).active_snapshot = 0
      ∧ w.mem 1 (w.desc 1).segment_id_local_for_sender
          (8 - (w.desc 1).active_snapshot) = 1 :=
  ⟨example_world_linked, _, rfl, rfl, rfl, rfl, rfl, rfl⟩

set_option maxHeartbeats 4000000 in
/-- C15 as amended, for the ring 0, 1, 2 of the example. -/
theorem C15_committed_snapshot_witness :
    ∃ w1, global_round (fun r => exampleEnv r 3 [0, 1, 2] 0) 0 [0, 1, 2] exampleWorld
        = some w1
      ∧ ring_linked (fun r => exampleEnv r 3 [0, 1, 2] 0) [0, 1, 2] 8 (8 - 0) w1.desc
      ∧ ∀ r ∈ [0, 1, 2],
        (w1.desc r).active_snapshot = 8 - 0
        ∧ (w1.desc r).sender = (exampleWorld.desc r).sender
        ∧ (w1.desc r).segment_id_local_for_sender
          = (exampleWorld.desc r).segment_id_local_for_sender
        ∧ ∀ i, i < 8 →
          w1.mem r (w1.desc r).segment_id_local_for_sender
              (8 - (w1.desc r).active_snapshot + i)
            = exampleWorld.mem (exampleWorld.desc r).sender
                (exampleWorld.desc (exampleWorld.desc r).sender).segment_id_local_client_source
                ((exampleWorld.desc (exampleWorld.desc r).sender).offset + i) :=
  ⟨_, rfl, C15_committed_snapshot (fun r => exampleEnv r 3 [0, 1, 2] 0) 0 [0, 1, 2] 8 0
    exampleWorld _ (by decide) (by decide) (Or.inl rfl) example_world_linked rfl⟩


/-! ## Calls that leave a byte alone -/

theorem call_effect_frame (self : Nat) (c : Call) (a : Resp) (m : Memory) (r s o : Nat)
    (h : Call.writes self c r s o = false) :
    call_effect self c a m r s o = m r s o := by
  cases c <;> simp only [Call.writes, decide_eq_false_iff_not] at h <;>
    first
      | rfl
      | (simp only [call_effect, data_movement]; rw [if_neg h])

theorem quiet_refl (self r s o : Nat) (tr : List Call) : quiet self r s o tr tr :=
  ⟨[], rfl, fun c hc => absurd hc (List.not_mem_nil c)⟩

theorem quiet_cons (self r s o : Nat) (tr : List Call) (c : Call)
    (h : Call.writes self c r s o = false) : quiet self r s o tr (c :: tr) :=
  ⟨[c], rfl, fun x hx => by rw [List.mem_singleton.1 hx]; exact h⟩

theorem quiet_trans (self r s o : Nat) (t1 t2 t3 : List Call)
    (h1 : quiet self r s o t1 t2) (h2 : quiet self r s o t2 t3) :
    quiet self r s o t1 t3 := by
  obtain ⟨Y1, e1, q1⟩ := h1
  obtain ⟨Y2, e2, q2⟩ := h2
  refine ⟨Y2 ++ Y1, by rw [e2, e1, List.append_assoc], ?_⟩
  intro c hc
  rcases List.mem_append.1 hc with h | h
  · exact q2 c h
  · exact q1 c h

theorem trace_effect_quiet (E : Env) (self r s o : Nat) (tr tr1 : List Call) (m : Memory)
    (h : quiet self r s o tr tr1) :
    trace_effect E self tr1 m r s o = trace_effect E self tr m r s o := by
  obtain ⟨Y, rfl, hq⟩ := h
  induction Y with
  | nil => rfl
  | cons c rest ih =>
    show call_effect self c _ (trace_effect E self (rest ++ tr) m) r s o = _
    rw [call_effect_frame self c _ _ r s o (hq c (List.mem_cons_self _ _))]
    exact ih (fun x hx => hq x (List.mem_cons_of_mem _ hx))


theorem quiet_step (self r s o : Nat) (tr t1 : List Call) (c : Call)
    (h : quiet self r s o tr t1) (hc : Call.writes self c r s o = false) :
    quiet self r s o tr (c :: t1) :=
  quiet_trans self r s o tr t1 (c :: t1) h (quiet_cons self r s o t1 c hc)

theorem get_unused_quiet (E : Env) (self r s o u : Nat) (tr : List Call) :
    quiet self r s o tr (gpi_cp_get_unused_segment_id E u tr).2 := by
  simp only [gpi_cp_get_unused_segment_id, gaspi]
  split_ifs
  · exact quiet_step _ _ _ _ _ _ _ (quiet_refl _ _ _ _ _) rfl
  · exact quiet_step _ _ _ _ _ _ _ (quiet_refl _ _ _ _ _) rfl
  · exact quiet_step _ _ _ _ _ _ _ (quiet_step _ _ _ _ _ _ _ (quiet_refl _ _ _ _ _) rfl) rfl
  · exact quiet_step _ _ _ _ _ _ _ (quiet_step _ _ _ _ _ _ _
      (quiet_step _ _ _ _ _ _ _ (quiet_refl _ _ _ _ _) rfl) rfl) rfl
  · split <;> exact quiet_step _ _ _ _ _ _ _ (quiet_step _ _ _ _ _ _ _
      (quiet_step _ _ _ _ _ _ _ (quiet_refl _ _ _ _ _) rfl) rfl) rfl

theorem allocate_quiet (E : Env) (self r s o seg size sender timeout_ms : Nat)
    (tr : List Call) :
    quiet self r s o tr
      (gpi_cp_allocate_and_register_local_segment E seg size sender timeout_ms tr).2 := by
  have hu := get_unused_quiet E self r s o seg tr
  simp only [gpi_cp_allocate_and_register_local_segment, gaspi]
  split_ifs
  all_goals first
    | exact hu
    | exact quiet_step _ _ _ _ _ _ _ hu rfl
    | exact quiet_step _ _ _ _ _ _ _ (quiet_step _ _ _ _ _ _ _ hu rfl) rfl

theorem tell_sender_quiet (E : Env) (self r s o seg offset sender : Nat)
    (tr tr1 : List Call)
    (hcell : ¬ (r = self ∧ s = seg ∧ o = offset))
    (h : gpi_cp_tell_sender_about_the_local_segment_id E seg offset sender tr
      = Result.returned tr1) :
    quiet self r s o tr tr1 := by
  simp only [gpi_cp_tell_sender_about_the_local_segment_id, gpi_cp_ptr, gaspi] at h
  split at h
  · cases h
  · cases h
    refine quiet_step _ _ _ _ _ _ _ (quiet_step _ _ _ _ _ _ _
      (quiet_step _ _ _ _ _ _ _ (quiet_refl _ _ _ _ _) rfl) ?_) rfl
    simpa [Call.writes, SIZEOF_SEGMENT_ID] using hcell

theorem make_sure_quiet (E : Env) (self r s o seg offset sender timeout_ms : Nat)
    (tr tr1 : List Call)
    (hcell : ¬ (r = self ∧ s = seg ∧ o = offset))
    (h : gpi_cp_make_sure_receiver_got_local_segment_id E seg offset sender timeout_ms tr
      = Result.returned tr1) :
    quiet self r s o tr tr1 := by
  have hst : Call.writes self (Call.store_segment_id seg offset 0 seg) r s o = false := by
    simpa [Call.writes, SIZEOF_SEGMENT_ID] using hcell
  simp only [gpi_cp_make_sure_receiver_got_local_segment_id, gpi_cp_ptr, gaspi] at h
  split at h
  · cases h
  · split at h
    · cases h
      exact quiet_step _ _ _ _ _ _ _ (quiet_step _ _ _ _ _ _ _
        (quiet_step _ _ _ _ _ _ _ (quiet_refl _ _ _ _ _) rfl) hst) rfl
    · cases h
      exact quiet_step _ _ _ _ _ _ _ (quiet_step _ _ _ _ _ _ _ (quiet_step _ _ _ _ _ _ _
        (quiet_step _ _ _ _ _ _ _ (quiet_refl _ _ _ _ _) rfl) hst) rfl) rfl

theorem receive_segment_id_quiet (E : Env) (self r s o seg offset expected timeout_ms : Nat)
    (tr : List Call) (rc : (Int × Nat) × List Call)
    (hcell : ¬ (r = self ∧ s = seg ∧ o = (offset + SIZEOF_SEGMENT_ID) % OFFSET_MOD))
    (h : gpi_cp_receive_segment_id E seg offset expected timeout_ms tr
      = Result.returned rc) :
    quiet self r s o tr rc.2 := by
  have hrecv : Call.writes self (Call.passive_receive seg
      ((offset + SIZEOF_SEGMENT_ID) % OFFSET_MOD) SIZEOF_SEGMENT_ID timeout_ms) r s o
      = false := by
    simp only [Call.writes, decide_eq_false_iff_not]
    intro hw
    exact hcell ⟨hw.1, hw.2.1, by have := hw.2.2; simp only [SIZEOF_SEGMENT_ID] at this ⊢; omega⟩
  simp only [gpi_cp_receive_segment_id, gpi_cp_ptr, gaspi] at h
  repeat' split at h
  all_goals cases h
  · exact quiet_step _ _ _ _ _ _ _ (quiet_refl _ _ _ _ _) hrecv
  · exact quiet_step _ _ _ _ _ _ _ (quiet_refl _ _ _ _ _) hrecv
  · exact quiet_step _ _ _ _ _ _ _ (quiet_step _ _ _ _ _ _ _
      (quiet_step _ _ _ _ _ _ _ (quiet_refl _ _ _ _ _) hrecv) rfl) rfl

theorem wait_for_notification_quiet (E : Env) (self r s o seg sender value timeout_ms : Nat)
    (tr : List Call) :
    quiet self r s o tr
      (gpi_cp_wait_for_notification_from E seg sender value timeout_ms tr).2 := by
  simp only [gpi_cp_wait_for_notification_from, gaspi]
  split_ifs
  all_goals first
    | exact quiet_step _ _ _ _ _ _ _ (quiet_refl _ _ _ _ _) rfl
    | exact quiet_step _ _ _ _ _ _ _ (quiet_step _ _ _ _ _ _ _ (quiet_refl _ _ _ _ _) rfl)
        rfl

theorem restore_end_quiet (E : Env) (self r s o timeout_ms : Nat) (tstart : Timeval)
    (d : gpi_cp_description) (tr : List Call) :
    quiet self r s o tr (gpi_cp_restore_end E timeout_ms tstart d tr).trace := by
  simp only [gpi_cp_restore_end, gaspi, gettimeofday]
  split_ifs
  · exact quiet_step _ _ _ _ _ _ _ (quiet_refl _ _ _ _ _) rfl
  · exact quiet_step _ _ _ _ _ _ _ (quiet_step _ _ _ _ _ _ _ (quiet_refl _ _ _ _ _) rfl) rfl

theorem start_quiet (E : Env) (self r s o timeout_ms : Nat) (d : gpi_cp_description)
    (tr : List Call)
    (hcell : ¬ (r = d.receiver ∧ s = d.segment_id_remote_on_receiver))
    : quiet self r s o tr (gpi_cp_start E timeout_ms d tr).trace := by
  have hw : ∀ id value, Call.writes self (Call.write_notify d.segment_id_local_client_source
      d.offset d.receiver d.segment_id_remote_on_receiver d.active_snapshot d.size
      id value d.queue timeout_ms) r s o = false := by
    intro id value
    simp only [Call.writes, decide_eq_false_iff_not]
    intro h
    exact hcell ⟨h.1, h.2.1⟩
  simp only [gpi_cp_start, gpi_cp_start_end, gaspi, gettimeofday]
  split_ifs
  all_goals first
    | exact quiet_step _ _ _ _ _ _ _ (quiet_refl _ _ _ _ _) rfl
    | exact quiet_step _ _ _ _ _ _ _ (quiet_step _ _ _ _ _ _ _ (quiet_refl _ _ _ _ _) rfl)
        rfl
    | exact quiet_step _ _ _ _ _ _ _ (quiet_step _ _ _ _ _ _ _
        (quiet_step _ _ _ _ _ _ _ (quiet_refl _ _ _ _ _) rfl) rfl) rfl
    | exact quiet_step _ _ _ _ _ _ _ (quiet_step _ _ _ _ _ _ _ (quiet_step _ _ _ _ _ _ _
        (quiet_step _ _ _ _ _ _ _ (quiet_refl _ _ _ _ _) rfl) rfl) rfl) rfl
    | exact quiet_step _ _ _ _ _ _ _ (quiet_step _ _ _ _ _ _ _ (quiet_step _ _ _ _ _ _ _
        (quiet_step _ _ _ _ _ _ _ (quiet_refl _ _ _ _ _) rfl) rfl) rfl) (hw _ _)
    | exact quiet_step _ _ _ _ _ _ _ (quiet_step _ _ _ _ _ _ _ (quiet_step _ _ _ _ _ _ _
        (quiet_step _ _ _ _ _ _ _ (quiet_step _ _ _ _ _ _ _ (quiet_refl _ _ _ _ _) rfl) rfl)
        rfl) rfl) (hw _ _)
    | exact quiet_step _ _ _ _ _ _ _ (quiet_step _ _ _ _ _ _ _ (quiet_step _ _ _ _ _ _ _
        (quiet_step _ _ _ _ _ _ _ (quiet_step _ _ _ _ _ _ _ (quiet_refl _ _ _ _ _) rfl) rfl)
        rfl) (hw _ _)) rfl
    | exact quiet_step _ _ _ _ _ _ _ (quiet_step _ _ _ _ _ _ _ (quiet_step _ _ _ _ _ _ _
        (quiet_step _ _ _ _ _ _ _ (quiet_step _ _ _ _ _ _ _
        (quiet_step _ _ _ _ _ _ _ (quiet_refl _ _ _ _ _) rfl) rfl) rfl) rfl) (hw _ _)) rfl


/-! ## What the branches of restore leave alone -/

theorem missing_sender_quiet (fuel : Nat) (E : Env) (self r s x : Nat) (policy : Int)
    (new_group timeout_ms : Nat) (tstart : Timeval) (d : gpi_cp_description)
    (tr : List Call) (o : Out)
    (hcell : ¬ (r = self ∧ s = d.segment_id_local_for_sender ∧ x = d.active_snapshot))
    (hret : gpi_cp_restore_missing_sender fuel E policy new_group timeout_ms tstart d tr
      = Result.returned o) :
    quiet self r s x tr o.trace := by
  unfold gpi_cp_restore_missing_sender at hret
  split at hret
  · cases hret
  · cases hret
  · rename_i snd _
    simp only [gaspi] at hret
    by_cases h1 : snd.1 ≠ GPI_CP_SUCCESS
    · rw [if_pos h1] at hret
      cases hret
      exact quiet_refl _ _ _ _ _
    · rw [if_neg h1] at hret
      by_cases ha : d.active_snapshot = d.size
      · rw [if_pos ha] at hret
        simp only [] at hret
        split at hret
        · cases hret
          exact quiet_step _ _ _ _ _ _ _ (quiet_refl _ _ _ _ _) rfl
        · split at hret
          · cases hret
            exact quiet_step _ _ _ _ _ _ _ (quiet_step _ _ _ _ _ _ _
              (quiet_step _ _ _ _ _ _ _ (quiet_refl _ _ _ _ _) rfl) rfl) rfl
          · split at hret
            · cases hret
            · cases hret
            · rename_i tr1 htell
              cases hret
              refine quiet_trans _ _ _ _ _ _ _ ?_
                (restore_end_quiet E self r s x timeout_ms tstart _ tr1)
              refine quiet_trans _ _ _ _ _ _ _ ?_
                (tell_sender_quiet E self r s x _ _ _ _ _ hcell htell)
              exact quiet_step _ _ _ _ _ _ _ (quiet_step _ _ _ _ _ _ _
                (quiet_step _ _ _ _ _ _ _ (quiet_refl _ _ _ _ _) rfl) rfl) rfl
      · rw [if_neg ha] at hret
        simp only [not_true_eq_false, ne_eq, if_false] at hret
        split at hret
        · cases hret
          exact quiet_step _ _ _ _ _ _ _ (quiet_step _ _ _ _ _ _ _
            (quiet_refl _ _ _ _ _) rfl) rfl
        · split at hret
          · cases hret
          · cases hret
          · rename_i tr1 htell
            cases hret
            refine quiet_trans _ _ _ _ _ _ _ ?_
              (restore_end_quiet E self r s x timeout_ms tstart _ tr1)
            refine quiet_trans _ _ _ _ _ _ _ ?_
              (tell_sender_quiet E self r s x _ _ _ _ _ hcell htell)
            exact quiet_step _ _ _ _ _ _ _ (quiet_step _ _ _ _ _ _ _
              (quiet_refl _ _ _ _ _) rfl) rfl

theorem unaffected_quiet (E : Env) (self r s x : Nat) (new_group timeout_ms : Nat)
    (tstart : Timeval) (d : gpi_cp_description) (tr : List Call) (o : Out)
    (hret : gpi_cp_restore_unaffected E new_group timeout_ms tstart d tr
      = Result.returned o) :
    quiet self r s x tr o.trace := by
  unfold gpi_cp_restore_unaffected at hret
  simp only [gaspi] at hret
  repeat' split at hret
  all_goals cases hret
  refine quiet_trans _ _ _ _ _ _ _ ?_
    (restore_end_quiet E self r s x timeout_ms tstart _ _)
  exact quiet_step _ _ _ _ _ _ _ (quiet_refl _ _ _ _ _) rfl


theorem missing_receiver_after_barrier_quiet (E : Env) (self r s x timeout_ms : Nat)
    (tstart : Timeval) (d1 : gpi_cp_description) (pre : List Call) (o : Out)
    (hcell1 : ¬ (r = self ∧ s = d1.segment_id_local_for_sender
      ∧ x = (d1.active_snapshot + SIZEOF_SEGMENT_ID) % OFFSET_MOD))
    (hcell2 : ¬ (r = o.d.receiver ∧ s = o.d.segment_id_remote_on_receiver))
    (hret : (match gpi_cp_receive_segment_id E d1.segment_id_local_for_sender
            d1.active_snapshot d1.receiver timeout_ms
            (Call.barrier d1.group timeout_ms :: pre) with
        | Result.crashed => Result.crashed
        | Result.looping => Result.looping
        | Result.returned rc =>
          let d2 := { d1 with segment_id_remote_on_receiver := rc.1.2 }
          if rc.1.1 ≠ GPI_CP_SUCCESS then
            Result.returned { ret := GASPI_ERROR, d := d2, trace := rc.2 }
          else
            let w : Int × List Call :=
              if d2.state_in_progress then
                let g := gaspi E (Call.wait d2.queue timeout_ms) rc.2
                (g.1.ret, g.2)
              else (GASPI_SUCCESS, rc.2)
            if w.1 ≠ GASPI_SUCCESS then
              Result.returned { ret := w.1, d := d2, trace := w.2 }
            else
              let d3 :=
                if d2.state_in_progress then { d2 with state_in_progress := false }
                else d2
              let st := gpi_cp_start E timeout_ms d3 w.2
              let w2 := gaspi E (Call.wait st.d.queue timeout_ms) st.trace
              if w2.1.ret ≠ GASPI_SUCCESS then
                Result.returned { ret := w2.1.ret, d := st.d, trace := w2.2 }
              else Result.returned (gpi_cp_restore_end E timeout_ms tstart st.d w2.2))
      = Result.returned o) :
    quiet self r s x (Call.barrier d1.group timeout_ms :: pre) o.trace := by
  split at hret
  · cases hret
  · cases hret
  · rename_i rc hrc
    have h1 := receive_segment_id_quiet E self r s x _ _ _ _ _ rc hcell1 hrc
    simp only [gaspi] at hret
    split at hret
    · cases hret
      exact h1
    · by_cases hp : d1.state_in_progress = true
      · simp only [if_pos hp] at hret
        split at hret
        · cases hret
          exact quiet_step _ _ _ _ _ _ _ h1 rfl
        · split at hret
          · cases hret
            rw [start_frame] at hcell2
            refine quiet_step _ _ _ _ _ _ _ ?_ rfl
            refine quiet_trans _ _ _ _ _ _ _ ?_
              (start_quiet E self r s x timeout_ms _ _ hcell2)
            exact quiet_step _ _ _ _ _ _ _ h1 rfl
          · cases hret
            rw [restore_end_frame, start_frame] at hcell2
            refine quiet_trans _ _ _ _ _ _ _ ?_
              (restore_end_quiet E self r s x timeout_ms tstart _ _)
            refine quiet_step _ _ _ _ _ _ _ ?_ rfl
            refine quiet_trans _ _ _ _ _ _ _ ?_
              (start_quiet E self r s x timeout_ms _ _ hcell2)
            exact quiet_step _ _ _ _ _ _ _ h1 rfl
      · simp only [if_neg hp] at hret
        split at hret
        · cases hret
          exact h1
        · split at hret
          · cases hret
            rw [start_frame] at hcell2
            refine quiet_step _ _ _ _ _ _ _ ?_ rfl
            refine quiet_trans _ _ _ _ _ _ _ ?_
              (start_quiet E self r s x timeout_ms _ _ hcell2)
            exact h1
          · cases hret
            rw [restore_end_frame, start_frame] at hcell2
            refine quiet_trans _ _ _ _ _ _ _ ?_
              (restore_end_quiet E self r s x timeout_ms tstart _ _)
            refine quiet_step _ _ _ _ _ _ _ ?_ rfl
            refine quiet_trans _ _ _ _ _ _ _ ?_
              (start_quiet E self r s x timeout_ms _ _ hcell2)
            exact h1


theorem missing_receiver_quiet (fuel : Nat) (E : Env) (self r s x : Nat) (policy : Int)
    (new_group timeout_ms : Nat) (tstart : Timeval) (d : gpi_cp_description)
    (tr : List Call) (o : Out)
    (hcell1 : ¬ (r = self ∧ s = d.segment_id_local_for_sender
      ∧ x = (d.active_snapshot + SIZEOF_SEGMENT_ID) % OFFSET_MOD))
    (hcell2 : ¬ (r = o.d.receiver ∧ s = o.d.segment_id_remote_on_receiver))
    (hret : gpi_cp_restore_missing_receiver fuel E policy new_group timeout_ms tstart d tr
      = Result.returned o) :
    quiet self r s x tr o.trace := by
  unfold gpi_cp_restore_missing_receiver at hret
  split at hret
  · cases hret
  · cases hret
  · rename_i rcv _
    by_cases h1 : rcv.1 ≠ GPI_CP_SUCCESS
    · simp only [if_pos h1] at hret
      cases hret
      exact quiet_refl _ _ _ _ _
    · simp only [if_neg h1] at hret
      by_cases ha : d.active_snapshot = 0
      · simp only [if_pos ha, gaspi] at hret
        split at hret
        · cases hret
          exact quiet_step _ _ _ _ _ _ _ (quiet_refl _ _ _ _ _) rfl
        · refine quiet_trans _ _ _ _ _ _ _ ?_
            (missing_receiver_after_barrier_quiet E self r s x timeout_ms tstart
              { d with receiver := rcv.2 } _ o hcell1 hcell2 hret)
          exact quiet_step _ _ _ _ _ _ _ (quiet_step _ _ _ _ _ _ _
            (quiet_refl _ _ _ _ _) rfl) rfl
      · simp only [if_neg ha, gaspi, ne_eq, not_true_eq_false, if_false] at hret
        refine quiet_trans _ _ _ _ _ _ _ ?_
          (missing_receiver_after_barrier_quiet E self r s x timeout_ms tstart
            { d with receiver := rcv.2 } _ o hcell1 hcell2 hret)
        exact quiet_step _ _ _ _ _ _ _ (quiet_refl _ _ _ _ _) rfl

/-- What the restore of an initialised descriptor may change in the memory: the
slot in its staging segment where it stores its segment id, the slot next to
it where it receives one, and the range that its start writes to. -/
theorem restore_survivor_quiet (fuel : Nat) (E : Env)
    (segment_id_checkpoint offset size queue : Nat) (policy : Int)
    (new_group timeout_ms : Nat) (d : gpi_cp_description) (tr : List Call) (o : Out)
    (self r s x : Nat)
    (hrank : E.proc_rank.1 = GASPI_SUCCESS) (hinit : d.state_initialized = true)
    (hc1 : ¬ (r = self ∧ s = d.segment_id_local_for_sender ∧ x = d.active_snapshot))
    (hc2 : ¬ (r = self ∧ s = d.segment_id_local_for_sender
      ∧ x = (d.active_snapshot + SIZEOF_SEGMENT_ID) % OFFSET_MOD))
    (hc3 : ¬ (r = o.d.receiver ∧ s = o.d.segment_id_remote_on_receiver))
    (hret : gpi_cp_restore fuel E segment_id_checkpoint offset size queue policy new_group
      timeout_ms d tr = Result.returned o) :
    quiet self r s x tr o.trace := by
  rw [restore_dispatch fuel E segment_id_checkpoint offset size queue policy new_group
    timeout_ms d tr hrank] at hret
  have h0 : quiet self r s x tr (Call.gettimeofday :: tr) :=
    quiet_step _ _ _ _ _ _ _ (quiet_refl _ _ _ _ _) rfl
  cases hcase : gpi_cp_restore_case E new_group d
  · rw [(restore_case_joiner_iff E new_group d).1 hcase] at hinit
    cases hinit
  · rw [hcase] at hret
    exact quiet_trans _ _ _ _ _ _ _ h0
      (missing_sender_quiet fuel E self r s x policy new_group timeout_ms (E.clock tr)
        { d with offset := offset, size := size
                 segment_id_local_client_source := segment_id_checkpoint
                 queue := queue, group := new_group } (Call.gettimeofday :: tr) o hc1 hret)
  · rw [hcase] at hret
    exact quiet_trans _ _ _ _ _ _ _ h0
      (missing_receiver_quiet fuel E self r s x policy new_group timeout_ms (E.clock tr)
        { d with offset := offset, size := size
                 segment_id_local_client_source := segment_id_checkpoint
                 queue := queue, group := new_group } (Call.gettimeofday :: tr) o hc2 hc3 hret)
  · rw [hcase] at hret
    exact quiet_trans _ _ _ _ _ _ _ h0
      (unaffected_quiet E self r s x new_group timeout_ms (E.clock tr)
        { d with offset := offset, size := size
                 segment_id_local_client_source := segment_id_checkpoint
                 queue := queue, group := new_group } (Call.gettimeofday :: tr) o hret)


/-- The calls of the joiner after its tag, when the branch returns
`GASPI_SUCCESS`: up to the read they change only memory of the joiner itself,
then comes the read, and the calls after the read change nothing. -/
theorem joiner_pull_shape (E : Env) (self timeout_ms : Nat) (tstart : Timeval)
    (d : gpi_cp_description) (tr : List Call) (o : Out)
    (hret : gpi_cp_restore_joiner_pull E timeout_ms tstart d tr = Result.returned o)
    (hsucc : o.ret = GASPI_SUCCESS) :
    ∃ tr2, (∀ r s x, r ≠ self → quiet self r s x tr tr2)
      ∧ (∀ r s x, quiet self r s x
          (Call.read d.segment_id_local_client_source d.offset d.receiver
            o.d.segment_id_remote_on_receiver
            ((d.size + OFFSET_MOD - d.active_snapshot) % OFFSET_MOD) d.size d.queue
            timeout_ms :: tr2) o.trace) := by
  unfold gpi_cp_restore_joiner_pull at hret
  simp only [gaspi] at hret
  split at hret
  · cases hret
  · cases hret
  · rename_i tr1 htell
    split at hret
    · cases hret
    · cases hret
    · rename_i rc hrc
      split at hret
      · cases hret
        simp [GASPI_ERROR, GASPI_SUCCESS] at hsucc
      · split at hret
        · cases hret
        · cases hret
        · rename_i tr2 hmake
          split at hret
          · rename_i hr
            cases hret
            exact absurd hsucc hr
          · split at hret
            · rename_i hw
              cases hret
              exact absurd hsucc hw
            · cases hret
              refine ⟨tr2, ?_, ?_⟩
              · intro r s x hne
                refine quiet_trans _ _ _ _ _ _ _ ?_
                  (make_sure_quiet E self r s x _ _ _ _ _ _ (fun h => hne h.1) hmake)
                refine quiet_trans _ _ _ _ _ _ _ ?_
                  (receive_segment_id_quiet E self r s x _ _ _ _ _ rc
                    (fun h => hne h.1) hrc)
                refine quiet_trans _ _ _ _ _ _ _ ?_
                  (tell_sender_quiet E self r s x _ _ _ _ _ (fun h => hne h.1) htell)
                refine quiet_trans _ _ _ _ _ _ _ ?_
                  (allocate_quiet E self r s x _ _ _ _ _)
                exact quiet_step _ _ _ _ _ _ _ (quiet_refl _ _ _ _ _) rfl
              · intro r s x
                rw [restore_end_frame]
                refine quiet_trans _ _ _ _ _ _ _ ?_
                  (restore_end_quiet E self r s x timeout_ms tstart _ _)
                refine quiet_step _ _ _ _ _ _ _ ?_ rfl
                exact wait_for_notification_quiet E self r s x _ _ _ _ _

theorem read_hit (self seg_local off_local rank seg_remote off_remote size queue
    timeout_ms : Nat) (a : Resp) (m : Memory) (i : Nat) (hi : i < size) :
    call_effect self (Call.read seg_local off_local rank seg_remote off_remote size queue
      timeout_ms) a m self seg_local (off_local + i)
      = m rank seg_remote (off_remote + i) := by
  show (if self = self ∧ seg_local = seg_local ∧ off_local ≤ off_local + i
        ∧ off_local + i < off_local + size then
      m rank seg_remote (off_remote + (off_local + i - off_local))
    else m self seg_local (off_local + i)) = _
  rw [if_pos ⟨rfl, rfl, Nat.le_add_right _ _, by omega⟩, Nat.add_sub_cancel_left]

theorem read_writes_own (self seg_local off_local rank seg_remote off_remote size queue
    timeout_ms r s x : Nat) (hne : r ≠ self) :
    Call.writes self (Call.read seg_local off_local rank seg_remote off_remote size queue
      timeout_ms) r s x = false := by
  simp only [Call.writes, decide_eq_false_iff_not]
  intro h
  exact hne h.1


theorem passive_receive_writes_own (self seg off size timeout_ms r s x : Nat)
    (hne : r ≠ self) :
    Call.writes self (Call.passive_receive seg off size timeout_ms) r s x = false := by
  simp only [Call.writes, decide_eq_false_iff_not]
  intro h
  exact hne h.1

theorem joiner_pull_memory (E : Env) (self timeout_ms : Nat) (tstart : Timeval)
    (d : gpi_cp_description) (tr : List Call) (o : Out) (m : Memory)
    (hret : gpi_cp_restore_joiner_pull E timeout_ms tstart d tr = Result.returned o)
    (hsucc : o.ret = GASPI_SUCCESS) (hne : d.receiver ≠ self) :
    (∀ i, i < d.size →
      trace_effect E self o.trace m self d.segment_id_local_client_source (d.offset + i)
        = trace_effect E self tr m d.receiver o.d.segment_id_remote_on_receiver
            ((d.size + OFFSET_MOD - d.active_snapshot) % OFFSET_MOD + i))
    ∧ (∀ r s x, r ≠ self →
      trace_effect E self o.trace m r s x = trace_effect E self tr m r s x) := by
  obtain ⟨tr2, hY1, hY2⟩ := joiner_pull_shape E self timeout_ms tstart d tr o hret hsucc
  constructor
  · intro i hi
    rw [trace_effect_quiet E self _ _ _ _ _ m (hY2 _ _ _)]
    show call_effect self _ _ (trace_effect E self tr2 m) self
      d.segment_id_local_client_source (d.offset + i) = _
    rw [read_hit _ _ _ _ _ _ _ _ _ _ _ i hi,
      trace_effect_quiet E self _ _ _ _ _ m (hY1 _ _ _ hne)]
  · intro r s x hr
    rw [trace_effect_quiet E self _ _ _ _ _ m (hY2 _ _ _)]
    show call_effect self _ _ (trace_effect E self tr2 m) r s x = _
    rw [call_effect_frame _ _ _ _ _ _ _ (read_writes_own _ _ _ _ _ _ _ _ _ r s x hr),
      trace_effect_quiet E self _ _ _ _ _ m (hY1 _ _ _ hr)]

/-- What the restore of the joiner does to the memory when it returns
`GASPI_SUCCESS`: its client region takes the `size` bytes at offset `size -
active_snapshot` of the staging segment it was told of at its receiver, and no
memory of another rank changes. -/
theorem restore_joiner_memory (fuel : Nat) (E : Env)
    (segment_id_checkpoint offset size queue : Nat) (policy : Int)
    (new_group timeout_ms : Nat) (d : gpi_cp_description) (S R self : Nat) (o : Out)
    (m : Memory)
    (hrank : E.proc_rank.1 = GASPI_SUCCESS) (hjoin : d.state_initialized = false)
    (hS : gpi_cp_sender fuel E policy new_group E.proc_rank.2
      = Result.returned (GPI_CP_SUCCESS, S))
    (hR : gpi_cp_receiver fuel E policy new_group E.proc_rank.2
      = Result.returned (GPI_CP_SUCCESS, R))
    (hret : gpi_cp_restore fuel E segment_id_checkpoint offset size queue policy new_group
      timeout_ms d [] = Result.returned o)
    (hsucc : o.ret = GASPI_SUCCESS) (hne : R ≠ self) :
    (∀ i, i < size →
      trace_effect E self o.trace m self segment_id_checkpoint (offset + i)
        = m R o.d.segment_id_remote_on_receiver
            ((size + OFFSET_MOD - o.d.active_snapshot) % OFFSET_MOD + i))
    ∧ (∀ r s x, r ≠ self → trace_effect E self o.trace m r s x = m r s x) := by
  rw [restore_joiner_unfold fuel E segment_id_checkpoint offset size queue policy
    new_group timeout_ms d [] S R hrank hjoin hS hR] at hret
  have hbase : ∀ r s x, r ≠ self →
      trace_effect E self (Call.passive_receive segment_id_checkpoint offset 1 timeout_ms
        :: Call.gettimeofday :: []) m r s x = m r s x := by
    intro r s x hr
    have hq : quiet self r s x [] (Call.passive_receive segment_id_checkpoint offset 1
        timeout_ms :: Call.gettimeofday :: []) :=
      quiet_step _ _ _ _ _ _ _ (quiet_step _ _ _ _ _ _ _ (quiet_refl _ _ _ _ _) rfl)
        (passive_receive_writes_own _ _ _ _ _ r s x hr)
    rw [trace_effect_quiet E self _ _ _ _ _ m hq]
    rfl
  split_ifs at hret with h1 h2 h3
  · cases hret
    exact absurd hsucc h1
  · obtain ⟨ha, hb⟩ := joiner_pull_memory E self timeout_ms _ _ _ o m hret hsucc hne
    have hsnap := (restore_joiner_pull_keeps_snapshot _ _ _ _ _ _ hret).1
    rw [hsnap]
    refine ⟨fun i hi => ?_, fun r s x hr => ?_⟩
    · rw [ha i hi, hbase _ _ _ hne]
    · rw [hb r s x hr, hbase _ _ _ hr]
  · obtain ⟨ha, hb⟩ := joiner_pull_memory E self timeout_ms _ _ _ o m hret hsucc hne
    have hsnap := (restore_joiner_pull_keeps_snapshot _ _ _ _ _ _ hret).1
    rw [hsnap]
    refine ⟨fun i hi => ?_, fun r s x hr => ?_⟩
    · rw [ha i hi, hbase _ _ _ hne]
    · rw [hb r s x hr, hbase _ _ _ hr]
  · cases hret
    simp [GASPI_ERROR, GASPI_SUCCESS] at hsucc


/-! ## The restore of all ranks and the memory -/

/-- What a successful `global_restore` leaves: the descriptor that each rank's
restore returned, and the memory after the effects of the ranks in turn. -/
theorem global_restore_spec (fuel : Nat) (E : Nat → Env) (seg off : Nat → Nat)
    (size : Nat) (queue : Nat → Nat) (policy : Int) (new_group timeout_ms : Nat) :
    ∀ (order : List Nat) (w w4 : World), order.Nodup →
      global_restore fuel E seg off size queue policy new_group timeout_ms order w
        = some w4 →
      (∀ r, r ∉ order → w4.desc r = w.desc r)
      ∧ (∀ r ∈ order, ∃ o,
          gpi_cp_restore fuel (E r) (seg r) (off r) size (queue r) policy new_group
            timeout_ms (w.desc r) [] = Result.returned o
          ∧ o.ret = GASPI_SUCCESS ∧ w4.desc r = o.d)
      ∧ w4.mem = order.foldl (fun m r => restore_effect fuel E seg off size queue policy
          new_group timeout_ms w.desc r m) w.mem := by
  intro order
  induction order with
  | nil =>
    intro w w4 _ h
    simp only [global_restore, Option.some.injEq] at h
    subst h
    exact ⟨fun _ _ => rfl, fun r hr => absurd hr (List.not_mem_nil r), rfl⟩
  | cons r rest ih =>
    intro w w4 hnd h
    have hnr : r ∉ rest := (List.nodup_cons.1 hnd).1
    have hne : ∀ x ∈ rest, x ≠ r := fun x hx hxr => hnr (hxr ▸ hx)
    unfold global_restore at h
    split at h
    · rename_i o ho
      by_cases hret : o.ret = GASPI_SUCCESS
      · rw [if_pos hret] at h
        obtain ⟨h1, h2, h3⟩ := ih _ w4 (List.nodup_cons.1 hnd).2 h
        simp only [] at h1 h2 h3
        refine ⟨?_, ?_, ?_⟩
        · intro x hx
          have hxr : x ≠ r := fun e => hx (e ▸ List.mem_cons_self _ _)
          have hxrest : x ∉ rest := fun e => hx (List.mem_cons_of_mem _ e)
          rw [h1 x hxrest, Function.update_noteq hxr]
        · intro x hx
          rcases List.mem_cons.1 hx with rfl | hx
          · refine ⟨o, ho, hret, ?_⟩
            rw [h1 x hnr, Function.update_same]
          · have := h2 x hx
            rw [Function.update_noteq (hne x hx)] at this
            exact this
        · rw [h3, List.foldl_cons]
          have e : restore_effect fuel E seg off size queue policy new_group timeout_ms
              w.desc r w.mem = trace_effect (E r) r o.trace w.mem := by
            unfold restore_effect
            rw [ho]
          rw [e]
          apply foldl_congr_mem
          intro x hx a
          unfold restore_effect
          rw [Function.update_noteq (hne x hx)]
      · rw [if_neg hret] at h
        cases h
    · cases h

theorem foldl_frame {β : Type} (T : β → Memory → Memory) (r s x : Nat) :
    ∀ (l : List β) (m : Memory), (∀ y ∈ l, ∀ m, T y m r s x = m r s x) →
      (l.foldl (fun m y => T y m) m) r s x = m r s x := by
  intro l
  induction l with
  | nil => intro m _; rfl
  | cons y rest ih =>
    intro m h
    rw [List.foldl_cons, ih _ (fun z hz => h z (List.mem_cons_of_mem _ hz)),
      h y (List.mem_cons_self _ _)]


theorem restore_missing_sender_quiet (fuel : Nat) (E : Env)
    (segment_id_checkpoint offset size queue : Nat) (policy : Int)
    (new_group timeout_ms : Nat) (d : gpi_cp_description) (tr : List Call) (o : Out)
    (self r s x : Nat)
    (hrank : E.proc_rank.1 = GASPI_SUCCESS)
    (hcase : gpi_cp_restore_case E new_group d = RestoreCase.affected_missing_sender)
    (hc1 : ¬ (r = self ∧ s = d.segment_id_local_for_sender ∧ x = d.active_snapshot))
    (hret : gpi_cp_restore fuel E segment_id_checkpoint offset size queue policy new_group
      timeout_ms d tr = Result.returned o) :
    quiet self r s x tr o.trace := by
  rw [restore_dispatch fuel E segment_id_checkpoint offset size queue policy new_group
    timeout_ms d tr hrank, hcase] at hret
  exact quiet_trans _ _ _ _ _ _ _
    (quiet_cons self r s x tr Call.gettimeofday rfl)
    (missing_sender_quiet fuel E self r s x policy new_group timeout_ms (E.clock tr)
      { d with offset := offset, size := size
               segment_id_local_client_source := segment_id_checkpoint
               queue := queue, group := new_group } (Call.gettimeofday :: tr) o hc1 hret)

theorem restore_missing_receiver_quiet (fuel : Nat) (E : Env)
    (segment_id_checkpoint offset size queue : Nat) (policy : Int)
    (new_group timeout_ms : Nat) (d : gpi_cp_description) (tr : List Call) (o : Out)
    (self r s x : Nat)
    (hrank : E.proc_rank.1 = GASPI_SUCCESS)
    (hcase : gpi_cp_restore_case E new_group d = RestoreCase.affected_missing_receiver)
    (hc2 : ¬ (r = self ∧ s = d.segment_id_local_for_sender
      ∧ x = (d.active_snapshot + SIZEOF_SEGMENT_ID) % OFFSET_MOD))
    (hc3 : ¬ (r = o.d.receiver ∧ s = o.d.segment_id_remote_on_receiver))
    (hret : gpi_cp_restore fuel E segment_id_checkpoint offset size queue policy new_group
      timeout_ms d tr = Result.returned o) :
    quiet self r s x tr o.trace := by
  rw [restore_dispatch fuel E segment_id_checkpoint offset size queue policy new_group
    timeout_ms d tr hrank, hcase] at hret
  exact quiet_trans _ _ _ _ _ _ _
    (quiet_cons self r s x tr Call.gettimeofday rfl)
    (missing_receiver_quiet fuel E self r s x policy new_group timeout_ms (E.clock tr)
      { d with offset := offset, size := size
               segment_id_local_client_source := segment_id_checkpoint
               queue := queue, group := new_group } (Call.gettimeofday :: tr) o hc2 hc3
      hret)

theorem restore_unaffected_quiet (fuel : Nat) (E : Env)
    (segment_id_checkpoint offset size queue : Nat) (policy : Int)
    (new_group timeout_ms : Nat) (d : gpi_cp_description) (tr : List Call) (o : Out)
    (self r s x : Nat)
    (hrank : E.proc_rank.1 = GASPI_SUCCESS)
    (hcase : gpi_cp_restore_case E new_group d = RestoreCase.unaffected)
    (hret : gpi_cp_restore fuel E segment_id_checkpoint offset size queue policy new_group
      timeout_ms d tr = Result.returned o) :
    quiet self r s x tr o.trace := by
  rw [restore_dispatch fuel E segment_id_checkpoint offset size queue policy new_group
    timeout_ms d tr hrank, hcase] at hret
  exact quiet_trans _ _ _ _ _ _ _
    (quiet_cons self r s x tr Call.gettimeofday rfl)
    (unaffected_quiet E self r s x new_group timeout_ms (E.clock tr)
      { d with offset := offset, size := size
               segment_id_local_client_source := segment_id_checkpoint
               queue := queue, group := new_group } (Call.gettimeofday :: tr) o hret)

/-- The `active_snapshot` that a successful restore of the joiner stores, by
the source of its tag. -/
theorem restore_joiner_active (fuel : Nat) (E : Env)
    (segment_id_checkpoint offset size queue : Nat) (policy : Int)
    (new_group timeout_ms : Nat) (d : gpi_cp_description) (tr : List Call) (S R : Nat)
    (o : Out)
    (hrank : E.proc_rank.1 = GASPI_SUCCESS) (hjoin : d.state_initialized = false)
    (hS : gpi_cp_sender fuel E policy new_group E.proc_rank.2
      = Result.returned (GPI_CP_SUCCESS, S))
    (hR : gpi_cp_receiver fuel E policy new_group E.proc_rank.2
      = Result.returned (GPI_CP_SUCCESS, R))
    (hret : gpi_cp_restore fuel E segment_id_checkpoint offset size queue policy new_group
      timeout_ms d tr = Result.returned o)
    (hsucc : o.ret = GASPI_SUCCESS) :
    ((E.answer (Call.gettimeofday :: tr)
        (Call.passive_receive segment_id_checkpoint offset 1 timeout_ms)).out = S
      ∧ o.d.active_snapshot = 0)
    ∨ ((E.answer (Call.gettimeofday :: tr)
        (Call.passive_receive segment_id_checkpoint offset 1 timeout_ms)).out ≠ S
      ∧ (E.answer (Call.gettimeofday :: tr)
        (Call.passive_receive segment_id_checkpoint offset 1 timeout_ms)).out = R
      ∧ o.d.active_snapshot = size) := by
  rw [restore_joiner_unfold fuel E segment_id_checkpoint offset size queue policy
    new_group timeout_ms d tr S R hrank hjoin hS hR] at hret
  split_ifs at hret with h1 h2 h3
  · cases hret
    exact absurd hsucc h1
  · exact Or.inl ⟨h2, (restore_joiner_pull_keeps_snapshot _ _ _ _ _ _ hret).1⟩
  · exact Or.inr ⟨h2, h3, (restore_joiner_pull_keeps_snapshot _ _ _ _ _ _ hret).1⟩
  · cases hret
    simp [GASPI_ERROR, GASPI_SUCCESS] at hsucc


/-- The roles in a recovery. An old group of at least three ranks loses
`culprit` and gains `spare`; the survivors hold the resolver's values for the
old group. If a survivor `x` sent the tag to the spare in its restore, then the
old sender `p` and the old receiver `q` of the culprit take the spare between
them: `q` is in the sender-missing branch with new sender `spare`, `p` is in
the receiver-missing branch with new receiver `spare`, every other survivor is
unaffected, the spare has sender `p` and receiver `q`, and `x` is `q` or `p`. -/
theorem recovery_roles (fuel nProc : Nat) (Eold E : Nat → Env)
    (old_group new_group : Nat) (inOld : Nat → Bool) (culprit spare : Nat)
    (segx offx size queuex timeout_ms : Nat)
    (d : Nat → gpi_cp_description) (x : Nat) (trx issued : List Call) (ox : Out)
    (hn : 0 < nProc) (hfuel : nProc ≤ fuel)
    (hnumold : ∀ r, (Eold r).proc_num = (GASPI_SUCCESS, nProc))
    (henv : ∀ r, (E r).proc_rank = (GASPI_SUCCESS, r)
      ∧ (E r).proc_num = (GASPI_SUCCESS, nProc))
    (hold : ∀ r y, gpi_cp_is_in_group (Eold r) old_group y = inOld y)
    (hnew : ∀ r y, gpi_cp_is_in_group (E r) new_group y
      = ((inOld y && y != culprit) || y == spare))
    (hsub : ∀ y, inOld y = true → y < nProc)
    (hthree : ∃ a b c, inOld a = true ∧ inOld b = true ∧ inOld c = true
      ∧ a ≠ b ∧ b ≠ c ∧ a ≠ c)
    (hculprit : inOld culprit = true) (hspare : inOld spare = false)
    (hsparen : spare < nProc)
    (hdesc : ∀ r, inOld r = true → r ≠ culprit →
      (d r).state_initialized = true
      ∧ gpi_cp_sender fuel (Eold r) GPI_CP_POLICY_RING old_group r
        = Result.returned (GPI_CP_SUCCESS, (d r).sender)
      ∧ gpi_cp_receiver fuel (Eold r) GPI_CP_POLICY_RING old_group r
        = Result.returned (GPI_CP_SUCCESS, (d r).receiver))
    (hxG : inOld x = true) (hxc : x ≠ culprit)
    (hxret : gpi_cp_restore fuel (E x) segx offx size queuex GPI_CP_POLICY_RING
      new_group timeout_ms (d x) trx = Result.returned ox)
    (hxi : ox.trace = issued ++ trx) (hxs : sends_tag issued spare = true) :
    ∃ p q, inOld p = true ∧ inOld q = true ∧ p ≠ culprit ∧ q ≠ culprit ∧ p ≠ q
      ∧ (d q).sender = culprit ∧ (d p).receiver = culprit
      ∧ gpi_cp_sender fuel (E spare) GPI_CP_POLICY_RING new_group spare
        = Result.returned (GPI_CP_SUCCESS, p)
      ∧ gpi_cp_receiver fuel (E spare) GPI_CP_POLICY_RING new_group spare
        = Result.returned (GPI_CP_SUCCESS, q)
      ∧ gpi_cp_restore_case (E q) new_group (d q) = RestoreCase.affected_missing_sender
      ∧ gpi_cp_sender fuel (E q) GPI_CP_POLICY_RING new_group q
        = Result.returned (GPI_CP_SUCCESS, spare)
      ∧ gpi_cp_restore_case (E p) new_group (d p)
        = RestoreCase.affected_missing_receiver
      ∧ gpi_cp_receiver fuel (E p) GPI_CP_POLICY_RING new_group p
        = Result.returned (GPI_CP_SUCCESS, spare)
      ∧ (∀ r, inOld r = true → r ≠ culprit → r ≠ p → r ≠ q →
        gpi_cp_restore_case (E r) new_group (d r) = RestoreCase.unaffected)
      ∧ (x = q ∨ x = p) := by
  have hsub0 : ∀ y, gpi_cp_is_in_group (Eold culprit) old_group y = true → y < nProc := by
    intro y hy
    rw [hold] at hy
    exact hsub y hy
  have hN : ∀ y, gpi_cp_is_in_group (E spare) new_group y
      = ((gpi_cp_is_in_group (Eold culprit) old_group y && y != culprit)
        || y == spare) := by
    intro y
    rw [hnew, hold]
  have hc0 : gpi_cp_is_in_group (Eold culprit) old_group culprit = true := by
    rw [hold]; exact hculprit
  have hs0 : gpi_cp_is_in_group (Eold culprit) old_group spare = false := by
    rw [hold]; exact hspare
  have hthree0 : ∃ a b c, gpi_cp_is_in_group (Eold culprit) old_group a = true
      ∧ gpi_cp_is_in_group (Eold culprit) old_group b = true
      ∧ gpi_cp_is_in_group (Eold culprit) old_group c = true
      ∧ a ≠ b ∧ b ≠ c ∧ a ≠ c := by
    obtain ⟨a, b, c, ha, hb, hc, h⟩ := hthree
    exact ⟨a, b, c, by rw [hold]; exact ha, by rw [hold]; exact hb,
      by rw [hold]; exact hc, h⟩
  have hcs : culprit ≠ spare := fun h => by rw [h, hspare] at hculprit; cases hculprit
  have holds : ∀ r y, gpi_cp_sender fuel (Eold r) GPI_CP_POLICY_RING old_group y
      = gpi_cp_sender fuel (Eold culprit) GPI_CP_POLICY_RING old_group y := fun r y =>
    sender_congr fuel _ _ _ _ _ y (by rw [hnumold, hnumold])
      (fun z => by rw [hold, hold])
  have holdr : ∀ r y, gpi_cp_receiver fuel (Eold r) GPI_CP_POLICY_RING old_group y
      = gpi_cp_receiver fuel (Eold culprit) GPI_CP_POLICY_RING old_group y := fun r y =>
    receiver_congr fuel _ _ _ _ _ y (by rw [hnumold, hnumold])
      (fun z => by rw [hold, hold])
  have hnews : ∀ r y, gpi_cp_sender fuel (E r) GPI_CP_POLICY_RING new_group y
      = gpi_cp_sender fuel (E spare) GPI_CP_POLICY_RING new_group y := fun r y =>
    sender_congr fuel _ _ _ _ _ y (by rw [(henv r).2, (henv spare).2])
      (fun z => by rw [hnew, hnew])
  have hnewr : ∀ r y, gpi_cp_receiver fuel (E r) GPI_CP_POLICY_RING new_group y
      = gpi_cp_receiver fuel (E spare) GPI_CP_POLICY_RING new_group y := fun r y =>
    receiver_congr fuel _ _ _ _ _ y (by rw [(henv r).2, (henv spare).2])
      (fun z => by rw [hnew, hnew])
  obtain ⟨p, q, hsc, hrc, hpm, hqm, hrp, hsq⟩ := resolver_inverse (Eold culprit) old_group
    culprit fuel nProc (hnumold _) hn hsub0 hc0 hfuel
  obtain ⟨hpq, hpc, hqc⟩ := sender_ne_receiver (Eold culprit) old_group fuel nProc culprit
    p q (hnumold _) hn hsub0 hfuel hthree0 hc0 hsc hrc
  have hpG : inOld p = true := by rw [← hold culprit]; exact hpm
  have hqG : inOld q = true := by rw [← hold culprit]; exact hqm
  have hvs : ∀ r, inOld r = true →
      gpi_cp_sender fuel (Eold culprit) GPI_CP_POLICY_RING old_group r
        = Result.returned (GPI_CP_SUCCESS, if r = culprit then p else (d r).sender) := by
    intro r hr
    by_cases h : r = culprit
    · rw [if_pos h, h]; exact hsc
    · rw [if_neg h, ← holds r]; exact (hdesc r hr h).2.1
  have hvr : ∀ r, inOld r = true →
      gpi_cp_receiver fuel (Eold culprit) GPI_CP_POLICY_RING old_group r
        = Result.returned (GPI_CP_SUCCESS, if r = culprit then q else (d r).receiver) := by
    intro r hr
    by_cases h : r = culprit
    · rw [if_pos h, h]; exact hrc
    · rw [if_neg h, ← holdr r]; exact (hdesc r hr h).2.2
  have hval : ∀ (a b : Nat) (z : Result (Int × Nat)),
      z = Result.returned (GPI_CP_SUCCESS, a) → z = Result.returned (GPI_CP_SUCCESS, b) →
      a = b := by
    intro a b z h1 h2
    rw [h1] at h2
    injection h2 with h2
    injection h2
  have hinv : ∀ r, inOld r = true →
      inOld ((fun r => if r = culprit then p else (d r).sender) r) = true
      ∧ inOld ((fun r => if r = culprit then q else (d r).receiver) r) = true
      ∧ (fun r => if r = culprit then q else (d r).receiver)
          ((fun r => if r = culprit then p else (d r).sender) r) = r
      ∧ (fun r => if r = culprit then p else (d r).sender)
          ((fun r => if r = culprit then q else (d r).receiver) r) = r := by
    intro r hr
    obtain ⟨s1, c1, h1, h2, h3, h4, h5, h6⟩ := resolver_inverse (Eold culprit) old_group
      r fuel nProc (hnumold _) hn hsub0 (by rw [hold]; exact hr) hfuel
    have e1 := hval _ _ _ h1 (hvs r hr)
    have e2 := hval _ _ _ h2 (hvr r hr)
    rw [hold] at h3 h4
    simp only []
    rw [← e1, ← e2]
    exact ⟨h3, h4, (hval _ _ _ h5 (hvr s1 h3)).symm, (hval _ _ _ h6 (hvs c1 h4)).symm⟩
  have hsubN : ∀ y, gpi_cp_is_in_group (E spare) new_group y = true → y < nProc := by
    intro y hy
    rw [hnew] at hy
    simp only [Bool.or_eq_true, Bool.and_eq_true, beq_iff_eq] at hy
    rcases hy with ⟨hy, _⟩ | hy
    · exact hsub y hy
    · rw [hy]; exact hsparen
  have hmemN : ∀ y, inOld y = true → y ≠ culprit →
      gpi_cp_is_in_group (E spare) new_group y = true := by
    intro y hy hyc
    rw [hnew]
    simp [hy, hyc]
  have hnotN : ∀ r, gpi_cp_is_in_group (E r) new_group culprit = false := by
    intro r
    rw [hnew]
    simp [hcs]
  obtain ⟨v, w, hv, hw, _, _, _, _⟩ := resolver_inverse (E spare) new_group x fuel nProc
    (henv spare).2 hn hsubN (hmemN x hxG hxc) hfuel
  have hrankx : (E x).proc_rank.2 = x := by rw [(henv x).1]
  have hcases := tag_sender_cases fuel (E x) segx offx size queuex
    GPI_CP_POLICY_RING new_group timeout_ms (d x) trx issued ox v w spare
    (by rw [(henv x).1]) (hdesc x hxG hxc).1
    (by rw [hrankx, hnews]; exact hv) (by rw [hrankx, hnewr]; exact hw)
    hxret hxi hxs
  have hinN : ∀ r y, inOld y = true →
      gpi_cp_is_in_group (E r) new_group y = false → y = culprit := by
    intro r y hy h
    rw [hnew] at h
    by_contra hne
    simp [hy, hne] at h
  have hxq : (x = q ∧ gpi_cp_sender fuel (E spare) GPI_CP_POLICY_RING new_group q
        = Result.returned (GPI_CP_SUCCESS, spare))
      ∨ (x = p ∧ gpi_cp_receiver fuel (E spare) GPI_CP_POLICY_RING new_group p
        = Result.returned (GPI_CP_SUCCESS, spare)) := by
    have hix := hinv x hxG
    simp only [if_neg hxc] at hix
    rw [restore_case_initialized _ _ _ (hdesc x hxG hxc).1] at hcases
    rcases hcases with ⟨hcase, hvj⟩ | ⟨hcase, hwj⟩
    · left
      have hsend : gpi_cp_is_in_group (E x) new_group (d x).sender = false := by
        by_contra h
        rw [if_neg h] at hcase
        split_ifs at hcase
      have e := hinN x _ hix.1 hsend
      have hxq : x = q := by
        have := hix.2.2.1
        rw [e, if_pos rfl] at this
        exact this.symm
      rw [hxq, hvj] at hv
      exact ⟨hxq, hv⟩
    · right
      have hsend : ¬ gpi_cp_is_in_group (E x) new_group (d x).sender = false := by
        intro h
        rw [if_pos h] at hcase
        cases hcase
      rw [if_neg hsend] at hcase
      have hrecv : gpi_cp_is_in_group (E x) new_group (d x).receiver = false := by
        by_contra h
        rw [if_neg h] at hcase
        cases hcase
      have e := hinN x _ hix.2.1 hrecv
      have hxp : x = p := by
        have := hix.2.2.2
        rw [e, if_pos rfl] at this
        exact this.symm
      rw [hxp, hwj] at hw
      exact ⟨hxp, hw⟩
  have htag : gpi_cp_sender fuel (E spare) GPI_CP_POLICY_RING new_group q
        = Result.returned (GPI_CP_SUCCESS, spare)
      ∨ gpi_cp_receiver fuel (E spare) GPI_CP_POLICY_RING new_group p
        = Result.returned (GPI_CP_SUCCESS, spare) := by
    rcases hxq with h | h
    · exact Or.inl h.2
    · exact Or.inr h.2
  obtain ⟨hsNq, hrNp, hsNs, hrNs⟩ := spare_takes_place (Eold culprit) (E spare) old_group
    new_group fuel nProc culprit spare p q (hnumold _) (henv spare).2 hn hfuel hsub0 hN
    hc0 hs0 hsparen hpm hpc hqm hqc hsq hsc hrp hrc htag
  have hsOq : (d q).sender = culprit := by
    have := hval _ _ _ (hvs q hqG) hsq
    rwa [if_neg hqc] at this
  have hrOp : (d p).receiver = culprit := by
    have := hval _ _ _ (hvr p hpG) hrp
    rwa [if_neg hpc] at this
  have hqcase : gpi_cp_restore_case (E q) new_group (d q)
      = RestoreCase.affected_missing_sender := by
    rw [restore_case_initialized _ _ _ (hdesc q hqG hqc).1, hsOq, hnotN q, if_pos rfl]
  have hpinv := hinv p hpG
  simp only [if_neg hpc] at hpinv
  have hpsend : gpi_cp_is_in_group (E p) new_group (d p).sender = true := by
    rw [hnew]
    have hne : (d p).sender ≠ culprit := by
      intro h
      have := hpinv.2.2.1
      rw [h, if_pos rfl] at this
      exact hpq this.symm
    simp [hpinv.1, hne]
  have hpcase : gpi_cp_restore_case (E p) new_group (d p)
      = RestoreCase.affected_missing_receiver := by
    rw [restore_case_initialized _ _ _ (hdesc p hpG hpc).1, hpsend, hrOp, hnotN p]
    simp
  refine ⟨p, q, hpG, hqG, hpc, hqc, hpq, hsOq, hrOp, hsNs, hrNs, hqcase,
    by rw [hnews]; exact hsNq, hpcase, by rw [hnewr]; exact hrNp, ?_, ?_⟩
  · intro r hr hrc1 hrp1 hrq1
    have hri := hinv r hr
    simp only [if_neg hrc1] at hri
    have hs1 : gpi_cp_is_in_group (E r) new_group (d r).sender = true := by
      rw [hnew]
      have hne : (d r).sender ≠ culprit := by
        intro h
        have := hri.2.2.1
        rw [h, if_pos rfl] at this
        exact hrq1 this.symm
      simp [hri.1, hne]
    have hr1 : gpi_cp_is_in_group (E r) new_group (d r).receiver = true := by
      rw [hnew]
      have hne : (d r).receiver ≠ culprit := by
        intro h
        have := hri.2.2.2
        rw [h, if_pos rfl] at this
        exact hrp1 this.symm
      simp [hri.2.1, hne]
    rw [restore_case_initialized _ _ _ (hdesc r hr hrc1).1, hs1, hr1]
    simp
  · rcases hxq with h | h
    · exact Or.inl h.1
    · exact Or.inr h.1


/-- The memory after a recovery. An old group of at least three ranks loses
`culprit` and gains `spare`; the survivors hold the resolver's values for the
old group and the common `active_snapshot` value `a`, 0 or `size`. All members
of the new group run restore with success, one after the other in the order
`order`; the tag that the spare received came from a survivor `x` that sent
it. Then the spare ends with `active_snapshot = a` and with the old receiver
`q` of the culprit as receiver, its client region holds the `size` bytes that
the staging segment it was told of held at `q` at offset `size - a`, and the
client segments of the survivors are as before. -/
theorem recovery_memory (fuel nProc : Nat) (Eold E : Nat → Env)
    (old_group new_group : Nat) (inOld : Nat → Bool) (culprit spare : Nat)
    (seg off queue : Nat → Nat) (size a timeout_ms : Nat) (w w4 : World)
    (order : List Nat) (x : Nat)
    (hn : 0 < nProc) (hfuel : nProc ≤ fuel)
    (hnumold : ∀ r, (Eold r).proc_num = (GASPI_SUCCESS, nProc))
    (henv : ∀ r, (E r).proc_rank = (GASPI_SUCCESS, r)
      ∧ (E r).proc_num = (GASPI_SUCCESS, nProc))
    (hold : ∀ r y, gpi_cp_is_in_group (Eold r) old_group y = inOld y)
    (hnew : ∀ r y, gpi_cp_is_in_group (E r) new_group y
      = ((inOld y && y != culprit) || y == spare))
    (hsub : ∀ y, inOld y = true → y < nProc)
    (hthree : ∃ a b c, inOld a = true ∧ inOld b = true ∧ inOld c = true
      ∧ a ≠ b ∧ b ≠ c ∧ a ≠ c)
    (hculprit : inOld culprit = true) (hspare : inOld spare = false)
    (hsparen : spare < nProc)
    (hdesc : ∀ r, inOld r = true → r ≠ culprit →
      (w.desc r).state_initialized = true
      ∧ gpi_cp_sender fuel (Eold r) GPI_CP_POLICY_RING old_group r
        = Result.returned (GPI_CP_SUCCESS, (w.desc r).sender)
      ∧ gpi_cp_receiver fuel (Eold r) GPI_CP_POLICY_RING old_group r
        = Result.returned (GPI_CP_SUCCESS, (w.desc r).receiver))
    (hjoin : (w.desc spare).state_initialized = false)
    (hsize : 0 < size) (hsz : size < OFFSET_MOD) (ha : a = 0 ∨ a = size)
    (hact : ∀ r, inOld r = true → r ≠ culprit → (w.desc r).active_snapshot = a)
    (hstage : ∀ r, inOld r = true → r ≠ culprit →
      seg r ≠ (w.desc r).segment_id_local_for_sender)
    (hnodup : order.Nodup)
    (horder : ∀ r, r ∈ order ↔ ((inOld r = true ∧ r ≠ culprit) ∨ r = spare))
    (hrestore : global_restore fuel E seg off size queue GPI_CP_POLICY_RING new_group
      timeout_ms order w = some w4)
    (hremote : ∀ r, inOld r = true → r ≠ culprit → (w4.desc r).receiver = spare →
      (w4.desc r).segment_id_remote_on_receiver ≠ seg spare)
    (hxG : inOld x = true) (hxc : x ≠ culprit)
    (hnot : ((E spare).answer [Call.gettimeofday]
      (Call.passive_receive (seg spare) (off spare) 1 timeout_ms)).out = x)
    (hsent : ∀ ox, gpi_cp_restore fuel (E x) (seg x) (off x) size (queue x)
        GPI_CP_POLICY_RING new_group timeout_ms (w.desc x) [] = Result.returned ox →
      sends_tag ox.trace spare = true) :
    ∃ q, inOld q = true ∧ q ≠ culprit ∧ (w.desc q).sender = culprit
      ∧ (w4.desc spare).receiver = q ∧ (w4.desc spare).active_snapshot = a
      ∧ (∀ i, i < size →
        w4.mem spare (seg spare) (off spare + i)
          = w.mem q (w4.desc spare).segment_id_remote_on_receiver (size - a + i))
      ∧ (∀ r, inOld r = true → r ≠ culprit → ∀ y, w4.mem r (seg r) y = w.mem r (seg r) y)
    := by
  obtain ⟨_, hres, hmem⟩ := global_restore_spec fuel E seg off size queue
    GPI_CP_POLICY_RING new_group timeout_ms order w w4 hnodup hrestore
  have hrank : ∀ r, (E r).proc_rank.1 = GASPI_SUCCESS ∧ (E r).proc_rank.2 = r := by
    intro r
    rw [(henv r).1]
    exact ⟨rfl, rfl⟩
  have hsurv_mem : ∀ r, inOld r = true → r ≠ culprit → r ∈ order :=
    fun r h1 h2 => (horder r).2 (Or.inl ⟨h1, h2⟩)
  obtain ⟨ox, hox, _, _⟩ := hres x (hsurv_mem x hxG hxc)
  obtain ⟨p, q, hpG, hqG, hpc, hqc, hpq, hsOq, _, hsNs, hrNs, hqcase, hsNq, hpcase, hrNp,
      hothers, _⟩ :=
    recovery_roles fuel nProc Eold E old_group new_group inOld culprit spare (seg x) (off x)
      size (queue x) timeout_ms w.desc x [] ox.trace ox hn hfuel hnumold henv hold hnew hsub
      hthree hculprit hspare hsparen hdesc hxG hxc hox (List.append_nil _).symm
      (hsent ox hox)
  have hps : p ≠ spare := fun h => by rw [h, hspare] at hpG; cases hpG
  have hqs : q ≠ spare := fun h => by rw [h, hspare] at hqG; cases hqG
  -- the effect of each survivor
  have heff : ∀ z o, gpi_cp_restore fuel (E z) (seg z) (off z) size (queue z)
        GPI_CP_POLICY_RING new_group timeout_ms (w.desc z) [] = Result.returned o →
      ∀ m, restore_effect fuel E seg off size queue GPI_CP_POLICY_RING new_group timeout_ms
        w.desc z m = trace_effect (E z) z o.trace m := by
    intro z o ho m
    unfold restore_effect
    rw [ho]
  have hq_eff : ∀ r s y m,
      ¬ (r = q ∧ s = (w.desc q).segment_id_local_for_sender ∧ y = a) →
      restore_effect fuel E seg off size queue GPI_CP_POLICY_RING new_group timeout_ms
        w.desc q m r s y = m r s y := by
    intro r s y m hc
    obtain ⟨o, ho, _, _⟩ := hres q (hsurv_mem q hqG hqc)
    rw [heff q o ho m]
    have hq := restore_missing_sender_quiet fuel (E q) (seg q) (off q) size (queue q)
      GPI_CP_POLICY_RING new_group timeout_ms (w.desc q) [] o q r s y (hrank q).1 hqcase
      (by rw [hact q hqG hqc]; exact hc) ho
    rw [trace_effect_quiet (E q) q r s y _ _ m hq]
    rfl
  have hp_eff : ∀ r s y m, r ≠ p →
      ¬ (r = spare ∧ s = (w4.desc p).segment_id_remote_on_receiver) →
      restore_effect fuel E seg off size queue GPI_CP_POLICY_RING new_group timeout_ms
        w.desc p m r s y = m r s y := by
    intro r s y m hrp hc
    obtain ⟨o, ho, _, hd⟩ := hres p (hsurv_mem p hpG hpc)
    rw [heff p o ho m]
    have hst := restore_missing_receiver_stored fuel (E p) (seg p) (off p) size (queue p)
      GPI_CP_POLICY_RING new_group timeout_ms (w.desc p) [] spare o (hrank p).1 hpcase
      (by rw [(hrank p).2]; exact hrNp) ho
    have hq := restore_missing_receiver_quiet fuel (E p) (seg p) (off p) size (queue p)
      GPI_CP_POLICY_RING new_group timeout_ms (w.desc p) [] o p r s y (hrank p).1 hpcase
      (fun h => hrp h.1) (by rw [hst.2, ← hd]; exact hc) ho
    rw [trace_effect_quiet (E p) p r s y _ _ m hq]
    rfl
  have ho_eff : ∀ z, inOld z = true → z ≠ culprit → z ≠ p → z ≠ q → ∀ r s y m,
      restore_effect fuel E seg off size queue GPI_CP_POLICY_RING new_group timeout_ms
        w.desc z m r s y = m r s y := by
    intro z hz hzc hzp hzq r s y m
    obtain ⟨o, ho, _, _⟩ := hres z (hsurv_mem z hz hzc)
    rw [heff z o ho m]
    have hq := restore_unaffected_quiet fuel (E z) (seg z) (off z) size (queue z)
      GPI_CP_POLICY_RING new_group timeout_ms (w.desc z) [] o z r s y (hrank z).1
      (hothers z hz hzc hzp hzq) ho
    rw [trace_effect_quiet (E z) z r s y _ _ m hq]
    rfl
  have hsurv_eff : ∀ z, inOld z = true → z ≠ culprit → ∀ r s y m,
      ¬ (r = z ∧ s = (w.desc z).segment_id_local_for_sender) →
      ¬ (r = spare ∧ s = (w4.desc z).segment_id_remote_on_receiver ∧ z = p) →
      restore_effect fuel E seg off size queue GPI_CP_POLICY_RING new_group timeout_ms
        w.desc z m r s y = m r s y := by
    intro z hz hzc r s y m h1 h2
    by_cases hzq : z = q
    · subst hzq
      exact hq_eff r s y m (fun h => h1 ⟨h.1, h.2.1⟩)
    · by_cases hzp : z = p
      · subst hzp
        by_cases hrz : r = z
        · subst hrz
          obtain ⟨o, ho, _, hd⟩ := hres r (hsurv_mem r hz hzc)
          rw [heff r o ho m]
          have hst := restore_missing_receiver_stored fuel (E r) (seg r) (off r) size
            (queue r) GPI_CP_POLICY_RING new_group timeout_ms (w.desc r) [] spare o
            (hrank r).1 hpcase (by rw [(hrank r).2]; exact hrNp) ho
          have hq := restore_missing_receiver_quiet fuel (E r) (seg r) (off r) size
            (queue r) GPI_CP_POLICY_RING new_group timeout_ms (w.desc r) [] o r r s y
            (hrank r).1 hpcase (fun h => h1 ⟨rfl, h.2.1⟩)
            (by rw [hst.2]; exact fun h => hps h.1) ho
          rw [trace_effect_quiet (E r) r r s y _ _ m hq]
          rfl
        · exact hp_eff r s y m hrz (fun h => h2 ⟨h.1, h.2, rfl⟩)
      · exact ho_eff z hz hzc hzp hzq r s y m
  -- the spare
  obtain ⟨os, hos, hossucc, hosd⟩ := hres spare ((horder spare).2 (Or.inr rfl))
  have hS : gpi_cp_sender fuel (E spare) GPI_CP_POLICY_RING new_group
      (E spare).proc_rank.2 = Result.returned (GPI_CP_SUCCESS, p) := by
    rw [(hrank spare).2]; exact hsNs
  have hR : gpi_cp_receiver fuel (E spare) GPI_CP_POLICY_RING new_group
      (E spare).proc_rank.2 = Result.returned (GPI_CP_SUCCESS, q) := by
    rw [(hrank spare).2]; exact hrNs
  have hJ := fun m => restore_joiner_memory fuel (E spare) (seg spare)
    (off spare) size (queue spare) GPI_CP_POLICY_RING new_group timeout_ms (w.desc spare)
    p q spare os m (hrank spare).1 hjoin hS hR hos hossucc hqs
  have hJ1 := fun m => (hJ m).1
  have hJ2 := fun m => (hJ m).2
  have hstored := restore_joiner_stored fuel (E spare) (seg spare) (off spare) size
    (queue spare) GPI_CP_POLICY_RING new_group timeout_ms (w.desc spare) [] p q os
    (hrank spare).1 hjoin hS hR hos
  have hactive : os.d.active_snapshot = a := by
    have hja := restore_joiner_active fuel (E spare) (seg spare) (off spare) size
      (queue spare) GPI_CP_POLICY_RING new_group timeout_ms (w.desc spare) [] p q os
      (hrank spare).1 hjoin hS hR hos hossucc
    rw [hnot] at hja
    rcases hja with ⟨hxp, h0⟩ | ⟨hxnp, hxq, hsz'⟩
    · rw [hxp] at hox hsent
      obtain ⟨issued, hi, htag⟩ := restore_missing_receiver_tag fuel (E p) (seg p) (off p)
        size (queue p) GPI_CP_POLICY_RING new_group timeout_ms (w.desc p) [] ox spare
        (hrank p).1 hpcase (by rw [(hrank p).2]; exact hrNp) hox
      rw [List.append_nil] at hi
      rw [← hi, hsent ox hox, hact p hpG hpc] at htag
      rw [h0]
      exact (htag.1 rfl).symm
    · rw [hxq] at hox hsent
      obtain ⟨issued, hi, htag⟩ := restore_missing_sender_tag fuel (E q) (seg q) (off q)
        size (queue q) GPI_CP_POLICY_RING new_group timeout_ms (w.desc q) [] ox spare
        (hrank q).1 hqcase (by rw [(hrank q).2]; exact hsNq) hox
      rw [List.append_nil] at hi
      rw [← hi, hsent ox hox, hact q hqG hqc] at htag
      rw [hsz']
      exact (htag.1 rfl).symm
  have htoggle : (size + OFFSET_MOD - a) % OFFSET_MOD = size - a := by
    have hle : a ≤ size := by rcases ha with h | h <;> omega
    have e : size + OFFSET_MOD - a = (size - a) + OFFSET_MOD := by omega
    rw [e, Nat.add_mod_right, Nat.mod_eq_of_lt (by omega)]
  refine ⟨q, hqG, hqc, hsOq, by rw [hosd]; exact hstored.2, by rw [hosd]; exact hactive,
    ?_, ?_⟩
  · intro i hi
    obtain ⟨pre, post, hsplit⟩ := List.append_of_mem ((horder spare).2 (Or.inr rfl))
    have hnd := hnodup
    rw [hsplit] at hnd
    have hpre : ∀ z ∈ pre, inOld z = true ∧ z ≠ culprit := by
      intro z hz
      have hzo : z ∈ order := by rw [hsplit]; exact List.mem_append_left _ hz
      rcases (horder z).1 hzo with h | h
      · exact h
      · exfalso
        rw [h] at hz
        have := (List.nodup_append.1 hnd).2.2
        exact this hz (List.mem_cons_self _ _)
    have hpost : ∀ z ∈ post, inOld z = true ∧ z ≠ culprit := by
      intro z hz
      have hzo : z ∈ order := by
        rw [hsplit]; exact List.mem_append_right _ (List.mem_cons_of_mem _ hz)
      rcases (horder z).1 hzo with h | h
      · exact h
      · exfalso
        rw [h] at hz
        have := (List.nodup_cons.1 (List.nodup_append.1 hnd).2.1).1
        exact this hz
    rw [hmem, hsplit, List.foldl_append, List.foldl_cons]
    rw [foldl_frame (restore_effect fuel E seg off size queue GPI_CP_POLICY_RING new_group
      timeout_ms w.desc) spare (seg spare) (off spare + i) post _
      (fun z hz m => hsurv_eff z (hpost z hz).1 (hpost z hz).2 _ _ _ m
        (fun h => by
          have := (hpost z hz).1
          rw [← h.1, hspare] at this
          cases this)
        (fun h => by
          have hzp := h.2.2
          obtain ⟨o, ho, _, hd⟩ := hres z ((horder z).2 (Or.inl (hpost z hz)))
          have hst := restore_missing_receiver_stored fuel (E p) (seg p) (off p) size
            (queue p) GPI_CP_POLICY_RING new_group timeout_ms (w.desc p) [] spare o
            (hrank p).1 hpcase (by rw [(hrank p).2]; exact hrNp) (by rw [← hzp]; exact ho)
          exact hremote z (hpost z hz).1 (hpost z hz).2 (by rw [hd]; exact hst.2)
            h.2.1.symm))]
    rw [heff spare os hos, hJ1 _ i hi, hactive, htoggle, hosd]
    exact foldl_frame (restore_effect fuel E seg off size queue GPI_CP_POLICY_RING
      new_group timeout_ms w.desc) q _ (size - a + i) pre w.mem
      (fun z hz m => by
        by_cases hzq : z = q
        · rw [hzq]
          exact hq_eff _ _ _ m (fun h => by
            have := h.2.2
            rcases ha with h0 | h0 <;> omega)
        · exact hsurv_eff z (hpre z hz).1 (hpre z hz).2 _ _ _ m
            (fun h => hzq h.1.symm) (fun h => hqs h.1))
  · intro r hr hrc y
    rw [hmem]
    exact foldl_frame (restore_effect fuel E seg off size queue GPI_CP_POLICY_RING
      new_group timeout_ms w.desc) r (seg r) y order w.mem
      (fun z hz m => by
        rcases (horder z).1 hz with h | h
        · exact hsurv_eff z h.1 h.2 _ _ _ m
            (fun h' => by
              have e := h'.2
              rw [h'.1] at e
              exact hstage z h.1 h.2 e)
            (fun h' => by
              rw [h'.1, hspare] at hr
              cases hr)
        · rw [h, heff spare os hos]
          exact hJ2 m r _ _ (fun h' => by rw [h', hspare] at hr; cases hr))

/-! ## Facts for the recovery scenario -/

/-- One successful global round from a linked-up ring: the ring is linked up
again with `active_snapshot` toggled, every rank keeps its peers, its staging
segment and its `state_initialized` flag, and the staging segment holds, at
offset `size - active_snapshot`, the client region that the sender had when
the round started. -/
theorem round_snapshot (E : Nat → Env) (timeout_ms : Nat) (ranks : List Nat)
    (size a : Nat) (w w1 : World)
    (hnodup : ranks.Nodup) (hsize : size < OFFSET_MOD) (ha : a = 0 ∨ a = size)
    (hlinked : ring_linked E ranks size a w.desc)
    (hround : global_round E timeout_ms ranks w = some w1) :
    ring_linked E ranks size (size - a) w1.desc
    ∧ ∀ r ∈ ranks,
        (w1.desc r).active_snapshot = size - a
        ∧ (w1.desc r).sender = (w.desc r).sender
        ∧ (w1.desc r).segment_id_local_for_sender
          = (w.desc r).segment_id_local_for_sender
        ∧ (w1.desc r).receiver = (w.desc r).receiver
        ∧ (w1.desc r).state_initialized = (w.desc r).state_initialized
        ∧ ∀ i, i < size →
          w1.mem r (w1.desc r).segment_id_local_for_sender
              (size - (w1.desc r).active_snapshot + i)
            = w.mem (w.desc r).sender
                (w.desc (w.desc r).sender).segment_id_local_client_source
                ((w.desc (w.desc r).sender).offset + i) := by
  obtain ⟨hd, hm⟩ := global_round_desc E timeout_ms ranks size a w w1 hnodup hlinked hround
  have htoggle : (size + OFFSET_MOD - a) % OFFSET_MOD = size - a := by
    have hle : a ≤ size := by rcases ha with h | h <;> omega
    have e : size + OFFSET_MOD - a = (size - a) + OFFSET_MOD := by omega
    rw [e, Nat.add_mod_right, Nat.mod_eq_of_lt (by omega)]
  rw [htoggle] at hd
  have hback : size - (size - a) = a := by rcases ha with h | h <;> omega
  constructor
  · intro r hr
    obtain ⟨l1, l2, _, l4, _, l6, l7, l8, l9, l10, l11⟩ := hlinked r hr
    have hs := hd _ l6
    have hc := hd _ l7
    rw [hd r hr]
    refine ⟨l1, l2, rfl, l4, rfl, l6, l7, ?_, ?_, ?_, l11⟩
    · rw [hs]; exact l8
    · rw [hc]; exact l9
    · rw [hc]; exact l10
  · intro r hr
    obtain ⟨_, _, _, _, _, l6, _, l8, _, _, _⟩ := hlinked r hr
    have hdr := hd r hr
    refine ⟨by rw [hdr], by rw [hdr], by rw [hdr], by rw [hdr], by rw [hdr], ?_⟩
    intro i hi
    have hact : (w1.desc r).active_snapshot = size - a := by rw [hdr]
    have hseg : (w1.desc r).segment_id_local_for_sender
        = (w.desc r).segment_id_local_for_sender := by rw [hdr]
    rw [hact, hseg, hback, hm]
    obtain ⟨_, _, _, u4, u5, _, _, _, u9, u10, _⟩ := hlinked _ l6
    have hB := (writes_fold_spec w.desc timeout_ms ranks w.mem hnodup
      (fun x hx y hy hxy h => by
        have ex := (hlinked x hx).2.2.2.2.2.2.2.2.1
        have ey := (hlinked y hy).2.2.2.2.2.2.2.2.1
        rw [h.1, ey] at ex
        exact hxy ex.symm)
      (fun x hx y hy h => by
        have e1 := (hlinked y hy).2.2.2.2.2.2.2.2.2.1
        rw [h.1] at e1
        exact (hlinked x hx).2.2.2.2.2.2.2.2.2.2 (h.2.symm.trans e1))).1
      _ l6 i (by rw [u4]; exact hi)
    rw [l8, u5, u10, l8] at hB
    exact hB

/-- What a successful `gpi_cp_init` leaves to a member of the group. -/
theorem init_success_effect (fuel : Nat) (E : Env)
    (segment_id_checkpoint offset size queue : Nat) (policy : Int)
    (group timeout_ms : Nat) (d0 : gpi_cp_description) (tr : List Call) (o : Out)
    (hmem : gpi_cp_is_in_group E group E.proc_rank.2 = true)
    (hret : gpi_cp_init fuel E segment_id_checkpoint offset size queue policy group
      timeout_ms d0 tr = Result.returned o)
    (hok : o.ret = GASPI_SUCCESS) :
    o.d.offset = offset ∧ o.d.size = size
    ∧ o.d.segment_id_local_client_source = segment_id_checkpoint
    ∧ o.d.group = group ∧ o.d.active_snapshot = 0
    ∧ o.d.state_in_progress = d0.state_in_progress
    ∧ o.d.state_initialized = true
    ∧ gpi_cp_sender fuel E policy group E.proc_rank.2
        = Result.returned (GPI_CP_SUCCESS, o.d.sender)
    ∧ gpi_cp_receiver fuel E policy group E.proc_rank.2
        = Result.returned (GPI_CP_SUCCESS, o.d.receiver) := by
  unfold gpi_cp_init at hret
  simp only [gpi_cp_init_end, gettimeofday] at hret
  repeat' split at hret
  all_goals cases hret
  all_goals simp_all
  refine ⟨?_, ?_⟩
  · apply Prod.ext
    · assumption
    · rfl
  · apply Prod.ext
    · assumption
    · rfl

theorem missing_sender_keeps_staging (fuel : Nat) (E : Env) (policy : Int)
    (new_group timeout_ms : Nat) (tstart : Timeval) (d : gpi_cp_description)
    (tr : List Call) (o : Out)
    (hret : gpi_cp_restore_missing_sender fuel E policy new_group timeout_ms tstart d tr
      = Result.returned o) :
    o.d.segment_id_local_for_sender = d.segment_id_local_for_sender := by
  unfold gpi_cp_restore_missing_sender at hret
  simp only [] at hret
  repeat' split at hret
  all_goals cases hret
  all_goals first
    | rfl
    | (rw [restore_end_frame])

theorem missing_receiver_keeps_staging (fuel : Nat) (E : Env) (policy : Int)
    (new_group timeout_ms : Nat) (tstart : Timeval) (d : gpi_cp_description)
    (tr : List Call) (o : Out)
    (hret : gpi_cp_restore_missing_receiver fuel E policy new_group timeout_ms tstart d tr
      = Result.returned o) :
    o.d.segment_id_local_for_sender = d.segment_id_local_for_sender := by
  unfold gpi_cp_restore_missing_receiver at hret
  simp only [] at hret
  repeat' split at hret
  all_goals cases hret
  all_goals first
    | rfl
    | (rw [start_frame]; done)
    | (rw [restore_end_frame, start_frame])

theorem unaffected_keeps_staging (E : Env) (new_group timeout_ms : Nat)
    (tstart : Timeval) (d : gpi_cp_description) (tr : List Call) (o : Out)
    (hret : gpi_cp_restore_unaffected E new_group timeout_ms tstart d tr
      = Result.returned o) :
    o.d.segment_id_local_for_sender = d.segment_id_local_for_sender := by
  unfold gpi_cp_restore_unaffected at hret
  simp only [] at hret
  repeat' split at hret
  all_goals cases hret
  rw [restore_end_frame]

/-- The restore of an initialised descriptor keeps its staging segment id. -/
theorem restore_keeps_staging (fuel : Nat) (E : Env)
    (segment_id_checkpoint offset size queue : Nat) (policy : Int)
    (new_group timeout_ms : Nat) (d : gpi_cp_description) (tr : List Call) (o : Out)
    (hrank : E.proc_rank.1 = GASPI_SUCCESS) (hinit : d.state_initialized = true)
    (hret : gpi_cp_restore fuel E segment_id_checkpoint offset size queue policy new_group
      timeout_ms d tr = Result.returned o) :
    o.d.segment_id_local_for_sender = d.segment_id_local_for_sender := by
  rw [restore_dispatch fuel E segment_id_checkpoint offset size queue policy new_group
    timeout_ms d tr hrank] at hret
  cases hcase : gpi_cp_restore_case E new_group d
  · rw [(restore_case_joiner_iff E new_group d).1 hcase] at hinit
    cases hinit
  · rw [hcase] at hret
    exact missing_sender_keeps_staging fuel E policy new_group timeout_ms (E.clock tr)
      { d with offset := offset, size := size
               segment_id_local_client_source := segment_id_checkpoint
               queue := queue, group := new_group } (Call.gettimeofday :: tr) o hret
  · rw [hcase] at hret
    exact missing_receiver_keeps_staging fuel E policy new_group timeout_ms (E.clock tr)
      { d with offset := offset, size := size
               segment_id_local_client_source := segment_id_checkpoint
               queue := queue, group := new_group } (Call.gettimeofday :: tr) o hret
  · rw [hcase] at hret
    exact unaffected_keeps_staging E new_group timeout_ms (E.clock tr)
      { d with offset := offset, size := size
               segment_id_local_client_source := segment_id_checkpoint
               queue := queue, group := new_group } (Call.gettimeofday :: tr) o hret


/-- After a successful `gpi_cp_init` of every member of a group, with the
segment ids delivered along the ring and no staging segment on a client
segment, the ring is linked up with `active_snapshot = 0`. -/
theorem init_ring_linked (fuel nProc : Nat) (E0 : Nat → Env) (old_group : Nat)
    (inOld : Nat → Bool) (ranks : List Nat) (seg off queue : Nat → Nat)
    (size timeout_ms : Nat) (blocks : Nat → gpi_cp_description) (oi : Nat → Out)
    (hn : 0 < nProc) (hfuel : nProc ≤ fuel)
    (henv0 : ∀ r, (E0 r).proc_rank = (GASPI_SUCCESS, r)
      ∧ (E0 r).proc_num = (GASPI_SUCCESS, nProc))
    (hold : ∀ r y, gpi_cp_is_in_group (E0 r) old_group y = inOld y)
    (hsub : ∀ y, inOld y = true → y < nProc)
    (hranks : ∀ r, r ∈ ranks ↔ inOld r = true)
    (hinit : ∀ r, inOld r = true →
      gpi_cp_init fuel (E0 r) (seg r) (off r) size (queue r) GPI_CP_POLICY_RING old_group
        timeout_ms (GPI_CP_DESCRIPTION_INITIALIZER (blocks r)) [] = Result.returned (oi r)
      ∧ (oi r).ret = GASPI_SUCCESS)
    (hchan : ∀ r, inOld r = true →
      (oi r).d.segment_id_remote_on_receiver
        = (oi (oi r).d.receiver).d.segment_id_local_for_sender)
    (halias : ∀ r, inOld r = true → seg r ≠ (oi r).d.segment_id_local_for_sender) :
    ring_linked E0 ranks size 0 (fun r => (oi r).d)
    ∧ ∀ r, inOld r = true →
      (oi r).d.offset = off r ∧ (oi r).d.segment_id_local_client_source = seg r
      ∧ (oi r).d.state_initialized = true
      ∧ gpi_cp_sender fuel (E0 r) GPI_CP_POLICY_RING old_group r
          = Result.returned (GPI_CP_SUCCESS, (oi r).d.sender)
      ∧ gpi_cp_receiver fuel (E0 r) GPI_CP_POLICY_RING old_group r
          = Result.returned (GPI_CP_SUCCESS, (oi r).d.receiver) := by
  have hfacts : ∀ r, inOld r = true →
      (oi r).d.offset = off r ∧ (oi r).d.size = size
      ∧ (oi r).d.segment_id_local_client_source = seg r
      ∧ (oi r).d.group = old_group ∧ (oi r).d.active_snapshot = 0
      ∧ (oi r).d.state_in_progress = false
      ∧ (oi r).d.state_initialized = true
      ∧ gpi_cp_sender fuel (E0 r) GPI_CP_POLICY_RING old_group r
          = Result.returned (GPI_CP_SUCCESS, (oi r).d.sender)
      ∧ gpi_cp_receiver fuel (E0 r) GPI_CP_POLICY_RING old_group r
          = Result.returned (GPI_CP_SUCCESS, (oi r).d.receiver) := by
    intro r hr
    have hrk : (E0 r).proc_rank.2 = r := by rw [(henv0 r).1]
    have h := init_success_effect fuel (E0 r) (seg r) (off r) size (queue r)
      GPI_CP_POLICY_RING old_group timeout_ms (GPI_CP_DESCRIPTION_INITIALIZER (blocks r)) []
      (oi r) (by rw [hrk, hold]; exact hr) (hinit r hr).1 (hinit r hr).2
    rw [hrk] at h
    exact h
  have hmemb : ∀ r y, gpi_cp_is_in_group (E0 r) old_group y = true → y < nProc := by
    intro r y hy
    rw [hold] at hy
    exact hsub y hy
  have hinv : ∀ r, inOld r = true →
      inOld (oi r).d.sender = true ∧ inOld (oi r).d.receiver = true
      ∧ (oi (oi r).d.sender).d.receiver = r ∧ (oi (oi r).d.receiver).d.sender = r := by
    intro r hr
    obtain ⟨_, _, _, _, _, _, _, f8, f9⟩ := hfacts r hr
    obtain ⟨s, c, hs, hc, hsm, hcm, hsr, hcr⟩ := resolver_inverse (E0 r) old_group r fuel
      nProc (henv0 r).2 hn (hmemb r) (by rw [hold]; exact hr) hfuel
    rw [hs] at f8
    rw [hc] at f9
    have es : s = (oi r).d.sender := by
      have := Result.returned.inj f8
      exact (Prod.mk.inj this).2
    have ec : c = (oi r).d.receiver := by
      have := Result.returned.inj f9
      exact (Prod.mk.inj this).2
    subst es
    subst ec
    rw [hold] at hsm hcm
    refine ⟨hsm, hcm, ?_, ?_⟩
    · have g := (hfacts _ hsm).2.2.2.2.2.2.2.2
      rw [receiver_congr fuel (E0 (oi r).d.sender) (E0 r) GPI_CP_POLICY_RING old_group
        old_group _ (by rw [(henv0 _).2, (henv0 r).2])
        (fun x => by rw [hold, hold]), hsr] at g
      have := Result.returned.inj g
      exact ((Prod.mk.inj this).2).symm
    · have g := (hfacts _ hcm).2.2.2.2.2.2.2.1
      rw [sender_congr fuel (E0 (oi r).d.receiver) (E0 r) GPI_CP_POLICY_RING old_group
        old_group _ (by rw [(henv0 _).2, (henv0 r).2])
        (fun x => by rw [hold, hold]), hcr] at g
      have := Result.returned.inj g
      exact ((Prod.mk.inj this).2).symm
  constructor
  · intro r hr
    have hin := (hranks r).1 hr
    obtain ⟨f1, f2, f3, f4, f5, f6, f7, f8, f9⟩ := hfacts r hin
    obtain ⟨i1, i2, i3, i4⟩ := hinv r hin
    refine ⟨(henv0 r).1, ?_, f6, f2, f5, (hranks _).2 i1, (hranks _).2 i2, i3, i4,
      hchan r hin, ?_⟩
    · show gpi_cp_is_in_group (E0 r) (oi r).d.group r = true
      rw [f4, hold]
      exact hin
    · show (oi r).d.segment_id_local_client_source ≠ (oi r).d.segment_id_local_for_sender
      rw [f3]
      exact halias r hin
  · intro r hr
    obtain ⟨f1, _, f3, _, _, _, f7, f8, f9⟩ := hfacts r hr
    exact ⟨f1, f3, f7, f8, f9⟩


/-! ## The single-checkpoint recovery scenario -/

/-- C14: the single-checkpoint recovery scenario, for every `nProc ≥ 4`. The
working group is the ranks `0 .. nProc - 2`, the spare is `nProc - 1`, the
culprit is `nProc - 2`. Every group member runs `gpi_cp_init` with success
(the segment ids being delivered along the ring, no staging segment lying on
a client segment), the group runs one successful round of `gpi_cp_start` and
`gpi_cp_commit` from the memory `m1`, every rank then changes its client
region only (memory `m3`), and every rank but the culprit runs `gpi_cp_restore`
with success on the group in which the spare replaces the culprit, the spare
on a freshly initialised descriptor (the tag and the segment ids being
delivered). Then the client region of the spare equals the client region the
culprit had in `m1`, when the round started, and the client segment of every
other surviving rank is as in `m3`. -/
theorem C14_single_checkpoint_recovery (fuel nProc : Nat) (E0 E : Nat → Env)
    (old_group new_group : Nat) (seg off queue : Nat → Nat) (size timeout_ms : Nat)
    (blocks : Nat → gpi_cp_description) (oi : Nat → Out) (m1 m3 : Memory)
    (w2 w4 : World) (order : List Nat)
    (hn : 4 ≤ nProc) (hfuel : nProc ≤ fuel) (hsize : 0 < size) (hsz : size < OFFSET_MOD)
    (henv0 : ∀ r, (E0 r).proc_rank = (GASPI_SUCCESS, r)
      ∧ (E0 r).proc_num = (GASPI_SUCCESS, nProc))
    (henv : ∀ r, (E r).proc_rank = (GASPI_SUCCESS, r)
      ∧ (E r).proc_num = (GASPI_SUCCESS, nProc))
    (hold : ∀ r y, gpi_cp_is_in_group (E0 r) old_group y = decide (y < nProc - 1))
    (hnew : ∀ r y, gpi_cp_is_in_group (E r) new_group y
      = decide (y < nProc ∧ y ≠ nProc - 2))
    (hinit : ∀ r, r < nProc - 1 →
      gpi_cp_init fuel (E0 r) (seg r) (off r) size (queue r) GPI_CP_POLICY_RING old_group
        timeout_ms (GPI_CP_DESCRIPTION_INITIALIZER (blocks r)) [] = Result.returned (oi r)
      ∧ (oi r).ret = GASPI_SUCCESS)
    (hchan : ∀ r, r < nProc - 1 →
      (oi r).d.segment_id_remote_on_receiver
        = (oi (oi r).d.receiver).d.segment_id_local_for_sender)
    (halias : ∀ r, r < nProc - 1 → seg r ≠ (oi r).d.segment_id_local_for_sender)
    (hround : global_round E0 timeout_ms (List.range (nProc - 1))
      { desc := fun r => (oi r).d, mem := m1 } = some w2)
    (hmut : ∀ r s y, ¬ (s = seg r ∧ off r ≤ y ∧ y < off r + size) →
      m3 r s y = w2.mem r s y)
    (hnodup : order.Nodup)
    (horder : ∀ r, r ∈ order ↔ (r < nProc ∧ r ≠ nProc - 2))
    (hrestore : global_restore fuel E seg off size queue GPI_CP_POLICY_RING new_group
      timeout_ms order
      { desc := fun r =>
          if r = nProc - 1 then GPI_CP_DESCRIPTION_INITIALIZER (blocks r) else w2.desc r
        mem := m3 } = some w4)
    (htag : ((E (nProc - 1)).answer [Call.gettimeofday]
        (Call.passive_receive (seg (nProc - 1)) (off (nProc - 1)) 1 timeout_ms)).out
        < nProc - 2
      ∧ ∀ x ox, ((E (nProc - 1)).answer [Call.gettimeofday]
          (Call.passive_receive (seg (nProc - 1)) (off (nProc - 1)) 1 timeout_ms)).out = x →
        gpi_cp_restore fuel (E x) (seg x) (off x) size (queue x) GPI_CP_POLICY_RING
          new_group timeout_ms (w2.desc x) [] = Result.returned ox →
        sends_tag ox.trace (nProc - 1) = true)
    (hchan4 : ∀ r ∈ order,
      (w4.desc r).segment_id_remote_on_receiver
        = (w4.desc (w4.desc r).receiver).segment_id_local_for_sender)
    (halias4 : seg (nProc - 1) ≠ (w4.desc (nProc - 1)).segment_id_local_for_sender) :
    (∀ i, i < size →
      w4.mem (nProc - 1) (seg (nProc - 1)) (off (nProc - 1) + i)
        = m1 (nProc - 2) (seg (nProc - 2)) (off (nProc - 2) + i))
    ∧ (∀ r, r < nProc - 2 → ∀ y, w4.mem r (seg r) y = m3 r (seg r) y) := by
  have hlt : ∀ y, decide (y < nProc - 1) = true ↔ y < nProc - 1 := fun y => by simp
  obtain ⟨hlinked, hfacts⟩ := init_ring_linked fuel nProc E0 old_group
    (fun y => decide (y < nProc - 1)) (List.range (nProc - 1)) seg off queue size timeout_ms
    blocks oi (by omega) hfuel henv0 hold
    (fun y hy => by have := (hlt y).1 hy; omega)
    (fun r => by rw [List.mem_range]; exact (hlt r).symm)
    (fun r hr => hinit r ((hlt r).1 hr))
    (fun r hr => hchan r ((hlt r).1 hr))
    (fun r hr => halias r ((hlt r).1 hr))
  obtain ⟨_, hsnap⟩ := round_snapshot E0 timeout_ms (List.range (nProc - 1)) size 0
    { desc := fun r => (oi r).d, mem := m1 } w2 (List.nodup_range _) hsz (Or.inl rfl)
    hlinked hround
  have hsnap2 : ∀ r, r < nProc - 1 →
      (w2.desc r).active_snapshot = size
      ∧ (w2.desc r).sender = (oi r).d.sender
      ∧ (w2.desc r).segment_id_local_for_sender = (oi r).d.segment_id_local_for_sender
      ∧ (w2.desc r).receiver = (oi r).d.receiver
      ∧ (w2.desc r).state_initialized = true
      ∧ ∀ i, i < size →
        w2.mem r (oi r).d.segment_id_local_for_sender i
          = m1 (oi r).d.sender (seg (oi r).d.sender) (off (oi r).d.sender + i) := by
    intro r hr
    obtain ⟨s1, s2, s3, s4, s5, s6⟩ := hsnap r (List.mem_range.2 hr)
    have hf := hfacts r ((hlt r).2 hr)
    have hsin : (oi r).d.sender < nProc - 1 := by
      have := (hlinked r (List.mem_range.2 hr)).2.2.2.2.2.1
      exact List.mem_range.1 this
    have hfs := hfacts _ ((hlt _).2 hsin)
    refine ⟨by rw [s1]; rfl, s2, s3, s4, by rw [s5]; exact hf.2.2.1, ?_⟩
    intro i hi
    have h := s6 i hi
    rw [s1, s3] at h
    have e : size - (size - 0) + i = i := by omega
    rw [e] at h
    rw [h]
    show m1 (oi r).d.sender (oi (oi r).d.sender).d.segment_id_local_client_source
      ((oi (oi r).d.sender).d.offset + i) = _
    rw [hfs.1, hfs.2.1]
  have hw : ∀ r, r < nProc - 1 →
      (if r = nProc - 1 then GPI_CP_DESCRIPTION_INITIALIZER (blocks r) else w2.desc r)
        = w2.desc r := fun r hr => if_neg (by omega)
  have hspare_in : nProc - 1 ∈ order := (horder _).2 ⟨by omega, by omega⟩
  obtain ⟨q, hq, hqc, hqs, hrecv, _, hmemS, hmemR⟩ := recovery_memory fuel nProc E0 E
    old_group new_group (fun y => decide (y < nProc - 1)) (nProc - 2) (nProc - 1)
    seg off queue size size timeout_ms
    { desc := fun r =>
        if r = nProc - 1 then GPI_CP_DESCRIPTION_INITIALIZER (blocks r) else w2.desc r
      mem := m3 } w4 order
    ((E (nProc - 1)).answer [Call.gettimeofday]
      (Call.passive_receive (seg (nProc - 1)) (off (nProc - 1)) 1 timeout_ms)).out
    (by omega) hfuel (fun r => (henv0 r).2) henv hold
    (fun r y => by
      rw [hnew]
      rw [Bool.eq_iff_iff]
      simp
      omega)
    (fun y hy => by have := (hlt y).1 hy; omega)
    ⟨0, 1, 2, (hlt 0).2 (by omega), (hlt 1).2 (by omega), (hlt 2).2 (by omega),
      by decide, by decide, by decide⟩
    ((hlt _).2 (by omega)) (by simp) (by omega)
    (fun r hr hrc => by
      have hr1 := (hlt r).1 hr
      have hf := hfacts r hr
      obtain ⟨_, s2, _, s4, s5, _⟩ := hsnap2 r hr1
      have e : World.desc
          { desc := fun r =>
              if r = nProc - 1 then GPI_CP_DESCRIPTION_INITIALIZER (blocks r) else w2.desc r
            mem := m3 } r = w2.desc r := hw r hr1
      rw [e, s2, s4]
      exact ⟨s5, hf.2.2.2.1, hf.2.2.2.2⟩)
    (by
      show (if nProc - 1 = nProc - 1 then GPI_CP_DESCRIPTION_INITIALIZER (blocks (nProc - 1))
          else w2.desc (nProc - 1)).state_initialized = false
      rw [if_pos rfl]
      rfl)
    hsize hsz (Or.inr rfl)
    (fun r hr hrc => by
      have hr1 := (hlt r).1 hr
      show (if r = nProc - 1 then GPI_CP_DESCRIPTION_INITIALIZER (blocks r)
          else w2.desc r).active_snapshot = size
      rw [hw r hr1]
      exact (hsnap2 r hr1).1)
    (fun r hr hrc => by
      have hr1 := (hlt r).1 hr
      show seg r ≠ (if r = nProc - 1 then GPI_CP_DESCRIPTION_INITIALIZER (blocks r)
          else w2.desc r).segment_id_local_for_sender
      rw [hw r hr1, (hsnap2 r hr1).2.2.1]
      exact halias r hr1)
    hnodup
    (fun r => by
      rw [horder, hlt]
      omega)
    hrestore
    (fun r hr hrc hrs => by
      have hr1 := (hlt r).1 hr
      have hin : r ∈ order := (horder r).2 ⟨by omega, hrc⟩
      rw [hchan4 r hin, hrs]
      exact fun h => halias4 h.symm)
    ((hlt _).2 (by have := htag.1; omega)) (by have := htag.1; omega) rfl
    (fun ox hox => by
      have hx1 : ((E (nProc - 1)).answer [Call.gettimeofday]
          (Call.passive_receive (seg (nProc - 1)) (off (nProc - 1)) 1 timeout_ms)).out
          < nProc - 1 := by have := htag.1; omega
      refine htag.2 _ ox rfl ?_
      rw [← hw _ hx1]
      exact hox)
  have hq1 : q < nProc - 1 := (hlt q).1 hq
  have hqin : q ∈ order := (horder q).2 ⟨by omega, hqc⟩
  constructor
  · intro i hi
    obtain ⟨_, hres, _⟩ := global_restore_spec fuel E seg off size queue GPI_CP_POLICY_RING
      new_group timeout_ms order _ w4 hnodup hrestore
    obtain ⟨oq, hoq, _, hdq⟩ := hres q hqin
    obtain ⟨_, s2, s3, _, s5, s6⟩ := hsnap2 q hq1
    have hkeep := restore_keeps_staging fuel (E q) (seg q) (off q) size (queue q)
      GPI_CP_POLICY_RING new_group timeout_ms _ [] oq (by rw [(henv q).1])
      (by
        show (if q = nProc - 1 then GPI_CP_DESCRIPTION_INITIALIZER (blocks q)
          else w2.desc q).state_initialized = true
        rw [hw q hq1]
        exact s5) hoq
    have hst : (w4.desc (nProc - 1)).segment_id_remote_on_receiver
        = (oi q).d.segment_id_local_for_sender := by
      rw [hchan4 _ hspare_in, hrecv, hdq, hkeep]
      show (if q = nProc - 1 then GPI_CP_DESCRIPTION_INITIALIZER (blocks q)
          else w2.desc q).segment_id_local_for_sender = _
      rw [hw q hq1]
      exact s3
    have hqs2 : (oi q).d.sender = nProc - 2 := by
      rw [← s2, ← hw q hq1]
      exact hqs
    rw [hmemS i hi, hst]
    have e : size - size + i = i := by omega
    rw [e]
    show m3 q (oi q).d.segment_id_local_for_sender i = _
    rw [hmut q _ i (fun h => halias q hq1 h.1.symm), s6 i hi, hqs2]
  · intro r hr y
    exact hmemR r ((hlt r).2 (by omega)) (by omega) y


theorem example_recovery_old_members (r g x : Nat) :
    gpi_cp_is_in_group (exampleOldEnv r) g x = decide (x < 4 - 1) := by
  match x with
  | 0 | 1 | 2 => rfl
  | x + 3 =>
    simp [gpi_cp_is_in_group, exampleOldEnv, exampleEnv, List.range_succ]

theorem example_recovery_new_members (r g x : Nat) :
    gpi_cp_is_in_group (exampleNewEnv r) g x = decide (x < 4 ∧ x ≠ 4 - 2) := by
  match x with
  | 0 | 1 | 2 | 3 => rfl
  | x + 4 =>
    simp [gpi_cp_is_in_group, exampleNewEnv, exampleEnv, List.range_succ]


set_option maxHeartbeats 4000000 in
/-- C14 among 4 processes: the ring 0, 1, 2 takes one snapshot of 8 bytes,
every rank adds 4 to the first byte of its client region, rank 2 fails and
rank 3 takes its place. After the restore the client region of rank 3 holds
the bytes `2 + 1` that rank 2 had when the round started, and the client
segments of ranks 0 and 1 are as changed. -/
theorem C14_single_checkpoint_recovery_witness :
    ∃ w2 w4,
      global_round exampleOldEnv 0 (List.range (4 - 1))
          { desc := fun r => (exampleInitOut r).d, mem := exampleRegions } = some w2
      ∧ global_restore 4 exampleNewEnv (fun _ => 1) (fun _ => 0) 8 (fun _ => 4)
          GPI_CP_POLICY_RING 0 0 [0, 1, 3]
          { desc := fun r =>
              if r = 4 - 1 then GPI_CP_DESCRIPTION_INITIALIZER exampleDescription
              else w2.desc r
            mem := exampleMutate 4 w2.mem } = some w4
      ∧ (∀ i, i < 8 → w4.mem (4 - 1) 1 (0 + i) = exampleRegions (4 - 2) 1 (0 + i))
      ∧ (∀ r, r < 4 - 2 → ∀ y, w4.mem r 1 y = exampleMutate 4 w2.mem r 1 y) :=
  ⟨_, _, rfl, rfl,
    C14_single_checkpoint_recovery 4 4 exampleOldEnv exampleNewEnv 0 0
      (fun _ => 1) (fun _ => 0) (fun _ => 4) 8 0 (fun _ => exampleDescription)
      exampleInitOut exampleRegions _ _ _ [0, 1, 3]
      (le_refl _) (le_refl _) (by decide) (by decide)
      (fun _ => ⟨rfl, rfl⟩) (fun _ => ⟨rfl, rfl⟩)
      (fun r x => example_recovery_old_members r 0 x)
      (fun r x => example_recovery_new_members r 0 x)
      (fun r hr => by
        have hr3 : r < 3 := hr
        interval_cases r
        · exact ⟨rfl, rfl⟩
        · exact ⟨rfl, rfl⟩
        · exact ⟨rfl, rfl⟩)
      (fun r hr => by
        have hr3 : r < 3 := hr
        interval_cases r
        · rfl
        · rfl
        · rfl)
      (fun r hr => by
        have hr3 : r < 3 := hr
        interval_cases r
        · decide
        · decide
        · decide)
      rfl
      (fun r s y h => by
        have h2 : ¬ (s = 1 ∧ 0 ≤ y ∧ y < 0 + 1) := fun g =>
          h ⟨g.1, g.2.1, by
            have := g.2.2
            show y < 0 + 8
            omega⟩
        exact if_neg h2)
      (by decide)
      (fun r => by
        simp only [List.mem_cons, List.mem_singleton, List.not_mem_nil, or_false]
        omega)
      rfl
      ⟨by decide, fun x ox hx hox => by
        have hx0 : x = 0 := hx.symm
        subst hx0
        have e := Result.returned.inj hox
        subst e
        rfl⟩
      (fun r hr => by
        simp only [List.mem_cons, List.mem_singleton, List.not_mem_nil, or_false] at hr
        rcases hr with rfl | rfl | rfl
        · rfl
        · rfl
        · rfl)
      (by decide)⟩


/-! ## The lowest unused segment id -/

/-- What `gpi_cp_get_unused_segment_id` returns when its three substrate calls
succeed and report `n > 0` strictly ascending ids: the scan stops after an
initial run of consecutive ids `arr 0`, ..., `arr k`, and the id stored is
`arr k + 1` cut to the width of a segment id. -/
theorem get_unused_segment_id_scan (E : Env) (cur : Nat) (tr : List Call) (n : Nat)
    (arr : Nat → Nat)
    (hnum : (E.answer tr Call.segment_num).ret = GASPI_SUCCESS
      ∧ (E.answer tr Call.segment_num).out = n)
    (hlist : (E.answer (Call.segment_num :: tr) (Call.segment_list n)).ret = GASPI_SUCCESS
      ∧ (E.answer (Call.segment_num :: tr) (Call.segment_list n)).arr = arr)
    (hmax : (E.answer (Call.segment_list n :: Call.segment_num :: tr) Call.segment_max).ret
      = GASPI_SUCCESS)
    (hn : 0 < n)
    (hasc : ∀ i, i + 1 < n → arr i < arr (i + 1)) :
    ∃ k, k < n ∧ (∀ j, j ≤ k → arr j = arr 0 + j)
      ∧ (k + 1 < n → arr k + 1 < arr (k + 1))
      ∧ gpi_cp_get_unused_segment_id E cur tr
        = ((GASPI_SUCCESS, (arr k + 1) % SEGMENT_ID_MOD),
            Call.segment_max :: Call.segment_list n :: Call.segment_num :: tr) := by
  obtain ⟨k, hk, hrun, hgap, hval⟩ := unused_scan_spec arr n hn hasc
  refine ⟨k, hk, hrun, hgap, ?_⟩
  have hn0 : n ≠ 0 := by omega
  simp only [gpi_cp_get_unused_segment_id, gaspi, hnum.1, hnum.2, hlist.1, hlist.2, hmax,
    ne_eq, not_true_eq_false, if_false, hn0]
  split
  · rename_i i hi
    rw [hi] at hval
    simp only at hval
    rw [hval]
  · rename_i hi
    rw [hi] at hval
    simp only at hval
    rw [hval]

/-- C21: when the substrate calls succeed and report the allocated segment
ids as a strictly ascending list of ids (each below 256) that is empty or
starts at 0, and some id is not allocated, `gpi_cp_get_unused_segment_id`
returns success with the lowest id not allocated: the id is not in the list
and every id below it is. With no segments it gives 0, with {0} it gives 1,
with {0, 2} it gives 1 and with {0, 1, 2} it gives 3. -/
theorem C21_lowest_unused_id (E : Env) (cur : Nat) (tr : List Call) (n : Nat)
    (arr : Nat → Nat)
    (hnum : (E.answer tr Call.segment_num).ret = GASPI_SUCCESS
      ∧ (E.answer tr Call.segment_num).out = n)
    (hlist : 0 < n →
      (E.answer (Call.segment_num :: tr) (Call.segment_list n)).ret = GASPI_SUCCESS
      ∧ (E.answer (Call.segment_num :: tr) (Call.segment_list n)).arr = arr)
    (hmax : 0 < n →
      (E.answer (Call.segment_list n :: Call.segment_num :: tr) Call.segment_max).ret
        = GASPI_SUCCESS)
    (hid : ∀ i, i < n → arr i < SEGMENT_ID_MOD)
    (hasc : ∀ i, i + 1 < n → arr i < arr (i + 1))
    (hzero : n = 0 ∨ arr 0 = 0)
    (hfree : ∃ y, y < SEGMENT_ID_MOD ∧ ∀ i, i < n → arr i ≠ y) :
    ((gpi_cp_get_unused_segment_id E cur tr).1.1 = GASPI_SUCCESS
      ∧ (gpi_cp_get_unused_segment_id E cur tr).1.2 < SEGMENT_ID_MOD
      ∧ (∀ i, i < n → arr i ≠ (gpi_cp_get_unused_segment_id E cur tr).1.2)
      ∧ (∀ y, y < (gpi_cp_get_unused_segment_id E cur tr).1.2 → ∃ i, i < n ∧ arr i = y))
    ∧ (gpi_cp_get_unused_segment_id (segmentsEnv []) cur tr).1 = (GASPI_SUCCESS, 0)
    ∧ (gpi_cp_get_unused_segment_id (segmentsEnv [0]) cur tr).1 = (GASPI_SUCCESS, 1)
    ∧ (gpi_cp_get_unused_segment_id (segmentsEnv [0, 2]) cur tr).1 = (GASPI_SUCCESS, 1)
    ∧ (gpi_cp_get_unused_segment_id (segmentsEnv [0, 1, 2]) cur tr).1
        = (GASPI_SUCCESS, 3) := by
  refine ⟨?_, rfl, rfl, rfl, rfl⟩
  by_cases hn : n = 0
  · have hres : gpi_cp_get_unused_segment_id E cur tr
        = ((GASPI_SUCCESS, 0), Call.segment_num :: tr) := by
      simp [gpi_cp_get_unused_segment_id, gaspi, hnum.1, hnum.2, hn]
    rw [hres]
    refine ⟨rfl, (by decide : 0 < SEGMENT_ID_MOD), fun i hi => by omega, ?_⟩
    intro y hy
    exact absurd hy (Nat.not_lt_zero y)
  · have hpos : 0 < n := by omega
    have h0 : arr 0 = 0 := by
      rcases hzero with h | h
      · exact absurd h hn
      · exact h
    obtain ⟨k, hk, hrun, hgap, hres⟩ := get_unused_segment_id_scan E cur tr n arr hnum
      (hlist hpos) (hmax hpos) hpos hasc
    have hmono := ascending_of_step arr n hasc
    have hrunk := hrun k (le_refl _)
    have hsmall : arr k + 1 < SEGMENT_ID_MOD := by
      by_cases hlast : k + 1 < n
      · have := hgap hlast
        have := hid (k + 1) hlast
        omega
      · obtain ⟨y, hy, hyn⟩ := hfree
        have hyn2 : ¬ y < n := by
          intro hlt
          exact hyn y hlt (by rw [hrun y (by omega), h0]; omega)
        omega
    rw [hres, Nat.mod_eq_of_lt hsmall]
    refine ⟨rfl, hsmall, ?_, ?_⟩
    · intro i hi
      show arr i ≠ arr k + 1
      by_cases h : i ≤ k
      · have h1 := hrun i h
        omega
      · have h1 : k + 1 < n := by omega
        have h2 := hgap h1
        by_cases h3 : i = k + 1
        · rw [h3]; omega
        · have := hmono i (k + 1) (by omega) hi
          omega
    · intro y hyx
      have hyx2 : y < arr k + 1 := hyx
      refine ⟨y, by omega, ?_⟩
      rw [hrun y (by omega), h0]
      omega

/-- C21 for the allocated ids 0 and 2: the id returned is 1, which is not
allocated, and the only id below it, 0, is. -/
theorem C21_lowest_unused_id_witness :
    (gpi_cp_get_unused_segment_id (segmentsEnv [0, 2]) 0 []).1.1 = GASPI_SUCCESS
    ∧ (gpi_cp_get_unused_segment_id (segmentsEnv [0, 2]) 0 []).1.2 < SEGMENT_ID_MOD
    ∧ (∀ i, i < 2 → [0, 2].getD i 0
        ≠ (gpi_cp_get_unused_segment_id (segmentsEnv [0, 2]) 0 []).1.2)
    ∧ (∀ y, y < (gpi_cp_get_unused_segment_id (segmentsEnv [0, 2]) 0 []).1.2 →
        ∃ i, i < 2 ∧ [0, 2].getD i 0 = y) :=
  (C21_lowest_unused_id (segmentsEnv [0, 2]) 0 [] 2 (fun i => [0, 2].getD i 0)
    ⟨rfl, rfl⟩ (fun _ => ⟨rfl, rfl⟩) (fun _ => rfl)
    (by
      intro i hi
      interval_cases i <;> decide)
    (by
      intro i hi
      have hi2 : i < 1 := by omega
      interval_cases i
      decide)
    (Or.inr rfl)
    ⟨1, by decide, by
      intro i hi
      interval_cases i <;> decide⟩).1


/-- C29: when the substrate calls succeed and report a non-empty strictly
ascending list of allocated segment ids whose largest element is below 255,
the largest segment id, the id that `gpi_cp_get_unused_segment_id` returns is
not in the list, is greater than the first element of the list and is at most
the largest element plus one. With only {1} allocated it gives 2, not 0. -/
theorem C29_unused_id_bounds (E : Env) (cur : Nat) (tr : List Call) (n : Nat)
    (arr : Nat → Nat)
    (hnum : (E.answer tr Call.segment_num).ret = GASPI_SUCCESS
      ∧ (E.answer tr Call.segment_num).out = n)
    (hlist : (E.answer (Call.segment_num :: tr) (Call.segment_list n)).ret = GASPI_SUCCESS
      ∧ (E.answer (Call.segment_num :: tr) (Call.segment_list n)).arr = arr)
    (hmax : (E.answer (Call.segment_list n :: Call.segment_num :: tr) Call.segment_max).ret
      = GASPI_SUCCESS)
    (hn : 0 < n)
    (hasc : ∀ i, i + 1 < n → arr i < arr (i + 1))
    (hlast : arr (n - 1) < SEGMENT_ID_MOD - 1) :
    ((gpi_cp_get_unused_segment_id E cur tr).1.1 = GASPI_SUCCESS
      ∧ (∀ i, i < n → arr i ≠ (gpi_cp_get_unused_segment_id E cur tr).1.2)
      ∧ arr 0 < (gpi_cp_get_unused_segment_id E cur tr).1.2
      ∧ (gpi_cp_get_unused_segment_id E cur tr).1.2 ≤ arr (n - 1) + 1)
    ∧ (gpi_cp_get_unused_segment_id (segmentsEnv [1]) cur tr).1 = (GASPI_SUCCESS, 2) := by
  obtain ⟨h1, h2, h3, h4, _⟩ := get_unused_segment_id_spec E cur tr n arr hnum hlist hmax
    hn hasc hlast
  exact ⟨⟨h1, h4, h2, h3⟩, rfl⟩

/-- C29 for the allocated ids 1, 2 and 5: the id returned is 3. -/
theorem C29_unused_id_bounds_witness :
    (gpi_cp_get_unused_segment_id (segmentsEnv [1, 2, 5]) 0 []).1.1 = GASPI_SUCCESS
    ∧ (∀ i, i < 3 → [1, 2, 5].getD i 0
        ≠ (gpi_cp_get_unused_segment_id (segmentsEnv [1, 2, 5]) 0 []).1.2)
    ∧ [1, 2, 5].getD 0 0 < (gpi_cp_get_unused_segment_id (segmentsEnv [1, 2, 5]) 0 []).1.2
    ∧ (gpi_cp_get_unused_segment_id (segmentsEnv [1, 2, 5]) 0 []).1.2
        ≤ [1, 2, 5].getD (3 - 1) 0 + 1 :=
  (C29_unused_id_bounds (segmentsEnv [1, 2, 5]) 0 [] 3 (fun i => [1, 2, 5].getD i 0)
    ⟨rfl, rfl⟩ ⟨rfl, rfl⟩ rfl (by decide)
    (by
      intro i hi
      have hi2 : i < 2 := by omega
      interval_cases i <;> decide)
    (by decide)).1


/-! ## Finalize -/

/-- C22: `gpi_cp_finalize` changes no field of the descriptor. When the rank
of the caller is known and in the group of the descriptor, it issues exactly
one `gaspi_segment_delete`, on the local staging segment id, returns the
substrate's code when the delete fails and `GASPI_SUCCESS` otherwise; when the
rank is not in the group it issues no call and returns `GASPI_SUCCESS`. -/
theorem C22_finalize_deletes_once (E : Env) (timeout_ms : Nat) (d : gpi_cp_description)
    (tr : List Call) :
    (gpi_cp_finalize E timeout_ms d tr).d = d
    ∧ (E.proc_rank.1 = GASPI_SUCCESS →
        gpi_cp_is_in_group E d.group E.proc_rank.2 = true →
        (∃ Y, (gpi_cp_finalize E timeout_ms d tr).trace = Y ++ tr
          ∧ Y.filter Call.is_segment_delete
            = [Call.segment_delete d.segment_id_local_for_sender])
        ∧ ((E.answer tr (Call.segment_delete d.segment_id_local_for_sender)).ret
            ≠ GASPI_SUCCESS →
          (gpi_cp_finalize E timeout_ms d tr).ret
            = (E.answer tr (Call.segment_delete d.segment_id_local_for_sender)).ret)
        ∧ ((E.answer tr (Call.segment_delete d.segment_id_local_for_sender)).ret
            = GASPI_SUCCESS →
          (gpi_cp_finalize E timeout_ms d tr).ret = GASPI_SUCCESS))
    ∧ (E.proc_rank.1 = GASPI_SUCCESS →
        gpi_cp_is_in_group E d.group E.proc_rank.2 = false →
        (gpi_cp_finalize E timeout_ms d tr).trace = tr
        ∧ (gpi_cp_finalize E timeout_ms d tr).ret = GASPI_SUCCESS) := by
  refine ⟨?_, ?_, ?_⟩
  · simp only [gpi_cp_finalize]
    split_ifs <;> rfl
  · intro hrank hmem
    by_cases hdel : (E.answer tr (Call.segment_delete d.segment_id_local_for_sender)).ret
        = GASPI_SUCCESS
    · have hres : gpi_cp_finalize E timeout_ms d tr
          = { ret := GASPI_SUCCESS, d := d
              trace := Call.allreduce d.group timeout_ms
                :: Call.segment_delete d.segment_id_local_for_sender :: tr } := by
        simp [gpi_cp_finalize, gaspi, hrank, hmem, hdel]
      rw [hres]
      exact ⟨⟨[Call.allreduce d.group timeout_ms,
        Call.segment_delete d.segment_id_local_for_sender], rfl, rfl⟩,
        fun h => absurd hdel h, fun _ => rfl⟩
    · have hres : gpi_cp_finalize E timeout_ms d tr
          = { ret := (E.answer tr
                (Call.segment_delete d.segment_id_local_for_sender)).ret
              d := d
              trace := Call.segment_delete d.segment_id_local_for_sender :: tr } := by
        simp [gpi_cp_finalize, gaspi, hrank, hmem, hdel]
      rw [hres]
      exact ⟨⟨[Call.segment_delete d.segment_id_local_for_sender], rfl, rfl⟩,
        fun _ => rfl, fun h => absurd h hdel⟩
  · intro hrank hmem
    have hres : gpi_cp_finalize E timeout_ms d tr
        = { ret := GASPI_SUCCESS, d := d, trace := tr } := by
      simp [gpi_cp_finalize, hrank, hmem]
    rw [hres]
    exact ⟨rfl, rfl⟩


/-! ## Commit and the segment it waits on -/

/-- C23 at an input where the two staging segment ids differ: rank 1 of the
ring 0, 1, 2 holds the local staging segment 1, its receiver reported the
staging segment 2, and a snapshot is in flight. `gpi_cp_commit` issues its
`gaspi_notify_waitsome` and `gaspi_notify_reset` on segment 2, the id stored
in `segment_id_remote_on_receiver`, for the notification id 0 of the sender,
and no call on the local staging segment 1. -/
theorem C23_commit_waits_on_remote_id :
    exampleTwoIds.state_in_progress = true
    ∧ exampleTwoIds.sender = 0
    ∧ exampleTwoIds.segment_id_local_for_sender = 1
    ∧ exampleTwoIds.segment_id_remote_on_receiver = 2
    ∧ (gpi_cp_commit (exampleEnv 1 3 [0, 1, 2] 2) 0 exampleTwoIds []).trace
      = [Call.gettimeofday, Call.barrier 0 0, Call.notify_reset 2 0,
          Call.notify_waitsome 2 0 1 0, Call.wait 0 0, Call.gettimeofday] := by
  decide


/-! ## Neighbours in small and large groups -/

/-- In a group with a member other than `r`, the receiver of `r` is not `r`. -/
theorem receiver_moves (E : Env) (group fuel nProc r x c : Nat)
    (hnum : E.proc_num = (GASPI_SUCCESS, nProc))
    (hsub : ∀ y, gpi_cp_is_in_group E group y = true → y < nProc)
    (hfuel : nProc ≤ fuel)
    (hr : gpi_cp_is_in_group E group r = true)
    (hx : gpi_cp_is_in_group E group x = true) (hxr : x ≠ r)
    (hc : gpi_cp_receiver fuel E GPI_CP_POLICY_RING group r
      = Result.returned (GPI_CP_SUCCESS, c)) :
    c ≠ r := by
  have hrn : r < nProc := hsub r hr
  have hn : 0 < nProc := by omega
  have hmem : ∃ m, m < nProc ∧ gpi_cp_is_in_group E group m = true := ⟨r, hrn, hr⟩
  obtain ⟨l, hl1, _, hl, _, hlb⟩ := receiver_first E group r fuel nProc hnum hn hmem hfuel
  rw [hc] at hl
  have ec : c = (r + l) % nProc := by
    injection hl with h
    injection h
  obtain ⟨t, ht, htx⟩ := up_reaches nProc r x hrn (hsub x hx)
  have ht0 : t ≠ 0 := by
    intro h
    rw [h, Nat.add_zero, Nat.mod_eq_of_lt hrn] at htx
    exact hxr htx.symm
  have hlt : l ≤ t := by
    by_contra hgt
    have := hlb t (by omega) (by omega)
    rw [htx, hx] at this
    cases this
  have hln : l < nProc := by omega
  rw [ec]
  by_cases hsmall : r + l < nProc
  · rw [Nat.mod_eq_of_lt hsmall]
    omega
  · have e : (r + l) % nProc = r + l - nProc := by
      rw [Nat.mod_eq_sub_mod (by omega), Nat.mod_eq_of_lt (by omega)]
    rw [e]
    omega

/-- C24: for a group whose members all lie below `nProc` and a rank `r` in the
group, with fuel for `nProc` membership tests the RING resolver returns a
sender `s` and a receiver `c` of `r` such that: when the group has three
distinct members, `s ≠ c`, `s ≠ r` and `c ≠ r`; when the group is `r` and one
other rank `x`, `s = c = x`; when `r` is the only member, `s = c = r`. -/
theorem C24_ring_neighbours (E : Env) (group r fuel nProc : Nat)
    (hnum : E.proc_num = (GASPI_SUCCESS, nProc))
    (hsub : ∀ y, gpi_cp_is_in_group E group y = true → y < nProc)
    (hr : gpi_cp_is_in_group E group r = true) (hfuel : nProc ≤ fuel) :
    ∃ s c,
      gpi_cp_sender fuel E GPI_CP_POLICY_RING group r = Result.returned (GPI_CP_SUCCESS, s)
      ∧ gpi_cp_receiver fuel E GPI_CP_POLICY_RING group r
          = Result.returned (GPI_CP_SUCCESS, c)
      ∧ ((∃ x y z, gpi_cp_is_in_group E group x = true
            ∧ gpi_cp_is_in_group E group y = true ∧ gpi_cp_is_in_group E group z = true
            ∧ x ≠ y ∧ y ≠ z ∧ x ≠ z) →
          s ≠ c ∧ s ≠ r ∧ c ≠ r)
      ∧ (∀ x, x ≠ r → gpi_cp_is_in_group E group x = true →
          (∀ y, gpi_cp_is_in_group E group y = true → y = r ∨ y = x) →
          s = x ∧ c = x)
      ∧ ((∀ y, gpi_cp_is_in_group E group y = true → y = r) → s = r ∧ c = r) := by
  have hn : 0 < nProc := by
    have := hsub r hr
    omega
  obtain ⟨s, c, hs, hc, hsm, hcm, hrs, hsc⟩ :=
    resolver_inverse E group r fuel nProc hnum hn hsub hr hfuel
  refine ⟨s, c, hs, hc, ?_, ?_, ?_⟩
  · intro hthree
    exact sender_ne_receiver E group fuel nProc r s c hnum hn hsub hfuel hthree hr hs hc
  · intro x hxr hx hall
    have hcr : c ≠ r := receiver_moves E group fuel nProc r x c hnum hsub hfuel hr hx hxr hc
    have hcx : c = x := by
      rcases hall c hcm with h | h
      · exact absurd h hcr
      · exact h
    refine ⟨?_, hcx⟩
    rcases hall s hsm with h | h
    · exfalso
      rw [h] at hrs
      rw [hrs] at hc
      have e : r = c := by
        injection hc with h1
        injection h1
      exact hcr e.symm
    · exact h
  · intro hall
    exact ⟨hall s hsm, hall c hcm⟩

/-- C24 among 4 processes, for rank 0 of the group 0, 1, 3: the sender is 3,
the receiver is 1, and they differ from each other and from rank 0. -/
theorem C24_ring_neighbours_witness :
    ∃ s c,
      gpi_cp_sender 4 (exampleNewEnv 0) GPI_CP_POLICY_RING 0 0
          = Result.returned (GPI_CP_SUCCESS, s)
      ∧ gpi_cp_receiver 4 (exampleNewEnv 0) GPI_CP_POLICY_RING 0 0
          = Result.returned (GPI_CP_SUCCESS, c)
      ∧ ((∃ x y z, gpi_cp_is_in_group (exampleNewEnv 0) 0 x = true
            ∧ gpi_cp_is_in_group (exampleNewEnv 0) 0 y = true
            ∧ gpi_cp_is_in_group (exampleNewEnv 0) 0 z = true
            ∧ x ≠ y ∧ y ≠ z ∧ x ≠ z) →
          s ≠ c ∧ s ≠ 0 ∧ c ≠ 0)
      ∧ (∀ x, x ≠ 0 → gpi_cp_is_in_group (exampleNewEnv 0) 0 x = true →
          (∀ y, gpi_cp_is_in_group (exampleNewEnv 0) 0 y = true → y = 0 ∨ y = x) →
          s = x ∧ c = x)
      ∧ ((∀ y, gpi_cp_is_in_group (exampleNewEnv 0) 0 y = true → y = 0) → s = 0 ∧ c = 0) :=
  C24_ring_neighbours (exampleNewEnv 0) 0 0 4 4 rfl
    (fun y hy => by
      rw [example_recovery_new_members] at hy
      have := of_decide_eq_true hy
      omega)
    rfl (le_refl _)


/-! ## Restore ends idle -/

theorem restore_end_idle (E : Env) (timeout_ms : Nat) (tstart : Timeval)
    (d : gpi_cp_description) (tr : List Call) :
    (gpi_cp_restore_end E timeout_ms tstart d tr).d.state_in_progress = false := by
  rw [restore_end_frame]

theorem restore_joiner_pull_idle (E : Env) (timeout_ms : Nat) (tstart : Timeval)
    (d : gpi_cp_description) (tr : List Call) (o : Out)
    (hret : gpi_cp_restore_joiner_pull E timeout_ms tstart d tr = Result.returned o)
    (hok : o.ret = GASPI_SUCCESS) :
    o.d.state_in_progress = false := by
  unfold gpi_cp_restore_joiner_pull at hret
  simp only [] at hret
  repeat' split at hret
  all_goals cases hret
  all_goals first
    | exact restore_end_idle _ _ _ _ _
    | (exfalso; simp_all)

theorem restore_joiner_idle (fuel : Nat) (E : Env)
    (segment_id_checkpoint offset size : Nat) (policy : Int) (new_group timeout_ms : Nat)
    (tstart : Timeval) (d : gpi_cp_description) (tr : List Call) (o : Out)
    (hret : gpi_cp_restore_joiner fuel E segment_id_checkpoint offset size policy new_group
      timeout_ms tstart d tr = Result.returned o)
    (hok : o.ret = GASPI_SUCCESS) :
    o.d.state_in_progress = false := by
  unfold gpi_cp_restore_joiner at hret
  simp only [] at hret
  repeat' split at hret
  all_goals first
    | (cases hret; done)
    | exact restore_joiner_pull_idle _ _ _ _ _ _ hret hok
    | (cases hret; exfalso; simp_all)

theorem restore_missing_sender_idle (fuel : Nat) (E : Env) (policy : Int)
    (new_group timeout_ms : Nat) (tstart : Timeval) (d : gpi_cp_description)
    (tr : List Call) (o : Out)
    (hret : gpi_cp_restore_missing_sender fuel E policy new_group timeout_ms tstart d tr
      = Result.returned o)
    (hok : o.ret = GASPI_SUCCESS) :
    o.d.state_in_progress = false := by
  unfold gpi_cp_restore_missing_sender at hret
  simp only [] at hret
  repeat' split at hret
  all_goals cases hret
  all_goals first
    | exact restore_end_idle _ _ _ _ _
    | (exfalso; simp_all)

theorem restore_missing_receiver_idle (fuel : Nat) (E : Env) (policy : Int)
    (new_group timeout_ms : Nat) (tstart : Timeval) (d : gpi_cp_description)
    (tr : List Call) (o : Out)
    (hret : gpi_cp_restore_missing_receiver fuel E policy new_group timeout_ms tstart d tr
      = Result.returned o)
    (hok : o.ret = GASPI_SUCCESS) :
    o.d.state_in_progress = false := by
  unfold gpi_cp_restore_missing_receiver at hret
  simp only [] at hret
  repeat' split at hret
  all_goals cases hret
  all_goals first
    | exact restore_end_idle _ _ _ _ _
    | (exfalso; simp_all)

theorem restore_unaffected_idle (E : Env) (new_group timeout_ms : Nat)
    (tstart : Timeval) (d : gpi_cp_description) (tr : List Call) (o : Out)
    (hret : gpi_cp_restore_unaffected E new_group timeout_ms tstart d tr
      = Result.returned o) :
    o.d.state_in_progress = false := by
  unfold gpi_cp_restore_unaffected at hret
  simp only [] at hret
  repeat' split at hret
  all_goals cases hret
  exact restore_end_idle _ _ _ _ _


/-- C25: whatever the role and whatever `state_in_progress` was before the
call, a `gpi_cp_restore` that returns `GASPI_SUCCESS` leaves
`state_in_progress = false` and `group = new_group`; this includes the
receiver-missing role, where the `gpi_cp_start` issued inside restore sets the
flag before the final step clears it. -/
theorem C25_restore_ends_idle (fuel : Nat) (E : Env)
    (segment_id_checkpoint offset size queue : Nat) (policy : Int)
    (new_group timeout_ms : Nat) (d : gpi_cp_description) (tr : List Call) (o : Out)
    (hret : gpi_cp_restore fuel E segment_id_checkpoint offset size queue policy new_group
      timeout_ms d tr = Result.returned o)
    (hok : o.ret = GASPI_SUCCESS) :
    o.d.state_in_progress = false ∧ o.d.group = new_group := by
  refine ⟨?_, (restore_stores_args fuel E segment_id_checkpoint offset size queue policy
    new_group timeout_ms d tr o hret).2.2.2.2⟩
  unfold gpi_cp_restore at hret
  simp only [] at hret
  split at hret
  · rename_i hr
    cases hret
    exact absurd hok hr
  · split at hret
    · exact restore_joiner_idle _ _ _ _ _ _ _ _ _ _ _ _ hret hok
    · exact restore_missing_sender_idle _ _ _ _ _ _ _ _ _ hret hok
    · exact restore_missing_receiver_idle _ _ _ _ _ _ _ _ _ hret hok
    · exact restore_unaffected_idle _ _ _ _ _ _ _ hret

/-- C25 at rank 1 of the ring 0, 1, 2 with a snapshot in flight, when rank 3
replaces rank 2: the restore takes the receiver-missing path, returns
`GASPI_SUCCESS`, and leaves `state_in_progress = false`. -/
theorem C25_restore_ends_idle_witness :
    ∃ o, gpi_cp_restore 4 (exampleNewEnv 1) 1 0 8 4 GPI_CP_POLICY_RING 7 0
        exampleInFlight [] = Result.returned o
      ∧ o.ret = GASPI_SUCCESS
      ∧ gpi_cp_restore_case (exampleNewEnv 1) 7 exampleInFlight
        = RestoreCase.affected_missing_receiver
      ∧ exampleInFlight.state_in_progress = true
      ∧ o.d.state_in_progress = false ∧ o.d.group = 7 :=
  ⟨_, rfl, rfl, rfl, rfl,
    C25_restore_ends_idle 4 (exampleNewEnv 1) 1 0 8 4 GPI_CP_POLICY_RING 7 0
      exampleInFlight [] _ rfl rfl⟩


/-! ## What restore leaves to a survivor -/

theorem missing_sender_keeps_remote (fuel : Nat) (E : Env) (policy : Int)
    (new_group timeout_ms : Nat) (tstart : Timeval) (d : gpi_cp_description)
    (tr : List Call) (o : Out)
    (hret : gpi_cp_restore_missing_sender fuel E policy new_group timeout_ms tstart d tr
      = Result.returned o) :
    o.d.segment_id_remote_on_receiver = d.segment_id_remote_on_receiver := by
  unfold gpi_cp_restore_missing_sender at hret
  simp only [] at hret
  repeat' split at hret
  all_goals cases hret
  all_goals first
    | rfl
    | (rw [restore_end_frame])

theorem unaffected_keeps_remote (E : Env) (new_group timeout_ms : Nat)
    (tstart : Timeval) (d : gpi_cp_description) (tr : List Call) (o : Out)
    (hret : gpi_cp_restore_unaffected E new_group timeout_ms tstart d tr
      = Result.returned o) :
    o.d.segment_id_remote_on_receiver = d.segment_id_remote_on_receiver := by
  unfold gpi_cp_restore_unaffected at hret
  simp only [] at hret
  repeat' split at hret
  all_goals cases hret
  rw [restore_end_frame]

/-- C30: a `gpi_cp_restore` that returns on an initialised descriptor, with
whatever codes the substrate calls gave, leaves `active_snapshot` and the local
staging segment id as they were and stores its arguments in offset, size,
client segment, queue and group; `sender` differs from its old value only on
the sender-missing path, and `receiver` or the remote staging segment id only
on the receiver-missing path. -/
theorem C30_restore_survivor_frame (fuel : Nat) (E : Env)
    (segment_id_checkpoint offset size queue : Nat) (policy : Int)
    (new_group timeout_ms : Nat) (d : gpi_cp_description) (tr : List Call) (o : Out)
    (hinit : d.state_initialized = true)
    (hret : gpi_cp_restore fuel E segment_id_checkpoint offset size queue policy new_group
      timeout_ms d tr = Result.returned o) :
    o.d.active_snapshot = d.active_snapshot
    ∧ o.d.segment_id_local_for_sender = d.segment_id_local_for_sender
    ∧ (o.d.offset = offset ∧ o.d.size = size
      ∧ o.d.segment_id_local_client_source = segment_id_checkpoint
      ∧ o.d.queue = queue ∧ o.d.group = new_group)
    ∧ (o.d.sender ≠ d.sender →
        E.proc_rank.1 = GASPI_SUCCESS
        ∧ gpi_cp_restore_case E new_group d = RestoreCase.affected_missing_sender)
    ∧ (o.d.receiver ≠ d.receiver
        ∨ o.d.segment_id_remote_on_receiver ≠ d.segment_id_remote_on_receiver →
        E.proc_rank.1 = GASPI_SUCCESS
        ∧ gpi_cp_restore_case E new_group d = RestoreCase.affected_missing_receiver) := by
  have hargs := restore_stores_args fuel E segment_id_checkpoint offset size queue policy
    new_group timeout_ms d tr o hret
  by_cases hrank : E.proc_rank.1 = GASPI_SUCCESS
  · rw [restore_dispatch fuel E segment_id_checkpoint offset size queue policy new_group
      timeout_ms d tr hrank] at hret
    cases hcase : gpi_cp_restore_case E new_group d
    · rw [(restore_case_joiner_iff E new_group d).1 hcase] at hinit
      cases hinit
    · rw [hcase] at hret
      have h1 := restore_missing_sender_keeps_snapshot fuel E policy new_group timeout_ms
        (E.clock tr)
        { d with offset := offset, size := size
                 segment_id_local_client_source := segment_id_checkpoint
                 queue := queue, group := new_group } (Call.gettimeofday :: tr) o hret
      have h2 := missing_sender_keeps_staging fuel E policy new_group timeout_ms
        (E.clock tr)
        { d with offset := offset, size := size
                 segment_id_local_client_source := segment_id_checkpoint
                 queue := queue, group := new_group } (Call.gettimeofday :: tr) o hret
      have h3 := restore_missing_sender_peers fuel E policy new_group timeout_ms
        (E.clock tr)
        { d with offset := offset, size := size
                 segment_id_local_client_source := segment_id_checkpoint
                 queue := queue, group := new_group } (Call.gettimeofday :: tr) o hret
      have h4 := missing_sender_keeps_remote fuel E policy new_group timeout_ms
        (E.clock tr)
        { d with offset := offset, size := size
                 segment_id_local_client_source := segment_id_checkpoint
                 queue := queue, group := new_group } (Call.gettimeofday :: tr) o hret
      refine ⟨h1.1, h2, hargs, fun _ => ⟨hrank, rfl⟩, fun h => ?_⟩
      rcases h with h | h
      · exact absurd h3.1 h
      · exact absurd h4 h
    · rw [hcase] at hret
      have h1 := restore_missing_receiver_keeps_snapshot fuel E policy new_group timeout_ms
        (E.clock tr)
        { d with offset := offset, size := size
                 segment_id_local_client_source := segment_id_checkpoint
                 queue := queue, group := new_group } (Call.gettimeofday :: tr) o hret
      have h2 := missing_receiver_keeps_staging fuel E policy new_group timeout_ms
        (E.clock tr)
        { d with offset := offset, size := size
                 segment_id_local_client_source := segment_id_checkpoint
                 queue := queue, group := new_group } (Call.gettimeofday :: tr) o hret
      have h3 := restore_missing_receiver_peers fuel E policy new_group timeout_ms
        (E.clock tr)
        { d with offset := offset, size := size
                 segment_id_local_client_source := segment_id_checkpoint
                 queue := queue, group := new_group } (Call.gettimeofday :: tr) o hret
      exact ⟨h1.1, h2, hargs, fun h => absurd h3.1 h, fun _ => ⟨hrank, rfl⟩⟩
    · rw [hcase] at hret
      have h1 := restore_unaffected_keeps_snapshot E new_group timeout_ms (E.clock tr)
        { d with offset := offset, size := size
                 segment_id_local_client_source := segment_id_checkpoint
                 queue := queue, group := new_group } (Call.gettimeofday :: tr) o hret
      have h2 := unaffected_keeps_staging E new_group timeout_ms (E.clock tr)
        { d with offset := offset, size := size
                 segment_id_local_client_source := segment_id_checkpoint
                 queue := queue, group := new_group } (Call.gettimeofday :: tr) o hret
      have h3 := restore_unaffected_effect E new_group timeout_ms (E.clock tr)
        { d with offset := offset, size := size
                 segment_id_local_client_source := segment_id_checkpoint
                 queue := queue, group := new_group } (Call.gettimeofday :: tr) o hret
      have h4 := unaffected_keeps_remote E new_group timeout_ms (E.clock tr)
        { d with offset := offset, size := size
                 segment_id_local_client_source := segment_id_checkpoint
                 queue := queue, group := new_group } (Call.gettimeofday :: tr) o hret
      refine ⟨h1.1, h2, hargs, fun h => absurd h3.1 h, fun h => ?_⟩
      rcases h with h | h
      · exact absurd h3.2.1 h
      · exact absurd h4 h
  · unfold gpi_cp_restore at hret
    simp only [] at hret
    rw [if_pos hrank] at hret
    cases hret
    refine ⟨rfl, rfl, hargs, fun h => absurd rfl h, fun h => ?_⟩
    rcases h with h | h
    · exact absurd rfl h
    · exact absurd rfl h


/-- C30 at rank 0 of the ring 0, 1, 2 after one round, when rank 3 replaces
rank 2: the restore returns, `active_snapshot` stays 8 and the staging segment
stays 1, the arguments are stored, and the sender-missing path is the one
taken. -/
theorem C30_restore_survivor_frame_witness :
    ∃ o, gpi_cp_restore 4 (exampleNewEnv 0) 1 0 8 4 GPI_CP_POLICY_RING 7 0
        (exampleSurvivor 2 1 8) [] = Result.returned o
      ∧ o.d.sender = 3
      ∧ o.d.active_snapshot = (exampleSurvivor 2 1 8).active_snapshot
      ∧ o.d.segment_id_local_for_sender
        = (exampleSurvivor 2 1 8).segment_id_local_for_sender
      ∧ (o.d.offset = 0 ∧ o.d.size = 8 ∧ o.d.segment_id_local_client_source = 1
        ∧ o.d.queue = 4 ∧ o.d.group = 7)
      ∧ (o.d.sender ≠ (exampleSurvivor 2 1 8).sender →
          (exampleNewEnv 0).proc_rank.1 = GASPI_SUCCESS
          ∧ gpi_cp_restore_case (exampleNewEnv 0) 7 (exampleSurvivor 2 1 8)
            = RestoreCase.affected_missing_sender)
      ∧ (o.d.receiver ≠ (exampleSurvivor 2 1 8).receiver
          ∨ o.d.segment_id_remote_on_receiver
            ≠ (exampleSurvivor 2 1 8).segment_id_remote_on_receiver →
          (exampleNewEnv 0).proc_rank.1 = GASPI_SUCCESS
          ∧ gpi_cp_restore_case (exampleNewEnv 0) 7 (exampleSurvivor 2 1 8)
            = RestoreCase.affected_missing_receiver) :=
  ⟨_, rfl, rfl,
    C30_restore_survivor_frame 4 (exampleNewEnv 0) 1 0 8 4 GPI_CP_POLICY_RING 7 0
      (exampleSurvivor 2 1 8) [] _ rfl rfl⟩

/-! ## Calls of a rank outside the group -/

/-- C28: when the rank of the caller is known and is not a member of the
group, `gpi_cp_init`, `gpi_cp_start`, `gpi_cp_commit` and `gpi_cp_finalize`
return `GASPI_SUCCESS`, and the only entries they add to the trace are the two
reads of the clock (none for finalize). Init stores its arguments and
`active_snapshot = 0` and leaves every other field but its timer, among them
`state_initialized`, as it was; start and commit change nothing but their
timer, also when `state_in_progress` is true; finalize changes nothing. -/
theorem C28_outside_group (fuel : Nat) (E : Env)
    (segment_id_checkpoint offset size queue : Nat) (policy : Int)
    (group timeout_ms : Nat) (d0 d : gpi_cp_description) (tr : List Call)
    (hrank : E.proc_rank.1 = GASPI_SUCCESS)
    (hinit : gpi_cp_is_in_group E group E.proc_rank.2 = false)
    (hout : gpi_cp_is_in_group E d.group E.proc_rank.2 = false) :
    (∃ o, gpi_cp_init fuel E segment_id_checkpoint offset size queue policy group
          timeout_ms d0 tr = Result.returned o
        ∧ o.ret = GASPI_SUCCESS
        ∧ o.trace = Call.gettimeofday :: Call.gettimeofday :: tr
        ∧ o.d = { d0 with
            offset := offset, size := size
            segment_id_local_client_source := segment_id_checkpoint
            queue := queue, group := group, active_snapshot := 0
            in_init := o.d.in_init }
        ∧ o.d.state_initialized = d0.state_initialized)
    ∧ ((gpi_cp_start E timeout_ms d tr).ret = GASPI_SUCCESS
      ∧ (gpi_cp_start E timeout_ms d tr).trace
        = Call.gettimeofday :: Call.gettimeofday :: tr
      ∧ (gpi_cp_start E timeout_ms d tr).d
        = { d with in_start := (gpi_cp_start E timeout_ms d tr).d.in_start }
      ∧ (gpi_cp_start E timeout_ms d tr).d.state_in_progress = d.state_in_progress)
    ∧ ((gpi_cp_commit E timeout_ms d tr).ret = GASPI_SUCCESS
      ∧ (gpi_cp_commit E timeout_ms d tr).trace
        = Call.gettimeofday :: Call.gettimeofday :: tr
      ∧ (gpi_cp_commit E timeout_ms d tr).d
        = { d with in_commit := (gpi_cp_commit E timeout_ms d tr).d.in_commit }
      ∧ (gpi_cp_commit E timeout_ms d tr).d.state_in_progress = d.state_in_progress
      ∧ (gpi_cp_commit E timeout_ms d tr).d.active_snapshot = d.active_snapshot)
    ∧ ((gpi_cp_finalize E timeout_ms d tr).ret = GASPI_SUCCESS
      ∧ (gpi_cp_finalize E timeout_ms d tr).trace = tr
      ∧ (gpi_cp_finalize E timeout_ms d tr).d = d) := by
  refine ⟨?_, ?_, ?_, ?_⟩
  · have hres : gpi_cp_init fuel E segment_id_checkpoint offset size queue policy group
        timeout_ms d0 tr
        = Result.returned (gpi_cp_init_end E (E.clock tr)
            { d0 with
              offset := offset, size := size
              segment_id_local_client_source := segment_id_checkpoint
              queue := queue, group := group, active_snapshot := 0 }
            (Call.gettimeofday :: tr)) := by
      simp [gpi_cp_init, gettimeofday, hrank, hinit]
    exact ⟨_, hres, rfl, rfl, rfl, rfl⟩
  · have hres : gpi_cp_start E timeout_ms d tr
        = gpi_cp_start_end E (E.clock tr) d (Call.gettimeofday :: tr) := by
      simp [gpi_cp_start, gettimeofday, hrank, hout]
    rw [hres]
    exact ⟨rfl, rfl, rfl, rfl⟩
  · have hres : gpi_cp_commit E timeout_ms d tr
        = gpi_cp_commit_end E (E.clock tr) d (Call.gettimeofday :: tr) := by
      simp [gpi_cp_commit, gettimeofday, hrank, hout]
    rw [hres]
    exact ⟨rfl, rfl, rfl, rfl, rfl⟩
  · have hres : gpi_cp_finalize E timeout_ms d tr
        = { ret := GASPI_SUCCESS, d := d, trace := tr } := by
      simp [gpi_cp_finalize, hrank, hout]
    rw [hres]
    exact ⟨rfl, rfl, rfl⟩


/-- C28 at rank 3, outside the ring 0, 1, 2, on a descriptor with a snapshot in
flight: `gpi_cp_start` returns `GASPI_SUCCESS`, only reads the clock and
leaves `state_in_progress` true. -/
theorem C28_outside_group_witness :
    exampleInFlight.state_in_progress = true
    ∧ (gpi_cp_start (exampleOldEnv 3) 0 exampleInFlight []).ret = GASPI_SUCCESS
    ∧ (gpi_cp_start (exampleOldEnv 3) 0 exampleInFlight []).trace
      = Call.gettimeofday :: Call.gettimeofday :: []
    ∧ (gpi_cp_start (exampleOldEnv 3) 0 exampleInFlight []).d
      = { exampleInFlight with
          in_start := (gpi_cp_start (exampleOldEnv 3) 0 exampleInFlight []).d.in_start }
    ∧ (gpi_cp_start (exampleOldEnv 3) 0 exampleInFlight []).d.state_in_progress
      = exampleInFlight.state_in_progress :=
  ⟨rfl, (C28_outside_group 4 (exampleOldEnv 3) 1 0 8 4 GPI_CP_POLICY_RING 0 0
    exampleDescription exampleInFlight [] rfl rfl rfl).2.1⟩

/-! ## Reading the buddy copy back -/

/-- C27 fails on the code: with `size = 8` and `active_snapshot = 0`, the
`gaspi_read` of `gpi_cp_read_buddy` has the local offset 0, which is
`active_snapshot`, while `size - active_snapshot` is 8. -/
theorem C27_counterexample :
    exampleTwoIds.size = 8 ∧ exampleTwoIds.active_snapshot = 0
    ∧ exampleTwoIds.size - exampleTwoIds.active_snapshot = 8
    ∧ (gpi_cp_read_buddy (exampleEnv 1 3 [0, 1, 2] 2) 0 exampleTwoIds []).trace
      = [Call.wait 0 0, Call.read 1 0 2 2 8 8 0 0] := by
  decide

/-- C27 as amended: `gpi_cp_read_buddy` changes no field of the descriptor and
issues exactly one `gaspi_read`, of `size` bytes, from the segment
`segment_id_remote_on_receiver` of rank `receiver` at the remote offset
`size - active_snapshot` into the local staging segment at the local offset
`active_snapshot`. When the read fails its code is returned and nothing else
is issued; otherwise the queue is waited on, and the code of the wait is
returned when it fails, `GASPI_SUCCESS` when it does not. -/
theorem C27_read_buddy (E : Env) (timeout_ms : Nat) (d : gpi_cp_description)
    (tr : List Call) :
    (gpi_cp_read_buddy E timeout_ms d tr).d = d
    ∧ (∃ Y, (gpi_cp_read_buddy E timeout_ms d tr).trace = Y ++ tr
        ∧ Y.filter Call.is_read
          = [Call.read d.segment_id_local_for_sender d.active_snapshot d.receiver
              d.segment_id_remote_on_receiver
              ((d.size + OFFSET_MOD - d.active_snapshot) % OFFSET_MOD) d.size d.queue
              timeout_ms])
    ∧ (d.active_snapshot ≤ d.size → d.size < OFFSET_MOD →
        (d.size + OFFSET_MOD - d.active_snapshot) % OFFSET_MOD
          = d.size - d.active_snapshot)
    ∧ ((E.answer tr (Call.read d.segment_id_local_for_sender d.active_snapshot d.receiver
          d.segment_id_remote_on_receiver
          ((d.size + OFFSET_MOD - d.active_snapshot) % OFFSET_MOD) d.size d.queue
          timeout_ms)).ret ≠ GASPI_SUCCESS →
        (gpi_cp_read_buddy E timeout_ms d tr).ret
          = (E.answer tr (Call.read d.segment_id_local_for_sender d.active_snapshot
              d.receiver d.segment_id_remote_on_receiver
              ((d.size + OFFSET_MOD - d.active_snapshot) % OFFSET_MOD) d.size d.queue
              timeout_ms)).ret
        ∧ (gpi_cp_read_buddy E timeout_ms d tr).trace
          = Call.read d.segment_id_local_for_sender d.active_snapshot d.receiver
              d.segment_id_remote_on_receiver
              ((d.size + OFFSET_MOD - d.active_snapshot) % OFFSET_MOD) d.size d.queue
              timeout_ms :: tr)
    ∧ ((E.answer tr (Call.read d.segment_id_local_for_sender d.active_snapshot d.receiver
          d.segment_id_remote_on_receiver
          ((d.size + OFFSET_MOD - d.active_snapshot) % OFFSET_MOD) d.size d.queue
          timeout_ms)).ret = GASPI_SUCCESS →
        (gpi_cp_read_buddy E timeout_ms d tr).trace
          = Call.wait d.queue timeout_ms
            :: Call.read d.segment_id_local_for_sender d.active_snapshot d.receiver
              d.segment_id_remote_on_receiver
              ((d.size + OFFSET_MOD - d.active_snapshot) % OFFSET_MOD) d.size d.queue
              timeout_ms :: tr
        ∧ ((gpi_cp_read_buddy E timeout_ms d tr).ret = GASPI_SUCCESS
          ∨ ((gpi_cp_read_buddy E timeout_ms d tr).ret ≠ GASPI_SUCCESS
            ∧ (gpi_cp_read_buddy E timeout_ms d tr).ret
              = (E.answer (Call.read d.segment_id_local_for_sender d.active_snapshot
                  d.receiver d.segment_id_remote_on_receiver
                  ((d.size + OFFSET_MOD - d.active_snapshot) % OFFSET_MOD) d.size d.queue
                  timeout_ms :: tr) (Call.wait d.queue timeout_ms)).ret))) := by
  refine ⟨read_buddy_keeps_description E timeout_ms d tr, ?_, ?_, ?_, ?_⟩
  · simp only [gpi_cp_read_buddy, gaspi]
    split_ifs
    · exact ⟨[_], rfl, rfl⟩
    · exact ⟨[_, _], rfl, rfl⟩
    · exact ⟨[_, _], rfl, rfl⟩
  · intro hle hlt
    have e : d.size + OFFSET_MOD - d.active_snapshot
        = (d.size - d.active_snapshot) + OFFSET_MOD := by omega
    rw [e, Nat.add_mod_right, Nat.mod_eq_of_lt (by omega)]
  · intro hfail
    simp only [gpi_cp_read_buddy, gaspi]
    rw [if_pos hfail]
    exact ⟨rfl, rfl⟩
  · intro hok
    simp only [gpi_cp_read_buddy, gaspi]
    rw [if_neg (not_not.2 hok)]
    split_ifs with hw
    · exact ⟨rfl, Or.inr ⟨hw, rfl⟩⟩
    · exact ⟨rfl, Or.inl rfl⟩


/-! ## Capacity of the staging segment -/

/-- C26: for `size` with `2 * size` below `2 ^ 64` and `a` one of `0` and
`size`, the capacity `cap` that `gpi_cp_allocate_and_register_local_segment`
asks `gaspi_segment_alloc` for is the larger of `2 * size` and
`2 * 2 * sizeof (gaspi_segment_id_t)`; it is at least `2 * size`, and the
snapshot half `[a, a + size)` and the two segment-id slots
`[a, a + 2 * sizeof (gaspi_segment_id_t))` end within it. The calls by which
`gpi_cp_tell_sender_about_the_local_segment_id`, `gpi_cp_receive_segment_id`
and `gpi_cp_make_sure_receiver_got_local_segment_id` exchange the ids at
offset `a` name bytes of the staging segment within those two slots only. -/
theorem C26_staging_ranges_fit (E : Env) (seg0 size sender timeout_ms : Nat)
    (tr : List Call) (a seg peer : Nat) (tr1 : List Call)
    (hsize : 2 * size < OFFSET_MOD) (ha : a = 0 ∨ a = size) :
    ∃ cap, cap = max (2 * size) (2 * (2 * SIZEOF_SEGMENT_ID))
      ∧ 2 * size ≤ cap ∧ a + size ≤ cap ∧ a + 2 * SIZEOF_SEGMENT_ID ≤ cap
      ∧ ((gpi_cp_allocate_and_register_local_segment E seg0 size sender timeout_ms tr).2
          = (gpi_cp_get_unused_segment_id E seg0 tr).2
        ∨ (gpi_cp_allocate_and_register_local_segment E seg0 size sender timeout_ms tr).2
          = Call.segment_alloc (gpi_cp_get_unused_segment_id E seg0 tr).1.2 cap
            :: (gpi_cp_get_unused_segment_id E seg0 tr).2
        ∨ (gpi_cp_allocate_and_register_local_segment E seg0 size sender timeout_ms tr).2
          = Call.segment_register (gpi_cp_get_unused_segment_id E seg0 tr).1.2 sender
              timeout_ms
            :: Call.segment_alloc (gpi_cp_get_unused_segment_id E seg0 tr).1.2 cap
            :: (gpi_cp_get_unused_segment_id E seg0 tr).2)
      ∧ (∀ tr2, gpi_cp_tell_sender_about_the_local_segment_id E seg a peer tr1
            = Result.returned tr2 →
          ∃ Y, tr2 = Y ++ tr1 ∧ ∀ c ∈ Y, ∀ s lo len,
            Call.local_range c = some (s, lo, len) →
            s = seg ∧ a ≤ lo ∧ lo + len ≤ a + 2 * SIZEOF_SEGMENT_ID)
      ∧ (∀ rc, gpi_cp_receive_segment_id E seg a peer timeout_ms tr1
            = Result.returned rc →
          ∃ Y, rc.2 = Y ++ tr1 ∧ ∀ c ∈ Y, ∀ s lo len,
            Call.local_range c = some (s, lo, len) →
            s = seg ∧ a ≤ lo ∧ lo + len ≤ a + 2 * SIZEOF_SEGMENT_ID)
      ∧ (∀ tr2, gpi_cp_make_sure_receiver_got_local_segment_id E seg a peer timeout_ms tr1
            = Result.returned tr2 →
          ∃ Y, tr2 = Y ++ tr1 ∧ ∀ c ∈ Y, ∀ s lo len,
            Call.local_range c = some (s, lo, len) →
            s = seg ∧ a ≤ lo ∧ lo + len ≤ a + 2 * SIZEOF_SEGMENT_ID) := by
  have hmod : (2 * size) % OFFSET_MOD = 2 * size := Nat.mod_eq_of_lt hsize
  have hslot : (a + SIZEOF_SEGMENT_ID) % OFFSET_MOD = a + SIZEOF_SEGMENT_ID := by
    apply Nat.mod_eq_of_lt
    simp only [SIZEOF_SEGMENT_ID, OFFSET_MOD] at hsize ⊢
    rcases ha with h | h <;> omega
  have hcap : (if (2 * size) % OFFSET_MOD > 2 * (2 * SIZEOF_SEGMENT_ID)
        then (2 * size) % OFFSET_MOD else 2 * (2 * SIZEOF_SEGMENT_ID))
      = max (2 * size) (2 * (2 * SIZEOF_SEGMENT_ID)) := by
    rw [hmod]
    simp only [SIZEOF_SEGMENT_ID]
    split_ifs <;> omega
  refine ⟨max (2 * size) (2 * (2 * SIZEOF_SEGMENT_ID)), rfl, le_max_left _ _, ?_, ?_, ?_,
    ?_, ?_, ?_⟩
  · have := le_max_left (2 * size) (2 * (2 * SIZEOF_SEGMENT_ID))
    rcases ha with h | h <;> omega
  · have h1 := le_max_left (2 * size) (2 * (2 * SIZEOF_SEGMENT_ID))
    have h2 := le_max_right (2 * size) (2 * (2 * SIZEOF_SEGMENT_ID))
    simp only [SIZEOF_SEGMENT_ID] at h1 h2 ⊢
    rcases ha with h | h <;> omega
  · simp only [gpi_cp_allocate_and_register_local_segment, gaspi, hcap]
    split_ifs
    · exact Or.inl rfl
    · exact Or.inr (Or.inl rfl)
    · exact Or.inr (Or.inr rfl)
  · intro tr2 h
    simp only [gpi_cp_tell_sender_about_the_local_segment_id, gpi_cp_ptr, gaspi] at h
    split at h
    · cases h
    · cases h
      refine ⟨[Call.passive_send seg a peer SIZEOF_SEGMENT_ID GASPI_TEST,
        Call.store_segment_id seg a 0 seg, Call.segment_ptr seg], rfl, ?_⟩
      intro c hc s lo len hr
      simp only [List.mem_cons, List.mem_singleton, List.not_mem_nil, or_false] at hc
      rcases hc with rfl | rfl | rfl
      · simp only [Call.local_range, Option.some.injEq, Prod.mk.injEq] at hr
        obtain ⟨rfl, rfl, rfl⟩ := hr
        exact ⟨rfl, le_refl _, by simp only [SIZEOF_SEGMENT_ID]; omega⟩
      · simp only [Call.local_range, Option.some.injEq, Prod.mk.injEq] at hr
        obtain ⟨rfl, rfl, rfl⟩ := hr
        exact ⟨rfl, by omega, by simp only [SIZEOF_SEGMENT_ID]; omega⟩
      · cases hr
  · intro rc h
    simp only [gpi_cp_receive_segment_id, gpi_cp_ptr, gaspi, hslot] at h
    have hrecv : ∀ c, c = Call.passive_receive seg (a + SIZEOF_SEGMENT_ID)
          SIZEOF_SEGMENT_ID timeout_ms ∨ c = Call.load_segment_id seg a 1
          ∨ c = Call.segment_ptr seg →
        ∀ s lo len, Call.local_range c = some (s, lo, len) →
          s = seg ∧ a ≤ lo ∧ lo + len ≤ a + 2 * SIZEOF_SEGMENT_ID := by
      intro c hc s lo len hr
      rcases hc with rfl | rfl | rfl
      · simp only [Call.local_range, Option.some.injEq, Prod.mk.injEq] at hr
        obtain ⟨rfl, rfl, rfl⟩ := hr
        exact ⟨rfl, by omega, by simp only [SIZEOF_SEGMENT_ID]; omega⟩
      · simp only [Call.local_range, Option.some.injEq, Prod.mk.injEq] at hr
        obtain ⟨rfl, rfl, rfl⟩ := hr
        exact ⟨rfl, by omega, by simp only [SIZEOF_SEGMENT_ID]; omega⟩
      · cases hr
    repeat' split at h
    all_goals cases h
    · exact ⟨[_], rfl, fun c hc => hrecv c (Or.inl (List.mem_singleton.1 hc))⟩
    · exact ⟨[_], rfl, fun c hc => hrecv c (Or.inl (List.mem_singleton.1 hc))⟩
    · refine ⟨[Call.load_segment_id seg a 1, Call.segment_ptr seg,
        Call.passive_receive seg (a + SIZEOF_SEGMENT_ID) SIZEOF_SEGMENT_ID timeout_ms],
        rfl, fun c hc => hrecv c ?_⟩
      simp only [List.mem_cons, List.mem_singleton, List.not_mem_nil, or_false] at hc
      rcases hc with h | h | h
      · exact Or.inr (Or.inl h)
      · exact Or.inr (Or.inr h)
      · exact Or.inl h
  · intro tr2 h
    simp only [gpi_cp_make_sure_receiver_got_local_segment_id, gpi_cp_ptr, gaspi] at h
    have hsend : ∀ c, c = Call.passive_send seg a peer SIZEOF_SEGMENT_ID timeout_ms
          ∨ c = Call.store_segment_id seg a 0 seg ∨ c = Call.segment_ptr seg →
        ∀ s lo len, Call.local_range c = some (s, lo, len) →
          s = seg ∧ a ≤ lo ∧ lo + len ≤ a + 2 * SIZEOF_SEGMENT_ID := by
      intro c hc s lo len hr
      rcases hc with rfl | rfl | rfl
      · simp only [Call.local_range, Option.some.injEq, Prod.mk.injEq] at hr
        obtain ⟨rfl, rfl, rfl⟩ := hr
        exact ⟨rfl, le_refl _, by simp only [SIZEOF_SEGMENT_ID]; omega⟩
      · simp only [Call.local_range, Option.some.injEq, Prod.mk.injEq] at hr
        obtain ⟨rfl, rfl, rfl⟩ := hr
        exact ⟨rfl, by omega, by simp only [SIZEOF_SEGMENT_ID]; omega⟩
      · cases hr
    repeat' split at h
    all_goals cases h
    · refine ⟨[Call.segment_ptr seg, Call.store_segment_id seg a 0 seg,
        Call.segment_ptr seg], rfl, fun c hc => hsend c ?_⟩
      simp only [List.mem_cons, List.mem_singleton, List.not_mem_nil, or_false] at hc
      rcases hc with h | h | h
      · exact Or.inr (Or.inr h)
      · exact Or.inr (Or.inl h)
      · exact Or.inr (Or.inr h)
    · refine ⟨[Call.passive_send seg a peer SIZEOF_SEGMENT_ID timeout_ms,
        Call.segment_ptr seg, Call.store_segment_id seg a 0 seg, Call.segment_ptr seg],
        rfl, fun c hc => hsend c ?_⟩
      simp only [List.mem_cons, List.mem_singleton, List.not_mem_nil, or_false] at hc
      rcases hc with h | h | h | h
      · exact Or.inl h
      · exact Or.inr (Or.inr h)
      · exact Or.inr (Or.inl h)
      · exact Or.inr (Or.inr h)


/-- C26 for snapshots of 8 bytes and `a = 8`: the capacity asked for is 16,
and both the snapshot half at offset 8 and the two slots at offset 8 end
within it. -/
theorem C26_staging_ranges_fit_witness :
    ∃ cap, cap = max (2 * 8) (2 * (2 * SIZEOF_SEGMENT_ID))
      ∧ 2 * 8 ≤ cap ∧ 8 + 8 ≤ cap ∧ 8 + 2 * SIZEOF_SEGMENT_ID ≤ cap
      ∧ (gpi_cp_allocate_and_register_local_segment (exampleEnv 1 3 [0, 1, 2] 2) 0 8 0 0
          []).2
        = [Call.segment_register 0 0 0, Call.segment_alloc 0 cap, Call.segment_num] := by
  obtain ⟨cap, h1, h2, h3, h4, _, _⟩ :=
    C26_staging_ranges_fit (exampleEnv 1 3 [0, 1, 2] 2) 0 8 0 0 [] 8 1 0 []
      (by decide) (Or.inr rfl)
  subst h1
  exact ⟨_, rfl, h2, h3, h4, by decide⟩

end GpiCp
